import Mathlib

/-!
Verification of the A* path-finding program in `src/main.py`.

The program is embedded shallowly:

* `GridGraph`, `in_bounds`, `passable`, `get_neighbors` mirror the Python class
  of the same name (obstacle generation by `random.random` happens before a
  grid reaches the search and is outside the embedded core: a grid is given by
  its `width`, `height` and `walls` fields).
* every cost the search ever compares has the exact form `q + Real.sqrt s`
  with `q s : ℕ` (`g` costs are naturals, the Manhattan heuristic is a natural
  and the Euclidean heuristic is the square root of a natural), so costs are
  embedded as such pairs (`HVal`) with an exact decision procedure for the
  comparison `Node.__lt__` performs; `math.sqrt` is modelled as the exact real
  square root.
* the CPython `heapq` routines (`heappush`, `heappop` with their helpers
  `_siftdown`, `_siftup`) are embedded verbatim on lists, since the order in
  which equal-priority nodes are popped affects the reported expansion counts.
* the `while` loop of `a_star_search` is embedded as a fuel-indexed loop
  (`searchLoop`); `a_star_search` runs it with a fuel that is proved
  sufficient, so `none` never actually occurs.  The wall-clock time that the
  Python function also returns is dropped: the embedded result is the pair of
  the optional path and the expansion count.
-/

set_option autoImplicit false

namespace AStar

/-- Grid coordinate, mirroring the Python pair `(x, y)` of integers. -/
abbrev Cell : Type := ℤ × ℤ

/-- Embedding of the class `GridGraph` of `src/main.py`: a width, a height and
a finite set of wall coordinates. -/
structure GridGraph where
  width : ℤ
  height : ℤ
  walls : Finset Cell

/-- Embedding of `GridGraph.in_bounds`. -/
def GridGraph.in_bounds (g : GridGraph) (c : Cell) : Bool :=
  decide (0 ≤ c.1 ∧ c.1 < g.width) && decide (0 ≤ c.2 ∧ c.2 < g.height)

/-- Embedding of `GridGraph.passable`. -/
def GridGraph.passable (g : GridGraph) (c : Cell) : Bool :=
  decide (c ∉ g.walls)

/-- Embedding of `GridGraph.get_neighbors`: the four orthogonal moves in
source order, filtered by `in_bounds` and then by `passable`. -/
def GridGraph.get_neighbors (g : GridGraph) (c : Cell) : List Cell :=
  ([(c.1 + 1, c.2), (c.1 - 1, c.2), (c.1, c.2 + 1), (c.1, c.2 - 1)].filter
      g.in_bounds).filter g.passable

/-- Exact representation of the cost values the program compares: the pair
`(q, s)` denotes the real number `q + Real.sqrt s`. -/
structure HVal where
  q : ℕ
  s : ℕ
deriving DecidableEq

/-- Real number denoted by an `HVal`. -/
noncomputable def HVal.toReal (v : HVal) : ℝ := (v.q : ℝ) + Real.sqrt v.s

/-- Exact decision of the strict comparison between the denoted reals; this
embeds the comparison `Node.__lt__` performs on the `f` costs. -/
def HVal.ltb (x y : HVal) : Bool :=
  if x.q ≤ y.q then
    let k := y.q - x.q
    if x.s ≤ k * k + y.s then
      !(decide (x.s = k * k + y.s ∧ k * k * y.s = 0))
    else
      decide ((x.s - (k * k + y.s)) ^ 2 < 4 * (k * k) * y.s)
  else
    let k := x.q - y.q
    decide (k * k + x.s < y.s) &&
      decide (4 * (k * k) * x.s < (y.s - (k * k + x.s)) ^ 2)

/-- Addition of a natural `g` cost to a heuristic value, embedding the sums
`g + h` that the program stores in the `f` field. -/
def HVal.addN (n : ℕ) (v : HVal) : HVal := ⟨n + v.q, v.s⟩

/-- Embedding of `heuristic_manhattan` of `src/main.py`. -/
def heuristic_manhattan (a b : Cell) : HVal :=
  ⟨(a.1 - b.1).natAbs + (a.2 - b.2).natAbs, 0⟩

/-- Embedding of `heuristic_euclidean` of `src/main.py`; `math.sqrt` of the
integer `(x1 - x2) ** 2 + (y1 - y2) ** 2` is represented exactly. -/
def heuristic_euclidean (a b : Cell) : HVal :=
  ⟨0, (a.1 - b.1).natAbs ^ 2 + (a.2 - b.2).natAbs ^ 2⟩

/-- Embedding of the class `Node` of `src/main.py`: a position, an optional
parent link for path reconstruction, and the costs `g`, `h` and `f = g + h`.
The `g` cost is the natural number of unit steps accumulated from the start;
`h` and `f` carry the exact values whose comparison drives the heap. -/
inductive SNode : Type where
  | mk (position : Cell) (parent : Option SNode) (g : ℕ) (h : HVal) (f : HVal)

/-- Position field of a node. -/
def SNode.position : SNode → Cell
  | .mk p _ _ _ _ => p

/-- Parent field of a node. -/
def SNode.parent : SNode → Option SNode
  | .mk _ pa _ _ _ => pa

/-- Accumulated cost field of a node. -/
def SNode.g : SNode → ℕ
  | .mk _ _ g _ _ => g

/-- Heuristic field of a node. -/
def SNode.h : SNode → HVal
  | .mk _ _ _ h _ => h

/-- Priority field of a node. -/
def SNode.f : SNode → HVal
  | .mk _ _ _ _ f => f

instance : Inhabited SNode := ⟨.mk (0, 0) none 0 ⟨0, 0⟩ ⟨0, 0⟩⟩

/-- Comparison of nodes, embedding `Node.__lt__`: nodes compare by `f`. -/
def SNode.ltb (a b : SNode) : Bool := HVal.ltb a.f b.f

/-- Real-valued priority of a node, the exact value of the float the Python
code stores in `f`. -/
noncomputable def SNode.key (a : SNode) : ℝ := a.f.toReal

/-!
The CPython `heapq` module, embedded on lists.  `heappush` appends and sifts
the new item towards the root; `heappop` removes the last element, moves it to
the root and sifts it down.  The helper `siftdownAux` is `_siftdown` with
`startpos = 0` (the only start position `heapq.heappush` and `_siftup` use in
this program), written with the hole value `newitem` passed explicitly; the
helper `siftupStep` is the unconditional min-child promotion loop of
`_siftup`.
-/

/-- Embedding of `heapq._siftdown` (with `startpos = 0`), written with the
hole value `newitem` passed explicitly and with a structural fuel so that the
kernel can evaluate it; the loop from position `pos` runs at most `pos`
times, so `siftdownAux` below supplies the fuel `pos` and the fuel-exhausted
branch is never taken. -/
def siftdownFuel (newitem : SNode) : ℕ → List SNode → ℕ → List SNode
  | _, heap, 0 => heap.set 0 newitem
  | 0, heap, pos + 1 => heap.set (pos + 1) newitem
  | fuel + 1, heap, pos + 1 =>
    let parentpos := (pos + 1 - 1) / 2
    let parent := heap.getD parentpos default
    if SNode.ltb newitem parent then
      siftdownFuel newitem fuel (heap.set (pos + 1) parent) parentpos
    else
      heap.set (pos + 1) newitem

/-- Bubble `newitem` up from position `pos`, embedding `heapq._siftdown` with
`startpos = 0` (the only start position this program uses). -/
def siftdownAux (newitem : SNode) (heap : List SNode) (pos : ℕ) : List SNode :=
  siftdownFuel newitem pos heap pos

/-- Promotion loop of `heapq._siftup` with a structural fuel: repeatedly move
the smaller child into `pos` until `pos` has no child below `endpos`,
returning the final array and position.  The loop from position `pos` runs at
most `endpos` times, so `siftup` below supplies the fuel `endpos` and the
fuel-exhausted branch is never taken. -/
def siftupFuel (endpos : ℕ) : ℕ → List SNode → ℕ → List SNode × ℕ
  | fuel, heap, pos =>
    if 2 * pos + 1 < endpos then
      match fuel with
      | 0 => (heap, pos)
      | fuel + 1 =>
        let childpos := 2 * pos + 1
        let rightpos := childpos + 1
        let childpos' :=
          if rightpos < endpos &&
              !(SNode.ltb (heap.getD childpos default) (heap.getD rightpos default)) then
            rightpos
          else
            childpos
        siftupFuel endpos fuel (heap.set pos (heap.getD childpos' default)) childpos'
    else
      (heap, pos)

/-- Embedding of `heapq._siftup` (with `pos = 0`, the only position the
program uses): promote the min-child chain from the root to a leaf, place
`newitem` at the vacated leaf and sift it down. -/
def siftup (heap : List SNode) : List SNode :=
  let newitem := heap.getD 0 default
  let res := siftupFuel heap.length heap.length heap 0
  siftdownAux newitem (res.1.set res.2 newitem) res.2

/-- Embedding of `heapq.heappush`. -/
def heappush (heap : List SNode) (item : SNode) : List SNode :=
  siftdownAux item (heap ++ [item]) (heap ++ [item]).length.pred

/-- Embedding of `heapq.heappop`; `none` corresponds to the `IndexError` on an
empty heap, which the program never triggers because it pops only inside
`while open_list`. -/
def heappop (heap : List SNode) : Option (SNode × List SNode) :=
  match heap.getLast? with
  | none => none
  | some lastelt =>
    let rest := heap.dropLast
    if rest.isEmpty then
      some (lastelt, [])
    else
      some (rest.getD 0 default, siftup (rest.set 0 lastelt))

/-- Lookup in the `cost_so_far` dictionary, embedded as an association list
in which the most recent binding of a key shadows the older ones. -/
def dictFind : List (Cell × ℕ) → Cell → Option ℕ
  | [], _ => none
  | (k, v) :: rest, c => if c = k then some v else dictFind rest c

/-- Set membership for the `closed_set`, embedded as a list. -/
def listMem (l : List Cell) (c : Cell) : Bool := decide (c ∈ l)

/-- Embedding of `closed_set.add`: a set insertion. -/
def setAdd (l : List Cell) (c : Cell) : List Cell := if c ∈ l then l else c :: l

/-- Working state of one run of `a_star_search`: the heap `open_list`, the
`closed_set`, the dictionary `cost_so_far` and the expansion counter. -/
structure SState where
  open_list : List SNode
  closed_set : List Cell
  cost_so_far : List (Cell × ℕ)
  nodes_expanded : ℕ

/-- Body of the neighbour loop of `a_star_search` for one `next_pos`, given
the popped node `current`.  The dictionary access
`cost_so_far[current_node.position]` is embedded as `getD 0`; on every state
the search reaches, the key is present (invariant `curKey` below), so the
default value is never read where Python would raise a `KeyError`. -/
def relaxOne (hf : Cell → Cell → HVal) (e : Cell) (current : SNode)
    (st : SState) (next_pos : Cell) : SState :=
  match st with
  | .mk open_list closed_set cost_so_far count =>
    if listMem closed_set next_pos then .mk open_list closed_set cost_so_far count
    else
      let new_cost := (dictFind cost_so_far current.position).getD 0 + 1
      if (match dictFind cost_so_far next_pos with
          | none => true
          | some v => decide (new_cost < v)) then
        let h := hf next_pos e
        let neighbor : SNode := .mk next_pos (some current) new_cost h (HVal.addN new_cost h)
        .mk (heappush open_list neighbor) closed_set ((next_pos, new_cost) :: cost_so_far)
          count
      else .mk open_list closed_set cost_so_far count

/-- Position chain of a node obtained by following parent links, embedding
the `while curr is not None` reconstruction loop: the chain starts at the
node's own position and ends at the parentless start node. -/
def SNode.chain : SNode → List Cell
  | .mk p none _ _ _ => [p]
  | .mk p (some parent) _ _ _ => p :: parent.chain

/-- Outcome of one iteration of the `while` loop: either the function
returns, or the loop continues in a new state. -/
inductive StepResult : Type where
  | done (res : Option (List Cell) × ℕ)
  | cont (st : SState)

/-- One iteration of the `while open_list` loop of `a_star_search`: pop the
minimum node, count the expansion, return the reversed parent chain on the
goal, otherwise close the position and relax all neighbours in order. -/
def searchStep (g : GridGraph) (e : Cell) (hf : Cell → Cell → HVal)
    (st : SState) : StepResult :=
  match st with
  | .mk open_list closed_set cost_so_far count0 =>
    match heappop open_list with
    | none => .done (none, count0)
    | some (current, rest) =>
      let count := count0 + 1
      if current.position = e then
        .done (some current.chain.reverse, count)
      else
        let st1 : SState := .mk rest (setAdd closed_set current.position) cost_so_far count
        .cont ((g.get_neighbors current.position).foldl (relaxOne hf e current) st1)

/-- Fuel-indexed iteration of `searchStep`; `none` means the fuel ran out
before the loop finished (proved impossible for the fuel `searchFuel`). -/
def searchLoop (g : GridGraph) (e : Cell) (hf : Cell → Cell → HVal) :
    ℕ → SState → Option (Option (List Cell) × ℕ)
  | 0, _ => none
  | fuel + 1, st =>
    match searchStep g e hf st with
    | .done r => some r
    | .cont st1 => searchLoop g e hf fuel st1

/-- Initial state of `a_star_search`: the start node with `g = 0`,
`h = heuristic_func(start, end)`, `f = g + h` pushed on an empty heap, the
dictionary seeded with `cost_so_far = (start: 0)`. -/
def initState (s e : Cell) (hf : Cell → Cell → HVal) : SState :=
  let h := hf s e
  .mk (heappush [] (.mk s none 0 h (HVal.addN 0 h))) [] [(s, 0)] 0

/-- Fuel that theorem `searchLoop_completes` proves sufficient for the loop
of `a_star_search` to terminate on its own. -/
def searchFuel (g : GridGraph) : ℕ := (g.width.toNat * g.height.toNat + 2) ^ 2

/-- Embedding of `a_star_search` of `src/main.py`.  The outer `Option` is the
fuel guard (always `some`, by theorem `a_star_search_total`); the result pair
is the optional start-to-end path and the value of `nodes_expanded`.  The
wall-clock duration that the Python function also returns is dropped. -/
def a_star_search (g : GridGraph) (s e : Cell) (hf : Cell → Cell → HVal) :
    Option (Option (List Cell) × ℕ) :=
  searchLoop g e hf (searchFuel g) (initState s e hf)

/-- One admissible move of the program: `b` occurs in the neighbour list of
`a`, that is, `b` is an in-bounds passable orthogonal neighbour of `a`. -/
def Step (g : GridGraph) (a b : Cell) : Prop := b ∈ g.get_neighbors a

instance (g : GridGraph) : DecidableRel (Step g) := fun a b =>
  inferInstanceAs (Decidable (b ∈ g.get_neighbors a))

/-- Reachability by admissible moves. -/
def Reach (g : GridGraph) (s c : Cell) : Prop := Relation.ReflTransGen (Step g) s c

/-- Reachability in exactly `n` admissible moves. -/
inductive ReachN (g : GridGraph) (s : Cell) : Cell → ℕ → Prop where
  | refl : ReachN g s s 0
  | tail {b c : Cell} {n : ℕ} : ReachN g s b n → Step g b c → ReachN g s c (n + 1)

/-- Pair condition used by the specification claims: two consecutive path
cells are in-bounds passable orthogonal neighbours. -/
def specPair (g : GridGraph) (a b : Cell) : Prop :=
  g.in_bounds a = true ∧ g.in_bounds b = true ∧ g.passable a = true ∧
    g.passable b = true ∧ (a.1 - b.1).natAbs + (a.2 - b.2).natAbs = 1

instance (g : GridGraph) : DecidableRel (specPair g) := fun _ _ => by
  unfold specPair
  infer_instance

/-- Path validity in the words of the specification claims: an ordered
sequence of coordinates beginning at `s` and ending at `e` whose consecutive
pairs are in-bounds passable orthogonal neighbours. -/
def SpecValidPath (g : GridGraph) (p : List Cell) (s e : Cell) : Prop :=
  p.head? = some s ∧ p.getLast? = some e ∧ List.Chain' (specPair g) p

instance (g : GridGraph) (p : List Cell) (s e : Cell) :
    Decidable (SpecValidPath g p s e) := by
  unfold SpecValidPath
  infer_instance

/-- Well-formedness of the parent chain of a node: the chain ends in a
parentless node positioned at `s` with `g = 0`, every link is an admissible
move, and each node's `g` cost is its parent's plus one. -/
def ChainOK (g : GridGraph) (s : Cell) : SNode → Prop
  | .mk p none g0 _ _ => p = s ∧ g0 = 0
  | .mk p (some par) g0 _ _ => ChainOK g s par ∧ Step g par.position p ∧ g0 = par.g + 1

/-- Path validity at the level of the embedded program: consecutive moves are
neighbour-list moves. -/
def CodeValidPath (g : GridGraph) (p : List Cell) (s e : Cell) : Prop :=
  p.head? = some s ∧ p.getLast? = some e ∧ List.Chain' (Step g) p

/-- Minimality of a reach cost. -/
def IsDist (g : GridGraph) (s c : Cell) (v : ℕ) : Prop :=
  ReachN g s c v ∧ ∀ m : ℕ, ReachN g s c m → v ≤ m

/-- Key of the node stored at index `i` of a heap array (the default value is
only read out of range). -/
noncomputable def keyAt (l : List SNode) (i : ℕ) : ℝ := (l.getD i default).key

/-- Binary-heap property of the array representation used by `heapq`: every
non-root entry is at least its parent. -/
def IsHeap (l : List SNode) : Prop :=
  ∀ i : ℕ, 0 < i → i < l.length → keyAt l ((i - 1) / 2) ≤ keyAt l i

/-- Heap property away from one index: every non-root entry other than `pos`
is at least its parent (the constraints in which `pos` is the parent refer to
the value stored at `pos`). -/
def HeapExcept (l : List SNode) (pos : ℕ) : Prop :=
  ∀ i : ℕ, 0 < i → i < l.length → i ≠ pos → keyAt l ((i - 1) / 2) ≤ keyAt l i

/-- Invariant of the promotion loop of `_siftup`: all edges not touching the
hole `pos` hold, and the children of the hole are at least the hole's parent. -/
def UpInv (heap : List SNode) (pos : ℕ) : Prop :=
  (∀ i : ℕ, 0 < i → i < heap.length → i ≠ pos → (i - 1) / 2 ≠ pos →
      keyAt heap ((i - 1) / 2) ≤ keyAt heap i) ∧
  (0 < pos → ∀ c : ℕ, (c = 2 * pos + 1 ∨ c = 2 * pos + 2) → c < heap.length →
      keyAt heap ((pos - 1) / 2) ≤ keyAt heap c)

/-- Consistency of a heuristic towards the goal `e`: one admissible move
changes the estimate by at most the unit edge cost. -/
def Consistent (g : GridGraph) (e : Cell) (hf : Cell → Cell → HVal) : Prop :=
  ∀ a b : Cell, Step g a b → (hf a e).toReal ≤ 1 + (hf b e).toReal

/-! The run invariant.  `Pre` collects the facts that hold of every state the
search reaches and that do not mention the heuristic's quality; `ClosedNbExcept`
is the closed-neighbour condition away from a list of excepted cells (used
mid-expansion, when the just-closed cell's neighbours are still being
relaxed). -/

structure Pre (g : GridGraph) (s e : Cell) (hf : Cell → Cell → HVal) (st : SState) :
    Prop where
  heap : IsHeap st.open_list
  open_node : ∀ n ∈ st.open_list, ChainOK g s n
  open_f : ∀ n ∈ st.open_list, n.f = HVal.addN n.g (hf n.position e)
  open_key : ∀ n ∈ st.open_list, ∃ v, dictFind st.cost_so_far n.position = some v ∧ v ≤ n.g
  table_path : ∀ c v, dictFind st.cost_so_far c = some v → ReachN g s c v
  table_bound : ∀ c v, dictFind st.cost_so_far c = some v → v ≤ st.closed_set.length
  table_E : ∀ c v, dictFind st.cost_so_far c = some v →
    c ∈ st.closed_set ∨ ∃ n, n ∈ st.open_list ∧ n.position = c ∧ n.g = v
  closed_key : ∀ u ∈ st.closed_set, (dictFind st.cost_so_far u).isSome
  keys_inK : ∀ c v, dictFind st.cost_so_far c = some v → c = s ∨ g.in_bounds c = true
  table_start : dictFind st.cost_so_far s = some 0
  e_not_closed : e ∉ st.closed_set
  closed_nodup : st.closed_set.Nodup
  count_closed : st.closed_set.length ≤ st.nodes_expanded

/-- Closed-neighbour condition, with the cells of `xs` excepted. -/
def ClosedNbExcept (g : GridGraph) (st : SState) (xs : List Cell) : Prop :=
  ∀ u ∈ st.closed_set, u ∉ xs → ∀ w ∈ g.get_neighbors u, w ∉ st.closed_set →
    ∃ vw vu, dictFind st.cost_so_far w = some vw ∧ dictFind st.cost_so_far u = some vu ∧
      vw ≤ vu + 1

/-- Full heuristic-independent invariant. -/
def Good0 (g : GridGraph) (s e : Cell) (hf : Cell → Cell → HVal) (st : SState) : Prop :=
  Pre g s e hf st ∧ ClosedNbExcept g st []

/-- Optimality of every closed cell's recorded cost. -/
def ClosedOpt (g : GridGraph) (s : Cell) (st : SState) : Prop :=
  ∀ u ∈ st.closed_set, ∀ v, dictFind st.cost_so_far u = some v → IsDist g s u v

/-- Full invariant including closed-cell optimality, which holds when the
heuristic is consistent. -/
def Good1 (g : GridGraph) (s e : Cell) (hf : Cell → Cell → HVal) (st : SState) : Prop :=
  Good0 g s e hf st ∧ ClosedOpt g s st

/-- Invariant maintained across the neighbour loop of one non-stale expansion:
`Pre` together with the closed-neighbour condition away from the just-closed
cell `cur.position`, and the facts about `cur` the loop body relies on. -/
structure FoldInv (g : GridGraph) (s e : Cell) (hf : Cell → Cell → HVal) (cur : SNode)
    (st : SState) : Prop where
  pre : Pre g s e hf st
  nbE : ClosedNbExcept g st [cur.position]
  curC : cur.position ∈ st.closed_set
  curT : dictFind st.cost_so_far cur.position = some cur.g
  curOK : ChainOK g s cur
  curB : cur.g + 1 ≤ st.closed_set.length

/-- A neighbour already handled by the loop: closed, or recorded in the table
with a value at most `gv + 1`. -/
def NbDone (gv : ℕ) (st : SState) (nb : Cell) : Prop :=
  nb ∈ st.closed_set ∨ ∃ v, dictFind st.cost_so_far nb = some v ∧ v ≤ gv + 1

/-! Termination measure: the heap size plus, over the possible dictionary
keys, the recorded best cost (or a large default for an absent key).  Every
continuing iteration strictly decreases it. -/

/-- The in-bounds cells, enumerated. -/
def cellList (g : GridGraph) : List Cell :=
  (List.range g.width.toNat).flatMap (fun x : ℕ =>
    (List.range g.height.toNat).map (fun y : ℕ => ((x : ℤ), (y : ℤ))))

/-- The cells that can ever be keys of `cost_so_far`: the start and the
in-bounds cells. -/
def keyCells (g : GridGraph) (s : Cell) : List Cell := (s :: cellList g).dedup

/-- A value strictly above every cost the table can record. -/
def bigVal (g : GridGraph) : ℕ := g.width.toNat * g.height.toNat + 2

/-- The table entry of a cell, defaulting to `bigVal` when absent. -/
def tabVal (g : GridGraph) (st : SState) (c : Cell) : ℕ :=
  (dictFind st.cost_so_far c).getD (bigVal g)

/-- The termination measure of the `while` loop. -/
def meas (g : GridGraph) (s : Cell) (st : SState) : ℕ :=
  st.open_list.length + ((keyCells g s).map (tabVal g st)).sum

/-- Variant of the search in which the grid object is threaded through the
loop as part of the mutable state and returned, making the read-only use of
the grid by `a_star_search` (which only ever calls `get_neighbors`) an
explicit output. -/
def searchLoopG (e : Cell) (hf : Cell → Cell → HVal) :
    ℕ → GridGraph × SState → GridGraph × Option (Option (List Cell) × ℕ)
  | 0, (g, _) => (g, none)
  | fuel + 1, (g, st) =>
    match searchStep g e hf st with
    | .done r => (g, some r)
    | .cont st1 => searchLoopG e hf fuel (g, st1)

/-- `a_star_search` with the grid threaded and returned. -/
def a_star_searchG (g : GridGraph) (s e : Cell) (hf : Cell → Cell → HVal) :
    GridGraph × Option (Option (List Cell) × ℕ) :=
  searchLoopG e hf (searchFuel g) (g, initState s e hf)

/-- One continuing iteration of the `while` loop, as a relation on states. -/
def RunStep (g : GridGraph) (e : Cell) (hf : Cell → Cell → HVal)
    (st st' : SState) : Prop :=
  searchStep g e hf st = .cont st'

/-- Iterated continuing iterations of the `while` loop. -/
def RunReaches (g : GridGraph) (e : Cell) (hf : Cell → Cell → HVal) :
    SState → SState → Prop :=
  Relation.ReflTransGen (RunStep g e hf)

/-- The 3 by 5 grid with walls at (0,1), (1,0) and (1,3) used against C5: the
goal (0,0) is walled off from the start (0,4), whose component has 11 cells,
yet 12 nodes are expanded (one cell is popped twice). -/
def cexGridC5 : GridGraph := ⟨3, 5, {(0, 1), (1, 0), (1, 3)}⟩

/-- The 1 by 1 wall-free grid used against C1: the start (-1,0) is passable
(not a wall) but out of bounds, and the returned path starts outside the
grid. -/
def cexGridC1 : GridGraph := ⟨1, 1, ∅⟩

/-- The 2 by 6 wall-free grid used against C6: from (0,0) to (1,4) the
Manhattan search expands 10 nodes but the Euclidean search only 9. -/
def cexGridC6 : GridGraph := ⟨2, 6, ∅⟩

/-- The 5 by 5 wall-free grid of the specification scenario. -/
def specGrid55 : GridGraph := ⟨5, 5, ∅⟩

/-- The connected component of (0,4) in `cexGridC5`: 11 cells. -/
def reachListC5 : List Cell := [(0, 4), (1, 4), (0, 3), (2, 4), (0, 2), (2, 3), (1, 2), (2, 2), (1, 1), (2, 1), (2, 0)]

/-- Executable step check. -/
def stepB (g : GridGraph) (a b : Cell) : Bool := decide (b ∈ g.get_neighbors a)

/-- Executable path check: consecutive cells are neighbour-list moves. -/
def chainB (g : GridGraph) : List Cell → Bool
  | [] => true
  | [_] => true
  | a :: b :: rest => stepB g a b && chainB g (b :: rest)

theorem HVal.toReal_addN (n : ℕ) (v : HVal) :
    (HVal.addN n v).toReal = (n : ℝ) + v.toReal := by
  simp only [HVal.addN, HVal.toReal]
  push_cast
  ring

theorem HVal.toReal_nonneg (v : HVal) : 0 ≤ v.toReal :=
  add_nonneg (by positivity) (Real.sqrt_nonneg _)

theorem sqrt_cast_sq (k : ℕ) : ((k * k : ℕ) : ℝ) = (k : ℝ) * (k : ℝ) := by
  push_cast
  ring

theorem expand_add_sqrt (k d : ℕ) : ((k : ℝ) + Real.sqrt d) ^ 2 =
    (k : ℝ) * (k : ℝ) + (d : ℝ) + 2 * (k : ℝ) * Real.sqrt d := by
  have h : Real.sqrt (d : ℝ) ^ 2 = (d : ℝ) := Real.sq_sqrt (by positivity)
  calc ((k : ℝ) + Real.sqrt d) ^ 2
      = (k : ℝ) * (k : ℝ) + Real.sqrt (d : ℝ) ^ 2 + 2 * (k : ℝ) * Real.sqrt d := by ring
    _ = (k : ℝ) * (k : ℝ) + (d : ℝ) + 2 * (k : ℝ) * Real.sqrt d := by rw [h]

theorem sqrt_four_sq (k d : ℕ) :
    Real.sqrt (4 * ((k : ℝ) * (k : ℝ)) * (d : ℝ)) = 2 * (k : ℝ) * Real.sqrt d := by
  rw [show (4 : ℝ) * ((k : ℝ) * (k : ℝ)) * (d : ℝ) = (2 * (k : ℝ)) ^ 2 * (d : ℝ) by ring]
  rw [Real.sqrt_mul (by positivity), Real.sqrt_sq (by positivity)]

/-- Exact characterisation of `sqrt b < k + sqrt d` over the naturals. -/
theorem sqrt_lt_nat_add_sqrt (k b d : ℕ) :
    (Real.sqrt b < (k : ℝ) + Real.sqrt d) ↔
      ((b ≤ k * k + d ∧ ¬(b = k * k + d ∧ k * k * d = 0)) ∨
        (k * k + d < b ∧ (b - (k * k + d)) ^ 2 < 4 * (k * k) * d)) := by
  by_cases hzero : k = 0 ∧ d = 0
  · obtain ⟨hk0, hd0⟩ := hzero
    subst hk0
    subst hd0
    have hL : ¬ (Real.sqrt b < ((0 : ℕ) : ℝ) + Real.sqrt (0 : ℕ)) := by
      have h1 := Real.sqrt_nonneg (b : ℝ)
      have h2 : Real.sqrt ((0 : ℕ) : ℝ) = 0 := by
        rw [Nat.cast_zero, Real.sqrt_zero]
      rw [h2]
      push_cast
      linarith
    rcases Nat.eq_zero_or_pos b with hb0 | hbpos
    · subst hb0
      simp [hL]
    · have hnb : ¬ ((b : ℕ) ≤ 0 * 0 + 0) := by omega
      simp only [hL, false_iff]
      rintro (⟨h1, -⟩ | ⟨-, h2⟩)
      · omega
      · omega
  · have hpos : (0 : ℝ) < (k : ℝ) + Real.sqrt d := by
      rcases Classical.em (k = 0) with hk0 | hk0
      · have hd0 : d ≠ 0 := fun h => hzero ⟨hk0, h⟩
        have h2 : (0 : ℝ) < Real.sqrt d :=
          Real.sqrt_pos.2 (by exact_mod_cast Nat.pos_of_ne_zero hd0)
        have h3 : (0 : ℝ) ≤ (k : ℝ) := by positivity
        linarith
      · have h2 : (0 : ℝ) < (k : ℝ) := by exact_mod_cast Nat.pos_of_ne_zero hk0
        have h3 := Real.sqrt_nonneg (d : ℝ)
        linarith
    rw [Real.sqrt_lt' hpos, expand_add_sqrt]
    have hsd := Real.sqrt_nonneg (d : ℝ)
    have hkk0 : (0 : ℝ) ≤ (k : ℝ) := by positivity
    by_cases hble : b ≤ k * k + d
    · have hbleR : (b : ℝ) ≤ (k : ℝ) * (k : ℝ) + (d : ℝ) := by
        have := sqrt_cast_sq k
        calc (b : ℝ) ≤ ((k * k + d : ℕ) : ℝ) := by exact_mod_cast hble
          _ = (k : ℝ) * (k : ℝ) + (d : ℝ) := by push_cast; ring
      rcases lt_or_eq_of_le hble with hlt | heq
      · have hltR : (b : ℝ) < (k : ℝ) * (k : ℝ) + (d : ℝ) := by
          calc (b : ℝ) < ((k * k + d : ℕ) : ℝ) := by exact_mod_cast hlt
            _ = (k : ℝ) * (k : ℝ) + (d : ℝ) := by push_cast; ring
        have hR : (b : ℝ) < (k : ℝ) * (k : ℝ) + (d : ℝ) + 2 * (k : ℝ) * Real.sqrt d := by
          have : (0 : ℝ) ≤ 2 * (k : ℝ) * Real.sqrt d := by positivity
          linarith
        have hP : (b ≤ k * k + d ∧ ¬(b = k * k + d ∧ k * k * d = 0)) := by
          exact ⟨hble, fun hcon => by omega⟩
        exact iff_of_true hR (Or.inl hP)
      · have heqR : (b : ℝ) = (k : ℝ) * (k : ℝ) + (d : ℝ) := by
          calc (b : ℝ) = ((k * k + d : ℕ) : ℝ) := by exact_mod_cast heq
            _ = (k : ℝ) * (k : ℝ) + (d : ℝ) := by push_cast; ring
        constructor
        · intro h
          have h0 : (0 : ℝ) < 2 * (k : ℝ) * Real.sqrt d := by linarith [heqR ▸ h]
          left
          refine ⟨hble, ?_⟩
          rintro ⟨-, hkd⟩
          rcases Nat.mul_eq_zero.1 hkd with hkk | hd0
          · have hk0 : k = 0 := by
              rcases Nat.mul_eq_zero.1 hkk with h' | h' <;> exact h'
            rw [hk0] at h0
            norm_num at h0
          · rw [hd0] at h0
            norm_num [Real.sqrt_zero] at h0
        · rintro (⟨-, hne⟩ | ⟨hgt, -⟩)
          · have hkd : k * k * d ≠ 0 := fun h => hne ⟨heq, h⟩
            have hk0 : k ≠ 0 := by rintro h; apply hkd; rw [h]; ring
            have hd0 : d ≠ 0 := by rintro h; apply hkd; rw [h]; ring
            have h1 : (0 : ℝ) < (k : ℝ) := by exact_mod_cast Nat.pos_of_ne_zero hk0
            have h2 : (0 : ℝ) < Real.sqrt d :=
              Real.sqrt_pos.2 (by exact_mod_cast Nat.pos_of_ne_zero hd0)
            have : (0 : ℝ) < 2 * (k : ℝ) * Real.sqrt d := by positivity
            linarith [heqR]
          · omega
    · have hgt : k * k + d < b := by omega
      have hgtR : (k : ℝ) * (k : ℝ) + (d : ℝ) < (b : ℝ) := by
        calc (k : ℝ) * (k : ℝ) + (d : ℝ) = ((k * k + d : ℕ) : ℝ) := by push_cast; ring
          _ < (b : ℝ) := by exact_mod_cast hgt
      have hml : ((b - (k * k + d) : ℕ) : ℝ) = (b : ℝ) - ((k : ℝ) * (k : ℝ) + (d : ℝ)) := by
        have hle : k * k + d ≤ b := by omega
        rw [Nat.cast_sub hle]
        push_cast
        ring
      have hstep : ((b : ℝ) < (k : ℝ) * (k : ℝ) + (d : ℝ) + 2 * (k : ℝ) * Real.sqrt d) ↔
          ((b - (k * k + d) : ℕ) : ℝ) < Real.sqrt (4 * ((k : ℝ) * (k : ℝ)) * (d : ℝ)) := by
        rw [sqrt_four_sq, hml]
        constructor <;> intro h <;> linarith
      rw [hstep, Real.lt_sqrt (by rw [hml]; linarith)]
      have hc : (((b - (k * k + d) : ℕ) : ℝ) ^ 2 < 4 * ((k : ℝ) * (k : ℝ)) * (d : ℝ)) ↔
          ((b - (k * k + d)) ^ 2 < 4 * (k * k) * d) := by
        rw [show (4 : ℝ) * ((k : ℝ) * (k : ℝ)) * (d : ℝ) = ((4 * (k * k) * d : ℕ) : ℝ) by
          push_cast; ring]
        exact_mod_cast Iff.rfl
      rw [hc]
      constructor
      · intro h
        exact Or.inr ⟨hgt, h⟩
      · rintro (⟨hle, -⟩ | ⟨-, h⟩)
        · omega
        · exact h

/-- Exact characterisation of `k + sqrt b < sqrt d` over the naturals, for
positive `k`. -/
theorem nat_add_sqrt_lt_sqrt (k b d : ℕ) :
    ((k : ℝ) + Real.sqrt b < Real.sqrt d) ↔
      (k * k + b < d ∧ 4 * (k * k) * b < (d - (k * k + b)) ^ 2) := by
  have hnn : (0 : ℝ) ≤ (k : ℝ) + Real.sqrt b := by
    have := Real.sqrt_nonneg (b : ℝ)
    positivity
  rw [Real.lt_sqrt hnn, expand_add_sqrt]
  have hsb := Real.sqrt_nonneg (b : ℝ)
  have hkk0 : (0 : ℝ) ≤ (k : ℝ) := by positivity
  by_cases hdle : k * k + b < d
  · have hdleR : (k : ℝ) * (k : ℝ) + (b : ℝ) < (d : ℝ) := by
      calc (k : ℝ) * (k : ℝ) + (b : ℝ) = ((k * k + b : ℕ) : ℝ) := by push_cast; ring
        _ < (d : ℝ) := by exact_mod_cast hdle
    have hml : ((d - (k * k + b) : ℕ) : ℝ) = (d : ℝ) - ((k : ℝ) * (k : ℝ) + (b : ℝ)) := by
      have hle : k * k + b ≤ d := by omega
      rw [Nat.cast_sub hle]
      push_cast
      ring
    have hstep : ((k : ℝ) * (k : ℝ) + (b : ℝ) + 2 * (k : ℝ) * Real.sqrt b < (d : ℝ)) ↔
        Real.sqrt (4 * ((k : ℝ) * (k : ℝ)) * (b : ℝ)) < ((d - (k * k + b) : ℕ) : ℝ) := by
      rw [sqrt_four_sq, hml]
      constructor <;> intro h <;> linarith
    rw [hstep, Real.sqrt_lt' (by rw [hml]; linarith)]
    have hc : (4 * ((k : ℝ) * (k : ℝ)) * (b : ℝ) < ((d - (k * k + b) : ℕ) : ℝ) ^ 2) ↔
        (4 * (k * k) * b < (d - (k * k + b)) ^ 2) := by
      rw [show (4 : ℝ) * ((k : ℝ) * (k : ℝ)) * (b : ℝ) = ((4 * (k * k) * b : ℕ) : ℝ) by
        push_cast; ring]
      exact_mod_cast Iff.rfl
    rw [hc]
    constructor
    · intro h
      exact ⟨hdle, h⟩
    · rintro ⟨-, h⟩
      exact h
  · have hdleR : (d : ℝ) ≤ (k : ℝ) * (k : ℝ) + (b : ℝ) := by
      have hle : d ≤ k * k + b := by omega
      calc (d : ℝ) ≤ ((k * k + b : ℕ) : ℝ) := by exact_mod_cast hle
        _ = (k : ℝ) * (k : ℝ) + (b : ℝ) := by push_cast; ring
    constructor
    · intro h
      have h1 : (0 : ℝ) ≤ 2 * (k : ℝ) * Real.sqrt b := by positivity
      linarith
    · rintro ⟨hcon, -⟩
      omega

/-- Soundness of the exact comparison: `ltb` decides the strict order of the
denoted real numbers. -/
theorem HVal.ltb_iff (x y : HVal) : HVal.ltb x y = true ↔ x.toReal < y.toReal := by
  obtain ⟨a, b⟩ := x
  obtain ⟨c, d⟩ := y
  simp only [HVal.ltb, HVal.toReal]
  by_cases hac : a ≤ c
  · obtain ⟨k, hk⟩ : ∃ k, c = a + k := ⟨c - a, by omega⟩
    subst hk
    have hsub : a + k - a = k := by omega
    simp only [hac, if_true, hsub]
    have hgoal : ((a : ℝ) + Real.sqrt b < ((a + k : ℕ) : ℝ) + Real.sqrt d) ↔
        Real.sqrt b < (k : ℝ) + Real.sqrt d := by
      push_cast
      constructor <;> intro h <;> linarith
    rw [hgoal, sqrt_lt_nat_add_sqrt]
    by_cases hble : b ≤ k * k + d
    · rw [if_pos hble]
      constructor
      · intro h
        rw [Bool.not_eq_true', decide_eq_false_iff_not] at h
        exact Or.inl ⟨hble, h⟩
      · rintro (⟨-, h⟩ | ⟨hgt, -⟩)
        · rw [Bool.not_eq_true', decide_eq_false_iff_not]
          exact h
        · omega
    · rw [if_neg hble, decide_eq_true_eq]
      constructor
      · intro h
        exact Or.inr ⟨by omega, h⟩
      · rintro (⟨hle, -⟩ | ⟨-, h⟩)
        · omega
        · exact h
  · obtain ⟨k, hk⟩ : ∃ k, a = c + k := ⟨a - c, by omega⟩
    subst hk
    have hsub : c + k - c = k := by omega
    simp only [hac, if_false, hsub]
    have hgoal : (((c + k : ℕ) : ℝ) + Real.sqrt b < (c : ℝ) + Real.sqrt d) ↔
        (k : ℝ) + Real.sqrt b < Real.sqrt d := by
      push_cast
      constructor <;> intro h <;> linarith
    rw [hgoal, nat_add_sqrt_lt_sqrt]
    constructor
    · intro h
      rw [Bool.and_eq_true, decide_eq_true_eq, decide_eq_true_eq] at h
      exact h
    · intro h
      rw [Bool.and_eq_true, decide_eq_true_eq, decide_eq_true_eq]
      exact h

/-- The `false` case of the comparison corresponds to the reverse non-strict
order of the denoted reals. -/
theorem HVal.ltb_eq_false_iff (x y : HVal) :
    HVal.ltb x y = false ↔ y.toReal ≤ x.toReal := by
  rw [← not_lt, ← HVal.ltb_iff]
  cases HVal.ltb x y <;> simp

theorem SNode.ltb_key_iff (a b : SNode) : SNode.ltb a b = true ↔ a.key < b.key :=
  HVal.ltb_iff a.f b.f

theorem SNode.ltb_key_eq_false_iff (a b : SNode) : SNode.ltb a b = false ↔ b.key ≤ a.key :=
  HVal.ltb_eq_false_iff a.f b.f

theorem keyAt_set_self (l : List SNode) (i : ℕ) (x : SNode) (h : i < l.length) :
    keyAt (l.set i x) i = x.key := by
  unfold keyAt
  rw [List.getD_eq_getElem _ _ (by simpa using h), List.getElem_set]
  simp

theorem keyAt_set_ne (l : List SNode) (i j : ℕ) (x : SNode) (h : i ≠ j) :
    keyAt (l.set i x) j = keyAt l j := by
  unfold keyAt
  by_cases hj : j < l.length
  · rw [List.getD_eq_getElem _ _ (by simpa using hj), List.getD_eq_getElem _ _ hj,
      List.getElem_set]
    simp [h]
  · rw [List.getD_eq_default _ _ (by simpa using Nat.le_of_not_lt hj),
      List.getD_eq_default _ _ (by simpa using Nat.le_of_not_lt hj)]

theorem keyAt_append_left (l l2 : List SNode) (j : ℕ) (h : j < l.length) :
    keyAt (l ++ l2) j = keyAt l j := by
  unfold keyAt
  rw [List.getD_eq_getElem _ _ (by simp; omega), List.getD_eq_getElem _ _ h,
    List.getElem_append_left]

theorem set_self_eq (l : List SNode) (i : ℕ) (h : i < l.length) : l.set i (l[i]) = l := by
  apply List.ext_getElem (by simp)
  intro j h1 h2
  rw [List.getElem_set]
  split
  · next heq => subst heq; rfl
  · rfl

/-- Replacing the entry at an index changes the underlying multiset by
swapping the old entry for the new one. -/
theorem coe_set (l : List SNode) (i : ℕ) (hi : i < l.length) (a : SNode) :
    (↑(l.set i a) : Multiset SNode) + {l[i]} = (↑l : Multiset SNode) + {a} := by
  have h2 : l = l.take i ++ l[i] :: l.drop (i + 1) := by
    conv_lhs => rw [← List.take_append_drop i l, List.drop_eq_getElem_cons hi]
  rw [List.set_eq_take_append_cons_drop, if_pos hi]
  conv_rhs => rw [h2]
  simp only [← Multiset.coe_add, ← Multiset.cons_coe, ← Multiset.singleton_add]
  abel

/-- Writing the value of index `j` into index `i` and then overwriting index
`j` permutes to a single write at index `i`. -/
theorem set_swap_perm (l : List SNode) (i j : ℕ) (x : SNode) (hij : i ≠ j)
    (hi : i < l.length) (hj : j < l.length) :
    List.Perm ((l.set i (l.getD j default)).set j x) (l.set i x) := by
  rw [← Multiset.coe_eq_coe]
  have hgj : l.getD j default = l[j] := List.getD_eq_getElem l default hj
  rw [hgj]
  have hjb : j < (l.set i (l[j])).length := by simpa using hj
  have hAj : (l.set i (l[j]))[j] = l[j] := by
    rw [List.getElem_set]
    simp [hij]
  have h1 := coe_set (l.set i l[j]) j hjb x
  rw [hAj] at h1
  have h2 := coe_set l i hi (l[j])
  have h3 := coe_set l i hi x
  have key : (↑((l.set i l[j]).set j x) : Multiset SNode) + ({l[j]} + {l[i]}) =
      (↑(l.set i x) : Multiset SNode) + ({l[j]} + {l[i]}) := by
    calc (↑((l.set i l[j]).set j x) : Multiset SNode) + ({l[j]} + {l[i]})
        = (↑((l.set i l[j]).set j x) + {l[j]}) + {l[i]} := by abel
      _ = (↑(l.set i l[j]) + {x}) + {l[i]} := by rw [h1]
      _ = (↑(l.set i l[j]) + {l[i]}) + {x} := by abel
      _ = ((↑l : Multiset SNode) + {l[j]}) + {x} := by rw [h2]
      _ = ((↑l : Multiset SNode) + {x}) + {l[j]} := by abel
      _ = (↑(l.set i x) + {l[i]}) + {l[j]} := by rw [h3]
      _ = ↑(l.set i x) + ({l[j]} + {l[i]}) := by abel
  exact add_right_cancel key

theorem isHeap_keyAt_root_min (l : List SNode) (hl : IsHeap l) :
    ∀ i : ℕ, i < l.length → keyAt l 0 ≤ keyAt l i := by
  intro i
  induction i using Nat.strong_induction_on with
  | _ i ih =>
    intro hi
    rcases Nat.eq_zero_or_pos i with h0 | h0
    · subst h0; exact le_refl _
    · exact le_trans (ih ((i - 1) / 2) (by omega) (by omega)) (hl i h0 hi)

theorem isHeap_root_min (l : List SNode) (hl : IsHeap l) (x : SNode) (hx : x ∈ l) :
    keyAt l 0 ≤ x.key := by
  obtain ⟨i, hi, rfl⟩ := List.mem_iff_getElem.1 hx
  have := isHeap_keyAt_root_min l hl i hi
  rwa [show keyAt l i = (l[i]).key by unfold keyAt; rw [List.getD_eq_getElem _ _ hi]] at this

theorem siftdownFuel_perm (newitem : SNode) :
    ∀ (fuel : ℕ) (heap : List SNode) (pos : ℕ), pos < heap.length → pos ≤ fuel →
      List.Perm (siftdownFuel newitem fuel heap pos) (heap.set pos newitem) := by
  intro fuel
  induction fuel with
  | zero =>
    intro heap pos hlen hle
    have h0 : pos = 0 := by omega
    subst h0
    exact List.Perm.refl _
  | succ fuel ih =>
    intro heap pos hlen hle
    match pos with
    | 0 => exact List.Perm.refl _
    | pos + 1 =>
      show List.Perm (siftdownFuel newitem (fuel + 1) heap (pos + 1)) _
      rw [siftdownFuel]
      by_cases hlt : SNode.ltb newitem (heap.getD ((pos + 1 - 1) / 2) default) = true
      · rw [if_pos hlt]
        have hpp : (pos + 1 - 1) / 2 < heap.length := by omega
        have hperm := ih (heap.set (pos + 1) (heap.getD ((pos + 1 - 1) / 2) default))
          ((pos + 1 - 1) / 2) (by simpa using hpp) (by omega)
        exact hperm.trans (set_swap_perm heap (pos + 1) ((pos + 1 - 1) / 2) newitem
          (by omega) hlen hpp)
      · rw [if_neg hlt]

theorem siftdownFuel_length (newitem : SNode) :
    ∀ (fuel : ℕ) (heap : List SNode) (pos : ℕ), pos < heap.length → pos ≤ fuel →
      (siftdownFuel newitem fuel heap pos).length = heap.length := by
  intro fuel heap pos h1 h2
  have := (siftdownFuel_perm newitem fuel heap pos h1 h2).length_eq
  simpa using this

theorem siftdownFuel_isHeap (newitem : SNode) :
    ∀ (fuel : ℕ) (heap : List SNode) (pos : ℕ), pos < heap.length → pos ≤ fuel →
      HeapExcept (heap.set pos newitem) pos →
      (0 < pos → ∀ c : ℕ, (c = 2 * pos + 1 ∨ c = 2 * pos + 2) → c < heap.length →
          keyAt heap ((pos - 1) / 2) ≤ keyAt heap c) →
      IsHeap (siftdownFuel newitem fuel heap pos) := by
  intro fuel
  induction fuel with
  | zero =>
    intro heap pos hlen hle h1 _
    have h0 : pos = 0 := by omega
    subst h0
    intro i hi hilen
    have hlen2 : i < (heap.set 0 newitem).length := by
      simpa using (by simpa [siftdownFuel] using hilen : i < (heap.set 0 newitem).length)
    exact h1 i hi (by simpa using hlen2) (by omega)
  | succ fuel ih =>
    intro heap pos hlen hle h1 h2
    match pos with
    | 0 =>
      intro i hi hilen
      exact h1 i hi (by simpa using (by simpa [siftdownFuel] using hilen :
        i < (heap.set 0 newitem).length)) (by omega)
    | pos + 1 =>
      rw [siftdownFuel]
      set pp := (pos + 1 - 1) / 2 with hpp_def
      have hpplt : pp < pos + 1 := by omega
      have hpplen : pp < heap.length := by omega
      set parent := heap.getD pp default with hparent_def
      by_cases hlt : SNode.ltb newitem parent = true
      · rw [if_pos hlt]
        have hltkey : newitem.key < parent.key := (SNode.ltb_key_iff _ _).1 hlt
        have hparentkey : keyAt heap pp = parent.key := rfl
        -- edges of the plain array transferred from the virtual array
        have hedge_plain : ∀ i : ℕ, 0 < i → i < heap.length → i ≠ pos + 1 →
            (i - 1) / 2 ≠ pos + 1 → keyAt heap ((i - 1) / 2) ≤ keyAt heap i := by
          intro i hi hil hiP hpP
          have hedge := h1 i hi (by simpa using hil) hiP
          rwa [keyAt_set_ne heap (pos + 1) i newitem (fun h => hiP h.symm),
            keyAt_set_ne heap (pos + 1) _ newitem (fun h => hpP h.symm)] at hedge
        apply ih (heap.set (pos + 1) parent) pp (by simpa using hpplen) (by omega)
        · -- HeapExcept of the new virtual array at pp
          intro i hi hilen hip
          have hilen' : i < heap.length := by simpa using hilen
          have hkeyw : ∀ t : ℕ, t ≠ pp → t ≠ pos + 1 →
              keyAt ((heap.set (pos + 1) parent).set pp newitem) t = keyAt heap t := by
            intro t h1t h2t
            rw [keyAt_set_ne _ _ _ _ (fun h => h1t h.symm),
              keyAt_set_ne _ _ _ _ (fun h => h2t h.symm)]
          have hkeywpp : keyAt ((heap.set (pos + 1) parent).set pp newitem) pp = newitem.key :=
            keyAt_set_self _ pp newitem (by simpa using hpplen)
          have hkeywP : keyAt ((heap.set (pos + 1) parent).set pp newitem) (pos + 1) =
              parent.key := by
            rw [keyAt_set_ne _ _ _ _ (by omega), keyAt_set_self _ _ _ hlen]
          by_cases hiP : i = pos + 1
          · subst hiP
            rw [show ((pos + 1 : ℕ) - 1) / 2 = pp from rfl, hkeywpp, hkeywP]
            exact le_of_lt hltkey
          · by_cases hpar_pp : (i - 1) / 2 = pp
            · rw [hpar_pp, hkeywpp, hkeyw i hip hiP]
              have hedge : keyAt heap pp ≤ keyAt heap i := by
                have := hedge_plain i hi hilen' hiP (by omega)
                rwa [hpar_pp] at this
              have h' : newitem.key < keyAt heap pp := by
                rw [hparentkey]
                exact hltkey
              exact le_trans (le_of_lt h') hedge
            · by_cases hpar_P : (i - 1) / 2 = pos + 1
              · rw [hpar_P, hkeywP, hkeyw i hip hiP]
                have hchild : i = 2 * (pos + 1) + 1 ∨ i = 2 * (pos + 1) + 2 := by omega
                have := h2 (by omega) i hchild hilen'
                rw [← hparentkey]
                exact this
              · rw [hkeyw _ hpar_pp hpar_P, hkeyw i hip hiP]
                exact hedge_plain i hi hilen' hiP hpar_P
        · -- grandparent-to-children condition at pp
          intro hpp0 c hc hclen
          have hclen' : c < heap.length := by simpa using hclen
          have hparpp : (pp - 1) / 2 ≠ pos + 1 := by omega
          have hkm : ∀ t : ℕ, t ≠ pos + 1 → keyAt (heap.set (pos + 1) parent) t = keyAt heap t :=
            fun t ht => keyAt_set_ne heap (pos + 1) t parent (fun h => ht h.symm)
          have hgrand : keyAt heap ((pp - 1) / 2) ≤ keyAt heap pp := by
            have := hedge_plain pp (by omega) hpplen (by omega) hparpp
            exact this
          rw [hkm _ hparpp]
          by_cases hcP : c = pos + 1
          · subst hcP
            rw [keyAt_set_self heap _ parent hlen]
            rw [← hparentkey]
            exact hgrand
          · rw [hkm c hcP]
            have hc0 : 0 < c := by omega
            have hparc : (c - 1) / 2 = pp := by omega
            have hedge : keyAt heap pp ≤ keyAt heap c := by
              have := hedge_plain c hc0 hclen' hcP (by omega)
              rwa [hparc] at this
            exact le_trans hgrand hedge
      · rw [if_neg hlt]
        have hlekey : parent.key ≤ newitem.key :=
          (SNode.ltb_key_eq_false_iff _ _).1 (by simpa using hlt)
        intro i hi hilen
        have hilen' : i < heap.length := by simpa using hilen
        by_cases hiP : i = pos + 1
        · subst hiP
          rw [show ((pos + 1 : ℕ) - 1) / 2 = pp from rfl,
            keyAt_set_ne heap (pos + 1) pp newitem (by omega),
            keyAt_set_self heap (pos + 1) newitem hlen]
          exact hlekey
        · exact h1 i hi (by simpa using hilen') hiP

theorem heappush_perm (l : List SNode) (x : SNode) : List.Perm (heappush l x) (x :: l) := by
  unfold heappush siftdownAux
  have hlen : (l ++ [x]).length.pred = l.length := by simp
  rw [hlen]
  have h1 := siftdownFuel_perm x l.length (l ++ [x]) l.length (by simp) (le_refl _)
  refine h1.trans ?_
  have hxb : l.length < (l ++ [x]).length := by simp
  have hx : (l ++ [x])[l.length] = x :=
    List.getElem_concat_length l x l.length rfl hxb
  have hset : (l ++ [x]).set l.length x = l ++ [x] := by
    have h2 := set_self_eq (l ++ [x]) l.length (by simp)
    rw [hx] at h2
    exact h2
  rw [hset]
  exact List.perm_append_singleton x l

theorem heappush_length (l : List SNode) (x : SNode) :
    (heappush l x).length = l.length + 1 := by
  have := (heappush_perm l x).length_eq
  simpa using this

theorem heappush_isHeap (l : List SNode) (x : SNode) (hl : IsHeap l) :
    IsHeap (heappush l x) := by
  unfold heappush siftdownAux
  have hlen : (l ++ [x]).length.pred = l.length := by simp
  rw [hlen]
  apply siftdownFuel_isHeap x l.length (l ++ [x]) l.length (by simp) (le_refl _)
  · intro i hi hilen hine
    have hxb : l.length < (l ++ [x]).length := by simp
    have hx : (l ++ [x])[l.length] = x :=
      List.getElem_concat_length l x l.length rfl hxb
    have hset : (l ++ [x]).set l.length x = l ++ [x] := by
      have h2 := set_self_eq (l ++ [x]) l.length (by simp)
      rw [hx] at h2
      exact h2
    rw [hset]
    have hil : i < l.length := by
      have h' : i < (l ++ [x]).length := by simpa using hilen
      simp at h'
      omega
    rw [keyAt_append_left l [x] i hil, keyAt_append_left l [x] _ (by omega)]
    exact hl i hi hil
  · intro hpos c hc hclen
    simp at hclen
    omega

/-- Main step of the promotion-loop invariant: promoting the chosen child
`cp` into the hole preserves the loop invariant, so the recursive call gives
the full postcondition. -/
theorem upStep_main (endpos fuel : ℕ) (heap : List SNode) (pos : ℕ) (m : List SNode)
    (q : ℕ) (cp : ℕ) (hend : endpos = heap.length) (hlt : pos < endpos)
    (hfuel : endpos ≤ fuel + 1 + pos) (hinv : UpInv heap pos)
    (hcp : cp = 2 * pos + 1 ∨ cp = 2 * pos + 2) (hcplt : cp < endpos)
    (hminc : ∀ c : ℕ, (c = 2 * pos + 1 ∨ c = 2 * pos + 2) → c < endpos →
        keyAt heap cp ≤ keyAt heap c)
    (heq : siftupFuel endpos fuel (heap.set pos (heap.getD cp default)) cp = (m, q))
    (ih : ∀ (heap2 : List SNode) (pos2 : ℕ) (m2 : List SNode) (q2 : ℕ),
      endpos = heap2.length → pos2 < endpos → endpos ≤ fuel + pos2 → UpInv heap2 pos2 →
      siftupFuel endpos fuel heap2 pos2 = (m2, q2) →
      m2.length = heap2.length ∧ pos2 ≤ q2 ∧ q2 < endpos ∧ ¬(2 * q2 + 1 < endpos) ∧
        UpInv m2 q2 ∧ ∀ x : SNode, List.Perm (m2.set q2 x) (heap2.set pos2 x)) :
    m.length = heap.length ∧ pos ≤ q ∧ q < endpos ∧ ¬(2 * q + 1 < endpos) ∧
      UpInv m q ∧ ∀ x : SNode, List.Perm (m.set q x) (heap.set pos x) := by
  have hposlen : pos < heap.length := by omega
  have hcpl : cp < heap.length := by omega
  have hkm : ∀ t : ℕ, t ≠ pos → keyAt (heap.set pos (heap.getD cp default)) t = keyAt heap t :=
    fun t ht => keyAt_set_ne heap pos t _ (fun h => ht h.symm)
  have hkmpos : keyAt (heap.set pos (heap.getD cp default)) pos = keyAt heap cp := by
    rw [keyAt_set_self heap pos _ hposlen]
    rfl
  have hUp : UpInv (heap.set pos (heap.getD cp default)) cp := by
    constructor
    · intro i hi hil hne hpne
      have hil' : i < heap.length := by simpa using hil
      by_cases hipos : i = pos
      · subst hipos
        have hi0 : 0 < i := hi
        rw [hkm _ (by omega), hkmpos]
        exact hinv.2 hi0 cp hcp hcpl
      · by_cases hpar : (i - 1) / 2 = pos
        · rw [hpar, hkmpos, hkm i hipos]
          exact hminc i (by omega) (by omega)
        · rw [hkm _ hpar, hkm i hipos]
          exact hinv.1 i hi hil' hipos hpar
    · intro h0 c hcc hcl
      have hcl' : c < heap.length := by simpa using hcl
      have hparcp : (cp - 1) / 2 = pos := by omega
      have hcnp : c ≠ pos := by omega
      rw [hparcp, hkmpos, hkm c hcnp]
      have hpc : (c - 1) / 2 = cp := by omega
      have := hinv.1 c (by omega) hcl' hcnp (by omega)
      rwa [hpc] at this
  have res := ih (heap.set pos (heap.getD cp default)) cp m q (by simp; omega) hcplt
    (by omega) hUp heq
  obtain ⟨r1, r2, r3, r4, r5, r6⟩ := res
  refine ⟨by simpa using r1, by omega, r3, r4, r5, ?_⟩
  intro x
  exact (r6 x).trans (set_swap_perm heap pos cp x (by omega) hposlen hcpl)

theorem siftupFuel_spec (endpos : ℕ) :
    ∀ (fuel : ℕ) (heap : List SNode) (pos : ℕ) (m : List SNode) (q : ℕ),
      endpos = heap.length → pos < endpos → endpos ≤ fuel + pos → UpInv heap pos →
      siftupFuel endpos fuel heap pos = (m, q) →
      m.length = heap.length ∧ pos ≤ q ∧ q < endpos ∧ ¬(2 * q + 1 < endpos) ∧
        UpInv m q ∧ ∀ x : SNode, List.Perm (m.set q x) (heap.set pos x) := by
  intro fuel
  induction fuel with
  | zero =>
    intro heap pos m q hend hlt hfuel hinv heq
    omega
  | succ fuel ih =>
    intro heap pos m q hend hlt hfuel hinv heq
    rw [siftupFuel] at heq
    by_cases hc : 2 * pos + 1 < endpos
    · rw [if_pos hc] at heq
      simp only at heq
      by_cases hrb : (decide (2 * pos + 1 + 1 < endpos) &&
          !(SNode.ltb (heap.getD (2 * pos + 1) default)
            (heap.getD (2 * pos + 1 + 1) default))) = true
      · rw [if_pos hrb] at heq
        rw [Bool.and_eq_true, decide_eq_true_eq] at hrb
        obtain ⟨hrlt, hrcmp⟩ := hrb
        have hminc : ∀ c : ℕ, (c = 2 * pos + 1 ∨ c = 2 * pos + 2) → c < endpos →
            keyAt heap (2 * pos + 1 + 1) ≤ keyAt heap c := by
          intro c hcc hclen
          rcases hcc with h | h
          · subst h
            exact (SNode.ltb_key_eq_false_iff (heap.getD (2 * pos + 1) default)
              (heap.getD (2 * pos + 1 + 1) default)).1 (by
                rw [Bool.not_eq_true'] at hrcmp
                exact hrcmp)
          · subst h
            exact le_refl _
        exact upStep_main endpos fuel heap pos m q (2 * pos + 1 + 1) hend hlt (by omega)
          hinv (by omega) hrlt hminc heq ih
      · rw [if_neg (by simpa using hrb)] at heq
        have hminc : ∀ c : ℕ, (c = 2 * pos + 1 ∨ c = 2 * pos + 2) → c < endpos →
            keyAt heap (2 * pos + 1) ≤ keyAt heap c := by
          intro c hcc hclen
          rcases hcc with h | h
          · subst h
            exact le_refl _
          · subst h
            have hrb2 : (decide (2 * pos + 1 + 1 < endpos) &&
                !(SNode.ltb (heap.getD (2 * pos + 1) default)
                  (heap.getD (2 * pos + 1 + 1) default))) = false :=
              Bool.eq_false_iff.mpr hrb
            rw [Bool.and_eq_false_iff] at hrb2
            rcases hrb2 with h2 | h2
            · rw [decide_eq_false_iff_not] at h2
              omega
            · rw [Bool.not_eq_false'] at h2
              exact le_of_lt ((SNode.ltb_key_iff _ _).1 h2)
        exact upStep_main endpos fuel heap pos m q (2 * pos + 1) hend hlt (by omega)
          hinv (by omega) hc hminc heq ih
    · rw [if_neg hc] at heq
      injection heq with h1 h2
      subst h1
      subst h2
      exact ⟨rfl, le_refl _, hlt, hc, hinv, fun x => List.Perm.refl _⟩

theorem heappop_cons (l : List SNode) (hne : l ≠ []) :
    heappop l = if l.dropLast.isEmpty then some (l.getLast hne, [])
      else some (l.dropLast.getD 0 default, siftup (l.dropLast.set 0 (l.getLast hne))) := by
  rw [heappop, List.getLast?_eq_getLast l hne]

theorem heappop_eq_none_iff (l : List SNode) : heappop l = none ↔ l = [] := by
  constructor
  · intro h
    by_contra hne
    rw [heappop_cons l hne] at h
    by_cases he : l.dropLast.isEmpty
    · rw [if_pos he] at h
      exact Option.noConfusion h
    · rw [if_neg he] at h
      exact Option.noConfusion h
  · intro h
    subst h
    rfl

/-- Full behaviour of `heappop` on a nonempty heap: it returns the root,
which is removed from the multiset of entries, and the heap property is
restored on the remainder. -/
theorem heappop_spec (l : List SNode) (hl : IsHeap l) (hne : l ≠ []) :
    ∃ rest : List SNode, heappop l = some (l.getD 0 default, rest) ∧ IsHeap rest ∧
      List.Perm (l.getD 0 default :: rest) l ∧ rest.length = l.length - 1 := by
  have hlen0 : 0 < l.length := List.length_pos.2 hne
  rw [heappop_cons l hne]
  by_cases he : l.dropLast.isEmpty
  · have hdrop : l.dropLast = [] := List.isEmpty_iff.1 he
    have hlen1 : l.length = 1 := by
      have := List.length_dropLast l
      rw [hdrop] at this
      simp at this
      omega
    obtain ⟨a, rfl⟩ := List.length_eq_one.1 hlen1
    refine ⟨[], ?_, ?_, ?_, ?_⟩
    · have hx : [a].getD 0 default = a := rfl
      have hy : [a].getLast hne = a := rfl
      rw [if_pos he, hx, hy]
    · intro i hi hil
      simp at hil
    · exact List.Perm.refl _
    · rfl
  · have hlen2 : 2 ≤ l.length := by
      have h1 := List.length_dropLast l
      by_contra hcon
      have : l.length = 1 := by omega
      obtain ⟨a, rfl⟩ := List.length_eq_one.1 this
      exact he (by rfl)
    rw [if_neg he]
    have hr0len : l.dropLast.length = l.length - 1 := List.length_dropLast l
    have hr0pos : 0 < l.dropLast.length := by omega
    set last := l.getLast hne with hlast_def
    set m0 := l.dropLast.set 0 last with hm0_def
    have hm0len : m0.length = l.length - 1 := by
      rw [hm0_def]
      simp [hr0len]
    -- the keys of `m0` away from the root are keys of `l`
    have hkm0 : ∀ t : ℕ, t ≠ 0 → t < m0.length → keyAt m0 t = keyAt l t := by
      intro t ht htl
      rw [hm0_def]
      rw [keyAt_set_ne _ _ _ _ (fun h => ht h.symm)]
      unfold keyAt
      rw [List.getD_eq_getElem _ _ (by omega), List.getD_eq_getElem _ _ (by omega)]
      rw [List.getElem_dropLast]
    have hUp : UpInv m0 0 := by
      constructor
      · intro i hi hil hne2 hpne
        rw [hkm0 i (by omega) hil, hkm0 _ (by omega) (by omega)]
        exact hl i hi (by omega)
      · intro h0 c hc hcl
        omega
    rcases hsf : siftupFuel m0.length m0.length m0 0 with ⟨m1, q⟩
    obtain ⟨r1, r2, r3, r4, r5, r6⟩ :=
      siftupFuel_spec m0.length m0.length m0 0 m1 q rfl (by omega) (by omega) hUp hsf
    have hnew : m0.getD 0 default = last := by
      rw [hm0_def]
      rw [List.getD_eq_getElem _ _ (by simpa using hr0pos), List.getElem_set]
      simp
    have hq1 : q < m0.length := r3
    have hqm1 : q < m1.length := by omega
    refine ⟨siftup m0, ?_, ?_, ?_, ?_⟩
    · have hd00 : l.dropLast.getD 0 default = l.getD 0 default := by
        rw [List.getD_eq_getElem _ _ (by omega), List.getD_eq_getElem _ _ hlen0,
          List.getElem_dropLast]
      rw [hd00]
    · -- heap property of the final array
      rw [siftup]
      simp only [← hm0_def, hnew, hsf]
      apply siftdownFuel_isHeap last q (m1.set q last) q (by simpa using hqm1) (le_refl _)
      · rw [List.set_set]
        intro i hi hil hiq
        have hil' : i < m1.length := by simpa using hil
        by_cases hpar : (i - 1) / 2 = q
        · exfalso
          omega
        · rw [keyAt_set_ne _ _ _ _ (fun h => hiq h.symm),
            keyAt_set_ne _ _ _ _ (fun h => hpar h.symm)]
          exact r5.1 i hi hil' hiq hpar
      · intro h0 c hc hcl
        have : c < m1.length := by simpa using hcl
        omega
    · -- the popped root together with the rest is a permutation of the heap
      rw [siftup]
      simp only [← hm0_def, hnew, hsf]
      have hperm1 := siftdownFuel_perm last q (m1.set q last) q (by simpa using hqm1)
        (le_refl _)
      rw [List.set_set] at hperm1
      have hperm2 : List.Perm (m1.set q last) (m0.set 0 last) := r6 last
      have hperm3 : List.Perm (siftdownFuel last q (m1.set q last) q) (m0.set 0 last) :=
        hperm1.trans hperm2
      rw [← Multiset.coe_eq_coe]
      have hcoe3 : (↑(siftdownFuel last q (m1.set q last) q) : Multiset SNode) =
          ↑(m0.set 0 last) := Multiset.coe_eq_coe.2 hperm3
      have hm00 : m0.set 0 last = m0 := by
        rw [hm0_def, List.set_set]
      have h0b : 0 < l.dropLast.length := by omega
      have hd0 : l.getD 0 default = l.dropLast[0] := by
        rw [List.getD_eq_getElem _ _ hlen0]
        rw [List.getElem_dropLast]
      have hcoe_m0 : (↑m0 : Multiset SNode) + {l.dropLast[0]} =
          (↑l.dropLast : Multiset SNode) + {last} :=
        coe_set l.dropLast 0 (by omega) last
      have hl_split : (↑l : Multiset SNode) = ↑l.dropLast + {last} := by
        conv_lhs => rw [← List.dropLast_append_getLast hne]
        rw [← hlast_def]
        simp [← Multiset.coe_add]
      show ((l.getD 0 default ::ₘ ↑(siftdownFuel last q (m1.set q last) q) : Multiset SNode)) = ↑l
      rw [hcoe3, hm00, hl_split, hd0]
      rw [show (l.dropLast[0] ::ₘ (↑m0 : Multiset SNode)) =
          (↑m0 : Multiset SNode) + {l.dropLast[0]} by
        rw [← Multiset.singleton_add]
        exact add_comm _ _]
      exact hcoe_m0
    · rw [siftup]
      simp only [← hm0_def, hnew, hsf]
      show (siftdownFuel last q (m1.set q last) q).length = l.length - 1
      have hperm1 := siftdownFuel_perm last q (m1.set q last) q (by simpa using hqm1)
        (le_refl _)
      rw [List.set_set] at hperm1
      have hq2 := hperm1.length_eq
      simp at hq2
      omega

theorem searchLoop_cont (g : GridGraph) (e : Cell) (hf : Cell → Cell → HVal)
    (st st' : SState) (h : searchStep g e hf st = .cont st') (n : ℕ) :
    searchLoop g e hf (n + 1) st = searchLoop g e hf n st' := by
  rw [searchLoop, h]

theorem searchLoop_done (g : GridGraph) (e : Cell) (hf : Cell → Cell → HVal)
    (st : SState) (r : Option (List Cell) × ℕ) (h : searchStep g e hf st = .done r)
    (n : ℕ) : searchLoop g e hf (n + 1) st = some r := by
  rw [searchLoop, h]

/-! Basic facts about the grid primitives, the dictionary and the set. -/

theorem mem_get_neighbors_iff (g : GridGraph) (a b : Cell) :
    b ∈ g.get_neighbors a ↔
      ((b = (a.1 + 1, a.2) ∨ b = (a.1 - 1, a.2) ∨ b = (a.1, a.2 + 1) ∨ b = (a.1, a.2 - 1)) ∧
        g.in_bounds b = true ∧ g.passable b = true) := by
  unfold GridGraph.get_neighbors
  simp only [List.mem_filter, List.mem_cons, List.mem_singleton, List.not_mem_nil, or_false]
  tauto

theorem step_in_bounds {g : GridGraph} {a b : Cell} (h : Step g a b) :
    g.in_bounds b = true :=
  ((mem_get_neighbors_iff g a b).1 h).2.1

theorem step_passable {g : GridGraph} {a b : Cell} (h : Step g a b) :
    g.passable b = true :=
  ((mem_get_neighbors_iff g a b).1 h).2.2

theorem step_adjacent {g : GridGraph} {a b : Cell} (h : Step g a b) :
    (a.1 - b.1).natAbs + (a.2 - b.2).natAbs = 1 := by
  obtain ⟨hor, -, -⟩ := (mem_get_neighbors_iff g a b).1 h
  obtain ⟨ax, ay⟩ := a
  obtain ⟨bx, bb⟩ := b
  simp only [Prod.mk.injEq] at hor
  rcases hor with ⟨h1, h2⟩ | ⟨h1, h2⟩ | ⟨h1, h2⟩ | ⟨h1, h2⟩ <;> omega

theorem specPair_iff (g : GridGraph) (a b : Cell) :
    specPair g a b ↔
      Step g a b ∧ g.in_bounds a = true ∧ g.passable a = true := by
  unfold specPair
  rw [show (Step g a b) = (b ∈ g.get_neighbors a) from rfl, mem_get_neighbors_iff]
  constructor
  · rintro ⟨h1, h2, h3, h4, h5⟩
    refine ⟨⟨?_, h2, h4⟩, h1, h3⟩
    obtain ⟨ax, ay⟩ := a
    obtain ⟨bx, bb⟩ := b
    simp only [Prod.mk.injEq]
    omega
  · rintro ⟨⟨h1, h2, h3⟩, h4, h5⟩
    refine ⟨h4, h2, h5, h3, ?_⟩
    obtain ⟨ax, ay⟩ := a
    obtain ⟨bx, bb⟩ := b
    simp only [Prod.mk.injEq] at h1
    rcases h1 with ⟨ha, hb⟩ | ⟨ha, hb⟩ | ⟨ha, hb⟩ | ⟨ha, hb⟩ <;> omega

theorem dictFind_cons (k : Cell) (v : ℕ) (t : List (Cell × ℕ)) (c : Cell) :
    dictFind ((k, v) :: t) c = if c = k then some v else dictFind t c := rfl

theorem setAdd_mem (l : List Cell) (c x : Cell) :
    x ∈ setAdd l c ↔ x = c ∨ x ∈ l := by
  unfold setAdd
  by_cases h : c ∈ l
  · rw [if_pos h]
    constructor
    · intro hx
      exact Or.inr hx
    · rintro (rfl | hx)
      · exact h
      · exact hx
  · rw [if_neg h]
    simp [List.mem_cons]

theorem setAdd_nodup (l : List Cell) (c : Cell) (h : l.Nodup) : (setAdd l c).Nodup := by
  unfold setAdd
  by_cases hc : c ∈ l
  · rwa [if_pos hc]
  · rw [if_neg hc]
    exact List.Nodup.cons hc h

theorem setAdd_length_of_not_mem (l : List Cell) (c : Cell) (h : c ∉ l) :
    (setAdd l c).length = l.length + 1 := by
  unfold setAdd
  rw [if_neg h]
  rfl

theorem setAdd_eq_of_mem (l : List Cell) (c : Cell) (h : c ∈ l) : setAdd l c = l := by
  unfold setAdd
  rw [if_pos h]

theorem listMem_iff (l : List Cell) (c : Cell) : listMem l c = true ↔ c ∈ l := by
  simp [listMem]

/-! Facts about chains and `ChainOK`. -/

theorem chainOK_reachN (g : GridGraph) (s : Cell) :
    ∀ n : SNode, ChainOK g s n → ReachN g s n.position n.g
  | .mk p none g0 h0 f0, h => by
    obtain ⟨rfl, rfl⟩ := h
    exact ReachN.refl
  | .mk p (some parent) g0 h0 f0, h => by
    obtain ⟨h1, h2, h3⟩ := h
    have ih := chainOK_reachN g s parent h1
    show ReachN g s p g0
    rw [show g0 = parent.g + 1 from h3]
    exact ReachN.tail ih h2

theorem chain_length_eq (g : GridGraph) (s : Cell) :
    ∀ n : SNode, ChainOK g s n → n.chain.length = n.g + 1
  | .mk p none g0 h0 f0, h => by
    obtain ⟨rfl, rfl⟩ := h
    rfl
  | .mk p (some parent) g0 h0 f0, h => by
    obtain ⟨h1, h2, h3⟩ := h
    have ih := chain_length_eq g s parent h1
    show (p :: parent.chain).length = g0 + 1
    simp only [List.length_cons, ih]
    omega

theorem chain_head (g : GridGraph) (s : Cell) :
    ∀ n : SNode, ChainOK g s n → n.chain.head? = some n.position := by
  intro n
  match n with
  | .mk p none g0 h0 f0 => intro h; rfl
  | .mk p (some parent) g0 h0 f0 => intro h; rfl

theorem chain_valid (g : GridGraph) (s : Cell) :
    ∀ n : SNode, ChainOK g s n →
      CodeValidPath g n.chain.reverse s n.position
  | .mk p none g0 h0 f0, h => by
    obtain ⟨rfl, rfl⟩ := h
    exact ⟨rfl, rfl, List.chain'_singleton _⟩
  | .mk p (some parent) g0 h0 f0, h => by
    obtain ⟨h1, h2, h3⟩ := h
    obtain ⟨hh, hl, hc⟩ := chain_valid g s parent h1
    show CodeValidPath g ((p :: parent.chain).reverse) s p
    rw [List.reverse_cons]
    refine ⟨?_, ?_, ?_⟩
    · rw [List.head?_append_of_ne_nil]
      · exact hh
      · intro hcon
        rw [List.reverse_eq_nil_iff] at hcon
        have h5 := chain_head g s parent h1
        rw [hcon] at h5
        exact Option.noConfusion h5
    · rw [List.getLast?_concat]
    · apply List.Chain'.append hc (List.chain'_singleton _)
      intro x hx y hy
      have hx2 : x = parent.position := by
        have h4 := chain_head g s parent h1
        rw [List.getLast?_reverse] at hx
        rw [h4] at hx
        exact (Option.some.inj hx).symm
      have hy2 : y = p := by
        simp at hy
        exact hy.symm
      rw [hx2, hy2]
      exact h2

/-! Facts about `ReachN` and `Reach`. -/

theorem reachN_reach {g : GridGraph} {s c : Cell} {n : ℕ} (h : ReachN g s c n) :
    Reach g s c := by
  induction h with
  | refl => exact Relation.ReflTransGen.refl
  | tail _ hstep ih => exact Relation.ReflTransGen.tail ih hstep

theorem reach_reachN {g : GridGraph} {s c : Cell} (h : Reach g s c) :
    ∃ n : ℕ, ReachN g s c n := by
  induction h with
  | refl => exact ⟨0, ReachN.refl⟩
  | tail _ hstep ih =>
    obtain ⟨n, hn⟩ := ih
    exact ⟨n + 1, ReachN.tail hn hstep⟩

theorem reachN_zero {g : GridGraph} {s c : Cell} (h : ReachN g s c 0) : c = s := by
  cases h
  rfl

theorem reachN_succ {g : GridGraph} {s c : Cell} {n : ℕ} (h : ReachN g s c (n + 1)) :
    ∃ b : Cell, ReachN g s b n ∧ Step g b c := by
  cases h with
  | tail hb hstep => exact ⟨_, hb, hstep⟩

theorem reachN_head {g : GridGraph} {s b c : Cell} {n : ℕ} (h1 : Step g s b)
    (h2 : ReachN g b c n) : ReachN g s c (n + 1) := by
  induction h2 with
  | refl => exact ReachN.tail ReachN.refl h1
  | tail _ hstep ih => exact ReachN.tail ih hstep

theorem exists_isDist {g : GridGraph} {s c : Cell} {n : ℕ} (h : ReachN g s c n) :
    ∃ d : ℕ, IsDist g s c d ∧ d ≤ n := by
  induction n using Nat.strong_induction_on with
  | _ n ih =>
    by_cases hmin : ∀ m : ℕ, ReachN g s c m → n ≤ m
    · exact ⟨n, ⟨h, hmin⟩, le_refl _⟩
    · push_neg at hmin
      obtain ⟨m, hm, hmn⟩ := hmin
      obtain ⟨d, hd, hdm⟩ := ih m hmn hm
      exact ⟨d, hd, by omega⟩

theorem isDist_unique {g : GridGraph} {s c : Cell} {v w : ℕ} (h1 : IsDist g s c v)
    (h2 : IsDist g s c w) : v = w :=
  le_antisymm (h1.2 w h2.1) (h2.2 v h1.1)

theorem codeValid_reachN (g : GridGraph) :
    ∀ (p : List Cell) (a e : Cell), p.head? = some a → p.getLast? = some e →
      List.Chain' (Step g) p → ReachN g a e (p.length - 1) := by
  intro p
  induction p with
  | nil =>
    intro a e h1 h2 h3
    exact Option.noConfusion h1
  | cons x rest ih =>
    intro a e h1 h2 h3
    have hxa : x = a := Option.some.inj h1
    subst hxa
    match rest with
    | [] =>
      have hxe : x = e := Option.some.inj h2
      subst hxe
      exact ReachN.refl
    | y :: rest2 =>
      rw [List.chain'_cons] at h3
      obtain ⟨hstep, hchain⟩ := h3
      have hlast : (y :: rest2).getLast? = some e := by
        rw [← h2]
        rw [List.getLast?_cons_cons]
      have ihr := ih y e rfl hlast hchain
      have := reachN_head hstep ihr
      simpa using this

theorem specValid_codeValid {g : GridGraph} {p : List Cell} {s e : Cell}
    (h : SpecValidPath g p s e) : CodeValidPath g p s e := by
  obtain ⟨h1, h2, h3⟩ := h
  exact ⟨h1, h2, h3.imp (fun a b hab => ((specPair_iff g a b).1 hab).1)⟩

theorem chain_spec_of_code (g : GridGraph) :
    ∀ (p : List Cell) (a : Cell), p.head? = some a → g.in_bounds a = true →
      g.passable a = true → List.Chain' (Step g) p → List.Chain' (specPair g) p := by
  intro p
  induction p with
  | nil =>
    intro a h1 h2 h3 h4
    exact List.chain'_nil
  | cons x rest ih =>
    intro a h1 h2 h3 h4
    have hxa : x = a := Option.some.inj h1
    subst hxa
    match rest with
    | [] => exact List.chain'_singleton _
    | y :: rest2 =>
      rw [List.chain'_cons] at h4
      obtain ⟨hstep, hchain⟩ := h4
      rw [List.chain'_cons]
      constructor
      · exact (specPair_iff g x y).2 ⟨hstep, h2, h3⟩
      · exact ih y rfl (step_in_bounds hstep) (step_passable hstep) hchain

theorem codeValid_specValid {g : GridGraph} {p : List Cell} {s e : Cell}
    (hin : g.in_bounds s = true) (hpa : g.passable s = true)
    (h : CodeValidPath g p s e) : SpecValidPath g p s e := by
  obtain ⟨h1, h2, h3⟩ := h
  exact ⟨h1, h2, chain_spec_of_code g p s h1 hin hpa h3⟩

theorem consistent_telescope {g : GridGraph} {e : Cell} {hf : Cell → Cell → HVal}
    (hc : Consistent g e hf) {w z : Cell} {m : ℕ} (h : ReachN g w z m) :
    (hf w e).toReal ≤ (m : ℝ) + (hf z e).toReal := by
  induction h with
  | refl => simp
  | tail hb hstep ih =>
    have h2 := hc _ _ hstep
    push_cast
    push_cast at ih
    linarith

theorem manhattan_toReal (a b : Cell) :
    (heuristic_manhattan a b).toReal = (((a.1 - b.1).natAbs + (a.2 - b.2).natAbs : ℕ) : ℝ) := by
  unfold heuristic_manhattan HVal.toReal
  simp [Real.sqrt_zero]

theorem consistent_manhattan (g : GridGraph) (e : Cell) :
    Consistent g e heuristic_manhattan := by
  intro a b hstep
  have hadj := step_adjacent hstep
  rw [manhattan_toReal, manhattan_toReal]
  have hn : (a.1 - e.1).natAbs + (a.2 - e.2).natAbs ≤
      1 + ((b.1 - e.1).natAbs + (b.2 - e.2).natAbs) := by omega
  have := (Nat.cast_le (α := ℝ)).2 hn
  push_cast at this ⊢
  linarith

theorem euclidean_toReal (a b : Cell) :
    (heuristic_euclidean a b).toReal =
      Real.sqrt (((a.1 - b.1 : ℤ) : ℝ) ^ 2 + ((a.2 - b.2 : ℤ) : ℝ) ^ 2) := by
  unfold heuristic_euclidean HVal.toReal
  have h1 : (((a.1 - b.1).natAbs ^ 2 + (a.2 - b.2).natAbs ^ 2 : ℕ) : ℝ) =
      ((a.1 - b.1 : ℤ) : ℝ) ^ 2 + ((a.2 - b.2 : ℤ) : ℝ) ^ 2 := by
    push_cast [Int.cast_natAbs]
    simp [sq_abs]
  rw [h1]
  simp

theorem consistent_euclidean (g : GridGraph) (e : Cell) :
    Consistent g e heuristic_euclidean := by
  intro a b hstep
  have hadj := step_adjacent hstep
  rw [euclidean_toReal, euclidean_toReal]
  set ux : ℝ := ((a.1 - e.1 : ℤ) : ℝ) with hux
  set uy : ℝ := ((a.2 - e.2 : ℤ) : ℝ) with huy
  set vx : ℝ := ((b.1 - e.1 : ℤ) : ℝ) with hvx
  set vy : ℝ := ((b.2 - e.2 : ℤ) : ℝ) with hvy
  have hB : (0 : ℝ) ≤ vx ^ 2 + vy ^ 2 := by positivity
  have hsqrtB := Real.sqrt_nonneg (vx ^ 2 + vy ^ 2)
  have hsq : Real.sqrt (vx ^ 2 + vy ^ 2) ^ 2 = vx ^ 2 + vy ^ 2 := Real.sq_sqrt hB
  have habs_x : |vx| ≤ Real.sqrt (vx ^ 2 + vy ^ 2) := by
    rw [show |vx| = Real.sqrt (vx ^ 2) by rw [Real.sqrt_sq_eq_abs]]
    exact Real.sqrt_le_sqrt (by nlinarith [sq_nonneg vy])
  have habs_y : |vy| ≤ Real.sqrt (vx ^ 2 + vy ^ 2) := by
    rw [show |vy| = Real.sqrt (vy ^ 2) by rw [Real.sqrt_sq_eq_abs]]
    exact Real.sqrt_le_sqrt (by nlinarith [sq_nonneg vx])
  have hxv : ux - vx = ((a.1 - b.1 : ℤ) : ℝ) := by
    rw [hux, hvx]
    push_cast
    ring
  have hyv : uy - vy = ((a.2 - b.2 : ℤ) : ℝ) := by
    rw [huy, hvy]
    push_cast
    ring
  have hint : (a.1 - b.1 = 1 ∧ a.2 - b.2 = 0) ∨ (a.1 - b.1 = -1 ∧ a.2 - b.2 = 0) ∨
      (a.1 - b.1 = 0 ∧ a.2 - b.2 = 1) ∨ (a.1 - b.1 = 0 ∧ a.2 - b.2 = -1) := by omega
  have hcases : ((ux = vx + 1 ∨ ux = vx - 1) ∧ uy = vy) ∨
      (ux = vx ∧ (uy = vy + 1 ∨ uy = vy - 1)) := by
    rcases hint with ⟨h1, h2⟩ | ⟨h1, h2⟩ | ⟨h1, h2⟩ | ⟨h1, h2⟩ <;>
      rw [h1] at hxv <;> rw [h2] at hyv <;> push_cast at hxv hyv
    · exact Or.inl ⟨Or.inl (by linarith), by linarith⟩
    · exact Or.inl ⟨Or.inr (by linarith), by linarith⟩
    · exact Or.inr ⟨by linarith, Or.inl (by linarith)⟩
    · exact Or.inr ⟨by linarith, Or.inr (by linarith)⟩
  have hkey : ux ^ 2 + uy ^ 2 ≤ (1 + Real.sqrt (vx ^ 2 + vy ^ 2)) ^ 2 := by
    have hexp : (1 + Real.sqrt (vx ^ 2 + vy ^ 2)) ^ 2 =
        1 + (vx ^ 2 + vy ^ 2) + 2 * Real.sqrt (vx ^ 2 + vy ^ 2) := by
      have h1 : (1 + Real.sqrt (vx ^ 2 + vy ^ 2)) ^ 2 =
          1 + Real.sqrt (vx ^ 2 + vy ^ 2) ^ 2 + 2 * Real.sqrt (vx ^ 2 + vy ^ 2) := by ring
      rw [h1, hsq]
    rw [hexp]
    rcases hcases with ⟨hx, hy⟩ | ⟨hx, hy⟩
    · rcases hx with hx | hx <;> rw [hx, hy] <;>
        nlinarith [habs_x, le_abs_self vx, neg_abs_le vx, hsqrtB]
    · rcases hy with hy | hy <;> rw [hx, hy] <;>
        nlinarith [habs_y, le_abs_self vy, neg_abs_le vy, hsqrtB]
  calc Real.sqrt (ux ^ 2 + uy ^ 2)
      ≤ Real.sqrt ((1 + Real.sqrt (vx ^ 2 + vy ^ 2)) ^ 2) := Real.sqrt_le_sqrt hkey
    _ = 1 + Real.sqrt (vx ^ 2 + vy ^ 2) := by
        rw [Real.sqrt_sq (by positivity)]

theorem relaxOne_eq (hf : Cell → Cell → HVal) (e : Cell) (cur : SNode) (o : List SNode)
    (c : List Cell) (t : List (Cell × ℕ)) (n : ℕ) (nb : Cell) :
    relaxOne hf e cur (SState.mk o c t n) nb =
      if listMem c nb then SState.mk o c t n
      else if (match dictFind t nb with
          | none => true
          | some v => decide ((dictFind t cur.position).getD 0 + 1 < v)) then
        SState.mk
          (heappush o (SNode.mk nb (some cur) ((dictFind t cur.position).getD 0 + 1)
            (hf nb e) (HVal.addN ((dictFind t cur.position).getD 0 + 1) (hf nb e))))
          c ((nb, (dictFind t cur.position).getD 0 + 1) :: t) n
      else SState.mk o c t n := rfl

theorem relaxOne_spec (hf : Cell → Cell → HVal) (e : Cell) (cur : SNode) (o : List SNode)
    (c : List Cell) (t : List (Cell × ℕ)) (n : ℕ) (nb : Cell) :
    (nb ∈ c ∧ relaxOne hf e cur (SState.mk o c t n) nb = SState.mk o c t n) ∨
    (nb ∉ c ∧
      (∃ v, dictFind t nb = some v ∧ v ≤ (dictFind t cur.position).getD 0 + 1) ∧
      relaxOne hf e cur (SState.mk o c t n) nb = SState.mk o c t n) ∨
    (nb ∉ c ∧
      (∀ v, dictFind t nb = some v → (dictFind t cur.position).getD 0 + 1 < v) ∧
      relaxOne hf e cur (SState.mk o c t n) nb = SState.mk
        (heappush o (SNode.mk nb (some cur) ((dictFind t cur.position).getD 0 + 1)
          (hf nb e) (HVal.addN ((dictFind t cur.position).getD 0 + 1) (hf nb e))))
        c ((nb, (dictFind t cur.position).getD 0 + 1) :: t) n) := by
  rw [relaxOne_eq]
  by_cases h1 : listMem c nb = true
  · left
    exact ⟨(listMem_iff c nb).1 h1, by rw [if_pos h1]⟩
  · have h1' : nb ∉ c := fun h => h1 ((listMem_iff c nb).2 h)
    rcases hguard : dictFind t nb with - | v
    · right; right
      refine ⟨h1', ?_, ?_⟩
      · intro v hv
        exact Option.noConfusion hv
      · rw [if_neg h1]
        rfl
    · by_cases h2 : (dictFind t cur.position).getD 0 + 1 < v
      · right; right
        refine ⟨h1', ?_, ?_⟩
        · intro v2 hv2
          rw [← Option.some.inj hv2]
          exact h2
        · rw [if_neg h1]
          rw [if_pos (decide_eq_true h2)]
      · right; left
        refine ⟨h1', ⟨v, rfl, by omega⟩, ?_⟩
        rw [if_neg h1]
        rw [if_neg (by simpa using h2)]

theorem searchStep_char (g : GridGraph) (e : Cell) (hf : Cell → Cell → HVal)
    (o : List SNode) (c : List Cell) (t : List (Cell × ℕ)) (n : ℕ) :
    (heappop o = none ∧ searchStep g e hf (SState.mk o c t n) = .done (none, n)) ∨
    ∃ cur rest, heappop o = some (cur, rest) ∧
      ((cur.position = e ∧
          searchStep g e hf (SState.mk o c t n) = .done (some cur.chain.reverse, n + 1)) ∨
        (cur.position ≠ e ∧
          searchStep g e hf (SState.mk o c t n) = .cont ((g.get_neighbors cur.position).foldl
            (relaxOne hf e cur) (SState.mk rest (setAdd c cur.position) t (n + 1))))) := by
  rcases hpop : heappop o with - | ⟨cur, rest⟩
  · left
    refine ⟨rfl, ?_⟩
    show (match heappop o with
      | none => StepResult.done (none, n)
      | some (current, rest) =>
        if current.position = e then StepResult.done (some current.chain.reverse, n + 1)
        else StepResult.cont ((g.get_neighbors current.position).foldl
          (relaxOne hf e current)
          (SState.mk rest (setAdd c current.position) t (n + 1)))) = _
    rw [hpop]
  · right
    refine ⟨cur, rest, rfl, ?_⟩
    have hred : searchStep g e hf (SState.mk o c t n) =
        if cur.position = e then StepResult.done (some cur.chain.reverse, n + 1)
        else StepResult.cont ((g.get_neighbors cur.position).foldl
          (relaxOne hf e cur)
          (SState.mk rest (setAdd c cur.position) t (n + 1))) := by
      show (match heappop o with
        | none => StepResult.done (none, n)
        | some (current, rest) =>
          if current.position = e then StepResult.done (some current.chain.reverse, n + 1)
          else StepResult.cont ((g.get_neighbors current.position).foldl
            (relaxOne hf e current)
            (SState.mk rest (setAdd c current.position) t (n + 1)))) = _
      rw [hpop]
    by_cases he : cur.position = e
    · left
      refine ⟨he, ?_⟩
      rw [hred, if_pos he]
    · right
      refine ⟨he, ?_⟩
      rw [hred, if_neg he]

theorem pop_facts {g : GridGraph} {s e : Cell} {hf : Cell → Cell → HVal} {st : SState}
    (hp : Pre g s e hf st) {cur : SNode} {rest : List SNode}
    (hpop : heappop st.open_list = some (cur, rest)) :
    cur ∈ st.open_list ∧ IsHeap rest ∧ List.Perm (cur :: rest) st.open_list ∧
      (∀ x ∈ st.open_list, cur.key ≤ x.key) ∧ rest.length = st.open_list.length - 1 := by
  have hne : st.open_list ≠ [] := by
    intro hcon
    rw [hcon] at hpop
    exact Option.noConfusion hpop
  obtain ⟨rest2, hpop2, hheap2, hperm2, hlen2⟩ := heappop_spec st.open_list hp.heap hne
  rw [hpop] at hpop2
  have h12 := Option.some.inj hpop2
  have h1 : cur = st.open_list.getD 0 default := congrArg Prod.fst h12
  have h2 : rest = rest2 := congrArg Prod.snd h12
  rw [← h1] at hperm2
  rw [← h2] at hheap2 hperm2 hlen2
  have hmem : cur ∈ st.open_list := hperm2.mem_iff.1 (List.mem_cons_self _ _)
  refine ⟨hmem, hheap2, hperm2, ?_, hlen2⟩
  intro x hx
  have hroot := isHeap_root_min st.open_list hp.heap x hx
  rwa [show keyAt st.open_list 0 = cur.key by rw [h1]; rfl] at hroot

theorem pop_nonstale {g : GridGraph} {s e : Cell} {hf : Cell → Cell → HVal} {st : SState}
    (hp : Pre g s e hf st) {cur : SNode} {rest : List SNode}
    (hpop : heappop st.open_list = some (cur, rest))
    (hnc : cur.position ∉ st.closed_set) :
    dictFind st.cost_so_far cur.position = some cur.g := by
  obtain ⟨hmem, -, -, hmin, -⟩ := pop_facts hp hpop
  obtain ⟨v, hv, hvle⟩ := hp.open_key cur hmem
  rcases hp.table_E cur.position v hv with hcl | ⟨n, hn, hnp, hng⟩
  · exact absurd hcl hnc
  · have hcurk : cur.key = (cur.g : ℝ) + (hf cur.position e).toReal := by
      unfold SNode.key
      rw [hp.open_f cur hmem, HVal.toReal_addN]
    have hnk : n.key = (v : ℝ) + (hf cur.position e).toReal := by
      unfold SNode.key
      rw [hp.open_f n hn, HVal.toReal_addN, hnp, hng]
    have hle := hmin n hn
    rw [hcurk, hnk] at hle
    have hgv : (cur.g : ℝ) ≤ (v : ℝ) := by linarith
    have hgv2 : cur.g ≤ v := by exact_mod_cast hgv
    have hveq : v = cur.g := by omega
    rw [← hveq]
    exact hv

theorem sstate_eta (st : SState) :
    SState.mk st.open_list st.closed_set st.cost_so_far st.nodes_expanded = st := rfl

theorem relaxOne_cases (hf : Cell → Cell → HVal) (e : Cell) (cur : SNode) (st : SState)
    (nb : Cell) :
    (nb ∈ st.closed_set ∧ relaxOne hf e cur st nb = st) ∨
    (nb ∉ st.closed_set ∧
      (∃ v, dictFind st.cost_so_far nb = some v ∧
        v ≤ (dictFind st.cost_so_far cur.position).getD 0 + 1) ∧
      relaxOne hf e cur st nb = st) ∨
    (nb ∉ st.closed_set ∧
      (∀ v, dictFind st.cost_so_far nb = some v →
        (dictFind st.cost_so_far cur.position).getD 0 + 1 < v) ∧
      relaxOne hf e cur st nb = SState.mk
        (heappush st.open_list (SNode.mk nb (some cur)
          ((dictFind st.cost_so_far cur.position).getD 0 + 1) (hf nb e)
          (HVal.addN ((dictFind st.cost_so_far cur.position).getD 0 + 1) (hf nb e))))
        st.closed_set ((nb, (dictFind st.cost_so_far cur.position).getD 0 + 1) ::
          st.cost_so_far) st.nodes_expanded) := by
  have h := relaxOne_spec hf e cur st.open_list st.closed_set st.cost_so_far
    st.nodes_expanded nb
  rw [sstate_eta st] at h
  exact h

theorem relaxOne_closed_eq (hf : Cell → Cell → HVal) (e : Cell) (cur : SNode)
    (st : SState) (nb : Cell) :
    (relaxOne hf e cur st nb).closed_set = st.closed_set := by
  rcases relaxOne_cases hf e cur st nb with ⟨-, h⟩ | ⟨-, -, h⟩ | ⟨-, -, h⟩ <;> rw [h]

theorem relaxOne_count_eq (hf : Cell → Cell → HVal) (e : Cell) (cur : SNode)
    (st : SState) (nb : Cell) :
    (relaxOne hf e cur st nb).nodes_expanded = st.nodes_expanded := by
  rcases relaxOne_cases hf e cur st nb with ⟨-, h⟩ | ⟨-, -, h⟩ | ⟨-, -, h⟩ <;> rw [h]

theorem relaxOne_table_mono (hf : Cell → Cell → HVal) (e : Cell) (cur : SNode)
    (st : SState) (nb : Cell) {c2 : Cell} {v : ℕ}
    (hv : dictFind st.cost_so_far c2 = some v) :
    ∃ v', dictFind (relaxOne hf e cur st nb).cost_so_far c2 = some v' ∧ v' ≤ v := by
  rcases relaxOne_cases hf e cur st nb with ⟨-, h⟩ | ⟨-, -, h⟩ | ⟨-, hgt, h⟩
  · exact ⟨v, by rw [h]; exact hv, le_refl v⟩
  · exact ⟨v, by rw [h]; exact hv, le_refl v⟩
  · rw [h]
    show ∃ v', dictFind ((nb, (dictFind st.cost_so_far cur.position).getD 0 + 1) ::
      st.cost_so_far) c2 = some v' ∧ v' ≤ v
    rw [dictFind_cons]
    by_cases hc : c2 = nb
    · rw [if_pos hc]
      refine ⟨_, rfl, ?_⟩
      have := hgt v (hc ▸ hv)
      omega
    · rw [if_neg hc]
      exact ⟨v, hv, le_refl v⟩

theorem relaxOne_table_closed_frozen (hf : Cell → Cell → HVal) (e : Cell) (cur : SNode)
    (st : SState) (nb : Cell) {c2 : Cell} (hc2 : c2 ∈ st.closed_set) :
    dictFind (relaxOne hf e cur st nb).cost_so_far c2 = dictFind st.cost_so_far c2 := by
  rcases relaxOne_cases hf e cur st nb with ⟨-, h⟩ | ⟨-, -, h⟩ | ⟨hnb, -, h⟩
  · rw [h]
  · rw [h]
  · rw [h]
    show dictFind ((nb, (dictFind st.cost_so_far cur.position).getD 0 + 1) ::
      st.cost_so_far) c2 = dictFind st.cost_so_far c2
    rw [dictFind_cons, if_neg (fun hh : c2 = nb => hnb (hh ▸ hc2))]

theorem heappush_mem (l : List SNode) (x y : SNode) :
    y ∈ heappush l x ↔ y = x ∨ y ∈ l := by
  rw [(heappush_perm l x).mem_iff]
  exact List.mem_cons

theorem foldInv_push {g : GridGraph} {s e : Cell} {hf : Cell → Cell → HVal}
    {cur : SNode} {o : List SNode} {c : List Cell} {t : List (Cell × ℕ)} {n : ℕ}
    {nb : Cell} (hstep : Step g cur.position nb)
    (hI : FoldInv g s e hf cur (SState.mk o c t n)) (hnb : nb ∉ c)
    (hgt : ∀ v, dictFind t nb = some v → cur.g + 1 < v) :
    FoldInv g s e hf cur (SState.mk
      (heappush o (SNode.mk nb (some cur) (cur.g + 1) (hf nb e)
        (HVal.addN (cur.g + 1) (hf nb e))))
      c ((nb, cur.g + 1) :: t) n) := by
  have heap0 : IsHeap o := hI.pre.heap
  have hopen : ∀ x ∈ o, ChainOK g s x := hI.pre.open_node
  have hopenf : ∀ x ∈ o, x.f = HVal.addN x.g (hf x.position e) := hI.pre.open_f
  have hopenk : ∀ x ∈ o, ∃ v, dictFind t x.position = some v ∧ v ≤ x.g :=
    hI.pre.open_key
  have hpath : ∀ c2 v, dictFind t c2 = some v → ReachN g s c2 v := hI.pre.table_path
  have hbound : ∀ c2 v, dictFind t c2 = some v → v ≤ c.length := hI.pre.table_bound
  have htE : ∀ c2 v, dictFind t c2 = some v →
      c2 ∈ c ∨ ∃ x, x ∈ o ∧ x.position = c2 ∧ x.g = v := hI.pre.table_E
  have hck : ∀ u ∈ c, (dictFind t u).isSome := hI.pre.closed_key
  have hkK : ∀ c2 v, dictFind t c2 = some v → c2 = s ∨ g.in_bounds c2 = true :=
    hI.pre.keys_inK
  have hts : dictFind t s = some 0 := hI.pre.table_start
  have hec : e ∉ c := hI.pre.e_not_closed
  have hnodup : c.Nodup := hI.pre.closed_nodup
  have hcc : c.length ≤ n := hI.pre.count_closed
  have hnbE : ∀ u ∈ c, u ∉ [cur.position] → ∀ w ∈ g.get_neighbors u, w ∉ c →
      ∃ vw vu, dictFind t w = some vw ∧ dictFind t u = some vu ∧ vw ≤ vu + 1 := hI.nbE
  have hcurC : cur.position ∈ c := hI.curC
  have hcurT : dictFind t cur.position = some cur.g := hI.curT
  have hcurB : cur.g + 1 ≤ c.length := hI.curB
  refine ⟨⟨?_, ?_, ?_, ?_, ?_, ?_, ?_, ?_, ?_, ?_, hec, hnodup, hcc⟩, ?_, hcurC, ?_,
    hI.curOK, hcurB⟩
  · exact heappush_isHeap o _ heap0
  · intro x hx
    rcases (heappush_mem o _ x).1 hx with rfl | hxo
    · exact ⟨hI.curOK, hstep, rfl⟩
    · exact hopen x hxo
  · intro x hx
    rcases (heappush_mem o _ x).1 hx with rfl | hxo
    · rfl
    · exact hopenf x hxo
  · intro x hx
    rcases (heappush_mem o _ x).1 hx with rfl | hxo
    · refine ⟨cur.g + 1, ?_, le_refl _⟩
      show dictFind ((nb, cur.g + 1) :: t) nb = some (cur.g + 1)
      rw [dictFind_cons, if_pos rfl]
    · obtain ⟨v, hv, hvg⟩ := hopenk x hxo
      by_cases hpos : x.position = nb
      · refine ⟨cur.g + 1, ?_, ?_⟩
        · show dictFind ((nb, cur.g + 1) :: t) x.position = some (cur.g + 1)
          rw [hpos, dictFind_cons, if_pos rfl]
        · have := hgt v (hpos ▸ hv)
          omega
      · refine ⟨v, ?_, hvg⟩
        show dictFind ((nb, cur.g + 1) :: t) x.position = some v
        rw [dictFind_cons, if_neg hpos]
        exact hv
  · show ∀ c2 v, dictFind ((nb, cur.g + 1) :: t) c2 = some v → ReachN g s c2 v
    intro c2 v hv
    rw [dictFind_cons] at hv
    by_cases hc2 : c2 = nb
    · rw [if_pos hc2] at hv
      have hveq := Option.some.inj hv
      subst hc2
      rw [← hveq]
      exact ReachN.tail (chainOK_reachN g s cur hI.curOK) hstep
    · rw [if_neg hc2] at hv
      exact hpath c2 v hv
  · show ∀ c2 v, dictFind ((nb, cur.g + 1) :: t) c2 = some v → v ≤ c.length
    intro c2 v hv
    rw [dictFind_cons] at hv
    by_cases hc2 : c2 = nb
    · rw [if_pos hc2] at hv
      have hveq := Option.some.inj hv
      omega
    · rw [if_neg hc2] at hv
      exact hbound c2 v hv
  · show ∀ c2 v, dictFind ((nb, cur.g + 1) :: t) c2 = some v → c2 ∈ c ∨
      ∃ x, x ∈ heappush o (SNode.mk nb (some cur) (cur.g + 1) (hf nb e)
        (HVal.addN (cur.g + 1) (hf nb e))) ∧ x.position = c2 ∧ x.g = v
    intro c2 v hv
    rw [dictFind_cons] at hv
    by_cases hc2 : c2 = nb
    · rw [if_pos hc2] at hv
      have hveq := Option.some.inj hv
      subst hc2
      exact Or.inr ⟨_, (heappush_mem o _ _).2 (Or.inl rfl), rfl, hveq⟩
    · rw [if_neg hc2] at hv
      rcases htE c2 v hv with hcl | ⟨x, hxo, hx1, hx2⟩
      · exact Or.inl hcl
      · exact Or.inr ⟨x, (heappush_mem o _ x).2 (Or.inr hxo), hx1, hx2⟩
  · intro u hu
    show (dictFind ((nb, cur.g + 1) :: t) u).isSome
    rw [dictFind_cons]
    by_cases hu2 : u = nb
    · rw [if_pos hu2]
      rfl
    · rw [if_neg hu2]
      exact hck u hu
  · show ∀ c2 v, dictFind ((nb, cur.g + 1) :: t) c2 = some v →
      c2 = s ∨ g.in_bounds c2 = true
    intro c2 v hv
    rw [dictFind_cons] at hv
    by_cases hc2 : c2 = nb
    · subst hc2
      exact Or.inr (step_in_bounds hstep)
    · rw [if_neg hc2] at hv
      exact hkK c2 v hv
  · show dictFind ((nb, cur.g + 1) :: t) s = some 0
    rw [dictFind_cons]
    by_cases hs : s = nb
    · exact absurd (hgt 0 (hs ▸ hts)) (by omega)
    · rw [if_neg hs]
      exact hts
  · show ∀ u ∈ c, u ∉ [cur.position] → ∀ w ∈ g.get_neighbors u, w ∉ c →
      ∃ vw vu, dictFind ((nb, cur.g + 1) :: t) w = some vw ∧
        dictFind ((nb, cur.g + 1) :: t) u = some vu ∧ vw ≤ vu + 1
    intro u hu hux w hw hwc
    obtain ⟨vw, vu, hvw, hvu, hle⟩ := hnbE u hu hux w hw hwc
    have hunb : u ≠ nb := fun h => hnb (h ▸ hu)
    by_cases hwnb : w = nb
    · refine ⟨cur.g + 1, vu, ?_, ?_, ?_⟩
      · rw [dictFind_cons, if_pos hwnb]
      · rw [dictFind_cons, if_neg hunb]
        exact hvu
      · have := hgt vw (hwnb ▸ hvw)
        omega
    · refine ⟨vw, vu, ?_, ?_, hle⟩
      · rw [dictFind_cons, if_neg hwnb]
        exact hvw
      · rw [dictFind_cons, if_neg hunb]
        exact hvu
  · show dictFind ((nb, cur.g + 1) :: t) cur.position = some cur.g
    rw [dictFind_cons, if_neg (fun h : cur.position = nb => hnb (h ▸ hcurC))]
    exact hcurT

theorem relaxOne_foldInv {g : GridGraph} {s e : Cell} {hf : Cell → Cell → HVal}
    {cur : SNode} {st : SState} {nb : Cell} (hstep : Step g cur.position nb)
    (hI : FoldInv g s e hf cur st) :
    FoldInv g s e hf cur (relaxOne hf e cur st nb) ∧
      NbDone cur.g (relaxOne hf e cur st nb) nb := by
  have hnewc : (dictFind st.cost_so_far cur.position).getD 0 + 1 = cur.g + 1 := by
    rw [hI.curT]
    rfl
  rcases relaxOne_cases hf e cur st nb with ⟨hmem, heq⟩ | ⟨hnb, hex, heq⟩ |
    ⟨hnb, hgt, heq⟩
  · rw [heq]
    exact ⟨hI, Or.inl hmem⟩
  · rw [heq]
    obtain ⟨v, hv, hvle⟩ := hex
    rw [hnewc] at hvle
    exact ⟨hI, Or.inr ⟨v, hv, hvle⟩⟩
  · rw [hnewc] at heq hgt
    rw [heq]
    have hI' : FoldInv g s e hf cur (SState.mk st.open_list st.closed_set
        st.cost_so_far st.nodes_expanded) := by
      rw [sstate_eta]
      exact hI
    refine ⟨foldInv_push hstep hI' hnb hgt, Or.inr ⟨cur.g + 1, ?_, le_refl _⟩⟩
    show dictFind ((nb, cur.g + 1) :: st.cost_so_far) nb = some (cur.g + 1)
    rw [dictFind_cons, if_pos rfl]

theorem nbDone_mono {gv : ℕ} {hf : Cell → Cell → HVal} {e : Cell} {cur : SNode}
    {st : SState} {x : Cell} (nb : Cell) (h : NbDone gv st x) :
    NbDone gv (relaxOne hf e cur st nb) x := by
  rcases h with h | ⟨v, hv, hvle⟩
  · refine Or.inl ?_
    rw [relaxOne_closed_eq]
    exact h
  · obtain ⟨v', hv', hle'⟩ := relaxOne_table_mono hf e cur st nb hv
    exact Or.inr ⟨v', hv', le_trans hle' hvle⟩

theorem foldRelax_closed_eq (hf : Cell → Cell → HVal) (e : Cell) (cur : SNode) :
    ∀ (l : List Cell) (st : SState),
      (l.foldl (relaxOne hf e cur) st).closed_set = st.closed_set
  | [], _ => rfl
  | x :: xs, st => by
    rw [List.foldl_cons, foldRelax_closed_eq hf e cur xs, relaxOne_closed_eq]

theorem foldRelax_count_eq (hf : Cell → Cell → HVal) (e : Cell) (cur : SNode) :
    ∀ (l : List Cell) (st : SState),
      (l.foldl (relaxOne hf e cur) st).nodes_expanded = st.nodes_expanded
  | [], _ => rfl
  | x :: xs, st => by
    rw [List.foldl_cons, foldRelax_count_eq hf e cur xs, relaxOne_count_eq]

theorem foldRelax_table_mono (hf : Cell → Cell → HVal) (e : Cell) (cur : SNode) :
    ∀ (l : List Cell) (st : SState) {c2 : Cell} {v : ℕ},
      dictFind st.cost_so_far c2 = some v →
      ∃ v', dictFind ((l.foldl (relaxOne hf e cur) st).cost_so_far) c2 = some v' ∧
        v' ≤ v
  | [], _, _, v, hv => ⟨v, hv, le_refl v⟩
  | x :: xs, st, c2, v, hv => by
    rw [List.foldl_cons]
    obtain ⟨v1, hv1, hle1⟩ := relaxOne_table_mono hf e cur st x hv
    obtain ⟨v2, hv2, hle2⟩ := foldRelax_table_mono hf e cur xs (relaxOne hf e cur st x) hv1
    exact ⟨v2, hv2, le_trans hle2 hle1⟩

theorem foldRelax_closed_frozen (hf : Cell → Cell → HVal) (e : Cell) (cur : SNode) :
    ∀ (l : List Cell) (st : SState) {u : Cell}, u ∈ st.closed_set →
      dictFind ((l.foldl (relaxOne hf e cur) st).cost_so_far) u =
        dictFind st.cost_so_far u
  | [], _, _, _ => rfl
  | x :: xs, st, u, hu => by
    rw [List.foldl_cons]
    rw [foldRelax_closed_frozen hf e cur xs (relaxOne hf e cur st x)
      (by rw [relaxOne_closed_eq]; exact hu)]
    exact relaxOne_table_closed_frozen hf e cur st x hu

theorem nbDone_fold_mono {gv : ℕ} (hf : Cell → Cell → HVal) (e : Cell) (cur : SNode) :
    ∀ (l : List Cell) (st : SState) {x : Cell}, NbDone gv st x →
      NbDone gv (l.foldl (relaxOne hf e cur) st) x
  | [], _, _, h => h
  | y :: ys, st, x, h => by
    rw [List.foldl_cons]
    exact nbDone_fold_mono hf e cur ys (relaxOne hf e cur st y) (nbDone_mono y h)

theorem foldRelax_inv {g : GridGraph} {s e : Cell} {hf : Cell → Cell → HVal}
    {cur : SNode} :
    ∀ (l : List Cell) (st : SState), (∀ x ∈ l, Step g cur.position x) →
      FoldInv g s e hf cur st →
      FoldInv g s e hf cur (l.foldl (relaxOne hf e cur) st) ∧
        ∀ x ∈ l, NbDone cur.g (l.foldl (relaxOne hf e cur) st) x
  | [], st, _, hI => ⟨hI, fun x hx => absurd hx (List.not_mem_nil x)⟩
  | y :: ys, st, hl, hI => by
    have hstep := hl y (List.mem_cons_self y ys)
    obtain ⟨hI1, hdone1⟩ := relaxOne_foldInv hstep hI
    obtain ⟨hIf, hdonef⟩ := foldRelax_inv ys (relaxOne hf e cur st y)
      (fun z hz => hl z (List.mem_cons_of_mem y hz)) hI1
    rw [List.foldl_cons]
    refine ⟨hIf, ?_⟩
    intro x hx
    rcases List.mem_cons.1 hx with rfl | hxs
    · exact nbDone_fold_mono hf e cur ys (relaxOne hf e cur st x) hdone1
    · exact hdonef x hxs

theorem relaxOne_stale {g : GridGraph} {e : Cell} {hf : Cell → Cell → HVal}
    {cur : SNode} {st : SState} (hcl : cur.position ∈ st.closed_set)
    (hnbE : ClosedNbExcept g st []) {vu : ℕ}
    (hvu : dictFind st.cost_so_far cur.position = some vu) {nb : Cell}
    (hstep : Step g cur.position nb) : relaxOne hf e cur st nb = st := by
  rcases relaxOne_cases hf e cur st nb with ⟨-, h⟩ | ⟨-, -, h⟩ | ⟨hnb, hgt, h⟩
  · exact h
  · exact h
  · exfalso
    obtain ⟨vw, vu', hvw, hvu', hle⟩ := hnbE cur.position hcl (List.not_mem_nil _)
      nb hstep hnb
    have hvu2 : vu' = vu := by
      rw [hvu] at hvu'
      exact (Option.some.inj hvu').symm
    have hg := hgt vw hvw
    rw [hvu] at hg
    have hg' : vu + 1 < vw := hg
    omega

theorem foldRelax_stale {g : GridGraph} {e : Cell} {hf : Cell → Cell → HVal}
    {cur : SNode} :
    ∀ (l : List Cell) (st : SState), cur.position ∈ st.closed_set →
      ClosedNbExcept g st [] →
      (∃ vu, dictFind st.cost_so_far cur.position = some vu) →
      (∀ x ∈ l, Step g cur.position x) →
      l.foldl (relaxOne hf e cur) st = st
  | [], _, _, _, _, _ => rfl
  | y :: ys, st, hcl, hnbE, ⟨vu, hvu⟩, hl => by
    rw [List.foldl_cons,
      relaxOne_stale hcl hnbE hvu (hl y (List.mem_cons_self y ys)),
      foldRelax_stale ys st hcl hnbE ⟨vu, hvu⟩
        (fun z hz => hl z (List.mem_cons_of_mem y hz))]

theorem mem_cellList {g : GridGraph} {c : Cell} (h : g.in_bounds c = true) :
    c ∈ cellList g := by
  unfold GridGraph.in_bounds at h
  rw [Bool.and_eq_true, decide_eq_true_eq, decide_eq_true_eq] at h
  obtain ⟨⟨hx0, hxw⟩, hy0, hyh⟩ := h
  unfold cellList
  rw [List.mem_flatMap]
  refine ⟨c.1.toNat, ?_, ?_⟩
  · rw [List.mem_range]
    omega
  · rw [List.mem_map]
    refine ⟨c.2.toNat, ?_, ?_⟩
    · rw [List.mem_range]
      omega
    · have h1 : (c.1.toNat : ℤ) = c.1 := Int.toNat_of_nonneg hx0
      have h2 : (c.2.toNat : ℤ) = c.2 := Int.toNat_of_nonneg hy0
      rw [h1, h2]

theorem mem_keyCells {g : GridGraph} {s c : Cell}
    (h : c = s ∨ g.in_bounds c = true) : c ∈ keyCells g s := by
  unfold keyCells
  rw [List.mem_dedup]
  rcases h with rfl | h
  · exact List.mem_cons_self _ _
  · exact List.mem_cons_of_mem _ (mem_cellList h)

theorem sum_map_const (k : ℕ) : ∀ (l : List ℕ), (l.map (fun _ => k)).sum = l.length * k
  | [] => by simp
  | x :: xs => by
    rw [List.map_cons, List.sum_cons, sum_map_const k xs, List.length_cons]
    ring

theorem cellList_length (g : GridGraph) :
    (cellList g).length ≤ g.width.toNat * g.height.toNat := by
  unfold cellList
  rw [List.length_flatMap]
  simp only [Function.comp_def, List.length_map, List.length_range]
  have h2 := sum_map_const g.height.toNat (List.range g.width.toNat)
  rw [List.length_range] at h2
  omega

theorem keyCells_length (g : GridGraph) (s : Cell) :
    (keyCells g s).length ≤ bigVal g - 1 := by
  unfold keyCells bigVal
  have h1 : (s :: cellList g).dedup.length ≤ (s :: cellList g).length :=
    List.Sublist.length_le (List.dedup_sublist _)
  rw [List.length_cons] at h1
  have := cellList_length g
  omega

theorem nodup_length_le {l l2 : List Cell} (h : l.Nodup) (hsub : ∀ x ∈ l, x ∈ l2) :
    l.length ≤ l2.length := by
  have h1 : l.toFinset.card = l.length := List.toFinset_card_of_nodup h
  have h2 : l.toFinset ⊆ l2.toFinset := by
    intro x hx
    rw [List.mem_toFinset] at hx ⊢
    exact hsub x hx
  have h3 := Finset.card_le_card h2
  have h4 := List.toFinset_card_le l2
  omega

theorem closed_sub_keys {g : GridGraph} {s e : Cell} {hf : Cell → Cell → HVal}
    {st : SState} (hp : Pre g s e hf st) {u : Cell} (hu : u ∈ st.closed_set) :
    u ∈ keyCells g s := by
  have h1 := hp.closed_key u hu
  rw [Option.isSome_iff_exists] at h1
  obtain ⟨v, hv⟩ := h1
  exact mem_keyCells (hp.keys_inK u v hv)

theorem closed_le_keys {g : GridGraph} {s e : Cell} {hf : Cell → Cell → HVal}
    {st : SState} (hp : Pre g s e hf st) :
    st.closed_set.length ≤ (keyCells g s).length :=
  nodup_length_le hp.closed_nodup (fun u hu => closed_sub_keys hp hu)

theorem sum_map_le (f1 f2 : Cell → ℕ) :
    ∀ (l : List Cell), (∀ x ∈ l, f2 x ≤ f1 x) → (l.map f2).sum ≤ (l.map f1).sum
  | [], _ => le_refl _
  | x :: xs, h => by
    rw [List.map_cons, List.map_cons, List.sum_cons, List.sum_cons]
    have h1 := h x (List.mem_cons_self x xs)
    have h2 := sum_map_le f1 f2 xs (fun y hy => h y (List.mem_cons_of_mem x hy))
    omega

theorem sum_map_lt (f1 f2 : Cell → ℕ) :
    ∀ (l : List Cell), (∀ x ∈ l, f2 x ≤ f1 x) → ∀ a ∈ l, f2 a < f1 a →
      (l.map f2).sum < (l.map f1).sum
  | [], _, a, ha, _ => absurd ha (List.not_mem_nil a)
  | x :: xs, h, a, ha, hlt => by
    rw [List.map_cons, List.map_cons, List.sum_cons, List.sum_cons]
    rcases List.mem_cons.1 ha with rfl | has
    · have h2 := sum_map_le f1 f2 xs (fun y hy => h y (List.mem_cons_of_mem a hy))
      omega
    · have h1 := h x (List.mem_cons_self x xs)
      have h2 := sum_map_lt f1 f2 xs (fun y hy => h y (List.mem_cons_of_mem x hy))
        a has hlt
      omega

theorem relaxOne_meas {g : GridGraph} {s e : Cell} {hf : Cell → Cell → HVal}
    {cur : SNode} {st : SState} {nb : Cell} (hstep : Step g cur.position nb)
    (hI : FoldInv g s e hf cur st) :
    meas g s (relaxOne hf e cur st nb) ≤ meas g s st := by
  have hnewc : (dictFind st.cost_so_far cur.position).getD 0 + 1 = cur.g + 1 := by
    rw [hI.curT]
    rfl
  rcases relaxOne_cases hf e cur st nb with ⟨-, h⟩ | ⟨-, -, h⟩ | ⟨hnb, hgt, h⟩
  · rw [h]
  · rw [h]
  · rw [hnewc] at h hgt
    rw [h]
    have hsmall : cur.g + 1 < bigVal g := by
      have h1 := hI.curB
      have h2 := closed_le_keys hI.pre
      have h3 := keyCells_length g s
      have h4 : 2 ≤ bigVal g := by
        unfold bigVal
        omega
      omega
    unfold meas
    have hopen : (SState.mk (heappush st.open_list (SNode.mk nb (some cur) (cur.g + 1)
        (hf nb e) (HVal.addN (cur.g + 1) (hf nb e)))) st.closed_set
        ((nb, cur.g + 1) :: st.cost_so_far) st.nodes_expanded).open_list.length =
        st.open_list.length + 1 := by
      show (heappush st.open_list _).length = st.open_list.length + 1
      exact heappush_length _ _
    rw [hopen]
    have hle : ∀ x ∈ keyCells g s, tabVal g (SState.mk (heappush st.open_list
        (SNode.mk nb (some cur) (cur.g + 1) (hf nb e)
          (HVal.addN (cur.g + 1) (hf nb e)))) st.closed_set
        ((nb, cur.g + 1) :: st.cost_so_far) st.nodes_expanded) x ≤ tabVal g st x := by
      intro x hx
      unfold tabVal
      show (dictFind ((nb, cur.g + 1) :: st.cost_so_far) x).getD (bigVal g) ≤ _
      rw [dictFind_cons]
      by_cases hxnb : x = nb
      · rw [if_pos hxnb]
        rcases hfind : dictFind st.cost_so_far x with - | v
        · show cur.g + 1 ≤ bigVal g
          omega
        · have := hgt v (hxnb ▸ hfind)
          show cur.g + 1 ≤ v
          omega
      · rw [if_neg hxnb]
    have hlt : tabVal g (SState.mk (heappush st.open_list
        (SNode.mk nb (some cur) (cur.g + 1) (hf nb e)
          (HVal.addN (cur.g + 1) (hf nb e)))) st.closed_set
        ((nb, cur.g + 1) :: st.cost_so_far) st.nodes_expanded) nb < tabVal g st nb := by
      unfold tabVal
      show (dictFind ((nb, cur.g + 1) :: st.cost_so_far) nb).getD (bigVal g) < _
      rw [dictFind_cons, if_pos rfl]
      rcases hfind : dictFind st.cost_so_far nb with - | v
      · show cur.g + 1 < bigVal g
        exact hsmall
      · have := hgt v hfind
        show cur.g + 1 < v
        omega
    have hsum := sum_map_lt (tabVal g st) _ (keyCells g s) hle nb
      (mem_keyCells (Or.inr (step_in_bounds hstep))) hlt
    omega

theorem foldRelax_meas {g : GridGraph} {s e : Cell} {hf : Cell → Cell → HVal}
    {cur : SNode} :
    ∀ (l : List Cell) (st : SState), (∀ x ∈ l, Step g cur.position x) →
      FoldInv g s e hf cur st →
      meas g s (l.foldl (relaxOne hf e cur) st) ≤ meas g s st
  | [], _, _, _ => le_refl _
  | y :: ys, st, hl, hI => by
    rw [List.foldl_cons]
    have hstep := hl y (List.mem_cons_self y ys)
    have h1 := relaxOne_meas hstep hI
    have h2 := foldRelax_meas ys (relaxOne hf e cur st y)
      (fun z hz => hl z (List.mem_cons_of_mem y hz)) (relaxOne_foldInv hstep hI).1
    omega

theorem foldInv_start {g : GridGraph} {s e : Cell} {hf : Cell → Cell → HVal}
    {o : List SNode} {c : List Cell} {t : List (Cell × ℕ)} {n : ℕ}
    (hG : Good0 g s e hf (SState.mk o c t n)) {cur : SNode} {rest : List SNode}
    (hpop : heappop o = some (cur, rest)) (hne : cur.position ≠ e)
    (hcl : cur.position ∉ c) :
    FoldInv g s e hf cur (SState.mk rest (cur.position :: c) t (n + 1)) := by
  obtain ⟨hp, hnbE⟩ := hG
  obtain ⟨hmem, hheap, hperm, hmin, hlen⟩ := pop_facts hp hpop
  have hcurT : dictFind t cur.position = some cur.g := pop_nonstale hp hpop hcl
  have hrest_sub : ∀ x ∈ rest, x ∈ o := by
    intro x hx
    exact hperm.mem_iff.1 (List.mem_cons_of_mem cur hx)
  have hopen : ∀ x ∈ o, ChainOK g s x := hp.open_node
  refine ⟨⟨hheap, ?_, ?_, ?_, hp.table_path, ?_, ?_, ?_, hp.keys_inK, hp.table_start,
    ?_, ?_, ?_⟩, ?_, List.mem_cons_self _ _, hcurT, hopen cur hmem, ?_⟩
  · exact fun x hx => hopen x (hrest_sub x hx)
  · exact fun x hx => hp.open_f x (hrest_sub x hx)
  · exact fun x hx => hp.open_key x (hrest_sub x hx)
  · intro c2 v hv
    have hb : v ≤ c.length := hp.table_bound c2 v hv
    show v ≤ (cur.position :: c).length
    rw [List.length_cons]
    omega
  · intro c2 v hv
    rcases hp.table_E c2 v hv with hc2 | ⟨x, hxo, hx1, hx2⟩
    · exact Or.inl (List.mem_cons_of_mem _ hc2)
    · rcases List.mem_cons.1 (hperm.symm.mem_iff.1 hxo) with rfl | hxr
      · rw [← hx1]
        exact Or.inl (List.mem_cons_self _ _)
      · exact Or.inr ⟨x, hxr, hx1, hx2⟩
  · intro u hu
    rcases List.mem_cons.1 hu with rfl | huc
    · rw [hcurT]
      rfl
    · exact hp.closed_key u huc
  · intro hcon
    rcases List.mem_cons.1 hcon with h1 | h1
    · exact hne h1.symm
    · exact hp.e_not_closed h1
  · exact List.Nodup.cons hcl hp.closed_nodup
  · show c.length + 1 ≤ n + 1
    have hc2 : c.length ≤ n := hp.count_closed
    omega
  · intro u hu hux w hw hwc
    have huc : u ∈ c := by
      rcases List.mem_cons.1 hu with rfl | h1
      · exact absurd (List.mem_singleton.2 rfl) hux
      · exact h1
    have hwc2 : w ∉ c := fun h => hwc (List.mem_cons_of_mem _ h)
    exact hnbE u huc (List.not_mem_nil u) w hw hwc2
  · show cur.g + 1 ≤ (cur.position :: c).length
    rw [List.length_cons]
    have hb2 : cur.g ≤ c.length := hp.table_bound cur.position cur.g hcurT
    omega

theorem good0_after_fold {g : GridGraph} {s e : Cell} {hf : Cell → Cell → HVal}
    {cur : SNode} {st : SState} (hI : FoldInv g s e hf cur st)
    (hdone : ∀ x ∈ g.get_neighbors cur.position, NbDone cur.g st x) :
    Good0 g s e hf st := by
  refine ⟨hI.pre, ?_⟩
  intro u hu _ w hw hwc
  by_cases huc : u = cur.position
  · subst huc
    rcases hdone w hw with hwcl | ⟨v, hv, hvle⟩
    · exact absurd hwcl hwc
    · exact ⟨v, cur.g, hv, hI.curT, hvle⟩
  · exact hI.nbE u hu (fun h => huc (List.mem_singleton.1 h)) w hw hwc

theorem good0_stale_next {g : GridGraph} {s e : Cell} {hf : Cell → Cell → HVal}
    {o : List SNode} {c : List Cell} {t : List (Cell × ℕ)} {n : ℕ}
    (hG : Good0 g s e hf (SState.mk o c t n)) {cur : SNode} {rest : List SNode}
    (hpop : heappop o = some (cur, rest)) (hcl : cur.position ∈ c) :
    Good0 g s e hf (SState.mk rest c t (n + 1)) := by
  obtain ⟨hp, hnbE⟩ := hG
  obtain ⟨hmem, hheap, hperm, hmin, hlen⟩ := pop_facts hp hpop
  have hrest_sub : ∀ x ∈ rest, x ∈ o := by
    intro x hx
    exact hperm.mem_iff.1 (List.mem_cons_of_mem cur hx)
  have hcount : c.length ≤ n := hp.count_closed
  refine ⟨⟨hheap, ?_, ?_, ?_, hp.table_path, hp.table_bound, ?_, hp.closed_key,
    hp.keys_inK, hp.table_start, hp.e_not_closed, hp.closed_nodup, ?_⟩, ?_⟩
  · exact fun x hx => hp.open_node x (hrest_sub x hx)
  · exact fun x hx => hp.open_f x (hrest_sub x hx)
  · exact fun x hx => hp.open_key x (hrest_sub x hx)
  · intro c2 v hv
    rcases hp.table_E c2 v hv with hc2 | ⟨x, hxo, hx1, hx2⟩
    · exact Or.inl hc2
    · rcases List.mem_cons.1 (hperm.symm.mem_iff.1 hxo) with rfl | hxr
      · rw [← hx1]
        exact Or.inl hcl
      · exact Or.inr ⟨x, hxr, hx1, hx2⟩
  · show c.length ≤ n + 1
    omega
  · exact hnbE

theorem searchStep_cont_good {g : GridGraph} {s e : Cell} {hf : Cell → Cell → HVal}
    {st st' : SState} (hG : Good0 g s e hf st)
    (h : searchStep g e hf st = .cont st') :
    Good0 g s e hf st' ∧ meas g s st' < meas g s st := by
  obtain ⟨o, c, t, n⟩ := st
  rcases searchStep_char g e hf o c t n with ⟨hpop, hdone⟩ | ⟨cur, rest, hpop, hcase⟩
  · rw [h] at hdone
    exact StepResult.noConfusion hdone
  · rcases hcase with ⟨hpos, hdone⟩ | ⟨hne, hcont⟩
    · rw [h] at hdone
      exact StepResult.noConfusion hdone
    · rw [h] at hcont
      have hst' : st' = (g.get_neighbors cur.position).foldl (relaxOne hf e cur)
          (SState.mk rest (setAdd c cur.position) t (n + 1)) :=
        StepResult.cont.inj hcont
      obtain ⟨hmem, hheap, hperm, hmin, hlen0⟩ := pop_facts hG.1 hpop
      have hlen : rest.length = o.length - 1 := hlen0
      have hone : o ≠ [] := by
        intro hc
        rw [hc] at hpop
        exact Option.noConfusion hpop
      have holen : 1 ≤ o.length := List.length_pos.2 hone
      have hsteps : ∀ x ∈ g.get_neighbors cur.position, Step g cur.position x :=
        fun x hx => hx
      have hm0 : meas g s (SState.mk o c t n) =
          o.length + ((keyCells g s).map (tabVal g (SState.mk o c t n))).sum := rfl
      by_cases hcl : cur.position ∈ c
      · have hsetadd : setAdd c cur.position = c := setAdd_eq_of_mem c cur.position hcl
        rw [hsetadd] at hst'
        have hnbE1 : ClosedNbExcept g (SState.mk rest c t (n + 1)) [] := hG.2
        have hkey : ∃ vu, dictFind t cur.position = some vu :=
          Option.isSome_iff_exists.1 (hG.1.closed_key cur.position hcl)
        have hfold : (g.get_neighbors cur.position).foldl (relaxOne hf e cur)
            (SState.mk rest c t (n + 1)) = SState.mk rest c t (n + 1) :=
          foldRelax_stale _ _ hcl hnbE1 hkey hsteps
        rw [hfold] at hst'
        subst hst'
        refine ⟨good0_stale_next hG hpop hcl, ?_⟩
        have hm1 : meas g s (SState.mk rest c t (n + 1)) =
            rest.length + ((keyCells g s).map (tabVal g (SState.mk o c t n))).sum :=
          rfl
        rw [hm0, hm1]
        omega
      · have hsetadd : setAdd c cur.position = cur.position :: c := by
          unfold setAdd
          rw [if_neg hcl]
        rw [hsetadd] at hst'
        have hI0 := foldInv_start hG hpop hne hcl
        obtain ⟨hIf, hdonef⟩ := foldRelax_inv _ _ hsteps hI0
        have hmf := foldRelax_meas _ _ hsteps hI0
        subst hst'
        refine ⟨good0_after_fold hIf hdonef, ?_⟩
        have hm1 : meas g s (SState.mk rest (cur.position :: c) t (n + 1)) =
            rest.length + ((keyCells g s).map (tabVal g (SState.mk o c t n))).sum :=
          rfl
        rw [hm0]
        rw [hm1] at hmf
        omega

theorem sum_map_constC (k : ℕ) :
    ∀ (l : List Cell), (l.map (fun _ => k)).sum = l.length * k
  | [] => by simp
  | x :: xs => by
    rw [List.map_cons, List.sum_cons, sum_map_constC k xs, List.length_cons]
    ring

theorem initState_eq (s e : Cell) (hf : Cell → Cell → HVal) :
    initState s e hf = SState.mk
      [SNode.mk s none 0 (hf s e) (HVal.addN 0 (hf s e))] [] [(s, 0)] 0 := rfl

theorem good0_init (g : GridGraph) (s e : Cell) (hf : Cell → Cell → HVal) :
    Good0 g s e hf (initState s e hf) := by
  rw [initState_eq]
  constructor
  · refine ⟨?_, ?_, ?_, ?_, ?_, ?_, ?_, ?_, ?_, ?_, ?_, ?_, ?_⟩
    · intro i h0 hi
      have hi' : i < 1 := hi
      omega
    · intro x hx
      have hx' : x = SNode.mk s none 0 (hf s e) (HVal.addN 0 (hf s e)) :=
        List.mem_singleton.1 hx
      subst hx'
      exact ⟨rfl, rfl⟩
    · intro x hx
      have hx' : x = SNode.mk s none 0 (hf s e) (HVal.addN 0 (hf s e)) :=
        List.mem_singleton.1 hx
      subst hx'
      rfl
    · intro x hx
      have hx' : x = SNode.mk s none 0 (hf s e) (HVal.addN 0 (hf s e)) :=
        List.mem_singleton.1 hx
      subst hx'
      refine ⟨0, ?_, le_refl 0⟩
      show dictFind [(s, 0)] s = some 0
      rw [dictFind_cons, if_pos rfl]
    · intro c2 v hv
      have hv' : dictFind [(s, 0)] c2 = some v := hv
      rw [dictFind_cons] at hv'
      by_cases hc2 : c2 = s
      · rw [if_pos hc2] at hv'
        have hveq := Option.some.inj hv'
        subst hc2
        rw [← hveq]
        exact ReachN.refl
      · rw [if_neg hc2] at hv'
        exact Option.noConfusion hv'
    · intro c2 v hv
      have hv' : dictFind [(s, 0)] c2 = some v := hv
      rw [dictFind_cons] at hv'
      by_cases hc2 : c2 = s
      · rw [if_pos hc2] at hv'
        have hveq := Option.some.inj hv'
        show v ≤ 0
        omega
      · rw [if_neg hc2] at hv'
        exact Option.noConfusion hv'
    · intro c2 v hv
      have hv' : dictFind [(s, 0)] c2 = some v := hv
      rw [dictFind_cons] at hv'
      by_cases hc2 : c2 = s
      · rw [if_pos hc2] at hv'
        have hveq := Option.some.inj hv'
        subst hc2
        exact Or.inr ⟨_, List.mem_singleton.2 rfl, rfl, hveq⟩
      · rw [if_neg hc2] at hv'
        exact Option.noConfusion hv'
    · intro u hu
      exact absurd hu (List.not_mem_nil u)
    · intro c2 v hv
      have hv' : dictFind [(s, 0)] c2 = some v := hv
      rw [dictFind_cons] at hv'
      by_cases hc2 : c2 = s
      · exact Or.inl hc2
      · rw [if_neg hc2] at hv'
        exact Option.noConfusion hv'
    · show dictFind [(s, 0)] s = some 0
      rw [dictFind_cons, if_pos rfl]
    · exact List.not_mem_nil e
    · exact List.nodup_nil
    · exact le_refl 0
  · intro u hu
    exact absurd hu (List.not_mem_nil u)

theorem searchLoop_total {g : GridGraph} {s e : Cell} {hf : Cell → Cell → HVal} :
    ∀ (fuel : ℕ) (st : SState), Good0 g s e hf st → meas g s st < fuel →
      ∃ r, searchLoop g e hf fuel st = some r
  | 0, _, _, hm => absurd hm (Nat.not_lt_zero _)
  | fuel + 1, st, hG, hm => by
    rcases hstep : searchStep g e hf st with r | st1
    · exact ⟨r, searchLoop_done g e hf st r hstep fuel⟩
    · obtain ⟨hG1, hm1⟩ := searchStep_cont_good hG hstep
      obtain ⟨r, hr⟩ := searchLoop_total fuel st1 hG1 (by omega)
      refine ⟨r, ?_⟩
      rw [searchLoop_cont g e hf st st1 hstep fuel]
      exact hr

theorem meas_init_lt (g : GridGraph) (s e : Cell) (hf : Cell → Cell → HVal) :
    meas g s (initState s e hf) < searchFuel g := by
  have h1 : meas g s (initState s e hf) =
      1 + ((keyCells g s).map (tabVal g (initState s e hf))).sum := rfl
  have h2 : ∀ x ∈ keyCells g s, tabVal g (initState s e hf) x ≤ bigVal g := by
    intro x hx
    unfold tabVal
    show (dictFind [(s, 0)] x).getD (bigVal g) ≤ bigVal g
    rw [dictFind_cons]
    by_cases hxs : x = s
    · rw [if_pos hxs]
      show 0 ≤ bigVal g
      omega
    · rw [if_neg hxs]
      exact le_refl _
  have h3 : ((keyCells g s).map (tabVal g (initState s e hf))).sum ≤
      ((keyCells g s).map (fun _ => bigVal g)).sum :=
    sum_map_le _ _ (keyCells g s) h2
  have h3b := sum_map_constC (bigVal g) (keyCells g s)
  have h4 : (keyCells g s).length ≤ bigVal g - 1 := keyCells_length g s
  have h5 : 2 ≤ bigVal g := by
    unfold bigVal
    omega
  have h6 : searchFuel g = bigVal g * bigVal g := by
    unfold searchFuel bigVal
    ring
  have h7 : (keyCells g s).length * bigVal g ≤ (bigVal g - 1) * bigVal g :=
    Nat.mul_le_mul_right _ h4
  have h8 : (bigVal g - 1) * bigVal g = bigVal g * bigVal g - 1 * bigVal g :=
    Nat.sub_mul _ _ _
  have h10 : 2 * bigVal g ≤ bigVal g * bigVal g := Nat.mul_le_mul_right _ h5
  rw [h1, h6]
  omega

theorem a_star_search_total (g : GridGraph) (s e : Cell) (hf : Cell → Cell → HVal) :
    ∃ r, a_star_search g s e hf = some r :=
  searchLoop_total (searchFuel g) (initState s e hf) (good0_init g s e hf)
    (meas_init_lt g s e hf)

theorem searchLoop_run {g : GridGraph} {s e : Cell} {hf : Cell → Cell → HVal} :
    ∀ (fuel : ℕ) (st : SState) (res : Option (List Cell) × ℕ), Good0 g s e hf st →
      searchLoop g e hf fuel st = some res →
      ∃ stf, Good0 g s e hf stf ∧ searchStep g e hf stf = .done res
  | 0, _, _, _, h => Option.noConfusion h
  | fuel + 1, st, res, hG, h => by
    rcases hstep : searchStep g e hf st with r | st1
    · rw [searchLoop_done g e hf st r hstep fuel] at h
      refine ⟨st, hG, ?_⟩
      rw [hstep, Option.some.inj h]
    · rw [searchLoop_cont g e hf st st1 hstep fuel] at h
      exact searchLoop_run fuel st1 res (searchStep_cont_good hG hstep).1 h

theorem reach_mem_of_closed {g : GridGraph} {L : List Cell} {s : Cell} (hs : s ∈ L)
    (hcl : ∀ u ∈ L, ∀ w, Step g u w → w ∈ L) {c : Cell} (h : Reach g s c) : c ∈ L := by
  induction h with
  | refl => exact hs
  | tail hb hstep ih => exact hcl _ ih _ hstep

theorem done_none_char {g : GridGraph} {s e : Cell} {hf : Cell → Cell → HVal}
    {st : SState} {n : ℕ} (hG : Good0 g s e hf st)
    (hd : searchStep g e hf st = .done (none, n)) :
    st.open_list = [] ∧ n = st.nodes_expanded ∧ s ∈ st.closed_set ∧
      (∀ u ∈ st.closed_set, ∀ w, Step g u w → w ∈ st.closed_set) ∧
      ¬ Reach g s e ∧ (∀ c, Reach g s c ↔ c ∈ st.closed_set) := by
  obtain ⟨o, c, t, n0⟩ := st
  have hopen : o = [] ∧ n = n0 := by
    rcases searchStep_char g e hf o c t n0 with ⟨hpop, hdone⟩ |
      ⟨cur, rest, hpop, ⟨hpos, hdone⟩ | ⟨hne, hcont⟩⟩
    · rw [hd] at hdone
      have h1 := StepResult.done.inj hdone
      have h2 : n = n0 := (Prod.ext_iff.1 h1).2
      exact ⟨(heappop_eq_none_iff o).1 hpop, h2⟩
    · rw [hd] at hdone
      have h1 := StepResult.done.inj hdone
      exact absurd (Prod.ext_iff.1 h1).1 (fun h => Option.noConfusion h)
    · rw [hd] at hcont
      exact StepResult.noConfusion hcont
  obtain ⟨rfl, hn⟩ := hopen
  have hs_closed : s ∈ c := by
    rcases hG.1.table_E s 0 hG.1.table_start with h1 | ⟨x, hx, -, -⟩
    · exact h1
    · exact absurd hx (List.not_mem_nil x)
  have hclosure : ∀ u ∈ c, ∀ w, Step g u w → w ∈ c := by
    intro u hu w hstep
    by_contra hw
    obtain ⟨vw, vu, hvw, -, -⟩ := hG.2 u hu (List.not_mem_nil u) w hstep hw
    rcases hG.1.table_E w vw hvw with h1 | ⟨x, hx, -, -⟩
    · exact hw h1
    · exact absurd hx (List.not_mem_nil x)
  have hiff : ∀ c2, Reach g s c2 ↔ c2 ∈ c := by
    intro c2
    constructor
    · exact reach_mem_of_closed hs_closed hclosure
    · intro h1
      obtain ⟨v, hv⟩ := Option.isSome_iff_exists.1 (hG.1.closed_key c2 h1)
      exact reachN_reach (hG.1.table_path c2 v hv)
  refine ⟨rfl, hn, hs_closed, hclosure, ?_, hiff⟩
  intro hcon
  exact hG.1.e_not_closed ((hiff e).1 hcon)

theorem done_some_char0 {g : GridGraph} {s e : Cell} {hf : Cell → Cell → HVal}
    {st : SState} {p : List Cell} {n : ℕ} (hG : Good0 g s e hf st)
    (hd : searchStep g e hf st = .done (some p, n)) :
    ∃ cur rest, heappop st.open_list = some (cur, rest) ∧ cur.position = e ∧
      ChainOK g s cur ∧ p = cur.chain.reverse ∧ n = st.nodes_expanded + 1 ∧
      cur ∈ st.open_list ∧ e ∉ st.closed_set := by
  obtain ⟨o, c, t, n0⟩ := st
  rcases searchStep_char g e hf o c t n0 with ⟨hpop, hdone⟩ |
    ⟨cur, rest, hpop, ⟨hpos, hdone⟩ | ⟨hne, hcont⟩⟩
  · rw [hd] at hdone
    have h1 := StepResult.done.inj hdone
    exact absurd (Prod.ext_iff.1 h1).1 (fun h => Option.noConfusion h)
  · rw [hd] at hdone
    have h1 := StepResult.done.inj hdone
    have h2 := (Prod.ext_iff.1 h1).1
    have h3 : n = n0 + 1 := (Prod.ext_iff.1 h1).2
    have hp2 : p = cur.chain.reverse := Option.some.inj h2
    obtain ⟨hmem, -, -, -, -⟩ := pop_facts hG.1 hpop
    exact ⟨cur, rest, hpop, hpos, hG.1.open_node cur hmem, hp2, h3, hmem,
      hG.1.e_not_closed⟩
  · rw [hd] at hcont
    exact StepResult.noConfusion hcont

theorem front {g : GridGraph} {s e : Cell} {hf : Cell → Cell → HVal} {st : SState}
    (hp : Pre g s e hf st) (hnbE : ClosedNbExcept g st []) (hCO : ClosedOpt g s st) :
    ∀ (k : ℕ) (u : Cell), IsDist g s u k → u ∉ st.closed_set →
      ∃ x, x ∈ st.open_list ∧ ∃ i : ℕ, x.g = i ∧ IsDist g s x.position i ∧
        ReachN g x.position u (k - i) ∧ i ≤ k := by
  intro k
  induction k using Nat.strong_induction_on with
  | _ k ih =>
    intro u hdist hu
    rcases k with - | k'
    · have hu_s : u = s := reachN_zero hdist.1
      rcases hp.table_E s 0 hp.table_start with hcl | ⟨x, hx, hx1, hx2⟩
      · exact absurd hcl (hu_s ▸ hu)
      · refine ⟨x, hx, 0, hx2, ?_, ?_, le_refl 0⟩
        · rw [hx1]
          exact ⟨ReachN.refl, fun m _ => Nat.zero_le m⟩
        · rw [hx1, hu_s]
          exact ReachN.refl
    · obtain ⟨w, hw_reach, hw_step⟩ := reachN_succ hdist.1
      obtain ⟨d, hd, hdk⟩ := exists_isDist hw_reach
      have hdeq : d = k' := by
        have h1 : ReachN g s u (d + 1) := ReachN.tail hd.1 hw_step
        have h2 := hdist.2 (d + 1) h1
        omega
      subst hdeq
      by_cases hwc : w ∈ st.closed_set
      · obtain ⟨vu, hvu⟩ := Option.isSome_iff_exists.1 (hp.closed_key w hwc)
        have hvu_d : vu = d := isDist_unique (hCO w hwc vu hvu) hd
        obtain ⟨vw, vu', hvw, hvu', hle⟩ := hnbE w hwc (List.not_mem_nil w) u
          hw_step hu
        have hvu2 : vu' = vu := by
          rw [hvu] at hvu'
          exact (Option.some.inj hvu').symm
        have hvw_reach : ReachN g s u vw := hp.table_path u vw hvw
        have hvw_eq : vw = d + 1 := by
          have h1 := hdist.2 vw hvw_reach
          omega
        rcases hp.table_E u vw hvw with hcl2 | ⟨x, hx, hx1, hx2⟩
        · exact absurd hcl2 hu
        · refine ⟨x, hx, d + 1, by omega, ?_, ?_, le_refl _⟩
          · rw [hx1]
            exact hdist
          · rw [hx1]
            have h0 : d + 1 - (d + 1) = 0 := by omega
            rw [h0]
            exact ReachN.refl
      · obtain ⟨x, hx, i, hgi, hdi, hreach, hik⟩ := ih d (by omega) w hd hwc
        refine ⟨x, hx, i, hgi, hdi, ?_, by omega⟩
        have h1 : ReachN g x.position u (d - i + 1) := ReachN.tail hreach hw_step
        have h2 : d + 1 - i = d - i + 1 := by omega
        rw [h2]
        exact h1

theorem pop_optimal {g : GridGraph} {s e : Cell} {hf : Cell → Cell → HVal}
    {st : SState} (hcons : Consistent g e hf) (hp : Pre g s e hf st)
    (hnbE : ClosedNbExcept g st []) (hCO : ClosedOpt g s st) {cur : SNode}
    {rest : List SNode} (hpop : heappop st.open_list = some (cur, rest))
    (hnc : cur.position ∉ st.closed_set) : IsDist g s cur.position cur.g := by
  have htab := pop_nonstale hp hpop hnc
  have hreach : ReachN g s cur.position cur.g := hp.table_path _ _ htab
  obtain ⟨k, hk, hkle⟩ := exists_isDist hreach
  obtain ⟨hmem, -, -, hmin, -⟩ := pop_facts hp hpop
  obtain ⟨x, hx, i, hgi, hdi, hrch, hik⟩ := front hp hnbE hCO k cur.position hk hnc
  have h1 := hmin x hx
  have hcurk : cur.key = (cur.g : ℝ) + (hf cur.position e).toReal := by
    unfold SNode.key
    rw [hp.open_f cur hmem, HVal.toReal_addN]
  have hxk : x.key = (i : ℝ) + (hf x.position e).toReal := by
    unfold SNode.key
    rw [hp.open_f x hx, HVal.toReal_addN, hgi]
  have htel := consistent_telescope hcons hrch
  rw [hcurk, hxk] at h1
  have h3 : (i + (k - i) : ℕ) = k := by omega
  have h4 : (cur.g : ℝ) ≤ (k : ℝ) := by
    rw [← h3]
    push_cast
    linarith
  have h5 : cur.g ≤ k := by exact_mod_cast h4
  have h6 : cur.g = k := by omega
  rw [h6]
  exact hk

theorem searchStep_cont_good1 {g : GridGraph} {s e : Cell} {hf : Cell → Cell → HVal}
    {st st' : SState} (hcons : Consistent g e hf) (hG : Good1 g s e hf st)
    (h : searchStep g e hf st = .cont st') : Good1 g s e hf st' := by
  refine ⟨(searchStep_cont_good hG.1 h).1, ?_⟩
  obtain ⟨hG0, hCO⟩ := hG
  obtain ⟨o, c, t, n⟩ := st
  rcases searchStep_char g e hf o c t n with ⟨hpop, hdone⟩ |
    ⟨cur, rest, hpop, ⟨hpos, hdone⟩ | ⟨hne, hcont⟩⟩
  · rw [h] at hdone
    exact StepResult.noConfusion hdone
  · rw [h] at hdone
    exact StepResult.noConfusion hdone
  · rw [h] at hcont
    have hst' : st' = (g.get_neighbors cur.position).foldl (relaxOne hf e cur)
        (SState.mk rest (setAdd c cur.position) t (n + 1)) :=
      StepResult.cont.inj hcont
    by_cases hcl : cur.position ∈ c
    · have hsetadd : setAdd c cur.position = c := setAdd_eq_of_mem c cur.position hcl
      rw [hsetadd] at hst'
      have hnbE1 : ClosedNbExcept g (SState.mk rest c t (n + 1)) [] := hG0.2
      have hkey : ∃ vu, dictFind t cur.position = some vu :=
        Option.isSome_iff_exists.1 (hG0.1.closed_key cur.position hcl)
      have hsteps : ∀ x ∈ g.get_neighbors cur.position, Step g cur.position x :=
        fun x hx => hx
      have hfold : (g.get_neighbors cur.position).foldl (relaxOne hf e cur)
          (SState.mk rest c t (n + 1)) = SState.mk rest c t (n + 1) :=
        foldRelax_stale _ _ hcl hnbE1 hkey hsteps
      rw [hfold] at hst'
      subst hst'
      exact hCO
    · have hsetadd : setAdd c cur.position = cur.position :: c := by
        unfold setAdd
        rw [if_neg hcl]
      rw [hsetadd] at hst'
      have hopt : IsDist g s cur.position cur.g :=
        pop_optimal hcons hG0.1 hG0.2 hCO hpop hcl
      have htab : dictFind t cur.position = some cur.g :=
        pop_nonstale hG0.1 hpop hcl
      subst hst'
      intro u hu v hv
      have hclosed_eq : ((g.get_neighbors cur.position).foldl (relaxOne hf e cur)
          (SState.mk rest (cur.position :: c) t (n + 1))).closed_set =
          cur.position :: c :=
        foldRelax_closed_eq hf e cur _ _
      rw [hclosed_eq] at hu
      have hfrozen := foldRelax_closed_frozen hf e cur (g.get_neighbors cur.position)
        (SState.mk rest (cur.position :: c) t (n + 1)) hu
      rw [hfrozen] at hv
      have hv' : dictFind t u = some v := hv
      rcases List.mem_cons.1 hu with rfl | huc
      · have hveq : v = cur.g := by
          rw [htab] at hv'
          exact (Option.some.inj hv').symm
        rw [hveq]
        exact hopt
      · exact hCO u huc v hv'

theorem good1_init (g : GridGraph) (s e : Cell) (hf : Cell → Cell → HVal) :
    Good1 g s e hf (initState s e hf) := by
  refine ⟨good0_init g s e hf, ?_⟩
  intro u hu
  exact absurd hu (List.not_mem_nil u)

theorem searchLoop_run1 {g : GridGraph} {s e : Cell} {hf : Cell → Cell → HVal}
    (hcons : Consistent g e hf) :
    ∀ (fuel : ℕ) (st : SState) (res : Option (List Cell) × ℕ), Good1 g s e hf st →
      searchLoop g e hf fuel st = some res →
      ∃ stf, Good1 g s e hf stf ∧ searchStep g e hf stf = .done res
  | 0, _, _, _, h => Option.noConfusion h
  | fuel + 1, st, res, hG, h => by
    rcases hstep : searchStep g e hf st with r | st1
    · rw [searchLoop_done g e hf st r hstep fuel] at h
      refine ⟨st, hG, ?_⟩
      rw [hstep, Option.some.inj h]
    · rw [searchLoop_cont g e hf st st1 hstep fuel] at h
      exact searchLoop_run1 hcons fuel st1 res (searchStep_cont_good1 hcons hG hstep) h

theorem astar_some_valid {g : GridGraph} {s e : Cell} {hf : Cell → Cell → HVal}
    {p : List Cell} {n : ℕ} (hres : a_star_search g s e hf = some (some p, n)) :
    CodeValidPath g p s e ∧ ∃ d : ℕ, p.length = d + 1 ∧ ReachN g s e d := by
  obtain ⟨stf, hGf, hd⟩ := searchLoop_run (searchFuel g) (initState s e hf)
    (some p, n) (good0_init g s e hf) hres
  obtain ⟨cur, rest, hpop, hpos, hOK, hp2, -, -, -⟩ := done_some_char0 hGf hd
  have hvalid := chain_valid g s cur hOK
  rw [hpos] at hvalid
  rw [hp2]
  refine ⟨hvalid, cur.g, ?_, ?_⟩
  · rw [List.length_reverse, chain_length_eq g s cur hOK]
  · have := chainOK_reachN g s cur hOK
    rw [hpos] at this
    exact this

theorem astar_some_opt {g : GridGraph} {s e : Cell} {hf : Cell → Cell → HVal}
    {p : List Cell} {n : ℕ} (hcons : Consistent g e hf)
    (hres : a_star_search g s e hf = some (some p, n)) :
    CodeValidPath g p s e ∧ IsDist g s e (p.length - 1) := by
  obtain ⟨stf, hGf, hd⟩ := searchLoop_run1 hcons (searchFuel g) (initState s e hf)
    (some p, n) (good1_init g s e hf) hres
  obtain ⟨cur, rest, hpop, hpos, hOK, hp2, -, -, hec⟩ := done_some_char0 hGf.1 hd
  have hvalid := chain_valid g s cur hOK
  rw [hpos] at hvalid
  have hnc : cur.position ∉ stf.closed_set := by
    rw [hpos]
    exact hec
  have hopt := pop_optimal hcons hGf.1.1 hGf.1.2 hGf.2 hpop hnc
  rw [hpos] at hopt
  have hlen : p.length = cur.g + 1 := by
    rw [hp2, List.length_reverse, chain_length_eq g s cur hOK]
  rw [hp2]
  refine ⟨hvalid, ?_⟩
  have h1 : cur.chain.reverse.length - 1 = cur.g := by
    rw [List.length_reverse, chain_length_eq g s cur hOK]
    omega
  rw [h1]
  exact hopt

theorem astar_none_iff (g : GridGraph) (s e : Cell) (hf : Cell → Cell → HVal) :
    (∃ n, a_star_search g s e hf = some (none, n)) ↔ ¬ Reach g s e := by
  constructor
  · rintro ⟨n, hres⟩
    obtain ⟨stf, hGf, hd⟩ := searchLoop_run (searchFuel g) (initState s e hf)
      (none, n) (good0_init g s e hf) hres
    exact (done_none_char hGf hd).2.2.2.2.1
  · intro hur
    obtain ⟨⟨resP, n⟩, hres⟩ := a_star_search_total g s e hf
    rcases resP with - | p
    · exact ⟨n, hres⟩
    · obtain ⟨-, d, -, hreach⟩ := astar_some_valid hres
      exact absurd (reachN_reach hreach) hur

theorem astar_unreachable_count {g : GridGraph} {s e : Cell}
    {hf : Cell → Cell → HVal} (hur : ¬ Reach g s e) :
    ∃ n, a_star_search g s e hf = some (none, n) ∧
      Set.ncard {c | Reach g s c} ≤ n := by
  obtain ⟨n, hres⟩ := (astar_none_iff g s e hf).2 hur
  refine ⟨n, hres, ?_⟩
  obtain ⟨stf, hGf, hd⟩ := searchLoop_run (searchFuel g) (initState s e hf)
    (none, n) (good0_init g s e hf) hres
  obtain ⟨-, hn, -, -, -, hiff⟩ := done_none_char hGf hd
  have hset : {c | Reach g s c} = ↑stf.closed_set.toFinset := by
    ext c
    rw [Set.mem_setOf_eq]
    show Reach g s c ↔ c ∈ stf.closed_set.toFinset
    rw [List.mem_toFinset]
    exact hiff c
  rw [hset, Set.ncard_coe_Finset,
    List.toFinset_card_of_nodup hGf.1.closed_nodup, hn]
  exact hGf.1.count_closed

theorem in_bounds_iff (g : GridGraph) (c : Cell) :
    g.in_bounds c = true ↔ (0 ≤ c.1 ∧ c.1 < g.width) ∧ (0 ≤ c.2 ∧ c.2 < g.height) := by
  unfold GridGraph.in_bounds
  rw [Bool.and_eq_true, decide_eq_true_eq, decide_eq_true_eq]

theorem wallfree_passable {g : GridGraph} (hw : g.walls = ∅) (c : Cell) :
    g.passable c = true := by
  unfold GridGraph.passable
  rw [hw]
  simp

theorem step_of_candidate {g : GridGraph} {a b : Cell}
    (hcand : b = (a.1 + 1, a.2) ∨ b = (a.1 - 1, a.2) ∨ b = (a.1, a.2 + 1) ∨
      b = (a.1, a.2 - 1)) (hin : g.in_bounds b = true) (hpa : g.passable b = true) :
    Step g a b :=
  (mem_get_neighbors_iff g a b).2 ⟨hcand, hin, hpa⟩

theorem reachN_manhattan_le {g : GridGraph} {s c : Cell} {n : ℕ}
    (h : ReachN g s c n) : (s.1 - c.1).natAbs + (s.2 - c.2).natAbs ≤ n := by
  induction h with
  | refl => simp
  | tail hb hstep ih =>
    have hadj := step_adjacent hstep
    omega

theorem wallfree_reachN {g : GridGraph} (hw : g.walls = ∅) {s : Cell}
    (hs : g.in_bounds s = true) :
    ∀ (D : ℕ) (e : Cell), g.in_bounds e = true →
      (s.1 - e.1).natAbs + (s.2 - e.2).natAbs = D → ReachN g s e D := by
  intro D
  induction D using Nat.strong_induction_on with
  | _ D ih =>
    intro e he hD
    obtain ⟨⟨hsx0, hsxw⟩, hsy0, hsyh⟩ := (in_bounds_iff g s).1 hs
    obtain ⟨⟨hex0, hexw⟩, hey0, heyh⟩ := (in_bounds_iff g e).1 he
    rcases Nat.eq_zero_or_pos D with rfl | hpos
    · have hse : s = e := by
        obtain ⟨sx, sy⟩ := s
        obtain ⟨ex, ey⟩ := e
        simp only [Prod.mk.injEq]
        simp only at hD
        omega
      rw [← hse]
      exact ReachN.refl
    · have hcase : s.1 < e.1 ∨ e.1 < s.1 ∨ (s.1 = e.1 ∧ s.2 < e.2) ∨
          (s.1 = e.1 ∧ e.2 < s.2) := by
        omega
      rcases hcase with h1 | h1 | ⟨h1, h2⟩ | ⟨h1, h2⟩
      · have hin : g.in_bounds (e.1 - 1, e.2) = true :=
          (in_bounds_iff g _).2 ⟨⟨by omega, by omega⟩, by omega, by omega⟩
        have hstep : Step g (e.1 - 1, e.2) e :=
          step_of_candidate (Or.inl (by
            show e = (e.1 - 1 + 1, e.2)
            rw [show e.1 - 1 + 1 = e.1 from by ring])) he (wallfree_passable hw e)
        have hprev := ih (D - 1) (by omega) (e.1 - 1, e.2) hin (by
          simp only
          omega)
        have := ReachN.tail hprev hstep
        have hD1 : D - 1 + 1 = D := by omega
        rwa [hD1] at this
      · have hin : g.in_bounds (e.1 + 1, e.2) = true :=
          (in_bounds_iff g _).2 ⟨⟨by omega, by omega⟩, by omega, by omega⟩
        have hstep : Step g (e.1 + 1, e.2) e :=
          step_of_candidate (Or.inr (Or.inl (by
            show e = (e.1 + 1 - 1, e.2)
            rw [show e.1 + 1 - 1 = e.1 from by ring]))) he (wallfree_passable hw e)
        have hprev := ih (D - 1) (by omega) (e.1 + 1, e.2) hin (by
          simp only
          omega)
        have := ReachN.tail hprev hstep
        have hD1 : D - 1 + 1 = D := by omega
        rwa [hD1] at this
      · have hin : g.in_bounds (e.1, e.2 - 1) = true :=
          (in_bounds_iff g _).2 ⟨⟨by omega, by omega⟩, by omega, by omega⟩
        have hstep : Step g (e.1, e.2 - 1) e :=
          step_of_candidate (Or.inr (Or.inr (Or.inl (by
            show e = (e.1, e.2 - 1 + 1)
            rw [show e.2 - 1 + 1 = e.2 from by ring])))) he (wallfree_passable hw e)
        have hprev := ih (D - 1) (by omega) (e.1, e.2 - 1) hin (by
          simp only
          omega)
        have := ReachN.tail hprev hstep
        have hD1 : D - 1 + 1 = D := by omega
        rwa [hD1] at this
      · have hin : g.in_bounds (e.1, e.2 + 1) = true :=
          (in_bounds_iff g _).2 ⟨⟨by omega, by omega⟩, by omega, by omega⟩
        have hstep : Step g (e.1, e.2 + 1) e :=
          step_of_candidate (Or.inr (Or.inr (Or.inr (by
            show e = (e.1, e.2 + 1 - 1)
            rw [show e.2 + 1 - 1 = e.2 from by ring])))) he (wallfree_passable hw e)
        have hprev := ih (D - 1) (by omega) (e.1, e.2 + 1) hin (by
          simp only
          omega)
        have := ReachN.tail hprev hstep
        have hD1 : D - 1 + 1 = D := by omega
        rwa [hD1] at this

theorem wallfree_isDist {g : GridGraph} (hw : g.walls = ∅) {s e : Cell}
    (hs : g.in_bounds s = true) (he : g.in_bounds e = true) :
    IsDist g s e ((s.1 - e.1).natAbs + (s.2 - e.2).natAbs) :=
  ⟨wallfree_reachN hw hs _ e he rfl, fun m hm => reachN_manhattan_le hm⟩

theorem astar_wallfree {g : GridGraph} {s e : Cell} {hf : Cell → Cell → HVal}
    (hw : g.walls = ∅) (hs : g.in_bounds s = true) (he : g.in_bounds e = true)
    (hcons : Consistent g e hf) :
    ∃ p n, a_star_search g s e hf = some (some p, n) ∧
      p.length = (s.1 - e.1).natAbs + (s.2 - e.2).natAbs + 1 := by
  have hdist := wallfree_isDist hw hs he
  have hreach : Reach g s e := reachN_reach hdist.1
  obtain ⟨⟨resP, n⟩, hres⟩ := a_star_search_total g s e hf
  rcases resP with - | p
  · exact absurd hreach ((astar_none_iff g s e hf).1 ⟨n, hres⟩)
  · obtain ⟨hvalid, hopt⟩ := astar_some_opt hcons hres
    have hlen : p.length - 1 = (s.1 - e.1).natAbs + (s.2 - e.2).natAbs :=
      isDist_unique hopt hdist
    have hpos : 1 ≤ p.length := by
      rcases p with - | ⟨x, xs⟩
      · exact absurd hvalid.1 (fun hcon => Option.noConfusion hcon)
      · simp
    exact ⟨p, n, hres, by omega⟩

theorem astar_self (g : GridGraph) (c : Cell) (hf : Cell → Cell → HVal) :
    a_star_search g c c hf = some (some [c], 1) := by
  have hfuel : 0 < searchFuel g := by
    unfold searchFuel
    positivity
  obtain ⟨k, hk⟩ : ∃ k, searchFuel g = k + 1 := ⟨searchFuel g - 1, by omega⟩
  unfold a_star_search
  rw [hk]
  rcases searchStep_char g c hf
      [SNode.mk c none 0 (hf c c) (HVal.addN 0 (hf c c))] [] [(c, 0)] 0 with
    ⟨hp0, -⟩ | ⟨cur, rest, hp0, hcase⟩
  · rw [show heappop [SNode.mk c none 0 (hf c c) (HVal.addN 0 (hf c c))] =
      some (SNode.mk c none 0 (hf c c) (HVal.addN 0 (hf c c)), []) from rfl] at hp0
    exact Option.noConfusion hp0
  · rw [show heappop [SNode.mk c none 0 (hf c c) (HVal.addN 0 (hf c c))] =
      some (SNode.mk c none 0 (hf c c) (HVal.addN 0 (hf c c)), []) from rfl] at hp0
    have h1 := Option.some.inj hp0
    have hc1 : cur = SNode.mk c none 0 (hf c c) (HVal.addN 0 (hf c c)) :=
      (Prod.ext_iff.1 h1).1.symm
    subst hc1
    rcases hcase with ⟨hpos, hdone⟩ | ⟨hne, -⟩
    · have hinit : initState c c hf = SState.mk
          [SNode.mk c none 0 (hf c c) (HVal.addN 0 (hf c c))] [] [(c, 0)] 0 := rfl
      rw [hinit, searchLoop_done g c hf _ _ hdone k]
      rfl
    · exact absurd rfl hne

theorem searchLoopG_spec (e : Cell) (hf : Cell → Cell → HVal) :
    ∀ (fuel : ℕ) (g : GridGraph) (st : SState),
      searchLoopG e hf fuel (g, st) = (g, searchLoop g e hf fuel st)
  | 0, _, _ => rfl
  | fuel + 1, g, st => by
    show (match searchStep g e hf st with
      | .done r => (g, some r)
      | .cont st1 => searchLoopG e hf fuel (g, st1)) = _
    rcases hstep : searchStep g e hf st with r | st1
    · show (g, some r) = (g, searchLoop g e hf (fuel + 1) st)
      rw [searchLoop_done g e hf st r hstep fuel]
    · show searchLoopG e hf fuel (g, st1) = (g, searchLoop g e hf (fuel + 1) st)
      rw [searchLoopG_spec e hf fuel g st1, searchLoop_cont g e hf st st1 hstep fuel]

theorem runStep_table_mono {g : GridGraph} {e : Cell} {hf : Cell → Cell → HVal}
    {st st' : SState} (h : RunStep g e hf st st') {c : Cell} {v : ℕ}
    (hv : dictFind st.cost_so_far c = some v) :
    ∃ v', dictFind st'.cost_so_far c = some v' ∧ v' ≤ v := by
  obtain ⟨o, cl, t, n⟩ := st
  have h' : searchStep g e hf (SState.mk o cl t n) = .cont st' := h
  rcases searchStep_char g e hf o cl t n with ⟨hpop, hdone⟩ |
    ⟨cur, rest, hpop, ⟨hpos, hdone⟩ | ⟨hne, hcont⟩⟩
  · rw [h'] at hdone
    exact StepResult.noConfusion hdone
  · rw [h'] at hdone
    exact StepResult.noConfusion hdone
  · rw [h'] at hcont
    have hst' := StepResult.cont.inj hcont
    rw [hst']
    exact foldRelax_table_mono hf e cur (g.get_neighbors cur.position)
      (SState.mk rest (setAdd cl cur.position) t (n + 1)) hv

theorem runReaches_table_mono {g : GridGraph} {e : Cell} {hf : Cell → Cell → HVal}
    {st st' : SState} (h : RunReaches g e hf st st') {c : Cell} {v : ℕ}
    (hv : dictFind st.cost_so_far c = some v) :
    ∃ v', dictFind st'.cost_so_far c = some v' ∧ v' ≤ v := by
  induction h with
  | refl => exact ⟨v, hv, le_refl v⟩
  | tail hb hstep ih =>
    obtain ⟨v1, hv1, hle1⟩ := ih
    obtain ⟨v2, hv2, hle2⟩ := runStep_table_mono hstep hv1
    exact ⟨v2, hv2, le_trans hle2 hle1⟩

/-- Concrete run: on the 3 by 5 grid with walls at (0,1), (1,0) and (1,3), the search from (0,4) to (0,0) with the Manhattan heuristic returns no path with 12 expansions. -/
theorem cex_run_C5_man :
    a_star_search cexGridC5 (0, 4) (0, 0) heuristic_manhattan =
      some (none, 12) := by
  show searchLoop cexGridC5 (0, 0) heuristic_manhattan (searchFuel cexGridC5)
    (initState (0, 4) (0, 0) heuristic_manhattan) = _
  rw [show searchFuel cexGridC5 = 289 from rfl]
  rw [show initState (0, 4) (0, 0) heuristic_manhattan =
    (SState.mk [(SNode.mk (0, 4) none 0 ⟨4, 0⟩ ⟨4, 0⟩)] [] [((0, 4), 0)] 0) from rfl]
  rw [searchLoop_cont cexGridC5 (0, 0) heuristic_manhattan
    (SState.mk [(SNode.mk (0, 4) none 0 ⟨4, 0⟩ ⟨4, 0⟩)] [] [((0, 4), 0)] 0)
    (SState.mk [(SNode.mk (0, 3) (some (SNode.mk (0, 4) none 0 ⟨4, 0⟩ ⟨4, 0⟩)) 1 ⟨3, 0⟩ ⟨4, 0⟩), (SNode.mk (1, 4) (some (SNode.mk (0, 4) none 0 ⟨4, 0⟩ ⟨4, 0⟩)) 1 ⟨5, 0⟩ ⟨6, 0⟩)] [(0, 4)] [((0, 3), 1), ((1, 4), 1), ((0, 4), 0)] 1) rfl 288]
  rw [searchLoop_cont cexGridC5 (0, 0) heuristic_manhattan
    (SState.mk [(SNode.mk (0, 3) (some (SNode.mk (0, 4) none 0 ⟨4, 0⟩ ⟨4, 0⟩)) 1 ⟨3, 0⟩ ⟨4, 0⟩), (SNode.mk (1, 4) (some (SNode.mk (0, 4) none 0 ⟨4, 0⟩ ⟨4, 0⟩)) 1 ⟨5, 0⟩ ⟨6, 0⟩)] [(0, 4)] [((0, 3), 1), ((1, 4), 1), ((0, 4), 0)] 1)
    (SState.mk [(SNode.mk (0, 2) (some (SNode.mk (0, 3) (some (SNode.mk (0, 4) none 0 ⟨4, 0⟩ ⟨4, 0⟩)) 1 ⟨3, 0⟩ ⟨4, 0⟩)) 2 ⟨2, 0⟩ ⟨4, 0⟩), (SNode.mk (1, 4) (some (SNode.mk (0, 4) none 0 ⟨4, 0⟩ ⟨4, 0⟩)) 1 ⟨5, 0⟩ ⟨6, 0⟩)] [(0, 3), (0, 4)] [((0, 2), 2), ((0, 3), 1), ((1, 4), 1), ((0, 4), 0)] 2) rfl 287]
  rw [searchLoop_cont cexGridC5 (0, 0) heuristic_manhattan
    (SState.mk [(SNode.mk (0, 2) (some (SNode.mk (0, 3) (some (SNode.mk (0, 4) none 0 ⟨4, 0⟩ ⟨4, 0⟩)) 1 ⟨3, 0⟩ ⟨4, 0⟩)) 2 ⟨2, 0⟩ ⟨4, 0⟩), (SNode.mk (1, 4) (some (SNode.mk (0, 4) none 0 ⟨4, 0⟩ ⟨4, 0⟩)) 1 ⟨5, 0⟩ ⟨6, 0⟩)] [(0, 3), (0, 4)] [((0, 2), 2), ((0, 3), 1), ((1, 4), 1), ((0, 4), 0)] 2)
    (SState.mk [(SNode.mk (1, 4) (some (SNode.mk (0, 4) none 0 ⟨4, 0⟩ ⟨4, 0⟩)) 1 ⟨5, 0⟩ ⟨6, 0⟩), (SNode.mk (1, 2) (some (SNode.mk (0, 2) (some (SNode.mk (0, 3) (some (SNode.mk (0, 4) none 0 ⟨4, 0⟩ ⟨4, 0⟩)) 1 ⟨3, 0⟩ ⟨4, 0⟩)) 2 ⟨2, 0⟩ ⟨4, 0⟩)) 3 ⟨3, 0⟩ ⟨6, 0⟩)] [(0, 2), (0, 3), (0, 4)] [((1, 2), 3), ((0, 2), 2), ((0, 3), 1), ((1, 4), 1), ((0, 4), 0)] 3) rfl 286]
  rw [searchLoop_cont cexGridC5 (0, 0) heuristic_manhattan
    (SState.mk [(SNode.mk (1, 4) (some (SNode.mk (0, 4) none 0 ⟨4, 0⟩ ⟨4, 0⟩)) 1 ⟨5, 0⟩ ⟨6, 0⟩), (SNode.mk (1, 2) (some (SNode.mk (0, 2) (some (SNode.mk (0, 3) (some (SNode.mk (0, 4) none 0 ⟨4, 0⟩ ⟨4, 0⟩)) 1 ⟨3, 0⟩ ⟨4, 0⟩)) 2 ⟨2, 0⟩ ⟨4, 0⟩)) 3 ⟨3, 0⟩ ⟨6, 0⟩)] [(0, 2), (0, 3), (0, 4)] [((1, 2), 3), ((0, 2), 2), ((0, 3), 1), ((1, 4), 1), ((0, 4), 0)] 3)
    (SState.mk [(SNode.mk (1, 2) (some (SNode.mk (0, 2) (some (SNode.mk (0, 3) (some (SNode.mk (0, 4) none 0 ⟨4, 0⟩ ⟨4, 0⟩)) 1 ⟨3, 0⟩ ⟨4, 0⟩)) 2 ⟨2, 0⟩ ⟨4, 0⟩)) 3 ⟨3, 0⟩ ⟨6, 0⟩), (SNode.mk (2, 4) (some (SNode.mk (1, 4) (some (SNode.mk (0, 4) none 0 ⟨4, 0⟩ ⟨4, 0⟩)) 1 ⟨5, 0⟩ ⟨6, 0⟩)) 2 ⟨6, 0⟩ ⟨8, 0⟩)] [(1, 4), (0, 2), (0, 3), (0, 4)] [((2, 4), 2), ((1, 2), 3), ((0, 2), 2), ((0, 3), 1), ((1, 4), 1), ((0, 4), 0)] 4) rfl 285]
  rw [searchLoop_cont cexGridC5 (0, 0) heuristic_manhattan
    (SState.mk [(SNode.mk (1, 2) (some (SNode.mk (0, 2) (some (SNode.mk (0, 3) (some (SNode.mk (0, 4) none 0 ⟨4, 0⟩ ⟨4, 0⟩)) 1 ⟨3, 0⟩ ⟨4, 0⟩)) 2 ⟨2, 0⟩ ⟨4, 0⟩)) 3 ⟨3, 0⟩ ⟨6, 0⟩), (SNode.mk (2, 4) (some (SNode.mk (1, 4) (some (SNode.mk (0, 4) none 0 ⟨4, 0⟩ ⟨4, 0⟩)) 1 ⟨5, 0⟩ ⟨6, 0⟩)) 2 ⟨6, 0⟩ ⟨8, 0⟩)] [(1, 4), (0, 2), (0, 3), (0, 4)] [((2, 4), 2), ((1, 2), 3), ((0, 2), 2), ((0, 3), 1), ((1, 4), 1), ((0, 4), 0)] 4)
    (SState.mk [(SNode.mk (1, 1) (some (SNode.mk (1, 2) (some (SNode.mk (0, 2) (some (SNode.mk (0, 3) (some (SNode.mk (0, 4) none 0 ⟨4, 0⟩ ⟨4, 0⟩)) 1 ⟨3, 0⟩ ⟨4, 0⟩)) 2 ⟨2, 0⟩ ⟨4, 0⟩)) 3 ⟨3, 0⟩ ⟨6, 0⟩)) 4 ⟨2, 0⟩ ⟨6, 0⟩), (SNode.mk (2, 2) (some (SNode.mk (1, 2) (some (SNode.mk (0, 2) (some (SNode.mk (0, 3) (some (SNode.mk (0, 4) none 0 ⟨4, 0⟩ ⟨4, 0⟩)) 1 ⟨3, 0⟩ ⟨4, 0⟩)) 2 ⟨2, 0⟩ ⟨4, 0⟩)) 3 ⟨3, 0⟩ ⟨6, 0⟩)) 4 ⟨4, 0⟩ ⟨8, 0⟩), (SNode.mk (2, 4) (some (SNode.mk (1, 4) (some (SNode.mk (0, 4) none 0 ⟨4, 0⟩ ⟨4, 0⟩)) 1 ⟨5, 0⟩ ⟨6, 0⟩)) 2 ⟨6, 0⟩ ⟨8, 0⟩)] [(1, 2), (1, 4), (0, 2), (0, 3), (0, 4)] [((1, 1), 4), ((2, 2), 4), ((2, 4), 2), ((1, 2), 3), ((0, 2), 2), ((0, 3), 1), ((1, 4), 1), ((0, 4), 0)] 5) rfl 284]
  rw [searchLoop_cont cexGridC5 (0, 0) heuristic_manhattan
    (SState.mk [(SNode.mk (1, 1) (some (SNode.mk (1, 2) (some (SNode.mk (0, 2) (some (SNode.mk (0, 3) (some (SNode.mk (0, 4) none 0 ⟨4, 0⟩ ⟨4, 0⟩)) 1 ⟨3, 0⟩ ⟨4, 0⟩)) 2 ⟨2, 0⟩ ⟨4, 0⟩)) 3 ⟨3, 0⟩ ⟨6, 0⟩)) 4 ⟨2, 0⟩ ⟨6, 0⟩), (SNode.mk (2, 2) (some (SNode.mk (1, 2) (some (SNode.mk (0, 2) (some (SNode.mk (0, 3) (some (SNode.mk (0, 4) none 0 ⟨4, 0⟩ ⟨4, 0⟩)) 1 ⟨3, 0⟩ ⟨4, 0⟩)) 2 ⟨2, 0⟩ ⟨4, 0⟩)) 3 ⟨3, 0⟩ ⟨6, 0⟩)) 4 ⟨4, 0⟩ ⟨8, 0⟩), (SNode.mk (2, 4) (some (SNode.mk (1, 4) (some (SNode.mk (0, 4) none 0 ⟨4, 0⟩ ⟨4, 0⟩)) 1 ⟨5, 0⟩ ⟨6, 0⟩)) 2 ⟨6, 0⟩ ⟨8, 0⟩)] [(1, 2), (1, 4), (0, 2), (0, 3), (0, 4)] [((1, 1), 4), ((2, 2), 4), ((2, 4), 2), ((1, 2), 3), ((0, 2), 2), ((0, 3), 1), ((1, 4), 1), ((0, 4), 0)] 5)
    (SState.mk [(SNode.mk (2, 2) (some (SNode.mk (1, 2) (some (SNode.mk (0, 2) (some (SNode.mk (0, 3) (some (SNode.mk (0, 4) none 0 ⟨4, 0⟩ ⟨4, 0⟩)) 1 ⟨3, 0⟩ ⟨4, 0⟩)) 2 ⟨2, 0⟩ ⟨4, 0⟩)) 3 ⟨3, 0⟩ ⟨6, 0⟩)) 4 ⟨4, 0⟩ ⟨8, 0⟩), (SNode.mk (2, 4) (some (SNode.mk (1, 4) (some (SNode.mk (0, 4) none 0 ⟨4, 0⟩ ⟨4, 0⟩)) 1 ⟨5, 0⟩ ⟨6, 0⟩)) 2 ⟨6, 0⟩ ⟨8, 0⟩), (SNode.mk (2, 1) (some (SNode.mk (1, 1) (some (SNode.mk (1, 2) (some (SNode.mk (0, 2) (some (SNode.mk (0, 3) (some (SNode.mk (0, 4) none 0 ⟨4, 0⟩ ⟨4, 0⟩)) 1 ⟨3, 0⟩ ⟨4, 0⟩)) 2 ⟨2, 0⟩ ⟨4, 0⟩)) 3 ⟨3, 0⟩ ⟨6, 0⟩)) 4 ⟨2, 0⟩ ⟨6, 0⟩)) 5 ⟨3, 0⟩ ⟨8, 0⟩)] [(1, 1), (1, 2), (1, 4), (0, 2), (0, 3), (0, 4)] [((2, 1), 5), ((1, 1), 4), ((2, 2), 4), ((2, 4), 2), ((1, 2), 3), ((0, 2), 2), ((0, 3), 1), ((1, 4), 1), ((0, 4), 0)] 6) rfl 283]
  rw [searchLoop_cont cexGridC5 (0, 0) heuristic_manhattan
    (SState.mk [(SNode.mk (2, 2) (some (SNode.mk (1, 2) (some (SNode.mk (0, 2) (some (SNode.mk (0, 3) (some (SNode.mk (0, 4) none 0 ⟨4, 0⟩ ⟨4, 0⟩)) 1 ⟨3, 0⟩ ⟨4, 0⟩)) 2 ⟨2, 0⟩ ⟨4, 0⟩)) 3 ⟨3, 0⟩ ⟨6, 0⟩)) 4 ⟨4, 0⟩ ⟨8, 0⟩), (SNode.mk (2, 4) (some (SNode.mk (1, 4) (some (SNode.mk (0, 4) none 0 ⟨4, 0⟩ ⟨4, 0⟩)) 1 ⟨5, 0⟩ ⟨6, 0⟩)) 2 ⟨6, 0⟩ ⟨8, 0⟩), (SNode.mk (2, 1) (some (SNode.mk (1, 1) (some (SNode.mk (1, 2) (some (SNode.mk (0, 2) (some (SNode.mk (0, 3) (some (SNode.mk (0, 4) none 0 ⟨4, 0⟩ ⟨4, 0⟩)) 1 ⟨3, 0⟩ ⟨4, 0⟩)) 2 ⟨2, 0⟩ ⟨4, 0⟩)) 3 ⟨3, 0⟩ ⟨6, 0⟩)) 4 ⟨2, 0⟩ ⟨6, 0⟩)) 5 ⟨3, 0⟩ ⟨8, 0⟩)] [(1, 1), (1, 2), (1, 4), (0, 2), (0, 3), (0, 4)] [((2, 1), 5), ((1, 1), 4), ((2, 2), 4), ((2, 4), 2), ((1, 2), 3), ((0, 2), 2), ((0, 3), 1), ((1, 4), 1), ((0, 4), 0)] 6)
    (SState.mk [(SNode.mk (2, 4) (some (SNode.mk (1, 4) (some (SNode.mk (0, 4) none 0 ⟨4, 0⟩ ⟨4, 0⟩)) 1 ⟨5, 0⟩ ⟨6, 0⟩)) 2 ⟨6, 0⟩ ⟨8, 0⟩), (SNode.mk (2, 1) (some (SNode.mk (1, 1) (some (SNode.mk (1, 2) (some (SNode.mk (0, 2) (some (SNode.mk (0, 3) (some (SNode.mk (0, 4) none 0 ⟨4, 0⟩ ⟨4, 0⟩)) 1 ⟨3, 0⟩ ⟨4, 0⟩)) 2 ⟨2, 0⟩ ⟨4, 0⟩)) 3 ⟨3, 0⟩ ⟨6, 0⟩)) 4 ⟨2, 0⟩ ⟨6, 0⟩)) 5 ⟨3, 0⟩ ⟨8, 0⟩), (SNode.mk (2, 3) (some (SNode.mk (2, 2) (some (SNode.mk (1, 2) (some (SNode.mk (0, 2) (some (SNode.mk (0, 3) (some (SNode.mk (0, 4) none 0 ⟨4, 0⟩ ⟨4, 0⟩)) 1 ⟨3, 0⟩ ⟨4, 0⟩)) 2 ⟨2, 0⟩ ⟨4, 0⟩)) 3 ⟨3, 0⟩ ⟨6, 0⟩)) 4 ⟨4, 0⟩ ⟨8, 0⟩)) 5 ⟨5, 0⟩ ⟨10, 0⟩)] [(2, 2), (1, 1), (1, 2), (1, 4), (0, 2), (0, 3), (0, 4)] [((2, 3), 5), ((2, 1), 5), ((1, 1), 4), ((2, 2), 4), ((2, 4), 2), ((1, 2), 3), ((0, 2), 2), ((0, 3), 1), ((1, 4), 1), ((0, 4), 0)] 7) rfl 282]
  rw [searchLoop_cont cexGridC5 (0, 0) heuristic_manhattan
    (SState.mk [(SNode.mk (2, 4) (some (SNode.mk (1, 4) (some (SNode.mk (0, 4) none 0 ⟨4, 0⟩ ⟨4, 0⟩)) 1 ⟨5, 0⟩ ⟨6, 0⟩)) 2 ⟨6, 0⟩ ⟨8, 0⟩), (SNode.mk (2, 1) (some (SNode.mk (1, 1) (some (SNode.mk (1, 2) (some (SNode.mk (0, 2) (some (SNode.mk (0, 3) (some (SNode.mk (0, 4) none 0 ⟨4, 0⟩ ⟨4, 0⟩)) 1 ⟨3, 0⟩ ⟨4, 0⟩)) 2 ⟨2, 0⟩ ⟨4, 0⟩)) 3 ⟨3, 0⟩ ⟨6, 0⟩)) 4 ⟨2, 0⟩ ⟨6, 0⟩)) 5 ⟨3, 0⟩ ⟨8, 0⟩), (SNode.mk (2, 3) (some (SNode.mk (2, 2) (some (SNode.mk (1, 2) (some (SNode.mk (0, 2) (some (SNode.mk (0, 3) (some (SNode.mk (0, 4) none 0 ⟨4, 0⟩ ⟨4, 0⟩)) 1 ⟨3, 0⟩ ⟨4, 0⟩)) 2 ⟨2, 0⟩ ⟨4, 0⟩)) 3 ⟨3, 0⟩ ⟨6, 0⟩)) 4 ⟨4, 0⟩ ⟨8, 0⟩)) 5 ⟨5, 0⟩ ⟨10, 0⟩)] [(2, 2), (1, 1), (1, 2), (1, 4), (0, 2), (0, 3), (0, 4)] [((2, 3), 5), ((2, 1), 5), ((1, 1), 4), ((2, 2), 4), ((2, 4), 2), ((1, 2), 3), ((0, 2), 2), ((0, 3), 1), ((1, 4), 1), ((0, 4), 0)] 7)
    (SState.mk [(SNode.mk (2, 1) (some (SNode.mk (1, 1) (some (SNode.mk (1, 2) (some (SNode.mk (0, 2) (some (SNode.mk (0, 3) (some (SNode.mk (0, 4) none 0 ⟨4, 0⟩ ⟨4, 0⟩)) 1 ⟨3, 0⟩ ⟨4, 0⟩)) 2 ⟨2, 0⟩ ⟨4, 0⟩)) 3 ⟨3, 0⟩ ⟨6, 0⟩)) 4 ⟨2, 0⟩ ⟨6, 0⟩)) 5 ⟨3, 0⟩ ⟨8, 0⟩), (SNode.mk (2, 3) (some (SNode.mk (2, 2) (some (SNode.mk (1, 2) (some (SNode.mk (0, 2) (some (SNode.mk (0, 3) (some (SNode.mk (0, 4) none 0 ⟨4, 0⟩ ⟨4, 0⟩)) 1 ⟨3, 0⟩ ⟨4, 0⟩)) 2 ⟨2, 0⟩ ⟨4, 0⟩)) 3 ⟨3, 0⟩ ⟨6, 0⟩)) 4 ⟨4, 0⟩ ⟨8, 0⟩)) 5 ⟨5, 0⟩ ⟨10, 0⟩), (SNode.mk (2, 3) (some (SNode.mk (2, 4) (some (SNode.mk (1, 4) (some (SNode.mk (0, 4) none 0 ⟨4, 0⟩ ⟨4, 0⟩)) 1 ⟨5, 0⟩ ⟨6, 0⟩)) 2 ⟨6, 0⟩ ⟨8, 0⟩)) 3 ⟨5, 0⟩ ⟨8, 0⟩)] [(2, 4), (2, 2), (1, 1), (1, 2), (1, 4), (0, 2), (0, 3), (0, 4)] [((2, 3), 3), ((2, 3), 5), ((2, 1), 5), ((1, 1), 4), ((2, 2), 4), ((2, 4), 2), ((1, 2), 3), ((0, 2), 2), ((0, 3), 1), ((1, 4), 1), ((0, 4), 0)] 8) rfl 281]
  rw [searchLoop_cont cexGridC5 (0, 0) heuristic_manhattan
    (SState.mk [(SNode.mk (2, 1) (some (SNode.mk (1, 1) (some (SNode.mk (1, 2) (some (SNode.mk (0, 2) (some (SNode.mk (0, 3) (some (SNode.mk (0, 4) none 0 ⟨4, 0⟩ ⟨4, 0⟩)) 1 ⟨3, 0⟩ ⟨4, 0⟩)) 2 ⟨2, 0⟩ ⟨4, 0⟩)) 3 ⟨3, 0⟩ ⟨6, 0⟩)) 4 ⟨2, 0⟩ ⟨6, 0⟩)) 5 ⟨3, 0⟩ ⟨8, 0⟩), (SNode.mk (2, 3) (some (SNode.mk (2, 2) (some (SNode.mk (1, 2) (some (SNode.mk (0, 2) (some (SNode.mk (0, 3) (some (SNode.mk (0, 4) none 0 ⟨4, 0⟩ ⟨4, 0⟩)) 1 ⟨3, 0⟩ ⟨4, 0⟩)) 2 ⟨2, 0⟩ ⟨4, 0⟩)) 3 ⟨3, 0⟩ ⟨6, 0⟩)) 4 ⟨4, 0⟩ ⟨8, 0⟩)) 5 ⟨5, 0⟩ ⟨10, 0⟩), (SNode.mk (2, 3) (some (SNode.mk (2, 4) (some (SNode.mk (1, 4) (some (SNode.mk (0, 4) none 0 ⟨4, 0⟩ ⟨4, 0⟩)) 1 ⟨5, 0⟩ ⟨6, 0⟩)) 2 ⟨6, 0⟩ ⟨8, 0⟩)) 3 ⟨5, 0⟩ ⟨8, 0⟩)] [(2, 4), (2, 2), (1, 1), (1, 2), (1, 4), (0, 2), (0, 3), (0, 4)] [((2, 3), 3), ((2, 3), 5), ((2, 1), 5), ((1, 1), 4), ((2, 2), 4), ((2, 4), 2), ((1, 2), 3), ((0, 2), 2), ((0, 3), 1), ((1, 4), 1), ((0, 4), 0)] 8)
    (SState.mk [(SNode.mk (2, 3) (some (SNode.mk (2, 4) (some (SNode.mk (1, 4) (some (SNode.mk (0, 4) none 0 ⟨4, 0⟩ ⟨4, 0⟩)) 1 ⟨5, 0⟩ ⟨6, 0⟩)) 2 ⟨6, 0⟩ ⟨8, 0⟩)) 3 ⟨5, 0⟩ ⟨8, 0⟩), (SNode.mk (2, 3) (some (SNode.mk (2, 2) (some (SNode.mk (1, 2) (some (SNode.mk (0, 2) (some (SNode.mk (0, 3) (some (SNode.mk (0, 4) none 0 ⟨4, 0⟩ ⟨4, 0⟩)) 1 ⟨3, 0⟩ ⟨4, 0⟩)) 2 ⟨2, 0⟩ ⟨4, 0⟩)) 3 ⟨3, 0⟩ ⟨6, 0⟩)) 4 ⟨4, 0⟩ ⟨8, 0⟩)) 5 ⟨5, 0⟩ ⟨10, 0⟩), (SNode.mk (2, 0) (some (SNode.mk (2, 1) (some (SNode.mk (1, 1) (some (SNode.mk (1, 2) (some (SNode.mk (0, 2) (some (SNode.mk (0, 3) (some (SNode.mk (0, 4) none 0 ⟨4, 0⟩ ⟨4, 0⟩)) 1 ⟨3, 0⟩ ⟨4, 0⟩)) 2 ⟨2, 0⟩ ⟨4, 0⟩)) 3 ⟨3, 0⟩ ⟨6, 0⟩)) 4 ⟨2, 0⟩ ⟨6, 0⟩)) 5 ⟨3, 0⟩ ⟨8, 0⟩)) 6 ⟨2, 0⟩ ⟨8, 0⟩)] [(2, 1), (2, 4), (2, 2), (1, 1), (1, 2), (1, 4), (0, 2), (0, 3), (0, 4)] [((2, 0), 6), ((2, 3), 3), ((2, 3), 5), ((2, 1), 5), ((1, 1), 4), ((2, 2), 4), ((2, 4), 2), ((1, 2), 3), ((0, 2), 2), ((0, 3), 1), ((1, 4), 1), ((0, 4), 0)] 9) rfl 280]
  rw [searchLoop_cont cexGridC5 (0, 0) heuristic_manhattan
    (SState.mk [(SNode.mk (2, 3) (some (SNode.mk (2, 4) (some (SNode.mk (1, 4) (some (SNode.mk (0, 4) none 0 ⟨4, 0⟩ ⟨4, 0⟩)) 1 ⟨5, 0⟩ ⟨6, 0⟩)) 2 ⟨6, 0⟩ ⟨8, 0⟩)) 3 ⟨5, 0⟩ ⟨8, 0⟩), (SNode.mk (2, 3) (some (SNode.mk (2, 2) (some (SNode.mk (1, 2) (some (SNode.mk (0, 2) (some (SNode.mk (0, 3) (some (SNode.mk (0, 4) none 0 ⟨4, 0⟩ ⟨4, 0⟩)) 1 ⟨3, 0⟩ ⟨4, 0⟩)) 2 ⟨2, 0⟩ ⟨4, 0⟩)) 3 ⟨3, 0⟩ ⟨6, 0⟩)) 4 ⟨4, 0⟩ ⟨8, 0⟩)) 5 ⟨5, 0⟩ ⟨10, 0⟩), (SNode.mk (2, 0) (some (SNode.mk (2, 1) (some (SNode.mk (1, 1) (some (SNode.mk (1, 2) (some (SNode.mk (0, 2) (some (SNode.mk (0, 3) (some (SNode.mk (0, 4) none 0 ⟨4, 0⟩ ⟨4, 0⟩)) 1 ⟨3, 0⟩ ⟨4, 0⟩)) 2 ⟨2, 0⟩ ⟨4, 0⟩)) 3 ⟨3, 0⟩ ⟨6, 0⟩)) 4 ⟨2, 0⟩ ⟨6, 0⟩)) 5 ⟨3, 0⟩ ⟨8, 0⟩)) 6 ⟨2, 0⟩ ⟨8, 0⟩)] [(2, 1), (2, 4), (2, 2), (1, 1), (1, 2), (1, 4), (0, 2), (0, 3), (0, 4)] [((2, 0), 6), ((2, 3), 3), ((2, 3), 5), ((2, 1), 5), ((1, 1), 4), ((2, 2), 4), ((2, 4), 2), ((1, 2), 3), ((0, 2), 2), ((0, 3), 1), ((1, 4), 1), ((0, 4), 0)] 9)
    (SState.mk [(SNode.mk (2, 0) (some (SNode.mk (2, 1) (some (SNode.mk (1, 1) (some (SNode.mk (1, 2) (some (SNode.mk (0, 2) (some (SNode.mk (0, 3) (some (SNode.mk (0, 4) none 0 ⟨4, 0⟩ ⟨4, 0⟩)) 1 ⟨3, 0⟩ ⟨4, 0⟩)) 2 ⟨2, 0⟩ ⟨4, 0⟩)) 3 ⟨3, 0⟩ ⟨6, 0⟩)) 4 ⟨2, 0⟩ ⟨6, 0⟩)) 5 ⟨3, 0⟩ ⟨8, 0⟩)) 6 ⟨2, 0⟩ ⟨8, 0⟩), (SNode.mk (2, 3) (some (SNode.mk (2, 2) (some (SNode.mk (1, 2) (some (SNode.mk (0, 2) (some (SNode.mk (0, 3) (some (SNode.mk (0, 4) none 0 ⟨4, 0⟩ ⟨4, 0⟩)) 1 ⟨3, 0⟩ ⟨4, 0⟩)) 2 ⟨2, 0⟩ ⟨4, 0⟩)) 3 ⟨3, 0⟩ ⟨6, 0⟩)) 4 ⟨4, 0⟩ ⟨8, 0⟩)) 5 ⟨5, 0⟩ ⟨10, 0⟩)] [(2, 3), (2, 1), (2, 4), (2, 2), (1, 1), (1, 2), (1, 4), (0, 2), (0, 3), (0, 4)] [((2, 0), 6), ((2, 3), 3), ((2, 3), 5), ((2, 1), 5), ((1, 1), 4), ((2, 2), 4), ((2, 4), 2), ((1, 2), 3), ((0, 2), 2), ((0, 3), 1), ((1, 4), 1), ((0, 4), 0)] 10) rfl 279]
  rw [searchLoop_cont cexGridC5 (0, 0) heuristic_manhattan
    (SState.mk [(SNode.mk (2, 0) (some (SNode.mk (2, 1) (some (SNode.mk (1, 1) (some (SNode.mk (1, 2) (some (SNode.mk (0, 2) (some (SNode.mk (0, 3) (some (SNode.mk (0, 4) none 0 ⟨4, 0⟩ ⟨4, 0⟩)) 1 ⟨3, 0⟩ ⟨4, 0⟩)) 2 ⟨2, 0⟩ ⟨4, 0⟩)) 3 ⟨3, 0⟩ ⟨6, 0⟩)) 4 ⟨2, 0⟩ ⟨6, 0⟩)) 5 ⟨3, 0⟩ ⟨8, 0⟩)) 6 ⟨2, 0⟩ ⟨8, 0⟩), (SNode.mk (2, 3) (some (SNode.mk (2, 2) (some (SNode.mk (1, 2) (some (SNode.mk (0, 2) (some (SNode.mk (0, 3) (some (SNode.mk (0, 4) none 0 ⟨4, 0⟩ ⟨4, 0⟩)) 1 ⟨3, 0⟩ ⟨4, 0⟩)) 2 ⟨2, 0⟩ ⟨4, 0⟩)) 3 ⟨3, 0⟩ ⟨6, 0⟩)) 4 ⟨4, 0⟩ ⟨8, 0⟩)) 5 ⟨5, 0⟩ ⟨10, 0⟩)] [(2, 3), (2, 1), (2, 4), (2, 2), (1, 1), (1, 2), (1, 4), (0, 2), (0, 3), (0, 4)] [((2, 0), 6), ((2, 3), 3), ((2, 3), 5), ((2, 1), 5), ((1, 1), 4), ((2, 2), 4), ((2, 4), 2), ((1, 2), 3), ((0, 2), 2), ((0, 3), 1), ((1, 4), 1), ((0, 4), 0)] 10)
    (SState.mk [(SNode.mk (2, 3) (some (SNode.mk (2, 2) (some (SNode.mk (1, 2) (some (SNode.mk (0, 2) (some (SNode.mk (0, 3) (some (SNode.mk (0, 4) none 0 ⟨4, 0⟩ ⟨4, 0⟩)) 1 ⟨3, 0⟩ ⟨4, 0⟩)) 2 ⟨2, 0⟩ ⟨4, 0⟩)) 3 ⟨3, 0⟩ ⟨6, 0⟩)) 4 ⟨4, 0⟩ ⟨8, 0⟩)) 5 ⟨5, 0⟩ ⟨10, 0⟩)] [(2, 0), (2, 3), (2, 1), (2, 4), (2, 2), (1, 1), (1, 2), (1, 4), (0, 2), (0, 3), (0, 4)] [((2, 0), 6), ((2, 3), 3), ((2, 3), 5), ((2, 1), 5), ((1, 1), 4), ((2, 2), 4), ((2, 4), 2), ((1, 2), 3), ((0, 2), 2), ((0, 3), 1), ((1, 4), 1), ((0, 4), 0)] 11) rfl 278]
  rw [searchLoop_cont cexGridC5 (0, 0) heuristic_manhattan
    (SState.mk [(SNode.mk (2, 3) (some (SNode.mk (2, 2) (some (SNode.mk (1, 2) (some (SNode.mk (0, 2) (some (SNode.mk (0, 3) (some (SNode.mk (0, 4) none 0 ⟨4, 0⟩ ⟨4, 0⟩)) 1 ⟨3, 0⟩ ⟨4, 0⟩)) 2 ⟨2, 0⟩ ⟨4, 0⟩)) 3 ⟨3, 0⟩ ⟨6, 0⟩)) 4 ⟨4, 0⟩ ⟨8, 0⟩)) 5 ⟨5, 0⟩ ⟨10, 0⟩)] [(2, 0), (2, 3), (2, 1), (2, 4), (2, 2), (1, 1), (1, 2), (1, 4), (0, 2), (0, 3), (0, 4)] [((2, 0), 6), ((2, 3), 3), ((2, 3), 5), ((2, 1), 5), ((1, 1), 4), ((2, 2), 4), ((2, 4), 2), ((1, 2), 3), ((0, 2), 2), ((0, 3), 1), ((1, 4), 1), ((0, 4), 0)] 11)
    (SState.mk [] [(2, 0), (2, 3), (2, 1), (2, 4), (2, 2), (1, 1), (1, 2), (1, 4), (0, 2), (0, 3), (0, 4)] [((2, 0), 6), ((2, 3), 3), ((2, 3), 5), ((2, 1), 5), ((1, 1), 4), ((2, 2), 4), ((2, 4), 2), ((1, 2), 3), ((0, 2), 2), ((0, 3), 1), ((1, 4), 1), ((0, 4), 0)] 12) rfl 277]
  exact searchLoop_done cexGridC5 (0, 0) heuristic_manhattan
    (SState.mk [] [(2, 0), (2, 3), (2, 1), (2, 4), (2, 2), (1, 1), (1, 2), (1, 4), (0, 2), (0, 3), (0, 4)] [((2, 0), 6), ((2, 3), 3), ((2, 3), 5), ((2, 1), 5), ((1, 1), 4), ((2, 2), 4), ((2, 4), 2), ((1, 2), 3), ((0, 2), 2), ((0, 3), 1), ((1, 4), 1), ((0, 4), 0)] 12)
    (none, 12) rfl 276

/-- Concrete run: on the 1 by 1 wall-free grid, the search from the out-of-bounds but passable start (-1,0) to (0,0) returns the path [(-1,0), (0,0)], which leaves the grid. -/
theorem cex_run_C1 :
    a_star_search cexGridC1 ((-1 : ℤ), 0) (0, 0) heuristic_manhattan =
      some (some [((-1 : ℤ), 0), (0, 0)], 2) := by
  show searchLoop cexGridC1 (0, 0) heuristic_manhattan (searchFuel cexGridC1)
    (initState ((-1 : ℤ), 0) (0, 0) heuristic_manhattan) = _
  rw [show searchFuel cexGridC1 = 9 from rfl]
  rw [show initState ((-1 : ℤ), 0) (0, 0) heuristic_manhattan =
    (SState.mk [(SNode.mk ((-1 : ℤ), 0) none 0 ⟨1, 0⟩ ⟨1, 0⟩)] [] [(((-1 : ℤ), 0), 0)] 0) from rfl]
  rw [searchLoop_cont cexGridC1 (0, 0) heuristic_manhattan
    (SState.mk [(SNode.mk ((-1 : ℤ), 0) none 0 ⟨1, 0⟩ ⟨1, 0⟩)] [] [(((-1 : ℤ), 0), 0)] 0)
    (SState.mk [(SNode.mk (0, 0) (some (SNode.mk ((-1 : ℤ), 0) none 0 ⟨1, 0⟩ ⟨1, 0⟩)) 1 ⟨0, 0⟩ ⟨1, 0⟩)] [((-1 : ℤ), 0)] [((0, 0), 1), (((-1 : ℤ), 0), 0)] 1) rfl 8]
  exact searchLoop_done cexGridC1 (0, 0) heuristic_manhattan
    (SState.mk [(SNode.mk (0, 0) (some (SNode.mk ((-1 : ℤ), 0) none 0 ⟨1, 0⟩ ⟨1, 0⟩)) 1 ⟨0, 0⟩ ⟨1, 0⟩)] [((-1 : ℤ), 0)] [((0, 0), 1), (((-1 : ℤ), 0), 0)] 1)
    (some [((-1 : ℤ), 0), (0, 0)], 2) rfl 7

/-- Concrete run: on the 2 by 6 wall-free grid from (0,0) to (1,4), the Manhattan heuristic expands 10 nodes. -/
theorem cex_run_C6_man :
    a_star_search cexGridC6 (0, 0) (1, 4) heuristic_manhattan =
      some (some [(0, 0), (1, 0), (1, 1), (1, 2), (1, 3), (1, 4)], 10) := by
  show searchLoop cexGridC6 (1, 4) heuristic_manhattan (searchFuel cexGridC6)
    (initState (0, 0) (1, 4) heuristic_manhattan) = _
  rw [show searchFuel cexGridC6 = 196 from rfl]
  rw [show initState (0, 0) (1, 4) heuristic_manhattan =
    (SState.mk [(SNode.mk (0, 0) none 0 ⟨5, 0⟩ ⟨5, 0⟩)] [] [((0, 0), 0)] 0) from rfl]
  rw [searchLoop_cont cexGridC6 (1, 4) heuristic_manhattan
    (SState.mk [(SNode.mk (0, 0) none 0 ⟨5, 0⟩ ⟨5, 0⟩)] [] [((0, 0), 0)] 0)
    (SState.mk [(SNode.mk (1, 0) (some (SNode.mk (0, 0) none 0 ⟨5, 0⟩ ⟨5, 0⟩)) 1 ⟨4, 0⟩ ⟨5, 0⟩), (SNode.mk (0, 1) (some (SNode.mk (0, 0) none 0 ⟨5, 0⟩ ⟨5, 0⟩)) 1 ⟨4, 0⟩ ⟨5, 0⟩)] [(0, 0)] [((0, 1), 1), ((1, 0), 1), ((0, 0), 0)] 1) rfl 195]
  rw [searchLoop_cont cexGridC6 (1, 4) heuristic_manhattan
    (SState.mk [(SNode.mk (1, 0) (some (SNode.mk (0, 0) none 0 ⟨5, 0⟩ ⟨5, 0⟩)) 1 ⟨4, 0⟩ ⟨5, 0⟩), (SNode.mk (0, 1) (some (SNode.mk (0, 0) none 0 ⟨5, 0⟩ ⟨5, 0⟩)) 1 ⟨4, 0⟩ ⟨5, 0⟩)] [(0, 0)] [((0, 1), 1), ((1, 0), 1), ((0, 0), 0)] 1)
    (SState.mk [(SNode.mk (0, 1) (some (SNode.mk (0, 0) none 0 ⟨5, 0⟩ ⟨5, 0⟩)) 1 ⟨4, 0⟩ ⟨5, 0⟩), (SNode.mk (1, 1) (some (SNode.mk (1, 0) (some (SNode.mk (0, 0) none 0 ⟨5, 0⟩ ⟨5, 0⟩)) 1 ⟨4, 0⟩ ⟨5, 0⟩)) 2 ⟨3, 0⟩ ⟨5, 0⟩)] [(1, 0), (0, 0)] [((1, 1), 2), ((0, 1), 1), ((1, 0), 1), ((0, 0), 0)] 2) rfl 194]
  rw [searchLoop_cont cexGridC6 (1, 4) heuristic_manhattan
    (SState.mk [(SNode.mk (0, 1) (some (SNode.mk (0, 0) none 0 ⟨5, 0⟩ ⟨5, 0⟩)) 1 ⟨4, 0⟩ ⟨5, 0⟩), (SNode.mk (1, 1) (some (SNode.mk (1, 0) (some (SNode.mk (0, 0) none 0 ⟨5, 0⟩ ⟨5, 0⟩)) 1 ⟨4, 0⟩ ⟨5, 0⟩)) 2 ⟨3, 0⟩ ⟨5, 0⟩)] [(1, 0), (0, 0)] [((1, 1), 2), ((0, 1), 1), ((1, 0), 1), ((0, 0), 0)] 2)
    (SState.mk [(SNode.mk (1, 1) (some (SNode.mk (1, 0) (some (SNode.mk (0, 0) none 0 ⟨5, 0⟩ ⟨5, 0⟩)) 1 ⟨4, 0⟩ ⟨5, 0⟩)) 2 ⟨3, 0⟩ ⟨5, 0⟩), (SNode.mk (0, 2) (some (SNode.mk (0, 1) (some (SNode.mk (0, 0) none 0 ⟨5, 0⟩ ⟨5, 0⟩)) 1 ⟨4, 0⟩ ⟨5, 0⟩)) 2 ⟨3, 0⟩ ⟨5, 0⟩)] [(0, 1), (1, 0), (0, 0)] [((0, 2), 2), ((1, 1), 2), ((0, 1), 1), ((1, 0), 1), ((0, 0), 0)] 3) rfl 193]
  rw [searchLoop_cont cexGridC6 (1, 4) heuristic_manhattan
    (SState.mk [(SNode.mk (1, 1) (some (SNode.mk (1, 0) (some (SNode.mk (0, 0) none 0 ⟨5, 0⟩ ⟨5, 0⟩)) 1 ⟨4, 0⟩ ⟨5, 0⟩)) 2 ⟨3, 0⟩ ⟨5, 0⟩), (SNode.mk (0, 2) (some (SNode.mk (0, 1) (some (SNode.mk (0, 0) none 0 ⟨5, 0⟩ ⟨5, 0⟩)) 1 ⟨4, 0⟩ ⟨5, 0⟩)) 2 ⟨3, 0⟩ ⟨5, 0⟩)] [(0, 1), (1, 0), (0, 0)] [((0, 2), 2), ((1, 1), 2), ((0, 1), 1), ((1, 0), 1), ((0, 0), 0)] 3)
    (SState.mk [(SNode.mk (0, 2) (some (SNode.mk (0, 1) (some (SNode.mk (0, 0) none 0 ⟨5, 0⟩ ⟨5, 0⟩)) 1 ⟨4, 0⟩ ⟨5, 0⟩)) 2 ⟨3, 0⟩ ⟨5, 0⟩), (SNode.mk (1, 2) (some (SNode.mk (1, 1) (some (SNode.mk (1, 0) (some (SNode.mk (0, 0) none 0 ⟨5, 0⟩ ⟨5, 0⟩)) 1 ⟨4, 0⟩ ⟨5, 0⟩)) 2 ⟨3, 0⟩ ⟨5, 0⟩)) 3 ⟨2, 0⟩ ⟨5, 0⟩)] [(1, 1), (0, 1), (1, 0), (0, 0)] [((1, 2), 3), ((0, 2), 2), ((1, 1), 2), ((0, 1), 1), ((1, 0), 1), ((0, 0), 0)] 4) rfl 192]
  rw [searchLoop_cont cexGridC6 (1, 4) heuristic_manhattan
    (SState.mk [(SNode.mk (0, 2) (some (SNode.mk (0, 1) (some (SNode.mk (0, 0) none 0 ⟨5, 0⟩ ⟨5, 0⟩)) 1 ⟨4, 0⟩ ⟨5, 0⟩)) 2 ⟨3, 0⟩ ⟨5, 0⟩), (SNode.mk (1, 2) (some (SNode.mk (1, 1) (some (SNode.mk (1, 0) (some (SNode.mk (0, 0) none 0 ⟨5, 0⟩ ⟨5, 0⟩)) 1 ⟨4, 0⟩ ⟨5, 0⟩)) 2 ⟨3, 0⟩ ⟨5, 0⟩)) 3 ⟨2, 0⟩ ⟨5, 0⟩)] [(1, 1), (0, 1), (1, 0), (0, 0)] [((1, 2), 3), ((0, 2), 2), ((1, 1), 2), ((0, 1), 1), ((1, 0), 1), ((0, 0), 0)] 4)
    (SState.mk [(SNode.mk (1, 2) (some (SNode.mk (1, 1) (some (SNode.mk (1, 0) (some (SNode.mk (0, 0) none 0 ⟨5, 0⟩ ⟨5, 0⟩)) 1 ⟨4, 0⟩ ⟨5, 0⟩)) 2 ⟨3, 0⟩ ⟨5, 0⟩)) 3 ⟨2, 0⟩ ⟨5, 0⟩), (SNode.mk (0, 3) (some (SNode.mk (0, 2) (some (SNode.mk (0, 1) (some (SNode.mk (0, 0) none 0 ⟨5, 0⟩ ⟨5, 0⟩)) 1 ⟨4, 0⟩ ⟨5, 0⟩)) 2 ⟨3, 0⟩ ⟨5, 0⟩)) 3 ⟨2, 0⟩ ⟨5, 0⟩)] [(0, 2), (1, 1), (0, 1), (1, 0), (0, 0)] [((0, 3), 3), ((1, 2), 3), ((0, 2), 2), ((1, 1), 2), ((0, 1), 1), ((1, 0), 1), ((0, 0), 0)] 5) rfl 191]
  rw [searchLoop_cont cexGridC6 (1, 4) heuristic_manhattan
    (SState.mk [(SNode.mk (1, 2) (some (SNode.mk (1, 1) (some (SNode.mk (1, 0) (some (SNode.mk (0, 0) none 0 ⟨5, 0⟩ ⟨5, 0⟩)) 1 ⟨4, 0⟩ ⟨5, 0⟩)) 2 ⟨3, 0⟩ ⟨5, 0⟩)) 3 ⟨2, 0⟩ ⟨5, 0⟩), (SNode.mk (0, 3) (some (SNode.mk (0, 2) (some (SNode.mk (0, 1) (some (SNode.mk (0, 0) none 0 ⟨5, 0⟩ ⟨5, 0⟩)) 1 ⟨4, 0⟩ ⟨5, 0⟩)) 2 ⟨3, 0⟩ ⟨5, 0⟩)) 3 ⟨2, 0⟩ ⟨5, 0⟩)] [(0, 2), (1, 1), (0, 1), (1, 0), (0, 0)] [((0, 3), 3), ((1, 2), 3), ((0, 2), 2), ((1, 1), 2), ((0, 1), 1), ((1, 0), 1), ((0, 0), 0)] 5)
    (SState.mk [(SNode.mk (0, 3) (some (SNode.mk (0, 2) (some (SNode.mk (0, 1) (some (SNode.mk (0, 0) none 0 ⟨5, 0⟩ ⟨5, 0⟩)) 1 ⟨4, 0⟩ ⟨5, 0⟩)) 2 ⟨3, 0⟩ ⟨5, 0⟩)) 3 ⟨2, 0⟩ ⟨5, 0⟩), (SNode.mk (1, 3) (some (SNode.mk (1, 2) (some (SNode.mk (1, 1) (some (SNode.mk (1, 0) (some (SNode.mk (0, 0) none 0 ⟨5, 0⟩ ⟨5, 0⟩)) 1 ⟨4, 0⟩ ⟨5, 0⟩)) 2 ⟨3, 0⟩ ⟨5, 0⟩)) 3 ⟨2, 0⟩ ⟨5, 0⟩)) 4 ⟨1, 0⟩ ⟨5, 0⟩)] [(1, 2), (0, 2), (1, 1), (0, 1), (1, 0), (0, 0)] [((1, 3), 4), ((0, 3), 3), ((1, 2), 3), ((0, 2), 2), ((1, 1), 2), ((0, 1), 1), ((1, 0), 1), ((0, 0), 0)] 6) rfl 190]
  rw [searchLoop_cont cexGridC6 (1, 4) heuristic_manhattan
    (SState.mk [(SNode.mk (0, 3) (some (SNode.mk (0, 2) (some (SNode.mk (0, 1) (some (SNode.mk (0, 0) none 0 ⟨5, 0⟩ ⟨5, 0⟩)) 1 ⟨4, 0⟩ ⟨5, 0⟩)) 2 ⟨3, 0⟩ ⟨5, 0⟩)) 3 ⟨2, 0⟩ ⟨5, 0⟩), (SNode.mk (1, 3) (some (SNode.mk (1, 2) (some (SNode.mk (1, 1) (some (SNode.mk (1, 0) (some (SNode.mk (0, 0) none 0 ⟨5, 0⟩ ⟨5, 0⟩)) 1 ⟨4, 0⟩ ⟨5, 0⟩)) 2 ⟨3, 0⟩ ⟨5, 0⟩)) 3 ⟨2, 0⟩ ⟨5, 0⟩)) 4 ⟨1, 0⟩ ⟨5, 0⟩)] [(1, 2), (0, 2), (1, 1), (0, 1), (1, 0), (0, 0)] [((1, 3), 4), ((0, 3), 3), ((1, 2), 3), ((0, 2), 2), ((1, 1), 2), ((0, 1), 1), ((1, 0), 1), ((0, 0), 0)] 6)
    (SState.mk [(SNode.mk (1, 3) (some (SNode.mk (1, 2) (some (SNode.mk (1, 1) (some (SNode.mk (1, 0) (some (SNode.mk (0, 0) none 0 ⟨5, 0⟩ ⟨5, 0⟩)) 1 ⟨4, 0⟩ ⟨5, 0⟩)) 2 ⟨3, 0⟩ ⟨5, 0⟩)) 3 ⟨2, 0⟩ ⟨5, 0⟩)) 4 ⟨1, 0⟩ ⟨5, 0⟩), (SNode.mk (0, 4) (some (SNode.mk (0, 3) (some (SNode.mk (0, 2) (some (SNode.mk (0, 1) (some (SNode.mk (0, 0) none 0 ⟨5, 0⟩ ⟨5, 0⟩)) 1 ⟨4, 0⟩ ⟨5, 0⟩)) 2 ⟨3, 0⟩ ⟨5, 0⟩)) 3 ⟨2, 0⟩ ⟨5, 0⟩)) 4 ⟨1, 0⟩ ⟨5, 0⟩)] [(0, 3), (1, 2), (0, 2), (1, 1), (0, 1), (1, 0), (0, 0)] [((0, 4), 4), ((1, 3), 4), ((0, 3), 3), ((1, 2), 3), ((0, 2), 2), ((1, 1), 2), ((0, 1), 1), ((1, 0), 1), ((0, 0), 0)] 7) rfl 189]
  rw [searchLoop_cont cexGridC6 (1, 4) heuristic_manhattan
    (SState.mk [(SNode.mk (1, 3) (some (SNode.mk (1, 2) (some (SNode.mk (1, 1) (some (SNode.mk (1, 0) (some (SNode.mk (0, 0) none 0 ⟨5, 0⟩ ⟨5, 0⟩)) 1 ⟨4, 0⟩ ⟨5, 0⟩)) 2 ⟨3, 0⟩ ⟨5, 0⟩)) 3 ⟨2, 0⟩ ⟨5, 0⟩)) 4 ⟨1, 0⟩ ⟨5, 0⟩), (SNode.mk (0, 4) (some (SNode.mk (0, 3) (some (SNode.mk (0, 2) (some (SNode.mk (0, 1) (some (SNode.mk (0, 0) none 0 ⟨5, 0⟩ ⟨5, 0⟩)) 1 ⟨4, 0⟩ ⟨5, 0⟩)) 2 ⟨3, 0⟩ ⟨5, 0⟩)) 3 ⟨2, 0⟩ ⟨5, 0⟩)) 4 ⟨1, 0⟩ ⟨5, 0⟩)] [(0, 3), (1, 2), (0, 2), (1, 1), (0, 1), (1, 0), (0, 0)] [((0, 4), 4), ((1, 3), 4), ((0, 3), 3), ((1, 2), 3), ((0, 2), 2), ((1, 1), 2), ((0, 1), 1), ((1, 0), 1), ((0, 0), 0)] 7)
    (SState.mk [(SNode.mk (0, 4) (some (SNode.mk (0, 3) (some (SNode.mk (0, 2) (some (SNode.mk (0, 1) (some (SNode.mk (0, 0) none 0 ⟨5, 0⟩ ⟨5, 0⟩)) 1 ⟨4, 0⟩ ⟨5, 0⟩)) 2 ⟨3, 0⟩ ⟨5, 0⟩)) 3 ⟨2, 0⟩ ⟨5, 0⟩)) 4 ⟨1, 0⟩ ⟨5, 0⟩), (SNode.mk (1, 4) (some (SNode.mk (1, 3) (some (SNode.mk (1, 2) (some (SNode.mk (1, 1) (some (SNode.mk (1, 0) (some (SNode.mk (0, 0) none 0 ⟨5, 0⟩ ⟨5, 0⟩)) 1 ⟨4, 0⟩ ⟨5, 0⟩)) 2 ⟨3, 0⟩ ⟨5, 0⟩)) 3 ⟨2, 0⟩ ⟨5, 0⟩)) 4 ⟨1, 0⟩ ⟨5, 0⟩)) 5 ⟨0, 0⟩ ⟨5, 0⟩)] [(1, 3), (0, 3), (1, 2), (0, 2), (1, 1), (0, 1), (1, 0), (0, 0)] [((1, 4), 5), ((0, 4), 4), ((1, 3), 4), ((0, 3), 3), ((1, 2), 3), ((0, 2), 2), ((1, 1), 2), ((0, 1), 1), ((1, 0), 1), ((0, 0), 0)] 8) rfl 188]
  rw [searchLoop_cont cexGridC6 (1, 4) heuristic_manhattan
    (SState.mk [(SNode.mk (0, 4) (some (SNode.mk (0, 3) (some (SNode.mk (0, 2) (some (SNode.mk (0, 1) (some (SNode.mk (0, 0) none 0 ⟨5, 0⟩ ⟨5, 0⟩)) 1 ⟨4, 0⟩ ⟨5, 0⟩)) 2 ⟨3, 0⟩ ⟨5, 0⟩)) 3 ⟨2, 0⟩ ⟨5, 0⟩)) 4 ⟨1, 0⟩ ⟨5, 0⟩), (SNode.mk (1, 4) (some (SNode.mk (1, 3) (some (SNode.mk (1, 2) (some (SNode.mk (1, 1) (some (SNode.mk (1, 0) (some (SNode.mk (0, 0) none 0 ⟨5, 0⟩ ⟨5, 0⟩)) 1 ⟨4, 0⟩ ⟨5, 0⟩)) 2 ⟨3, 0⟩ ⟨5, 0⟩)) 3 ⟨2, 0⟩ ⟨5, 0⟩)) 4 ⟨1, 0⟩ ⟨5, 0⟩)) 5 ⟨0, 0⟩ ⟨5, 0⟩)] [(1, 3), (0, 3), (1, 2), (0, 2), (1, 1), (0, 1), (1, 0), (0, 0)] [((1, 4), 5), ((0, 4), 4), ((1, 3), 4), ((0, 3), 3), ((1, 2), 3), ((0, 2), 2), ((1, 1), 2), ((0, 1), 1), ((1, 0), 1), ((0, 0), 0)] 8)
    (SState.mk [(SNode.mk (1, 4) (some (SNode.mk (1, 3) (some (SNode.mk (1, 2) (some (SNode.mk (1, 1) (some (SNode.mk (1, 0) (some (SNode.mk (0, 0) none 0 ⟨5, 0⟩ ⟨5, 0⟩)) 1 ⟨4, 0⟩ ⟨5, 0⟩)) 2 ⟨3, 0⟩ ⟨5, 0⟩)) 3 ⟨2, 0⟩ ⟨5, 0⟩)) 4 ⟨1, 0⟩ ⟨5, 0⟩)) 5 ⟨0, 0⟩ ⟨5, 0⟩), (SNode.mk (0, 5) (some (SNode.mk (0, 4) (some (SNode.mk (0, 3) (some (SNode.mk (0, 2) (some (SNode.mk (0, 1) (some (SNode.mk (0, 0) none 0 ⟨5, 0⟩ ⟨5, 0⟩)) 1 ⟨4, 0⟩ ⟨5, 0⟩)) 2 ⟨3, 0⟩ ⟨5, 0⟩)) 3 ⟨2, 0⟩ ⟨5, 0⟩)) 4 ⟨1, 0⟩ ⟨5, 0⟩)) 5 ⟨2, 0⟩ ⟨7, 0⟩)] [(0, 4), (1, 3), (0, 3), (1, 2), (0, 2), (1, 1), (0, 1), (1, 0), (0, 0)] [((0, 5), 5), ((1, 4), 5), ((0, 4), 4), ((1, 3), 4), ((0, 3), 3), ((1, 2), 3), ((0, 2), 2), ((1, 1), 2), ((0, 1), 1), ((1, 0), 1), ((0, 0), 0)] 9) rfl 187]
  exact searchLoop_done cexGridC6 (1, 4) heuristic_manhattan
    (SState.mk [(SNode.mk (1, 4) (some (SNode.mk (1, 3) (some (SNode.mk (1, 2) (some (SNode.mk (1, 1) (some (SNode.mk (1, 0) (some (SNode.mk (0, 0) none 0 ⟨5, 0⟩ ⟨5, 0⟩)) 1 ⟨4, 0⟩ ⟨5, 0⟩)) 2 ⟨3, 0⟩ ⟨5, 0⟩)) 3 ⟨2, 0⟩ ⟨5, 0⟩)) 4 ⟨1, 0⟩ ⟨5, 0⟩)) 5 ⟨0, 0⟩ ⟨5, 0⟩), (SNode.mk (0, 5) (some (SNode.mk (0, 4) (some (SNode.mk (0, 3) (some (SNode.mk (0, 2) (some (SNode.mk (0, 1) (some (SNode.mk (0, 0) none 0 ⟨5, 0⟩ ⟨5, 0⟩)) 1 ⟨4, 0⟩ ⟨5, 0⟩)) 2 ⟨3, 0⟩ ⟨5, 0⟩)) 3 ⟨2, 0⟩ ⟨5, 0⟩)) 4 ⟨1, 0⟩ ⟨5, 0⟩)) 5 ⟨2, 0⟩ ⟨7, 0⟩)] [(0, 4), (1, 3), (0, 3), (1, 2), (0, 2), (1, 1), (0, 1), (1, 0), (0, 0)] [((0, 5), 5), ((1, 4), 5), ((0, 4), 4), ((1, 3), 4), ((0, 3), 3), ((1, 2), 3), ((0, 2), 2), ((1, 1), 2), ((0, 1), 1), ((1, 0), 1), ((0, 0), 0)] 9)
    (some [(0, 0), (1, 0), (1, 1), (1, 2), (1, 3), (1, 4)], 10) rfl 186

/-- Concrete run: on the 2 by 6 wall-free grid from (0,0) to (1,4), the Euclidean heuristic expands 9 nodes. -/
theorem cex_run_C6_euc :
    a_star_search cexGridC6 (0, 0) (1, 4) heuristic_euclidean =
      some (some [(0, 0), (0, 1), (0, 2), (0, 3), (0, 4), (1, 4)], 9) := by
  show searchLoop cexGridC6 (1, 4) heuristic_euclidean (searchFuel cexGridC6)
    (initState (0, 0) (1, 4) heuristic_euclidean) = _
  rw [show searchFuel cexGridC6 = 196 from rfl]
  rw [show initState (0, 0) (1, 4) heuristic_euclidean =
    (SState.mk [(SNode.mk (0, 0) none 0 ⟨0, 17⟩ ⟨0, 17⟩)] [] [((0, 0), 0)] 0) from rfl]
  rw [searchLoop_cont cexGridC6 (1, 4) heuristic_euclidean
    (SState.mk [(SNode.mk (0, 0) none 0 ⟨0, 17⟩ ⟨0, 17⟩)] [] [((0, 0), 0)] 0)
    (SState.mk [(SNode.mk (0, 1) (some (SNode.mk (0, 0) none 0 ⟨0, 17⟩ ⟨0, 17⟩)) 1 ⟨0, 10⟩ ⟨1, 10⟩), (SNode.mk (1, 0) (some (SNode.mk (0, 0) none 0 ⟨0, 17⟩ ⟨0, 17⟩)) 1 ⟨0, 16⟩ ⟨1, 16⟩)] [(0, 0)] [((0, 1), 1), ((1, 0), 1), ((0, 0), 0)] 1) rfl 195]
  rw [searchLoop_cont cexGridC6 (1, 4) heuristic_euclidean
    (SState.mk [(SNode.mk (0, 1) (some (SNode.mk (0, 0) none 0 ⟨0, 17⟩ ⟨0, 17⟩)) 1 ⟨0, 10⟩ ⟨1, 10⟩), (SNode.mk (1, 0) (some (SNode.mk (0, 0) none 0 ⟨0, 17⟩ ⟨0, 17⟩)) 1 ⟨0, 16⟩ ⟨1, 16⟩)] [(0, 0)] [((0, 1), 1), ((1, 0), 1), ((0, 0), 0)] 1)
    (SState.mk [(SNode.mk (0, 2) (some (SNode.mk (0, 1) (some (SNode.mk (0, 0) none 0 ⟨0, 17⟩ ⟨0, 17⟩)) 1 ⟨0, 10⟩ ⟨1, 10⟩)) 2 ⟨0, 5⟩ ⟨2, 5⟩), (SNode.mk (1, 1) (some (SNode.mk (0, 1) (some (SNode.mk (0, 0) none 0 ⟨0, 17⟩ ⟨0, 17⟩)) 1 ⟨0, 10⟩ ⟨1, 10⟩)) 2 ⟨0, 9⟩ ⟨2, 9⟩), (SNode.mk (1, 0) (some (SNode.mk (0, 0) none 0 ⟨0, 17⟩ ⟨0, 17⟩)) 1 ⟨0, 16⟩ ⟨1, 16⟩)] [(0, 1), (0, 0)] [((0, 2), 2), ((1, 1), 2), ((0, 1), 1), ((1, 0), 1), ((0, 0), 0)] 2) rfl 194]
  rw [searchLoop_cont cexGridC6 (1, 4) heuristic_euclidean
    (SState.mk [(SNode.mk (0, 2) (some (SNode.mk (0, 1) (some (SNode.mk (0, 0) none 0 ⟨0, 17⟩ ⟨0, 17⟩)) 1 ⟨0, 10⟩ ⟨1, 10⟩)) 2 ⟨0, 5⟩ ⟨2, 5⟩), (SNode.mk (1, 1) (some (SNode.mk (0, 1) (some (SNode.mk (0, 0) none 0 ⟨0, 17⟩ ⟨0, 17⟩)) 1 ⟨0, 10⟩ ⟨1, 10⟩)) 2 ⟨0, 9⟩ ⟨2, 9⟩), (SNode.mk (1, 0) (some (SNode.mk (0, 0) none 0 ⟨0, 17⟩ ⟨0, 17⟩)) 1 ⟨0, 16⟩ ⟨1, 16⟩)] [(0, 1), (0, 0)] [((0, 2), 2), ((1, 1), 2), ((0, 1), 1), ((1, 0), 1), ((0, 0), 0)] 2)
    (SState.mk [(SNode.mk (0, 3) (some (SNode.mk (0, 2) (some (SNode.mk (0, 1) (some (SNode.mk (0, 0) none 0 ⟨0, 17⟩ ⟨0, 17⟩)) 1 ⟨0, 10⟩ ⟨1, 10⟩)) 2 ⟨0, 5⟩ ⟨2, 5⟩)) 3 ⟨0, 2⟩ ⟨3, 2⟩), (SNode.mk (1, 1) (some (SNode.mk (0, 1) (some (SNode.mk (0, 0) none 0 ⟨0, 17⟩ ⟨0, 17⟩)) 1 ⟨0, 10⟩ ⟨1, 10⟩)) 2 ⟨0, 9⟩ ⟨2, 9⟩), (SNode.mk (1, 2) (some (SNode.mk (0, 2) (some (SNode.mk (0, 1) (some (SNode.mk (0, 0) none 0 ⟨0, 17⟩ ⟨0, 17⟩)) 1 ⟨0, 10⟩ ⟨1, 10⟩)) 2 ⟨0, 5⟩ ⟨2, 5⟩)) 3 ⟨0, 4⟩ ⟨3, 4⟩), (SNode.mk (1, 0) (some (SNode.mk (0, 0) none 0 ⟨0, 17⟩ ⟨0, 17⟩)) 1 ⟨0, 16⟩ ⟨1, 16⟩)] [(0, 2), (0, 1), (0, 0)] [((0, 3), 3), ((1, 2), 3), ((0, 2), 2), ((1, 1), 2), ((0, 1), 1), ((1, 0), 1), ((0, 0), 0)] 3) rfl 193]
  rw [searchLoop_cont cexGridC6 (1, 4) heuristic_euclidean
    (SState.mk [(SNode.mk (0, 3) (some (SNode.mk (0, 2) (some (SNode.mk (0, 1) (some (SNode.mk (0, 0) none 0 ⟨0, 17⟩ ⟨0, 17⟩)) 1 ⟨0, 10⟩ ⟨1, 10⟩)) 2 ⟨0, 5⟩ ⟨2, 5⟩)) 3 ⟨0, 2⟩ ⟨3, 2⟩), (SNode.mk (1, 1) (some (SNode.mk (0, 1) (some (SNode.mk (0, 0) none 0 ⟨0, 17⟩ ⟨0, 17⟩)) 1 ⟨0, 10⟩ ⟨1, 10⟩)) 2 ⟨0, 9⟩ ⟨2, 9⟩), (SNode.mk (1, 2) (some (SNode.mk (0, 2) (some (SNode.mk (0, 1) (some (SNode.mk (0, 0) none 0 ⟨0, 17⟩ ⟨0, 17⟩)) 1 ⟨0, 10⟩ ⟨1, 10⟩)) 2 ⟨0, 5⟩ ⟨2, 5⟩)) 3 ⟨0, 4⟩ ⟨3, 4⟩), (SNode.mk (1, 0) (some (SNode.mk (0, 0) none 0 ⟨0, 17⟩ ⟨0, 17⟩)) 1 ⟨0, 16⟩ ⟨1, 16⟩)] [(0, 2), (0, 1), (0, 0)] [((0, 3), 3), ((1, 2), 3), ((0, 2), 2), ((1, 1), 2), ((0, 1), 1), ((1, 0), 1), ((0, 0), 0)] 3)
    (SState.mk [(SNode.mk (1, 2) (some (SNode.mk (0, 2) (some (SNode.mk (0, 1) (some (SNode.mk (0, 0) none 0 ⟨0, 17⟩ ⟨0, 17⟩)) 1 ⟨0, 10⟩ ⟨1, 10⟩)) 2 ⟨0, 5⟩ ⟨2, 5⟩)) 3 ⟨0, 4⟩ ⟨3, 4⟩), (SNode.mk (1, 1) (some (SNode.mk (0, 1) (some (SNode.mk (0, 0) none 0 ⟨0, 17⟩ ⟨0, 17⟩)) 1 ⟨0, 10⟩ ⟨1, 10⟩)) 2 ⟨0, 9⟩ ⟨2, 9⟩), (SNode.mk (1, 0) (some (SNode.mk (0, 0) none 0 ⟨0, 17⟩ ⟨0, 17⟩)) 1 ⟨0, 16⟩ ⟨1, 16⟩), (SNode.mk (1, 3) (some (SNode.mk (0, 3) (some (SNode.mk (0, 2) (some (SNode.mk (0, 1) (some (SNode.mk (0, 0) none 0 ⟨0, 17⟩ ⟨0, 17⟩)) 1 ⟨0, 10⟩ ⟨1, 10⟩)) 2 ⟨0, 5⟩ ⟨2, 5⟩)) 3 ⟨0, 2⟩ ⟨3, 2⟩)) 4 ⟨0, 1⟩ ⟨4, 1⟩), (SNode.mk (0, 4) (some (SNode.mk (0, 3) (some (SNode.mk (0, 2) (some (SNode.mk (0, 1) (some (SNode.mk (0, 0) none 0 ⟨0, 17⟩ ⟨0, 17⟩)) 1 ⟨0, 10⟩ ⟨1, 10⟩)) 2 ⟨0, 5⟩ ⟨2, 5⟩)) 3 ⟨0, 2⟩ ⟨3, 2⟩)) 4 ⟨0, 1⟩ ⟨4, 1⟩)] [(0, 3), (0, 2), (0, 1), (0, 0)] [((0, 4), 4), ((1, 3), 4), ((0, 3), 3), ((1, 2), 3), ((0, 2), 2), ((1, 1), 2), ((0, 1), 1), ((1, 0), 1), ((0, 0), 0)] 4) rfl 192]
  rw [searchLoop_cont cexGridC6 (1, 4) heuristic_euclidean
    (SState.mk [(SNode.mk (1, 2) (some (SNode.mk (0, 2) (some (SNode.mk (0, 1) (some (SNode.mk (0, 0) none 0 ⟨0, 17⟩ ⟨0, 17⟩)) 1 ⟨0, 10⟩ ⟨1, 10⟩)) 2 ⟨0, 5⟩ ⟨2, 5⟩)) 3 ⟨0, 4⟩ ⟨3, 4⟩), (SNode.mk (1, 1) (some (SNode.mk (0, 1) (some (SNode.mk (0, 0) none 0 ⟨0, 17⟩ ⟨0, 17⟩)) 1 ⟨0, 10⟩ ⟨1, 10⟩)) 2 ⟨0, 9⟩ ⟨2, 9⟩), (SNode.mk (1, 0) (some (SNode.mk (0, 0) none 0 ⟨0, 17⟩ ⟨0, 17⟩)) 1 ⟨0, 16⟩ ⟨1, 16⟩), (SNode.mk (1, 3) (some (SNode.mk (0, 3) (some (SNode.mk (0, 2) (some (SNode.mk (0, 1) (some (SNode.mk (0, 0) none 0 ⟨0, 17⟩ ⟨0, 17⟩)) 1 ⟨0, 10⟩ ⟨1, 10⟩)) 2 ⟨0, 5⟩ ⟨2, 5⟩)) 3 ⟨0, 2⟩ ⟨3, 2⟩)) 4 ⟨0, 1⟩ ⟨4, 1⟩), (SNode.mk (0, 4) (some (SNode.mk (0, 3) (some (SNode.mk (0, 2) (some (SNode.mk (0, 1) (some (SNode.mk (0, 0) none 0 ⟨0, 17⟩ ⟨0, 17⟩)) 1 ⟨0, 10⟩ ⟨1, 10⟩)) 2 ⟨0, 5⟩ ⟨2, 5⟩)) 3 ⟨0, 2⟩ ⟨3, 2⟩)) 4 ⟨0, 1⟩ ⟨4, 1⟩)] [(0, 3), (0, 2), (0, 1), (0, 0)] [((0, 4), 4), ((1, 3), 4), ((0, 3), 3), ((1, 2), 3), ((0, 2), 2), ((1, 1), 2), ((0, 1), 1), ((1, 0), 1), ((0, 0), 0)] 4)
    (SState.mk [(SNode.mk (1, 0) (some (SNode.mk (0, 0) none 0 ⟨0, 17⟩ ⟨0, 17⟩)) 1 ⟨0, 16⟩ ⟨1, 16⟩), (SNode.mk (1, 1) (some (SNode.mk (0, 1) (some (SNode.mk (0, 0) none 0 ⟨0, 17⟩ ⟨0, 17⟩)) 1 ⟨0, 10⟩ ⟨1, 10⟩)) 2 ⟨0, 9⟩ ⟨2, 9⟩), (SNode.mk (0, 4) (some (SNode.mk (0, 3) (some (SNode.mk (0, 2) (some (SNode.mk (0, 1) (some (SNode.mk (0, 0) none 0 ⟨0, 17⟩ ⟨0, 17⟩)) 1 ⟨0, 10⟩ ⟨1, 10⟩)) 2 ⟨0, 5⟩ ⟨2, 5⟩)) 3 ⟨0, 2⟩ ⟨3, 2⟩)) 4 ⟨0, 1⟩ ⟨4, 1⟩), (SNode.mk (1, 3) (some (SNode.mk (0, 3) (some (SNode.mk (0, 2) (some (SNode.mk (0, 1) (some (SNode.mk (0, 0) none 0 ⟨0, 17⟩ ⟨0, 17⟩)) 1 ⟨0, 10⟩ ⟨1, 10⟩)) 2 ⟨0, 5⟩ ⟨2, 5⟩)) 3 ⟨0, 2⟩ ⟨3, 2⟩)) 4 ⟨0, 1⟩ ⟨4, 1⟩)] [(1, 2), (0, 3), (0, 2), (0, 1), (0, 0)] [((0, 4), 4), ((1, 3), 4), ((0, 3), 3), ((1, 2), 3), ((0, 2), 2), ((1, 1), 2), ((0, 1), 1), ((1, 0), 1), ((0, 0), 0)] 5) rfl 191]
  rw [searchLoop_cont cexGridC6 (1, 4) heuristic_euclidean
    (SState.mk [(SNode.mk (1, 0) (some (SNode.mk (0, 0) none 0 ⟨0, 17⟩ ⟨0, 17⟩)) 1 ⟨0, 16⟩ ⟨1, 16⟩), (SNode.mk (1, 1) (some (SNode.mk (0, 1) (some (SNode.mk (0, 0) none 0 ⟨0, 17⟩ ⟨0, 17⟩)) 1 ⟨0, 10⟩ ⟨1, 10⟩)) 2 ⟨0, 9⟩ ⟨2, 9⟩), (SNode.mk (0, 4) (some (SNode.mk (0, 3) (some (SNode.mk (0, 2) (some (SNode.mk (0, 1) (some (SNode.mk (0, 0) none 0 ⟨0, 17⟩ ⟨0, 17⟩)) 1 ⟨0, 10⟩ ⟨1, 10⟩)) 2 ⟨0, 5⟩ ⟨2, 5⟩)) 3 ⟨0, 2⟩ ⟨3, 2⟩)) 4 ⟨0, 1⟩ ⟨4, 1⟩), (SNode.mk (1, 3) (some (SNode.mk (0, 3) (some (SNode.mk (0, 2) (some (SNode.mk (0, 1) (some (SNode.mk (0, 0) none 0 ⟨0, 17⟩ ⟨0, 17⟩)) 1 ⟨0, 10⟩ ⟨1, 10⟩)) 2 ⟨0, 5⟩ ⟨2, 5⟩)) 3 ⟨0, 2⟩ ⟨3, 2⟩)) 4 ⟨0, 1⟩ ⟨4, 1⟩)] [(1, 2), (0, 3), (0, 2), (0, 1), (0, 0)] [((0, 4), 4), ((1, 3), 4), ((0, 3), 3), ((1, 2), 3), ((0, 2), 2), ((1, 1), 2), ((0, 1), 1), ((1, 0), 1), ((0, 0), 0)] 5)
    (SState.mk [(SNode.mk (0, 4) (some (SNode.mk (0, 3) (some (SNode.mk (0, 2) (some (SNode.mk (0, 1) (some (SNode.mk (0, 0) none 0 ⟨0, 17⟩ ⟨0, 17⟩)) 1 ⟨0, 10⟩ ⟨1, 10⟩)) 2 ⟨0, 5⟩ ⟨2, 5⟩)) 3 ⟨0, 2⟩ ⟨3, 2⟩)) 4 ⟨0, 1⟩ ⟨4, 1⟩), (SNode.mk (1, 1) (some (SNode.mk (0, 1) (some (SNode.mk (0, 0) none 0 ⟨0, 17⟩ ⟨0, 17⟩)) 1 ⟨0, 10⟩ ⟨1, 10⟩)) 2 ⟨0, 9⟩ ⟨2, 9⟩), (SNode.mk (1, 3) (some (SNode.mk (0, 3) (some (SNode.mk (0, 2) (some (SNode.mk (0, 1) (some (SNode.mk (0, 0) none 0 ⟨0, 17⟩ ⟨0, 17⟩)) 1 ⟨0, 10⟩ ⟨1, 10⟩)) 2 ⟨0, 5⟩ ⟨2, 5⟩)) 3 ⟨0, 2⟩ ⟨3, 2⟩)) 4 ⟨0, 1⟩ ⟨4, 1⟩)] [(1, 0), (1, 2), (0, 3), (0, 2), (0, 1), (0, 0)] [((0, 4), 4), ((1, 3), 4), ((0, 3), 3), ((1, 2), 3), ((0, 2), 2), ((1, 1), 2), ((0, 1), 1), ((1, 0), 1), ((0, 0), 0)] 6) rfl 190]
  rw [searchLoop_cont cexGridC6 (1, 4) heuristic_euclidean
    (SState.mk [(SNode.mk (0, 4) (some (SNode.mk (0, 3) (some (SNode.mk (0, 2) (some (SNode.mk (0, 1) (some (SNode.mk (0, 0) none 0 ⟨0, 17⟩ ⟨0, 17⟩)) 1 ⟨0, 10⟩ ⟨1, 10⟩)) 2 ⟨0, 5⟩ ⟨2, 5⟩)) 3 ⟨0, 2⟩ ⟨3, 2⟩)) 4 ⟨0, 1⟩ ⟨4, 1⟩), (SNode.mk (1, 1) (some (SNode.mk (0, 1) (some (SNode.mk (0, 0) none 0 ⟨0, 17⟩ ⟨0, 17⟩)) 1 ⟨0, 10⟩ ⟨1, 10⟩)) 2 ⟨0, 9⟩ ⟨2, 9⟩), (SNode.mk (1, 3) (some (SNode.mk (0, 3) (some (SNode.mk (0, 2) (some (SNode.mk (0, 1) (some (SNode.mk (0, 0) none 0 ⟨0, 17⟩ ⟨0, 17⟩)) 1 ⟨0, 10⟩ ⟨1, 10⟩)) 2 ⟨0, 5⟩ ⟨2, 5⟩)) 3 ⟨0, 2⟩ ⟨3, 2⟩)) 4 ⟨0, 1⟩ ⟨4, 1⟩)] [(1, 0), (1, 2), (0, 3), (0, 2), (0, 1), (0, 0)] [((0, 4), 4), ((1, 3), 4), ((0, 3), 3), ((1, 2), 3), ((0, 2), 2), ((1, 1), 2), ((0, 1), 1), ((1, 0), 1), ((0, 0), 0)] 6)
    (SState.mk [(SNode.mk (1, 1) (some (SNode.mk (0, 1) (some (SNode.mk (0, 0) none 0 ⟨0, 17⟩ ⟨0, 17⟩)) 1 ⟨0, 10⟩ ⟨1, 10⟩)) 2 ⟨0, 9⟩ ⟨2, 9⟩), (SNode.mk (1, 3) (some (SNode.mk (0, 3) (some (SNode.mk (0, 2) (some (SNode.mk (0, 1) (some (SNode.mk (0, 0) none 0 ⟨0, 17⟩ ⟨0, 17⟩)) 1 ⟨0, 10⟩ ⟨1, 10⟩)) 2 ⟨0, 5⟩ ⟨2, 5⟩)) 3 ⟨0, 2⟩ ⟨3, 2⟩)) 4 ⟨0, 1⟩ ⟨4, 1⟩), (SNode.mk (1, 4) (some (SNode.mk (0, 4) (some (SNode.mk (0, 3) (some (SNode.mk (0, 2) (some (SNode.mk (0, 1) (some (SNode.mk (0, 0) none 0 ⟨0, 17⟩ ⟨0, 17⟩)) 1 ⟨0, 10⟩ ⟨1, 10⟩)) 2 ⟨0, 5⟩ ⟨2, 5⟩)) 3 ⟨0, 2⟩ ⟨3, 2⟩)) 4 ⟨0, 1⟩ ⟨4, 1⟩)) 5 ⟨0, 0⟩ ⟨5, 0⟩), (SNode.mk (0, 5) (some (SNode.mk (0, 4) (some (SNode.mk (0, 3) (some (SNode.mk (0, 2) (some (SNode.mk (0, 1) (some (SNode.mk (0, 0) none 0 ⟨0, 17⟩ ⟨0, 17⟩)) 1 ⟨0, 10⟩ ⟨1, 10⟩)) 2 ⟨0, 5⟩ ⟨2, 5⟩)) 3 ⟨0, 2⟩ ⟨3, 2⟩)) 4 ⟨0, 1⟩ ⟨4, 1⟩)) 5 ⟨0, 2⟩ ⟨5, 2⟩)] [(0, 4), (1, 0), (1, 2), (0, 3), (0, 2), (0, 1), (0, 0)] [((0, 5), 5), ((1, 4), 5), ((0, 4), 4), ((1, 3), 4), ((0, 3), 3), ((1, 2), 3), ((0, 2), 2), ((1, 1), 2), ((0, 1), 1), ((1, 0), 1), ((0, 0), 0)] 7) rfl 189]
  rw [searchLoop_cont cexGridC6 (1, 4) heuristic_euclidean
    (SState.mk [(SNode.mk (1, 1) (some (SNode.mk (0, 1) (some (SNode.mk (0, 0) none 0 ⟨0, 17⟩ ⟨0, 17⟩)) 1 ⟨0, 10⟩ ⟨1, 10⟩)) 2 ⟨0, 9⟩ ⟨2, 9⟩), (SNode.mk (1, 3) (some (SNode.mk (0, 3) (some (SNode.mk (0, 2) (some (SNode.mk (0, 1) (some (SNode.mk (0, 0) none 0 ⟨0, 17⟩ ⟨0, 17⟩)) 1 ⟨0, 10⟩ ⟨1, 10⟩)) 2 ⟨0, 5⟩ ⟨2, 5⟩)) 3 ⟨0, 2⟩ ⟨3, 2⟩)) 4 ⟨0, 1⟩ ⟨4, 1⟩), (SNode.mk (1, 4) (some (SNode.mk (0, 4) (some (SNode.mk (0, 3) (some (SNode.mk (0, 2) (some (SNode.mk (0, 1) (some (SNode.mk (0, 0) none 0 ⟨0, 17⟩ ⟨0, 17⟩)) 1 ⟨0, 10⟩ ⟨1, 10⟩)) 2 ⟨0, 5⟩ ⟨2, 5⟩)) 3 ⟨0, 2⟩ ⟨3, 2⟩)) 4 ⟨0, 1⟩ ⟨4, 1⟩)) 5 ⟨0, 0⟩ ⟨5, 0⟩), (SNode.mk (0, 5) (some (SNode.mk (0, 4) (some (SNode.mk (0, 3) (some (SNode.mk (0, 2) (some (SNode.mk (0, 1) (some (SNode.mk (0, 0) none 0 ⟨0, 17⟩ ⟨0, 17⟩)) 1 ⟨0, 10⟩ ⟨1, 10⟩)) 2 ⟨0, 5⟩ ⟨2, 5⟩)) 3 ⟨0, 2⟩ ⟨3, 2⟩)) 4 ⟨0, 1⟩ ⟨4, 1⟩)) 5 ⟨0, 2⟩ ⟨5, 2⟩)] [(0, 4), (1, 0), (1, 2), (0, 3), (0, 2), (0, 1), (0, 0)] [((0, 5), 5), ((1, 4), 5), ((0, 4), 4), ((1, 3), 4), ((0, 3), 3), ((1, 2), 3), ((0, 2), 2), ((1, 1), 2), ((0, 1), 1), ((1, 0), 1), ((0, 0), 0)] 7)
    (SState.mk [(SNode.mk (1, 4) (some (SNode.mk (0, 4) (some (SNode.mk (0, 3) (some (SNode.mk (0, 2) (some (SNode.mk (0, 1) (some (SNode.mk (0, 0) none 0 ⟨0, 17⟩ ⟨0, 17⟩)) 1 ⟨0, 10⟩ ⟨1, 10⟩)) 2 ⟨0, 5⟩ ⟨2, 5⟩)) 3 ⟨0, 2⟩ ⟨3, 2⟩)) 4 ⟨0, 1⟩ ⟨4, 1⟩)) 5 ⟨0, 0⟩ ⟨5, 0⟩), (SNode.mk (1, 3) (some (SNode.mk (0, 3) (some (SNode.mk (0, 2) (some (SNode.mk (0, 1) (some (SNode.mk (0, 0) none 0 ⟨0, 17⟩ ⟨0, 17⟩)) 1 ⟨0, 10⟩ ⟨1, 10⟩)) 2 ⟨0, 5⟩ ⟨2, 5⟩)) 3 ⟨0, 2⟩ ⟨3, 2⟩)) 4 ⟨0, 1⟩ ⟨4, 1⟩), (SNode.mk (0, 5) (some (SNode.mk (0, 4) (some (SNode.mk (0, 3) (some (SNode.mk (0, 2) (some (SNode.mk (0, 1) (some (SNode.mk (0, 0) none 0 ⟨0, 17⟩ ⟨0, 17⟩)) 1 ⟨0, 10⟩ ⟨1, 10⟩)) 2 ⟨0, 5⟩ ⟨2, 5⟩)) 3 ⟨0, 2⟩ ⟨3, 2⟩)) 4 ⟨0, 1⟩ ⟨4, 1⟩)) 5 ⟨0, 2⟩ ⟨5, 2⟩)] [(1, 1), (0, 4), (1, 0), (1, 2), (0, 3), (0, 2), (0, 1), (0, 0)] [((0, 5), 5), ((1, 4), 5), ((0, 4), 4), ((1, 3), 4), ((0, 3), 3), ((1, 2), 3), ((0, 2), 2), ((1, 1), 2), ((0, 1), 1), ((1, 0), 1), ((0, 0), 0)] 8) rfl 188]
  exact searchLoop_done cexGridC6 (1, 4) heuristic_euclidean
    (SState.mk [(SNode.mk (1, 4) (some (SNode.mk (0, 4) (some (SNode.mk (0, 3) (some (SNode.mk (0, 2) (some (SNode.mk (0, 1) (some (SNode.mk (0, 0) none 0 ⟨0, 17⟩ ⟨0, 17⟩)) 1 ⟨0, 10⟩ ⟨1, 10⟩)) 2 ⟨0, 5⟩ ⟨2, 5⟩)) 3 ⟨0, 2⟩ ⟨3, 2⟩)) 4 ⟨0, 1⟩ ⟨4, 1⟩)) 5 ⟨0, 0⟩ ⟨5, 0⟩), (SNode.mk (1, 3) (some (SNode.mk (0, 3) (some (SNode.mk (0, 2) (some (SNode.mk (0, 1) (some (SNode.mk (0, 0) none 0 ⟨0, 17⟩ ⟨0, 17⟩)) 1 ⟨0, 10⟩ ⟨1, 10⟩)) 2 ⟨0, 5⟩ ⟨2, 5⟩)) 3 ⟨0, 2⟩ ⟨3, 2⟩)) 4 ⟨0, 1⟩ ⟨4, 1⟩), (SNode.mk (0, 5) (some (SNode.mk (0, 4) (some (SNode.mk (0, 3) (some (SNode.mk (0, 2) (some (SNode.mk (0, 1) (some (SNode.mk (0, 0) none 0 ⟨0, 17⟩ ⟨0, 17⟩)) 1 ⟨0, 10⟩ ⟨1, 10⟩)) 2 ⟨0, 5⟩ ⟨2, 5⟩)) 3 ⟨0, 2⟩ ⟨3, 2⟩)) 4 ⟨0, 1⟩ ⟨4, 1⟩)) 5 ⟨0, 2⟩ ⟨5, 2⟩)] [(1, 1), (0, 4), (1, 0), (1, 2), (0, 3), (0, 2), (0, 1), (0, 0)] [((0, 5), 5), ((1, 4), 5), ((0, 4), 4), ((1, 3), 4), ((0, 3), 3), ((1, 2), 3), ((0, 2), 2), ((1, 1), 2), ((0, 1), 1), ((1, 0), 1), ((0, 0), 0)] 8)
    (some [(0, 0), (0, 1), (0, 2), (0, 3), (0, 4), (1, 4)], 9) rfl 187

/-- Concrete run: on the 5 by 5 wall-free grid from (0,0) to (4,4), the Manhattan search returns a 9-cell path with 20 expansions. -/
theorem spec_run_55_man :
    a_star_search specGrid55 (0, 0) (4, 4) heuristic_manhattan =
      some (some [(0, 0), (1, 0), (2, 0), (3, 0), (3, 1), (3, 2), (4, 2), (4, 3), (4, 4)], 20) := by
  show searchLoop specGrid55 (4, 4) heuristic_manhattan (searchFuel specGrid55)
    (initState (0, 0) (4, 4) heuristic_manhattan) = _
  rw [show searchFuel specGrid55 = 729 from rfl]
  rw [show initState (0, 0) (4, 4) heuristic_manhattan =
    (SState.mk [(SNode.mk (0, 0) none 0 ⟨8, 0⟩ ⟨8, 0⟩)] [] [((0, 0), 0)] 0) from rfl]
  rw [searchLoop_cont specGrid55 (4, 4) heuristic_manhattan
    (SState.mk [(SNode.mk (0, 0) none 0 ⟨8, 0⟩ ⟨8, 0⟩)] [] [((0, 0), 0)] 0)
    (SState.mk [(SNode.mk (1, 0) (some (SNode.mk (0, 0) none 0 ⟨8, 0⟩ ⟨8, 0⟩)) 1 ⟨7, 0⟩ ⟨8, 0⟩), (SNode.mk (0, 1) (some (SNode.mk (0, 0) none 0 ⟨8, 0⟩ ⟨8, 0⟩)) 1 ⟨7, 0⟩ ⟨8, 0⟩)] [(0, 0)] [((0, 1), 1), ((1, 0), 1), ((0, 0), 0)] 1) rfl 728]
  rw [searchLoop_cont specGrid55 (4, 4) heuristic_manhattan
    (SState.mk [(SNode.mk (1, 0) (some (SNode.mk (0, 0) none 0 ⟨8, 0⟩ ⟨8, 0⟩)) 1 ⟨7, 0⟩ ⟨8, 0⟩), (SNode.mk (0, 1) (some (SNode.mk (0, 0) none 0 ⟨8, 0⟩ ⟨8, 0⟩)) 1 ⟨7, 0⟩ ⟨8, 0⟩)] [(0, 0)] [((0, 1), 1), ((1, 0), 1), ((0, 0), 0)] 1)
    (SState.mk [(SNode.mk (0, 1) (some (SNode.mk (0, 0) none 0 ⟨8, 0⟩ ⟨8, 0⟩)) 1 ⟨7, 0⟩ ⟨8, 0⟩), (SNode.mk (2, 0) (some (SNode.mk (1, 0) (some (SNode.mk (0, 0) none 0 ⟨8, 0⟩ ⟨8, 0⟩)) 1 ⟨7, 0⟩ ⟨8, 0⟩)) 2 ⟨6, 0⟩ ⟨8, 0⟩), (SNode.mk (1, 1) (some (SNode.mk (1, 0) (some (SNode.mk (0, 0) none 0 ⟨8, 0⟩ ⟨8, 0⟩)) 1 ⟨7, 0⟩ ⟨8, 0⟩)) 2 ⟨6, 0⟩ ⟨8, 0⟩)] [(1, 0), (0, 0)] [((1, 1), 2), ((2, 0), 2), ((0, 1), 1), ((1, 0), 1), ((0, 0), 0)] 2) rfl 727]
  rw [searchLoop_cont specGrid55 (4, 4) heuristic_manhattan
    (SState.mk [(SNode.mk (0, 1) (some (SNode.mk (0, 0) none 0 ⟨8, 0⟩ ⟨8, 0⟩)) 1 ⟨7, 0⟩ ⟨8, 0⟩), (SNode.mk (2, 0) (some (SNode.mk (1, 0) (some (SNode.mk (0, 0) none 0 ⟨8, 0⟩ ⟨8, 0⟩)) 1 ⟨7, 0⟩ ⟨8, 0⟩)) 2 ⟨6, 0⟩ ⟨8, 0⟩), (SNode.mk (1, 1) (some (SNode.mk (1, 0) (some (SNode.mk (0, 0) none 0 ⟨8, 0⟩ ⟨8, 0⟩)) 1 ⟨7, 0⟩ ⟨8, 0⟩)) 2 ⟨6, 0⟩ ⟨8, 0⟩)] [(1, 0), (0, 0)] [((1, 1), 2), ((2, 0), 2), ((0, 1), 1), ((1, 0), 1), ((0, 0), 0)] 2)
    (SState.mk [(SNode.mk (2, 0) (some (SNode.mk (1, 0) (some (SNode.mk (0, 0) none 0 ⟨8, 0⟩ ⟨8, 0⟩)) 1 ⟨7, 0⟩ ⟨8, 0⟩)) 2 ⟨6, 0⟩ ⟨8, 0⟩), (SNode.mk (1, 1) (some (SNode.mk (1, 0) (some (SNode.mk (0, 0) none 0 ⟨8, 0⟩ ⟨8, 0⟩)) 1 ⟨7, 0⟩ ⟨8, 0⟩)) 2 ⟨6, 0⟩ ⟨8, 0⟩), (SNode.mk (0, 2) (some (SNode.mk (0, 1) (some (SNode.mk (0, 0) none 0 ⟨8, 0⟩ ⟨8, 0⟩)) 1 ⟨7, 0⟩ ⟨8, 0⟩)) 2 ⟨6, 0⟩ ⟨8, 0⟩)] [(0, 1), (1, 0), (0, 0)] [((0, 2), 2), ((1, 1), 2), ((2, 0), 2), ((0, 1), 1), ((1, 0), 1), ((0, 0), 0)] 3) rfl 726]
  rw [searchLoop_cont specGrid55 (4, 4) heuristic_manhattan
    (SState.mk [(SNode.mk (2, 0) (some (SNode.mk (1, 0) (some (SNode.mk (0, 0) none 0 ⟨8, 0⟩ ⟨8, 0⟩)) 1 ⟨7, 0⟩ ⟨8, 0⟩)) 2 ⟨6, 0⟩ ⟨8, 0⟩), (SNode.mk (1, 1) (some (SNode.mk (1, 0) (some (SNode.mk (0, 0) none 0 ⟨8, 0⟩ ⟨8, 0⟩)) 1 ⟨7, 0⟩ ⟨8, 0⟩)) 2 ⟨6, 0⟩ ⟨8, 0⟩), (SNode.mk (0, 2) (some (SNode.mk (0, 1) (some (SNode.mk (0, 0) none 0 ⟨8, 0⟩ ⟨8, 0⟩)) 1 ⟨7, 0⟩ ⟨8, 0⟩)) 2 ⟨6, 0⟩ ⟨8, 0⟩)] [(0, 1), (1, 0), (0, 0)] [((0, 2), 2), ((1, 1), 2), ((2, 0), 2), ((0, 1), 1), ((1, 0), 1), ((0, 0), 0)] 3)
    (SState.mk [(SNode.mk (1, 1) (some (SNode.mk (1, 0) (some (SNode.mk (0, 0) none 0 ⟨8, 0⟩ ⟨8, 0⟩)) 1 ⟨7, 0⟩ ⟨8, 0⟩)) 2 ⟨6, 0⟩ ⟨8, 0⟩), (SNode.mk (0, 2) (some (SNode.mk (0, 1) (some (SNode.mk (0, 0) none 0 ⟨8, 0⟩ ⟨8, 0⟩)) 1 ⟨7, 0⟩ ⟨8, 0⟩)) 2 ⟨6, 0⟩ ⟨8, 0⟩), (SNode.mk (3, 0) (some (SNode.mk (2, 0) (some (SNode.mk (1, 0) (some (SNode.mk (0, 0) none 0 ⟨8, 0⟩ ⟨8, 0⟩)) 1 ⟨7, 0⟩ ⟨8, 0⟩)) 2 ⟨6, 0⟩ ⟨8, 0⟩)) 3 ⟨5, 0⟩ ⟨8, 0⟩), (SNode.mk (2, 1) (some (SNode.mk (2, 0) (some (SNode.mk (1, 0) (some (SNode.mk (0, 0) none 0 ⟨8, 0⟩ ⟨8, 0⟩)) 1 ⟨7, 0⟩ ⟨8, 0⟩)) 2 ⟨6, 0⟩ ⟨8, 0⟩)) 3 ⟨5, 0⟩ ⟨8, 0⟩)] [(2, 0), (0, 1), (1, 0), (0, 0)] [((2, 1), 3), ((3, 0), 3), ((0, 2), 2), ((1, 1), 2), ((2, 0), 2), ((0, 1), 1), ((1, 0), 1), ((0, 0), 0)] 4) rfl 725]
  rw [searchLoop_cont specGrid55 (4, 4) heuristic_manhattan
    (SState.mk [(SNode.mk (1, 1) (some (SNode.mk (1, 0) (some (SNode.mk (0, 0) none 0 ⟨8, 0⟩ ⟨8, 0⟩)) 1 ⟨7, 0⟩ ⟨8, 0⟩)) 2 ⟨6, 0⟩ ⟨8, 0⟩), (SNode.mk (0, 2) (some (SNode.mk (0, 1) (some (SNode.mk (0, 0) none 0 ⟨8, 0⟩ ⟨8, 0⟩)) 1 ⟨7, 0⟩ ⟨8, 0⟩)) 2 ⟨6, 0⟩ ⟨8, 0⟩), (SNode.mk (3, 0) (some (SNode.mk (2, 0) (some (SNode.mk (1, 0) (some (SNode.mk (0, 0) none 0 ⟨8, 0⟩ ⟨8, 0⟩)) 1 ⟨7, 0⟩ ⟨8, 0⟩)) 2 ⟨6, 0⟩ ⟨8, 0⟩)) 3 ⟨5, 0⟩ ⟨8, 0⟩), (SNode.mk (2, 1) (some (SNode.mk (2, 0) (some (SNode.mk (1, 0) (some (SNode.mk (0, 0) none 0 ⟨8, 0⟩ ⟨8, 0⟩)) 1 ⟨7, 0⟩ ⟨8, 0⟩)) 2 ⟨6, 0⟩ ⟨8, 0⟩)) 3 ⟨5, 0⟩ ⟨8, 0⟩)] [(2, 0), (0, 1), (1, 0), (0, 0)] [((2, 1), 3), ((3, 0), 3), ((0, 2), 2), ((1, 1), 2), ((2, 0), 2), ((0, 1), 1), ((1, 0), 1), ((0, 0), 0)] 4)
    (SState.mk [(SNode.mk (3, 0) (some (SNode.mk (2, 0) (some (SNode.mk (1, 0) (some (SNode.mk (0, 0) none 0 ⟨8, 0⟩ ⟨8, 0⟩)) 1 ⟨7, 0⟩ ⟨8, 0⟩)) 2 ⟨6, 0⟩ ⟨8, 0⟩)) 3 ⟨5, 0⟩ ⟨8, 0⟩), (SNode.mk (0, 2) (some (SNode.mk (0, 1) (some (SNode.mk (0, 0) none 0 ⟨8, 0⟩ ⟨8, 0⟩)) 1 ⟨7, 0⟩ ⟨8, 0⟩)) 2 ⟨6, 0⟩ ⟨8, 0⟩), (SNode.mk (2, 1) (some (SNode.mk (2, 0) (some (SNode.mk (1, 0) (some (SNode.mk (0, 0) none 0 ⟨8, 0⟩ ⟨8, 0⟩)) 1 ⟨7, 0⟩ ⟨8, 0⟩)) 2 ⟨6, 0⟩ ⟨8, 0⟩)) 3 ⟨5, 0⟩ ⟨8, 0⟩), (SNode.mk (1, 2) (some (SNode.mk (1, 1) (some (SNode.mk (1, 0) (some (SNode.mk (0, 0) none 0 ⟨8, 0⟩ ⟨8, 0⟩)) 1 ⟨7, 0⟩ ⟨8, 0⟩)) 2 ⟨6, 0⟩ ⟨8, 0⟩)) 3 ⟨5, 0⟩ ⟨8, 0⟩)] [(1, 1), (2, 0), (0, 1), (1, 0), (0, 0)] [((1, 2), 3), ((2, 1), 3), ((3, 0), 3), ((0, 2), 2), ((1, 1), 2), ((2, 0), 2), ((0, 1), 1), ((1, 0), 1), ((0, 0), 0)] 5) rfl 724]
  rw [searchLoop_cont specGrid55 (4, 4) heuristic_manhattan
    (SState.mk [(SNode.mk (3, 0) (some (SNode.mk (2, 0) (some (SNode.mk (1, 0) (some (SNode.mk (0, 0) none 0 ⟨8, 0⟩ ⟨8, 0⟩)) 1 ⟨7, 0⟩ ⟨8, 0⟩)) 2 ⟨6, 0⟩ ⟨8, 0⟩)) 3 ⟨5, 0⟩ ⟨8, 0⟩), (SNode.mk (0, 2) (some (SNode.mk (0, 1) (some (SNode.mk (0, 0) none 0 ⟨8, 0⟩ ⟨8, 0⟩)) 1 ⟨7, 0⟩ ⟨8, 0⟩)) 2 ⟨6, 0⟩ ⟨8, 0⟩), (SNode.mk (2, 1) (some (SNode.mk (2, 0) (some (SNode.mk (1, 0) (some (SNode.mk (0, 0) none 0 ⟨8, 0⟩ ⟨8, 0⟩)) 1 ⟨7, 0⟩ ⟨8, 0⟩)) 2 ⟨6, 0⟩ ⟨8, 0⟩)) 3 ⟨5, 0⟩ ⟨8, 0⟩), (SNode.mk (1, 2) (some (SNode.mk (1, 1) (some (SNode.mk (1, 0) (some (SNode.mk (0, 0) none 0 ⟨8, 0⟩ ⟨8, 0⟩)) 1 ⟨7, 0⟩ ⟨8, 0⟩)) 2 ⟨6, 0⟩ ⟨8, 0⟩)) 3 ⟨5, 0⟩ ⟨8, 0⟩)] [(1, 1), (2, 0), (0, 1), (1, 0), (0, 0)] [((1, 2), 3), ((2, 1), 3), ((3, 0), 3), ((0, 2), 2), ((1, 1), 2), ((2, 0), 2), ((0, 1), 1), ((1, 0), 1), ((0, 0), 0)] 5)
    (SState.mk [(SNode.mk (2, 1) (some (SNode.mk (2, 0) (some (SNode.mk (1, 0) (some (SNode.mk (0, 0) none 0 ⟨8, 0⟩ ⟨8, 0⟩)) 1 ⟨7, 0⟩ ⟨8, 0⟩)) 2 ⟨6, 0⟩ ⟨8, 0⟩)) 3 ⟨5, 0⟩ ⟨8, 0⟩), (SNode.mk (0, 2) (some (SNode.mk (0, 1) (some (SNode.mk (0, 0) none 0 ⟨8, 0⟩ ⟨8, 0⟩)) 1 ⟨7, 0⟩ ⟨8, 0⟩)) 2 ⟨6, 0⟩ ⟨8, 0⟩), (SNode.mk (1, 2) (some (SNode.mk (1, 1) (some (SNode.mk (1, 0) (some (SNode.mk (0, 0) none 0 ⟨8, 0⟩ ⟨8, 0⟩)) 1 ⟨7, 0⟩ ⟨8, 0⟩)) 2 ⟨6, 0⟩ ⟨8, 0⟩)) 3 ⟨5, 0⟩ ⟨8, 0⟩), (SNode.mk (4, 0) (some (SNode.mk (3, 0) (some (SNode.mk (2, 0) (some (SNode.mk (1, 0) (some (SNode.mk (0, 0) none 0 ⟨8, 0⟩ ⟨8, 0⟩)) 1 ⟨7, 0⟩ ⟨8, 0⟩)) 2 ⟨6, 0⟩ ⟨8, 0⟩)) 3 ⟨5, 0⟩ ⟨8, 0⟩)) 4 ⟨4, 0⟩ ⟨8, 0⟩), (SNode.mk (3, 1) (some (SNode.mk (3, 0) (some (SNode.mk (2, 0) (some (SNode.mk (1, 0) (some (SNode.mk (0, 0) none 0 ⟨8, 0⟩ ⟨8, 0⟩)) 1 ⟨7, 0⟩ ⟨8, 0⟩)) 2 ⟨6, 0⟩ ⟨8, 0⟩)) 3 ⟨5, 0⟩ ⟨8, 0⟩)) 4 ⟨4, 0⟩ ⟨8, 0⟩)] [(3, 0), (1, 1), (2, 0), (0, 1), (1, 0), (0, 0)] [((3, 1), 4), ((4, 0), 4), ((1, 2), 3), ((2, 1), 3), ((3, 0), 3), ((0, 2), 2), ((1, 1), 2), ((2, 0), 2), ((0, 1), 1), ((1, 0), 1), ((0, 0), 0)] 6) rfl 723]
  rw [searchLoop_cont specGrid55 (4, 4) heuristic_manhattan
    (SState.mk [(SNode.mk (2, 1) (some (SNode.mk (2, 0) (some (SNode.mk (1, 0) (some (SNode.mk (0, 0) none 0 ⟨8, 0⟩ ⟨8, 0⟩)) 1 ⟨7, 0⟩ ⟨8, 0⟩)) 2 ⟨6, 0⟩ ⟨8, 0⟩)) 3 ⟨5, 0⟩ ⟨8, 0⟩), (SNode.mk (0, 2) (some (SNode.mk (0, 1) (some (SNode.mk (0, 0) none 0 ⟨8, 0⟩ ⟨8, 0⟩)) 1 ⟨7, 0⟩ ⟨8, 0⟩)) 2 ⟨6, 0⟩ ⟨8, 0⟩), (SNode.mk (1, 2) (some (SNode.mk (1, 1) (some (SNode.mk (1, 0) (some (SNode.mk (0, 0) none 0 ⟨8, 0⟩ ⟨8, 0⟩)) 1 ⟨7, 0⟩ ⟨8, 0⟩)) 2 ⟨6, 0⟩ ⟨8, 0⟩)) 3 ⟨5, 0⟩ ⟨8, 0⟩), (SNode.mk (4, 0) (some (SNode.mk (3, 0) (some (SNode.mk (2, 0) (some (SNode.mk (1, 0) (some (SNode.mk (0, 0) none 0 ⟨8, 0⟩ ⟨8, 0⟩)) 1 ⟨7, 0⟩ ⟨8, 0⟩)) 2 ⟨6, 0⟩ ⟨8, 0⟩)) 3 ⟨5, 0⟩ ⟨8, 0⟩)) 4 ⟨4, 0⟩ ⟨8, 0⟩), (SNode.mk (3, 1) (some (SNode.mk (3, 0) (some (SNode.mk (2, 0) (some (SNode.mk (1, 0) (some (SNode.mk (0, 0) none 0 ⟨8, 0⟩ ⟨8, 0⟩)) 1 ⟨7, 0⟩ ⟨8, 0⟩)) 2 ⟨6, 0⟩ ⟨8, 0⟩)) 3 ⟨5, 0⟩ ⟨8, 0⟩)) 4 ⟨4, 0⟩ ⟨8, 0⟩)] [(3, 0), (1, 1), (2, 0), (0, 1), (1, 0), (0, 0)] [((3, 1), 4), ((4, 0), 4), ((1, 2), 3), ((2, 1), 3), ((3, 0), 3), ((0, 2), 2), ((1, 1), 2), ((2, 0), 2), ((0, 1), 1), ((1, 0), 1), ((0, 0), 0)] 6)
    (SState.mk [(SNode.mk (1, 2) (some (SNode.mk (1, 1) (some (SNode.mk (1, 0) (some (SNode.mk (0, 0) none 0 ⟨8, 0⟩ ⟨8, 0⟩)) 1 ⟨7, 0⟩ ⟨8, 0⟩)) 2 ⟨6, 0⟩ ⟨8, 0⟩)) 3 ⟨5, 0⟩ ⟨8, 0⟩), (SNode.mk (0, 2) (some (SNode.mk (0, 1) (some (SNode.mk (0, 0) none 0 ⟨8, 0⟩ ⟨8, 0⟩)) 1 ⟨7, 0⟩ ⟨8, 0⟩)) 2 ⟨6, 0⟩ ⟨8, 0⟩), (SNode.mk (3, 1) (some (SNode.mk (3, 0) (some (SNode.mk (2, 0) (some (SNode.mk (1, 0) (some (SNode.mk (0, 0) none 0 ⟨8, 0⟩ ⟨8, 0⟩)) 1 ⟨7, 0⟩ ⟨8, 0⟩)) 2 ⟨6, 0⟩ ⟨8, 0⟩)) 3 ⟨5, 0⟩ ⟨8, 0⟩)) 4 ⟨4, 0⟩ ⟨8, 0⟩), (SNode.mk (4, 0) (some (SNode.mk (3, 0) (some (SNode.mk (2, 0) (some (SNode.mk (1, 0) (some (SNode.mk (0, 0) none 0 ⟨8, 0⟩ ⟨8, 0⟩)) 1 ⟨7, 0⟩ ⟨8, 0⟩)) 2 ⟨6, 0⟩ ⟨8, 0⟩)) 3 ⟨5, 0⟩ ⟨8, 0⟩)) 4 ⟨4, 0⟩ ⟨8, 0⟩), (SNode.mk (2, 2) (some (SNode.mk (2, 1) (some (SNode.mk (2, 0) (some (SNode.mk (1, 0) (some (SNode.mk (0, 0) none 0 ⟨8, 0⟩ ⟨8, 0⟩)) 1 ⟨7, 0⟩ ⟨8, 0⟩)) 2 ⟨6, 0⟩ ⟨8, 0⟩)) 3 ⟨5, 0⟩ ⟨8, 0⟩)) 4 ⟨4, 0⟩ ⟨8, 0⟩)] [(2, 1), (3, 0), (1, 1), (2, 0), (0, 1), (1, 0), (0, 0)] [((2, 2), 4), ((3, 1), 4), ((4, 0), 4), ((1, 2), 3), ((2, 1), 3), ((3, 0), 3), ((0, 2), 2), ((1, 1), 2), ((2, 0), 2), ((0, 1), 1), ((1, 0), 1), ((0, 0), 0)] 7) rfl 722]
  rw [searchLoop_cont specGrid55 (4, 4) heuristic_manhattan
    (SState.mk [(SNode.mk (1, 2) (some (SNode.mk (1, 1) (some (SNode.mk (1, 0) (some (SNode.mk (0, 0) none 0 ⟨8, 0⟩ ⟨8, 0⟩)) 1 ⟨7, 0⟩ ⟨8, 0⟩)) 2 ⟨6, 0⟩ ⟨8, 0⟩)) 3 ⟨5, 0⟩ ⟨8, 0⟩), (SNode.mk (0, 2) (some (SNode.mk (0, 1) (some (SNode.mk (0, 0) none 0 ⟨8, 0⟩ ⟨8, 0⟩)) 1 ⟨7, 0⟩ ⟨8, 0⟩)) 2 ⟨6, 0⟩ ⟨8, 0⟩), (SNode.mk (3, 1) (some (SNode.mk (3, 0) (some (SNode.mk (2, 0) (some (SNode.mk (1, 0) (some (SNode.mk (0, 0) none 0 ⟨8, 0⟩ ⟨8, 0⟩)) 1 ⟨7, 0⟩ ⟨8, 0⟩)) 2 ⟨6, 0⟩ ⟨8, 0⟩)) 3 ⟨5, 0⟩ ⟨8, 0⟩)) 4 ⟨4, 0⟩ ⟨8, 0⟩), (SNode.mk (4, 0) (some (SNode.mk (3, 0) (some (SNode.mk (2, 0) (some (SNode.mk (1, 0) (some (SNode.mk (0, 0) none 0 ⟨8, 0⟩ ⟨8, 0⟩)) 1 ⟨7, 0⟩ ⟨8, 0⟩)) 2 ⟨6, 0⟩ ⟨8, 0⟩)) 3 ⟨5, 0⟩ ⟨8, 0⟩)) 4 ⟨4, 0⟩ ⟨8, 0⟩), (SNode.mk (2, 2) (some (SNode.mk (2, 1) (some (SNode.mk (2, 0) (some (SNode.mk (1, 0) (some (SNode.mk (0, 0) none 0 ⟨8, 0⟩ ⟨8, 0⟩)) 1 ⟨7, 0⟩ ⟨8, 0⟩)) 2 ⟨6, 0⟩ ⟨8, 0⟩)) 3 ⟨5, 0⟩ ⟨8, 0⟩)) 4 ⟨4, 0⟩ ⟨8, 0⟩)] [(2, 1), (3, 0), (1, 1), (2, 0), (0, 1), (1, 0), (0, 0)] [((2, 2), 4), ((3, 1), 4), ((4, 0), 4), ((1, 2), 3), ((2, 1), 3), ((3, 0), 3), ((0, 2), 2), ((1, 1), 2), ((2, 0), 2), ((0, 1), 1), ((1, 0), 1), ((0, 0), 0)] 7)
    (SState.mk [(SNode.mk (3, 1) (some (SNode.mk (3, 0) (some (SNode.mk (2, 0) (some (SNode.mk (1, 0) (some (SNode.mk (0, 0) none 0 ⟨8, 0⟩ ⟨8, 0⟩)) 1 ⟨7, 0⟩ ⟨8, 0⟩)) 2 ⟨6, 0⟩ ⟨8, 0⟩)) 3 ⟨5, 0⟩ ⟨8, 0⟩)) 4 ⟨4, 0⟩ ⟨8, 0⟩), (SNode.mk (0, 2) (some (SNode.mk (0, 1) (some (SNode.mk (0, 0) none 0 ⟨8, 0⟩ ⟨8, 0⟩)) 1 ⟨7, 0⟩ ⟨8, 0⟩)) 2 ⟨6, 0⟩ ⟨8, 0⟩), (SNode.mk (2, 2) (some (SNode.mk (2, 1) (some (SNode.mk (2, 0) (some (SNode.mk (1, 0) (some (SNode.mk (0, 0) none 0 ⟨8, 0⟩ ⟨8, 0⟩)) 1 ⟨7, 0⟩ ⟨8, 0⟩)) 2 ⟨6, 0⟩ ⟨8, 0⟩)) 3 ⟨5, 0⟩ ⟨8, 0⟩)) 4 ⟨4, 0⟩ ⟨8, 0⟩), (SNode.mk (4, 0) (some (SNode.mk (3, 0) (some (SNode.mk (2, 0) (some (SNode.mk (1, 0) (some (SNode.mk (0, 0) none 0 ⟨8, 0⟩ ⟨8, 0⟩)) 1 ⟨7, 0⟩ ⟨8, 0⟩)) 2 ⟨6, 0⟩ ⟨8, 0⟩)) 3 ⟨5, 0⟩ ⟨8, 0⟩)) 4 ⟨4, 0⟩ ⟨8, 0⟩), (SNode.mk (1, 3) (some (SNode.mk (1, 2) (some (SNode.mk (1, 1) (some (SNode.mk (1, 0) (some (SNode.mk (0, 0) none 0 ⟨8, 0⟩ ⟨8, 0⟩)) 1 ⟨7, 0⟩ ⟨8, 0⟩)) 2 ⟨6, 0⟩ ⟨8, 0⟩)) 3 ⟨5, 0⟩ ⟨8, 0⟩)) 4 ⟨4, 0⟩ ⟨8, 0⟩)] [(1, 2), (2, 1), (3, 0), (1, 1), (2, 0), (0, 1), (1, 0), (0, 0)] [((1, 3), 4), ((2, 2), 4), ((3, 1), 4), ((4, 0), 4), ((1, 2), 3), ((2, 1), 3), ((3, 0), 3), ((0, 2), 2), ((1, 1), 2), ((2, 0), 2), ((0, 1), 1), ((1, 0), 1), ((0, 0), 0)] 8) rfl 721]
  rw [searchLoop_cont specGrid55 (4, 4) heuristic_manhattan
    (SState.mk [(SNode.mk (3, 1) (some (SNode.mk (3, 0) (some (SNode.mk (2, 0) (some (SNode.mk (1, 0) (some (SNode.mk (0, 0) none 0 ⟨8, 0⟩ ⟨8, 0⟩)) 1 ⟨7, 0⟩ ⟨8, 0⟩)) 2 ⟨6, 0⟩ ⟨8, 0⟩)) 3 ⟨5, 0⟩ ⟨8, 0⟩)) 4 ⟨4, 0⟩ ⟨8, 0⟩), (SNode.mk (0, 2) (some (SNode.mk (0, 1) (some (SNode.mk (0, 0) none 0 ⟨8, 0⟩ ⟨8, 0⟩)) 1 ⟨7, 0⟩ ⟨8, 0⟩)) 2 ⟨6, 0⟩ ⟨8, 0⟩), (SNode.mk (2, 2) (some (SNode.mk (2, 1) (some (SNode.mk (2, 0) (some (SNode.mk (1, 0) (some (SNode.mk (0, 0) none 0 ⟨8, 0⟩ ⟨8, 0⟩)) 1 ⟨7, 0⟩ ⟨8, 0⟩)) 2 ⟨6, 0⟩ ⟨8, 0⟩)) 3 ⟨5, 0⟩ ⟨8, 0⟩)) 4 ⟨4, 0⟩ ⟨8, 0⟩), (SNode.mk (4, 0) (some (SNode.mk (3, 0) (some (SNode.mk (2, 0) (some (SNode.mk (1, 0) (some (SNode.mk (0, 0) none 0 ⟨8, 0⟩ ⟨8, 0⟩)) 1 ⟨7, 0⟩ ⟨8, 0⟩)) 2 ⟨6, 0⟩ ⟨8, 0⟩)) 3 ⟨5, 0⟩ ⟨8, 0⟩)) 4 ⟨4, 0⟩ ⟨8, 0⟩), (SNode.mk (1, 3) (some (SNode.mk (1, 2) (some (SNode.mk (1, 1) (some (SNode.mk (1, 0) (some (SNode.mk (0, 0) none 0 ⟨8, 0⟩ ⟨8, 0⟩)) 1 ⟨7, 0⟩ ⟨8, 0⟩)) 2 ⟨6, 0⟩ ⟨8, 0⟩)) 3 ⟨5, 0⟩ ⟨8, 0⟩)) 4 ⟨4, 0⟩ ⟨8, 0⟩)] [(1, 2), (2, 1), (3, 0), (1, 1), (2, 0), (0, 1), (1, 0), (0, 0)] [((1, 3), 4), ((2, 2), 4), ((3, 1), 4), ((4, 0), 4), ((1, 2), 3), ((2, 1), 3), ((3, 0), 3), ((0, 2), 2), ((1, 1), 2), ((2, 0), 2), ((0, 1), 1), ((1, 0), 1), ((0, 0), 0)] 8)
    (SState.mk [(SNode.mk (2, 2) (some (SNode.mk (2, 1) (some (SNode.mk (2, 0) (some (SNode.mk (1, 0) (some (SNode.mk (0, 0) none 0 ⟨8, 0⟩ ⟨8, 0⟩)) 1 ⟨7, 0⟩ ⟨8, 0⟩)) 2 ⟨6, 0⟩ ⟨8, 0⟩)) 3 ⟨5, 0⟩ ⟨8, 0⟩)) 4 ⟨4, 0⟩ ⟨8, 0⟩), (SNode.mk (0, 2) (some (SNode.mk (0, 1) (some (SNode.mk (0, 0) none 0 ⟨8, 0⟩ ⟨8, 0⟩)) 1 ⟨7, 0⟩ ⟨8, 0⟩)) 2 ⟨6, 0⟩ ⟨8, 0⟩), (SNode.mk (1, 3) (some (SNode.mk (1, 2) (some (SNode.mk (1, 1) (some (SNode.mk (1, 0) (some (SNode.mk (0, 0) none 0 ⟨8, 0⟩ ⟨8, 0⟩)) 1 ⟨7, 0⟩ ⟨8, 0⟩)) 2 ⟨6, 0⟩ ⟨8, 0⟩)) 3 ⟨5, 0⟩ ⟨8, 0⟩)) 4 ⟨4, 0⟩ ⟨8, 0⟩), (SNode.mk (4, 0) (some (SNode.mk (3, 0) (some (SNode.mk (2, 0) (some (SNode.mk (1, 0) (some (SNode.mk (0, 0) none 0 ⟨8, 0⟩ ⟨8, 0⟩)) 1 ⟨7, 0⟩ ⟨8, 0⟩)) 2 ⟨6, 0⟩ ⟨8, 0⟩)) 3 ⟨5, 0⟩ ⟨8, 0⟩)) 4 ⟨4, 0⟩ ⟨8, 0⟩), (SNode.mk (4, 1) (some (SNode.mk (3, 1) (some (SNode.mk (3, 0) (some (SNode.mk (2, 0) (some (SNode.mk (1, 0) (some (SNode.mk (0, 0) none 0 ⟨8, 0⟩ ⟨8, 0⟩)) 1 ⟨7, 0⟩ ⟨8, 0⟩)) 2 ⟨6, 0⟩ ⟨8, 0⟩)) 3 ⟨5, 0⟩ ⟨8, 0⟩)) 4 ⟨4, 0⟩ ⟨8, 0⟩)) 5 ⟨3, 0⟩ ⟨8, 0⟩), (SNode.mk (3, 2) (some (SNode.mk (3, 1) (some (SNode.mk (3, 0) (some (SNode.mk (2, 0) (some (SNode.mk (1, 0) (some (SNode.mk (0, 0) none 0 ⟨8, 0⟩ ⟨8, 0⟩)) 1 ⟨7, 0⟩ ⟨8, 0⟩)) 2 ⟨6, 0⟩ ⟨8, 0⟩)) 3 ⟨5, 0⟩ ⟨8, 0⟩)) 4 ⟨4, 0⟩ ⟨8, 0⟩)) 5 ⟨3, 0⟩ ⟨8, 0⟩)] [(3, 1), (1, 2), (2, 1), (3, 0), (1, 1), (2, 0), (0, 1), (1, 0), (0, 0)] [((3, 2), 5), ((4, 1), 5), ((1, 3), 4), ((2, 2), 4), ((3, 1), 4), ((4, 0), 4), ((1, 2), 3), ((2, 1), 3), ((3, 0), 3), ((0, 2), 2), ((1, 1), 2), ((2, 0), 2), ((0, 1), 1), ((1, 0), 1), ((0, 0), 0)] 9) rfl 720]
  rw [searchLoop_cont specGrid55 (4, 4) heuristic_manhattan
    (SState.mk [(SNode.mk (2, 2) (some (SNode.mk (2, 1) (some (SNode.mk (2, 0) (some (SNode.mk (1, 0) (some (SNode.mk (0, 0) none 0 ⟨8, 0⟩ ⟨8, 0⟩)) 1 ⟨7, 0⟩ ⟨8, 0⟩)) 2 ⟨6, 0⟩ ⟨8, 0⟩)) 3 ⟨5, 0⟩ ⟨8, 0⟩)) 4 ⟨4, 0⟩ ⟨8, 0⟩), (SNode.mk (0, 2) (some (SNode.mk (0, 1) (some (SNode.mk (0, 0) none 0 ⟨8, 0⟩ ⟨8, 0⟩)) 1 ⟨7, 0⟩ ⟨8, 0⟩)) 2 ⟨6, 0⟩ ⟨8, 0⟩), (SNode.mk (1, 3) (some (SNode.mk (1, 2) (some (SNode.mk (1, 1) (some (SNode.mk (1, 0) (some (SNode.mk (0, 0) none 0 ⟨8, 0⟩ ⟨8, 0⟩)) 1 ⟨7, 0⟩ ⟨8, 0⟩)) 2 ⟨6, 0⟩ ⟨8, 0⟩)) 3 ⟨5, 0⟩ ⟨8, 0⟩)) 4 ⟨4, 0⟩ ⟨8, 0⟩), (SNode.mk (4, 0) (some (SNode.mk (3, 0) (some (SNode.mk (2, 0) (some (SNode.mk (1, 0) (some (SNode.mk (0, 0) none 0 ⟨8, 0⟩ ⟨8, 0⟩)) 1 ⟨7, 0⟩ ⟨8, 0⟩)) 2 ⟨6, 0⟩ ⟨8, 0⟩)) 3 ⟨5, 0⟩ ⟨8, 0⟩)) 4 ⟨4, 0⟩ ⟨8, 0⟩), (SNode.mk (4, 1) (some (SNode.mk (3, 1) (some (SNode.mk (3, 0) (some (SNode.mk (2, 0) (some (SNode.mk (1, 0) (some (SNode.mk (0, 0) none 0 ⟨8, 0⟩ ⟨8, 0⟩)) 1 ⟨7, 0⟩ ⟨8, 0⟩)) 2 ⟨6, 0⟩ ⟨8, 0⟩)) 3 ⟨5, 0⟩ ⟨8, 0⟩)) 4 ⟨4, 0⟩ ⟨8, 0⟩)) 5 ⟨3, 0⟩ ⟨8, 0⟩), (SNode.mk (3, 2) (some (SNode.mk (3, 1) (some (SNode.mk (3, 0) (some (SNode.mk (2, 0) (some (SNode.mk (1, 0) (some (SNode.mk (0, 0) none 0 ⟨8, 0⟩ ⟨8, 0⟩)) 1 ⟨7, 0⟩ ⟨8, 0⟩)) 2 ⟨6, 0⟩ ⟨8, 0⟩)) 3 ⟨5, 0⟩ ⟨8, 0⟩)) 4 ⟨4, 0⟩ ⟨8, 0⟩)) 5 ⟨3, 0⟩ ⟨8, 0⟩)] [(3, 1), (1, 2), (2, 1), (3, 0), (1, 1), (2, 0), (0, 1), (1, 0), (0, 0)] [((3, 2), 5), ((4, 1), 5), ((1, 3), 4), ((2, 2), 4), ((3, 1), 4), ((4, 0), 4), ((1, 2), 3), ((2, 1), 3), ((3, 0), 3), ((0, 2), 2), ((1, 1), 2), ((2, 0), 2), ((0, 1), 1), ((1, 0), 1), ((0, 0), 0)] 9)
    (SState.mk [(SNode.mk (1, 3) (some (SNode.mk (1, 2) (some (SNode.mk (1, 1) (some (SNode.mk (1, 0) (some (SNode.mk (0, 0) none 0 ⟨8, 0⟩ ⟨8, 0⟩)) 1 ⟨7, 0⟩ ⟨8, 0⟩)) 2 ⟨6, 0⟩ ⟨8, 0⟩)) 3 ⟨5, 0⟩ ⟨8, 0⟩)) 4 ⟨4, 0⟩ ⟨8, 0⟩), (SNode.mk (0, 2) (some (SNode.mk (0, 1) (some (SNode.mk (0, 0) none 0 ⟨8, 0⟩ ⟨8, 0⟩)) 1 ⟨7, 0⟩ ⟨8, 0⟩)) 2 ⟨6, 0⟩ ⟨8, 0⟩), (SNode.mk (3, 2) (some (SNode.mk (3, 1) (some (SNode.mk (3, 0) (some (SNode.mk (2, 0) (some (SNode.mk (1, 0) (some (SNode.mk (0, 0) none 0 ⟨8, 0⟩ ⟨8, 0⟩)) 1 ⟨7, 0⟩ ⟨8, 0⟩)) 2 ⟨6, 0⟩ ⟨8, 0⟩)) 3 ⟨5, 0⟩ ⟨8, 0⟩)) 4 ⟨4, 0⟩ ⟨8, 0⟩)) 5 ⟨3, 0⟩ ⟨8, 0⟩), (SNode.mk (4, 0) (some (SNode.mk (3, 0) (some (SNode.mk (2, 0) (some (SNode.mk (1, 0) (some (SNode.mk (0, 0) none 0 ⟨8, 0⟩ ⟨8, 0⟩)) 1 ⟨7, 0⟩ ⟨8, 0⟩)) 2 ⟨6, 0⟩ ⟨8, 0⟩)) 3 ⟨5, 0⟩ ⟨8, 0⟩)) 4 ⟨4, 0⟩ ⟨8, 0⟩), (SNode.mk (4, 1) (some (SNode.mk (3, 1) (some (SNode.mk (3, 0) (some (SNode.mk (2, 0) (some (SNode.mk (1, 0) (some (SNode.mk (0, 0) none 0 ⟨8, 0⟩ ⟨8, 0⟩)) 1 ⟨7, 0⟩ ⟨8, 0⟩)) 2 ⟨6, 0⟩ ⟨8, 0⟩)) 3 ⟨5, 0⟩ ⟨8, 0⟩)) 4 ⟨4, 0⟩ ⟨8, 0⟩)) 5 ⟨3, 0⟩ ⟨8, 0⟩), (SNode.mk (2, 3) (some (SNode.mk (2, 2) (some (SNode.mk (2, 1) (some (SNode.mk (2, 0) (some (SNode.mk (1, 0) (some (SNode.mk (0, 0) none 0 ⟨8, 0⟩ ⟨8, 0⟩)) 1 ⟨7, 0⟩ ⟨8, 0⟩)) 2 ⟨6, 0⟩ ⟨8, 0⟩)) 3 ⟨5, 0⟩ ⟨8, 0⟩)) 4 ⟨4, 0⟩ ⟨8, 0⟩)) 5 ⟨3, 0⟩ ⟨8, 0⟩)] [(2, 2), (3, 1), (1, 2), (2, 1), (3, 0), (1, 1), (2, 0), (0, 1), (1, 0), (0, 0)] [((2, 3), 5), ((3, 2), 5), ((4, 1), 5), ((1, 3), 4), ((2, 2), 4), ((3, 1), 4), ((4, 0), 4), ((1, 2), 3), ((2, 1), 3), ((3, 0), 3), ((0, 2), 2), ((1, 1), 2), ((2, 0), 2), ((0, 1), 1), ((1, 0), 1), ((0, 0), 0)] 10) rfl 719]
  rw [searchLoop_cont specGrid55 (4, 4) heuristic_manhattan
    (SState.mk [(SNode.mk (1, 3) (some (SNode.mk (1, 2) (some (SNode.mk (1, 1) (some (SNode.mk (1, 0) (some (SNode.mk (0, 0) none 0 ⟨8, 0⟩ ⟨8, 0⟩)) 1 ⟨7, 0⟩ ⟨8, 0⟩)) 2 ⟨6, 0⟩ ⟨8, 0⟩)) 3 ⟨5, 0⟩ ⟨8, 0⟩)) 4 ⟨4, 0⟩ ⟨8, 0⟩), (SNode.mk (0, 2) (some (SNode.mk (0, 1) (some (SNode.mk (0, 0) none 0 ⟨8, 0⟩ ⟨8, 0⟩)) 1 ⟨7, 0⟩ ⟨8, 0⟩)) 2 ⟨6, 0⟩ ⟨8, 0⟩), (SNode.mk (3, 2) (some (SNode.mk (3, 1) (some (SNode.mk (3, 0) (some (SNode.mk (2, 0) (some (SNode.mk (1, 0) (some (SNode.mk (0, 0) none 0 ⟨8, 0⟩ ⟨8, 0⟩)) 1 ⟨7, 0⟩ ⟨8, 0⟩)) 2 ⟨6, 0⟩ ⟨8, 0⟩)) 3 ⟨5, 0⟩ ⟨8, 0⟩)) 4 ⟨4, 0⟩ ⟨8, 0⟩)) 5 ⟨3, 0⟩ ⟨8, 0⟩), (SNode.mk (4, 0) (some (SNode.mk (3, 0) (some (SNode.mk (2, 0) (some (SNode.mk (1, 0) (some (SNode.mk (0, 0) none 0 ⟨8, 0⟩ ⟨8, 0⟩)) 1 ⟨7, 0⟩ ⟨8, 0⟩)) 2 ⟨6, 0⟩ ⟨8, 0⟩)) 3 ⟨5, 0⟩ ⟨8, 0⟩)) 4 ⟨4, 0⟩ ⟨8, 0⟩), (SNode.mk (4, 1) (some (SNode.mk (3, 1) (some (SNode.mk (3, 0) (some (SNode.mk (2, 0) (some (SNode.mk (1, 0) (some (SNode.mk (0, 0) none 0 ⟨8, 0⟩ ⟨8, 0⟩)) 1 ⟨7, 0⟩ ⟨8, 0⟩)) 2 ⟨6, 0⟩ ⟨8, 0⟩)) 3 ⟨5, 0⟩ ⟨8, 0⟩)) 4 ⟨4, 0⟩ ⟨8, 0⟩)) 5 ⟨3, 0⟩ ⟨8, 0⟩), (SNode.mk (2, 3) (some (SNode.mk (2, 2) (some (SNode.mk (2, 1) (some (SNode.mk (2, 0) (some (SNode.mk (1, 0) (some (SNode.mk (0, 0) none 0 ⟨8, 0⟩ ⟨8, 0⟩)) 1 ⟨7, 0⟩ ⟨8, 0⟩)) 2 ⟨6, 0⟩ ⟨8, 0⟩)) 3 ⟨5, 0⟩ ⟨8, 0⟩)) 4 ⟨4, 0⟩ ⟨8, 0⟩)) 5 ⟨3, 0⟩ ⟨8, 0⟩)] [(2, 2), (3, 1), (1, 2), (2, 1), (3, 0), (1, 1), (2, 0), (0, 1), (1, 0), (0, 0)] [((2, 3), 5), ((3, 2), 5), ((4, 1), 5), ((1, 3), 4), ((2, 2), 4), ((3, 1), 4), ((4, 0), 4), ((1, 2), 3), ((2, 1), 3), ((3, 0), 3), ((0, 2), 2), ((1, 1), 2), ((2, 0), 2), ((0, 1), 1), ((1, 0), 1), ((0, 0), 0)] 10)
    (SState.mk [(SNode.mk (3, 2) (some (SNode.mk (3, 1) (some (SNode.mk (3, 0) (some (SNode.mk (2, 0) (some (SNode.mk (1, 0) (some (SNode.mk (0, 0) none 0 ⟨8, 0⟩ ⟨8, 0⟩)) 1 ⟨7, 0⟩ ⟨8, 0⟩)) 2 ⟨6, 0⟩ ⟨8, 0⟩)) 3 ⟨5, 0⟩ ⟨8, 0⟩)) 4 ⟨4, 0⟩ ⟨8, 0⟩)) 5 ⟨3, 0⟩ ⟨8, 0⟩), (SNode.mk (0, 2) (some (SNode.mk (0, 1) (some (SNode.mk (0, 0) none 0 ⟨8, 0⟩ ⟨8, 0⟩)) 1 ⟨7, 0⟩ ⟨8, 0⟩)) 2 ⟨6, 0⟩ ⟨8, 0⟩), (SNode.mk (2, 3) (some (SNode.mk (2, 2) (some (SNode.mk (2, 1) (some (SNode.mk (2, 0) (some (SNode.mk (1, 0) (some (SNode.mk (0, 0) none 0 ⟨8, 0⟩ ⟨8, 0⟩)) 1 ⟨7, 0⟩ ⟨8, 0⟩)) 2 ⟨6, 0⟩ ⟨8, 0⟩)) 3 ⟨5, 0⟩ ⟨8, 0⟩)) 4 ⟨4, 0⟩ ⟨8, 0⟩)) 5 ⟨3, 0⟩ ⟨8, 0⟩), (SNode.mk (4, 0) (some (SNode.mk (3, 0) (some (SNode.mk (2, 0) (some (SNode.mk (1, 0) (some (SNode.mk (0, 0) none 0 ⟨8, 0⟩ ⟨8, 0⟩)) 1 ⟨7, 0⟩ ⟨8, 0⟩)) 2 ⟨6, 0⟩ ⟨8, 0⟩)) 3 ⟨5, 0⟩ ⟨8, 0⟩)) 4 ⟨4, 0⟩ ⟨8, 0⟩), (SNode.mk (4, 1) (some (SNode.mk (3, 1) (some (SNode.mk (3, 0) (some (SNode.mk (2, 0) (some (SNode.mk (1, 0) (some (SNode.mk (0, 0) none 0 ⟨8, 0⟩ ⟨8, 0⟩)) 1 ⟨7, 0⟩ ⟨8, 0⟩)) 2 ⟨6, 0⟩ ⟨8, 0⟩)) 3 ⟨5, 0⟩ ⟨8, 0⟩)) 4 ⟨4, 0⟩ ⟨8, 0⟩)) 5 ⟨3, 0⟩ ⟨8, 0⟩), (SNode.mk (0, 3) (some (SNode.mk (1, 3) (some (SNode.mk (1, 2) (some (SNode.mk (1, 1) (some (SNode.mk (1, 0) (some (SNode.mk (0, 0) none 0 ⟨8, 0⟩ ⟨8, 0⟩)) 1 ⟨7, 0⟩ ⟨8, 0⟩)) 2 ⟨6, 0⟩ ⟨8, 0⟩)) 3 ⟨5, 0⟩ ⟨8, 0⟩)) 4 ⟨4, 0⟩ ⟨8, 0⟩)) 5 ⟨5, 0⟩ ⟨10, 0⟩), (SNode.mk (1, 4) (some (SNode.mk (1, 3) (some (SNode.mk (1, 2) (some (SNode.mk (1, 1) (some (SNode.mk (1, 0) (some (SNode.mk (0, 0) none 0 ⟨8, 0⟩ ⟨8, 0⟩)) 1 ⟨7, 0⟩ ⟨8, 0⟩)) 2 ⟨6, 0⟩ ⟨8, 0⟩)) 3 ⟨5, 0⟩ ⟨8, 0⟩)) 4 ⟨4, 0⟩ ⟨8, 0⟩)) 5 ⟨3, 0⟩ ⟨8, 0⟩)] [(1, 3), (2, 2), (3, 1), (1, 2), (2, 1), (3, 0), (1, 1), (2, 0), (0, 1), (1, 0), (0, 0)] [((1, 4), 5), ((0, 3), 5), ((2, 3), 5), ((3, 2), 5), ((4, 1), 5), ((1, 3), 4), ((2, 2), 4), ((3, 1), 4), ((4, 0), 4), ((1, 2), 3), ((2, 1), 3), ((3, 0), 3), ((0, 2), 2), ((1, 1), 2), ((2, 0), 2), ((0, 1), 1), ((1, 0), 1), ((0, 0), 0)] 11) rfl 718]
  rw [searchLoop_cont specGrid55 (4, 4) heuristic_manhattan
    (SState.mk [(SNode.mk (3, 2) (some (SNode.mk (3, 1) (some (SNode.mk (3, 0) (some (SNode.mk (2, 0) (some (SNode.mk (1, 0) (some (SNode.mk (0, 0) none 0 ⟨8, 0⟩ ⟨8, 0⟩)) 1 ⟨7, 0⟩ ⟨8, 0⟩)) 2 ⟨6, 0⟩ ⟨8, 0⟩)) 3 ⟨5, 0⟩ ⟨8, 0⟩)) 4 ⟨4, 0⟩ ⟨8, 0⟩)) 5 ⟨3, 0⟩ ⟨8, 0⟩), (SNode.mk (0, 2) (some (SNode.mk (0, 1) (some (SNode.mk (0, 0) none 0 ⟨8, 0⟩ ⟨8, 0⟩)) 1 ⟨7, 0⟩ ⟨8, 0⟩)) 2 ⟨6, 0⟩ ⟨8, 0⟩), (SNode.mk (2, 3) (some (SNode.mk (2, 2) (some (SNode.mk (2, 1) (some (SNode.mk (2, 0) (some (SNode.mk (1, 0) (some (SNode.mk (0, 0) none 0 ⟨8, 0⟩ ⟨8, 0⟩)) 1 ⟨7, 0⟩ ⟨8, 0⟩)) 2 ⟨6, 0⟩ ⟨8, 0⟩)) 3 ⟨5, 0⟩ ⟨8, 0⟩)) 4 ⟨4, 0⟩ ⟨8, 0⟩)) 5 ⟨3, 0⟩ ⟨8, 0⟩), (SNode.mk (4, 0) (some (SNode.mk (3, 0) (some (SNode.mk (2, 0) (some (SNode.mk (1, 0) (some (SNode.mk (0, 0) none 0 ⟨8, 0⟩ ⟨8, 0⟩)) 1 ⟨7, 0⟩ ⟨8, 0⟩)) 2 ⟨6, 0⟩ ⟨8, 0⟩)) 3 ⟨5, 0⟩ ⟨8, 0⟩)) 4 ⟨4, 0⟩ ⟨8, 0⟩), (SNode.mk (4, 1) (some (SNode.mk (3, 1) (some (SNode.mk (3, 0) (some (SNode.mk (2, 0) (some (SNode.mk (1, 0) (some (SNode.mk (0, 0) none 0 ⟨8, 0⟩ ⟨8, 0⟩)) 1 ⟨7, 0⟩ ⟨8, 0⟩)) 2 ⟨6, 0⟩ ⟨8, 0⟩)) 3 ⟨5, 0⟩ ⟨8, 0⟩)) 4 ⟨4, 0⟩ ⟨8, 0⟩)) 5 ⟨3, 0⟩ ⟨8, 0⟩), (SNode.mk (0, 3) (some (SNode.mk (1, 3) (some (SNode.mk (1, 2) (some (SNode.mk (1, 1) (some (SNode.mk (1, 0) (some (SNode.mk (0, 0) none 0 ⟨8, 0⟩ ⟨8, 0⟩)) 1 ⟨7, 0⟩ ⟨8, 0⟩)) 2 ⟨6, 0⟩ ⟨8, 0⟩)) 3 ⟨5, 0⟩ ⟨8, 0⟩)) 4 ⟨4, 0⟩ ⟨8, 0⟩)) 5 ⟨5, 0⟩ ⟨10, 0⟩), (SNode.mk (1, 4) (some (SNode.mk (1, 3) (some (SNode.mk (1, 2) (some (SNode.mk (1, 1) (some (SNode.mk (1, 0) (some (SNode.mk (0, 0) none 0 ⟨8, 0⟩ ⟨8, 0⟩)) 1 ⟨7, 0⟩ ⟨8, 0⟩)) 2 ⟨6, 0⟩ ⟨8, 0⟩)) 3 ⟨5, 0⟩ ⟨8, 0⟩)) 4 ⟨4, 0⟩ ⟨8, 0⟩)) 5 ⟨3, 0⟩ ⟨8, 0⟩)] [(1, 3), (2, 2), (3, 1), (1, 2), (2, 1), (3, 0), (1, 1), (2, 0), (0, 1), (1, 0), (0, 0)] [((1, 4), 5), ((0, 3), 5), ((2, 3), 5), ((3, 2), 5), ((4, 1), 5), ((1, 3), 4), ((2, 2), 4), ((3, 1), 4), ((4, 0), 4), ((1, 2), 3), ((2, 1), 3), ((3, 0), 3), ((0, 2), 2), ((1, 1), 2), ((2, 0), 2), ((0, 1), 1), ((1, 0), 1), ((0, 0), 0)] 11)
    (SState.mk [(SNode.mk (2, 3) (some (SNode.mk (2, 2) (some (SNode.mk (2, 1) (some (SNode.mk (2, 0) (some (SNode.mk (1, 0) (some (SNode.mk (0, 0) none 0 ⟨8, 0⟩ ⟨8, 0⟩)) 1 ⟨7, 0⟩ ⟨8, 0⟩)) 2 ⟨6, 0⟩ ⟨8, 0⟩)) 3 ⟨5, 0⟩ ⟨8, 0⟩)) 4 ⟨4, 0⟩ ⟨8, 0⟩)) 5 ⟨3, 0⟩ ⟨8, 0⟩), (SNode.mk (0, 2) (some (SNode.mk (0, 1) (some (SNode.mk (0, 0) none 0 ⟨8, 0⟩ ⟨8, 0⟩)) 1 ⟨7, 0⟩ ⟨8, 0⟩)) 2 ⟨6, 0⟩ ⟨8, 0⟩), (SNode.mk (1, 4) (some (SNode.mk (1, 3) (some (SNode.mk (1, 2) (some (SNode.mk (1, 1) (some (SNode.mk (1, 0) (some (SNode.mk (0, 0) none 0 ⟨8, 0⟩ ⟨8, 0⟩)) 1 ⟨7, 0⟩ ⟨8, 0⟩)) 2 ⟨6, 0⟩ ⟨8, 0⟩)) 3 ⟨5, 0⟩ ⟨8, 0⟩)) 4 ⟨4, 0⟩ ⟨8, 0⟩)) 5 ⟨3, 0⟩ ⟨8, 0⟩), (SNode.mk (4, 0) (some (SNode.mk (3, 0) (some (SNode.mk (2, 0) (some (SNode.mk (1, 0) (some (SNode.mk (0, 0) none 0 ⟨8, 0⟩ ⟨8, 0⟩)) 1 ⟨7, 0⟩ ⟨8, 0⟩)) 2 ⟨6, 0⟩ ⟨8, 0⟩)) 3 ⟨5, 0⟩ ⟨8, 0⟩)) 4 ⟨4, 0⟩ ⟨8, 0⟩), (SNode.mk (4, 1) (some (SNode.mk (3, 1) (some (SNode.mk (3, 0) (some (SNode.mk (2, 0) (some (SNode.mk (1, 0) (some (SNode.mk (0, 0) none 0 ⟨8, 0⟩ ⟨8, 0⟩)) 1 ⟨7, 0⟩ ⟨8, 0⟩)) 2 ⟨6, 0⟩ ⟨8, 0⟩)) 3 ⟨5, 0⟩ ⟨8, 0⟩)) 4 ⟨4, 0⟩ ⟨8, 0⟩)) 5 ⟨3, 0⟩ ⟨8, 0⟩), (SNode.mk (0, 3) (some (SNode.mk (1, 3) (some (SNode.mk (1, 2) (some (SNode.mk (1, 1) (some (SNode.mk (1, 0) (some (SNode.mk (0, 0) none 0 ⟨8, 0⟩ ⟨8, 0⟩)) 1 ⟨7, 0⟩ ⟨8, 0⟩)) 2 ⟨6, 0⟩ ⟨8, 0⟩)) 3 ⟨5, 0⟩ ⟨8, 0⟩)) 4 ⟨4, 0⟩ ⟨8, 0⟩)) 5 ⟨5, 0⟩ ⟨10, 0⟩), (SNode.mk (4, 2) (some (SNode.mk (3, 2) (some (SNode.mk (3, 1) (some (SNode.mk (3, 0) (some (SNode.mk (2, 0) (some (SNode.mk (1, 0) (some (SNode.mk (0, 0) none 0 ⟨8, 0⟩ ⟨8, 0⟩)) 1 ⟨7, 0⟩ ⟨8, 0⟩)) 2 ⟨6, 0⟩ ⟨8, 0⟩)) 3 ⟨5, 0⟩ ⟨8, 0⟩)) 4 ⟨4, 0⟩ ⟨8, 0⟩)) 5 ⟨3, 0⟩ ⟨8, 0⟩)) 6 ⟨2, 0⟩ ⟨8, 0⟩), (SNode.mk (3, 3) (some (SNode.mk (3, 2) (some (SNode.mk (3, 1) (some (SNode.mk (3, 0) (some (SNode.mk (2, 0) (some (SNode.mk (1, 0) (some (SNode.mk (0, 0) none 0 ⟨8, 0⟩ ⟨8, 0⟩)) 1 ⟨7, 0⟩ ⟨8, 0⟩)) 2 ⟨6, 0⟩ ⟨8, 0⟩)) 3 ⟨5, 0⟩ ⟨8, 0⟩)) 4 ⟨4, 0⟩ ⟨8, 0⟩)) 5 ⟨3, 0⟩ ⟨8, 0⟩)) 6 ⟨2, 0⟩ ⟨8, 0⟩)] [(3, 2), (1, 3), (2, 2), (3, 1), (1, 2), (2, 1), (3, 0), (1, 1), (2, 0), (0, 1), (1, 0), (0, 0)] [((3, 3), 6), ((4, 2), 6), ((1, 4), 5), ((0, 3), 5), ((2, 3), 5), ((3, 2), 5), ((4, 1), 5), ((1, 3), 4), ((2, 2), 4), ((3, 1), 4), ((4, 0), 4), ((1, 2), 3), ((2, 1), 3), ((3, 0), 3), ((0, 2), 2), ((1, 1), 2), ((2, 0), 2), ((0, 1), 1), ((1, 0), 1), ((0, 0), 0)] 12) rfl 717]
  rw [searchLoop_cont specGrid55 (4, 4) heuristic_manhattan
    (SState.mk [(SNode.mk (2, 3) (some (SNode.mk (2, 2) (some (SNode.mk (2, 1) (some (SNode.mk (2, 0) (some (SNode.mk (1, 0) (some (SNode.mk (0, 0) none 0 ⟨8, 0⟩ ⟨8, 0⟩)) 1 ⟨7, 0⟩ ⟨8, 0⟩)) 2 ⟨6, 0⟩ ⟨8, 0⟩)) 3 ⟨5, 0⟩ ⟨8, 0⟩)) 4 ⟨4, 0⟩ ⟨8, 0⟩)) 5 ⟨3, 0⟩ ⟨8, 0⟩), (SNode.mk (0, 2) (some (SNode.mk (0, 1) (some (SNode.mk (0, 0) none 0 ⟨8, 0⟩ ⟨8, 0⟩)) 1 ⟨7, 0⟩ ⟨8, 0⟩)) 2 ⟨6, 0⟩ ⟨8, 0⟩), (SNode.mk (1, 4) (some (SNode.mk (1, 3) (some (SNode.mk (1, 2) (some (SNode.mk (1, 1) (some (SNode.mk (1, 0) (some (SNode.mk (0, 0) none 0 ⟨8, 0⟩ ⟨8, 0⟩)) 1 ⟨7, 0⟩ ⟨8, 0⟩)) 2 ⟨6, 0⟩ ⟨8, 0⟩)) 3 ⟨5, 0⟩ ⟨8, 0⟩)) 4 ⟨4, 0⟩ ⟨8, 0⟩)) 5 ⟨3, 0⟩ ⟨8, 0⟩), (SNode.mk (4, 0) (some (SNode.mk (3, 0) (some (SNode.mk (2, 0) (some (SNode.mk (1, 0) (some (SNode.mk (0, 0) none 0 ⟨8, 0⟩ ⟨8, 0⟩)) 1 ⟨7, 0⟩ ⟨8, 0⟩)) 2 ⟨6, 0⟩ ⟨8, 0⟩)) 3 ⟨5, 0⟩ ⟨8, 0⟩)) 4 ⟨4, 0⟩ ⟨8, 0⟩), (SNode.mk (4, 1) (some (SNode.mk (3, 1) (some (SNode.mk (3, 0) (some (SNode.mk (2, 0) (some (SNode.mk (1, 0) (some (SNode.mk (0, 0) none 0 ⟨8, 0⟩ ⟨8, 0⟩)) 1 ⟨7, 0⟩ ⟨8, 0⟩)) 2 ⟨6, 0⟩ ⟨8, 0⟩)) 3 ⟨5, 0⟩ ⟨8, 0⟩)) 4 ⟨4, 0⟩ ⟨8, 0⟩)) 5 ⟨3, 0⟩ ⟨8, 0⟩), (SNode.mk (0, 3) (some (SNode.mk (1, 3) (some (SNode.mk (1, 2) (some (SNode.mk (1, 1) (some (SNode.mk (1, 0) (some (SNode.mk (0, 0) none 0 ⟨8, 0⟩ ⟨8, 0⟩)) 1 ⟨7, 0⟩ ⟨8, 0⟩)) 2 ⟨6, 0⟩ ⟨8, 0⟩)) 3 ⟨5, 0⟩ ⟨8, 0⟩)) 4 ⟨4, 0⟩ ⟨8, 0⟩)) 5 ⟨5, 0⟩ ⟨10, 0⟩), (SNode.mk (4, 2) (some (SNode.mk (3, 2) (some (SNode.mk (3, 1) (some (SNode.mk (3, 0) (some (SNode.mk (2, 0) (some (SNode.mk (1, 0) (some (SNode.mk (0, 0) none 0 ⟨8, 0⟩ ⟨8, 0⟩)) 1 ⟨7, 0⟩ ⟨8, 0⟩)) 2 ⟨6, 0⟩ ⟨8, 0⟩)) 3 ⟨5, 0⟩ ⟨8, 0⟩)) 4 ⟨4, 0⟩ ⟨8, 0⟩)) 5 ⟨3, 0⟩ ⟨8, 0⟩)) 6 ⟨2, 0⟩ ⟨8, 0⟩), (SNode.mk (3, 3) (some (SNode.mk (3, 2) (some (SNode.mk (3, 1) (some (SNode.mk (3, 0) (some (SNode.mk (2, 0) (some (SNode.mk (1, 0) (some (SNode.mk (0, 0) none 0 ⟨8, 0⟩ ⟨8, 0⟩)) 1 ⟨7, 0⟩ ⟨8, 0⟩)) 2 ⟨6, 0⟩ ⟨8, 0⟩)) 3 ⟨5, 0⟩ ⟨8, 0⟩)) 4 ⟨4, 0⟩ ⟨8, 0⟩)) 5 ⟨3, 0⟩ ⟨8, 0⟩)) 6 ⟨2, 0⟩ ⟨8, 0⟩)] [(3, 2), (1, 3), (2, 2), (3, 1), (1, 2), (2, 1), (3, 0), (1, 1), (2, 0), (0, 1), (1, 0), (0, 0)] [((3, 3), 6), ((4, 2), 6), ((1, 4), 5), ((0, 3), 5), ((2, 3), 5), ((3, 2), 5), ((4, 1), 5), ((1, 3), 4), ((2, 2), 4), ((3, 1), 4), ((4, 0), 4), ((1, 2), 3), ((2, 1), 3), ((3, 0), 3), ((0, 2), 2), ((1, 1), 2), ((2, 0), 2), ((0, 1), 1), ((1, 0), 1), ((0, 0), 0)] 12)
    (SState.mk [(SNode.mk (1, 4) (some (SNode.mk (1, 3) (some (SNode.mk (1, 2) (some (SNode.mk (1, 1) (some (SNode.mk (1, 0) (some (SNode.mk (0, 0) none 0 ⟨8, 0⟩ ⟨8, 0⟩)) 1 ⟨7, 0⟩ ⟨8, 0⟩)) 2 ⟨6, 0⟩ ⟨8, 0⟩)) 3 ⟨5, 0⟩ ⟨8, 0⟩)) 4 ⟨4, 0⟩ ⟨8, 0⟩)) 5 ⟨3, 0⟩ ⟨8, 0⟩), (SNode.mk (0, 2) (some (SNode.mk (0, 1) (some (SNode.mk (0, 0) none 0 ⟨8, 0⟩ ⟨8, 0⟩)) 1 ⟨7, 0⟩ ⟨8, 0⟩)) 2 ⟨6, 0⟩ ⟨8, 0⟩), (SNode.mk (4, 2) (some (SNode.mk (3, 2) (some (SNode.mk (3, 1) (some (SNode.mk (3, 0) (some (SNode.mk (2, 0) (some (SNode.mk (1, 0) (some (SNode.mk (0, 0) none 0 ⟨8, 0⟩ ⟨8, 0⟩)) 1 ⟨7, 0⟩ ⟨8, 0⟩)) 2 ⟨6, 0⟩ ⟨8, 0⟩)) 3 ⟨5, 0⟩ ⟨8, 0⟩)) 4 ⟨4, 0⟩ ⟨8, 0⟩)) 5 ⟨3, 0⟩ ⟨8, 0⟩)) 6 ⟨2, 0⟩ ⟨8, 0⟩), (SNode.mk (4, 0) (some (SNode.mk (3, 0) (some (SNode.mk (2, 0) (some (SNode.mk (1, 0) (some (SNode.mk (0, 0) none 0 ⟨8, 0⟩ ⟨8, 0⟩)) 1 ⟨7, 0⟩ ⟨8, 0⟩)) 2 ⟨6, 0⟩ ⟨8, 0⟩)) 3 ⟨5, 0⟩ ⟨8, 0⟩)) 4 ⟨4, 0⟩ ⟨8, 0⟩), (SNode.mk (4, 1) (some (SNode.mk (3, 1) (some (SNode.mk (3, 0) (some (SNode.mk (2, 0) (some (SNode.mk (1, 0) (some (SNode.mk (0, 0) none 0 ⟨8, 0⟩ ⟨8, 0⟩)) 1 ⟨7, 0⟩ ⟨8, 0⟩)) 2 ⟨6, 0⟩ ⟨8, 0⟩)) 3 ⟨5, 0⟩ ⟨8, 0⟩)) 4 ⟨4, 0⟩ ⟨8, 0⟩)) 5 ⟨3, 0⟩ ⟨8, 0⟩), (SNode.mk (0, 3) (some (SNode.mk (1, 3) (some (SNode.mk (1, 2) (some (SNode.mk (1, 1) (some (SNode.mk (1, 0) (some (SNode.mk (0, 0) none 0 ⟨8, 0⟩ ⟨8, 0⟩)) 1 ⟨7, 0⟩ ⟨8, 0⟩)) 2 ⟨6, 0⟩ ⟨8, 0⟩)) 3 ⟨5, 0⟩ ⟨8, 0⟩)) 4 ⟨4, 0⟩ ⟨8, 0⟩)) 5 ⟨5, 0⟩ ⟨10, 0⟩), (SNode.mk (3, 3) (some (SNode.mk (3, 2) (some (SNode.mk (3, 1) (some (SNode.mk (3, 0) (some (SNode.mk (2, 0) (some (SNode.mk (1, 0) (some (SNode.mk (0, 0) none 0 ⟨8, 0⟩ ⟨8, 0⟩)) 1 ⟨7, 0⟩ ⟨8, 0⟩)) 2 ⟨6, 0⟩ ⟨8, 0⟩)) 3 ⟨5, 0⟩ ⟨8, 0⟩)) 4 ⟨4, 0⟩ ⟨8, 0⟩)) 5 ⟨3, 0⟩ ⟨8, 0⟩)) 6 ⟨2, 0⟩ ⟨8, 0⟩), (SNode.mk (2, 4) (some (SNode.mk (2, 3) (some (SNode.mk (2, 2) (some (SNode.mk (2, 1) (some (SNode.mk (2, 0) (some (SNode.mk (1, 0) (some (SNode.mk (0, 0) none 0 ⟨8, 0⟩ ⟨8, 0⟩)) 1 ⟨7, 0⟩ ⟨8, 0⟩)) 2 ⟨6, 0⟩ ⟨8, 0⟩)) 3 ⟨5, 0⟩ ⟨8, 0⟩)) 4 ⟨4, 0⟩ ⟨8, 0⟩)) 5 ⟨3, 0⟩ ⟨8, 0⟩)) 6 ⟨2, 0⟩ ⟨8, 0⟩)] [(2, 3), (3, 2), (1, 3), (2, 2), (3, 1), (1, 2), (2, 1), (3, 0), (1, 1), (2, 0), (0, 1), (1, 0), (0, 0)] [((2, 4), 6), ((3, 3), 6), ((4, 2), 6), ((1, 4), 5), ((0, 3), 5), ((2, 3), 5), ((3, 2), 5), ((4, 1), 5), ((1, 3), 4), ((2, 2), 4), ((3, 1), 4), ((4, 0), 4), ((1, 2), 3), ((2, 1), 3), ((3, 0), 3), ((0, 2), 2), ((1, 1), 2), ((2, 0), 2), ((0, 1), 1), ((1, 0), 1), ((0, 0), 0)] 13) rfl 716]
  rw [searchLoop_cont specGrid55 (4, 4) heuristic_manhattan
    (SState.mk [(SNode.mk (1, 4) (some (SNode.mk (1, 3) (some (SNode.mk (1, 2) (some (SNode.mk (1, 1) (some (SNode.mk (1, 0) (some (SNode.mk (0, 0) none 0 ⟨8, 0⟩ ⟨8, 0⟩)) 1 ⟨7, 0⟩ ⟨8, 0⟩)) 2 ⟨6, 0⟩ ⟨8, 0⟩)) 3 ⟨5, 0⟩ ⟨8, 0⟩)) 4 ⟨4, 0⟩ ⟨8, 0⟩)) 5 ⟨3, 0⟩ ⟨8, 0⟩), (SNode.mk (0, 2) (some (SNode.mk (0, 1) (some (SNode.mk (0, 0) none 0 ⟨8, 0⟩ ⟨8, 0⟩)) 1 ⟨7, 0⟩ ⟨8, 0⟩)) 2 ⟨6, 0⟩ ⟨8, 0⟩), (SNode.mk (4, 2) (some (SNode.mk (3, 2) (some (SNode.mk (3, 1) (some (SNode.mk (3, 0) (some (SNode.mk (2, 0) (some (SNode.mk (1, 0) (some (SNode.mk (0, 0) none 0 ⟨8, 0⟩ ⟨8, 0⟩)) 1 ⟨7, 0⟩ ⟨8, 0⟩)) 2 ⟨6, 0⟩ ⟨8, 0⟩)) 3 ⟨5, 0⟩ ⟨8, 0⟩)) 4 ⟨4, 0⟩ ⟨8, 0⟩)) 5 ⟨3, 0⟩ ⟨8, 0⟩)) 6 ⟨2, 0⟩ ⟨8, 0⟩), (SNode.mk (4, 0) (some (SNode.mk (3, 0) (some (SNode.mk (2, 0) (some (SNode.mk (1, 0) (some (SNode.mk (0, 0) none 0 ⟨8, 0⟩ ⟨8, 0⟩)) 1 ⟨7, 0⟩ ⟨8, 0⟩)) 2 ⟨6, 0⟩ ⟨8, 0⟩)) 3 ⟨5, 0⟩ ⟨8, 0⟩)) 4 ⟨4, 0⟩ ⟨8, 0⟩), (SNode.mk (4, 1) (some (SNode.mk (3, 1) (some (SNode.mk (3, 0) (some (SNode.mk (2, 0) (some (SNode.mk (1, 0) (some (SNode.mk (0, 0) none 0 ⟨8, 0⟩ ⟨8, 0⟩)) 1 ⟨7, 0⟩ ⟨8, 0⟩)) 2 ⟨6, 0⟩ ⟨8, 0⟩)) 3 ⟨5, 0⟩ ⟨8, 0⟩)) 4 ⟨4, 0⟩ ⟨8, 0⟩)) 5 ⟨3, 0⟩ ⟨8, 0⟩), (SNode.mk (0, 3) (some (SNode.mk (1, 3) (some (SNode.mk (1, 2) (some (SNode.mk (1, 1) (some (SNode.mk (1, 0) (some (SNode.mk (0, 0) none 0 ⟨8, 0⟩ ⟨8, 0⟩)) 1 ⟨7, 0⟩ ⟨8, 0⟩)) 2 ⟨6, 0⟩ ⟨8, 0⟩)) 3 ⟨5, 0⟩ ⟨8, 0⟩)) 4 ⟨4, 0⟩ ⟨8, 0⟩)) 5 ⟨5, 0⟩ ⟨10, 0⟩), (SNode.mk (3, 3) (some (SNode.mk (3, 2) (some (SNode.mk (3, 1) (some (SNode.mk (3, 0) (some (SNode.mk (2, 0) (some (SNode.mk (1, 0) (some (SNode.mk (0, 0) none 0 ⟨8, 0⟩ ⟨8, 0⟩)) 1 ⟨7, 0⟩ ⟨8, 0⟩)) 2 ⟨6, 0⟩ ⟨8, 0⟩)) 3 ⟨5, 0⟩ ⟨8, 0⟩)) 4 ⟨4, 0⟩ ⟨8, 0⟩)) 5 ⟨3, 0⟩ ⟨8, 0⟩)) 6 ⟨2, 0⟩ ⟨8, 0⟩), (SNode.mk (2, 4) (some (SNode.mk (2, 3) (some (SNode.mk (2, 2) (some (SNode.mk (2, 1) (some (SNode.mk (2, 0) (some (SNode.mk (1, 0) (some (SNode.mk (0, 0) none 0 ⟨8, 0⟩ ⟨8, 0⟩)) 1 ⟨7, 0⟩ ⟨8, 0⟩)) 2 ⟨6, 0⟩ ⟨8, 0⟩)) 3 ⟨5, 0⟩ ⟨8, 0⟩)) 4 ⟨4, 0⟩ ⟨8, 0⟩)) 5 ⟨3, 0⟩ ⟨8, 0⟩)) 6 ⟨2, 0⟩ ⟨8, 0⟩)] [(2, 3), (3, 2), (1, 3), (2, 2), (3, 1), (1, 2), (2, 1), (3, 0), (1, 1), (2, 0), (0, 1), (1, 0), (0, 0)] [((2, 4), 6), ((3, 3), 6), ((4, 2), 6), ((1, 4), 5), ((0, 3), 5), ((2, 3), 5), ((3, 2), 5), ((4, 1), 5), ((1, 3), 4), ((2, 2), 4), ((3, 1), 4), ((4, 0), 4), ((1, 2), 3), ((2, 1), 3), ((3, 0), 3), ((0, 2), 2), ((1, 1), 2), ((2, 0), 2), ((0, 1), 1), ((1, 0), 1), ((0, 0), 0)] 13)
    (SState.mk [(SNode.mk (4, 2) (some (SNode.mk (3, 2) (some (SNode.mk (3, 1) (some (SNode.mk (3, 0) (some (SNode.mk (2, 0) (some (SNode.mk (1, 0) (some (SNode.mk (0, 0) none 0 ⟨8, 0⟩ ⟨8, 0⟩)) 1 ⟨7, 0⟩ ⟨8, 0⟩)) 2 ⟨6, 0⟩ ⟨8, 0⟩)) 3 ⟨5, 0⟩ ⟨8, 0⟩)) 4 ⟨4, 0⟩ ⟨8, 0⟩)) 5 ⟨3, 0⟩ ⟨8, 0⟩)) 6 ⟨2, 0⟩ ⟨8, 0⟩), (SNode.mk (0, 2) (some (SNode.mk (0, 1) (some (SNode.mk (0, 0) none 0 ⟨8, 0⟩ ⟨8, 0⟩)) 1 ⟨7, 0⟩ ⟨8, 0⟩)) 2 ⟨6, 0⟩ ⟨8, 0⟩), (SNode.mk (3, 3) (some (SNode.mk (3, 2) (some (SNode.mk (3, 1) (some (SNode.mk (3, 0) (some (SNode.mk (2, 0) (some (SNode.mk (1, 0) (some (SNode.mk (0, 0) none 0 ⟨8, 0⟩ ⟨8, 0⟩)) 1 ⟨7, 0⟩ ⟨8, 0⟩)) 2 ⟨6, 0⟩ ⟨8, 0⟩)) 3 ⟨5, 0⟩ ⟨8, 0⟩)) 4 ⟨4, 0⟩ ⟨8, 0⟩)) 5 ⟨3, 0⟩ ⟨8, 0⟩)) 6 ⟨2, 0⟩ ⟨8, 0⟩), (SNode.mk (4, 0) (some (SNode.mk (3, 0) (some (SNode.mk (2, 0) (some (SNode.mk (1, 0) (some (SNode.mk (0, 0) none 0 ⟨8, 0⟩ ⟨8, 0⟩)) 1 ⟨7, 0⟩ ⟨8, 0⟩)) 2 ⟨6, 0⟩ ⟨8, 0⟩)) 3 ⟨5, 0⟩ ⟨8, 0⟩)) 4 ⟨4, 0⟩ ⟨8, 0⟩), (SNode.mk (4, 1) (some (SNode.mk (3, 1) (some (SNode.mk (3, 0) (some (SNode.mk (2, 0) (some (SNode.mk (1, 0) (some (SNode.mk (0, 0) none 0 ⟨8, 0⟩ ⟨8, 0⟩)) 1 ⟨7, 0⟩ ⟨8, 0⟩)) 2 ⟨6, 0⟩ ⟨8, 0⟩)) 3 ⟨5, 0⟩ ⟨8, 0⟩)) 4 ⟨4, 0⟩ ⟨8, 0⟩)) 5 ⟨3, 0⟩ ⟨8, 0⟩), (SNode.mk (0, 3) (some (SNode.mk (1, 3) (some (SNode.mk (1, 2) (some (SNode.mk (1, 1) (some (SNode.mk (1, 0) (some (SNode.mk (0, 0) none 0 ⟨8, 0⟩ ⟨8, 0⟩)) 1 ⟨7, 0⟩ ⟨8, 0⟩)) 2 ⟨6, 0⟩ ⟨8, 0⟩)) 3 ⟨5, 0⟩ ⟨8, 0⟩)) 4 ⟨4, 0⟩ ⟨8, 0⟩)) 5 ⟨5, 0⟩ ⟨10, 0⟩), (SNode.mk (2, 4) (some (SNode.mk (2, 3) (some (SNode.mk (2, 2) (some (SNode.mk (2, 1) (some (SNode.mk (2, 0) (some (SNode.mk (1, 0) (some (SNode.mk (0, 0) none 0 ⟨8, 0⟩ ⟨8, 0⟩)) 1 ⟨7, 0⟩ ⟨8, 0⟩)) 2 ⟨6, 0⟩ ⟨8, 0⟩)) 3 ⟨5, 0⟩ ⟨8, 0⟩)) 4 ⟨4, 0⟩ ⟨8, 0⟩)) 5 ⟨3, 0⟩ ⟨8, 0⟩)) 6 ⟨2, 0⟩ ⟨8, 0⟩), (SNode.mk (0, 4) (some (SNode.mk (1, 4) (some (SNode.mk (1, 3) (some (SNode.mk (1, 2) (some (SNode.mk (1, 1) (some (SNode.mk (1, 0) (some (SNode.mk (0, 0) none 0 ⟨8, 0⟩ ⟨8, 0⟩)) 1 ⟨7, 0⟩ ⟨8, 0⟩)) 2 ⟨6, 0⟩ ⟨8, 0⟩)) 3 ⟨5, 0⟩ ⟨8, 0⟩)) 4 ⟨4, 0⟩ ⟨8, 0⟩)) 5 ⟨3, 0⟩ ⟨8, 0⟩)) 6 ⟨4, 0⟩ ⟨10, 0⟩)] [(1, 4), (2, 3), (3, 2), (1, 3), (2, 2), (3, 1), (1, 2), (2, 1), (3, 0), (1, 1), (2, 0), (0, 1), (1, 0), (0, 0)] [((0, 4), 6), ((2, 4), 6), ((3, 3), 6), ((4, 2), 6), ((1, 4), 5), ((0, 3), 5), ((2, 3), 5), ((3, 2), 5), ((4, 1), 5), ((1, 3), 4), ((2, 2), 4), ((3, 1), 4), ((4, 0), 4), ((1, 2), 3), ((2, 1), 3), ((3, 0), 3), ((0, 2), 2), ((1, 1), 2), ((2, 0), 2), ((0, 1), 1), ((1, 0), 1), ((0, 0), 0)] 14) rfl 715]
  rw [searchLoop_cont specGrid55 (4, 4) heuristic_manhattan
    (SState.mk [(SNode.mk (4, 2) (some (SNode.mk (3, 2) (some (SNode.mk (3, 1) (some (SNode.mk (3, 0) (some (SNode.mk (2, 0) (some (SNode.mk (1, 0) (some (SNode.mk (0, 0) none 0 ⟨8, 0⟩ ⟨8, 0⟩)) 1 ⟨7, 0⟩ ⟨8, 0⟩)) 2 ⟨6, 0⟩ ⟨8, 0⟩)) 3 ⟨5, 0⟩ ⟨8, 0⟩)) 4 ⟨4, 0⟩ ⟨8, 0⟩)) 5 ⟨3, 0⟩ ⟨8, 0⟩)) 6 ⟨2, 0⟩ ⟨8, 0⟩), (SNode.mk (0, 2) (some (SNode.mk (0, 1) (some (SNode.mk (0, 0) none 0 ⟨8, 0⟩ ⟨8, 0⟩)) 1 ⟨7, 0⟩ ⟨8, 0⟩)) 2 ⟨6, 0⟩ ⟨8, 0⟩), (SNode.mk (3, 3) (some (SNode.mk (3, 2) (some (SNode.mk (3, 1) (some (SNode.mk (3, 0) (some (SNode.mk (2, 0) (some (SNode.mk (1, 0) (some (SNode.mk (0, 0) none 0 ⟨8, 0⟩ ⟨8, 0⟩)) 1 ⟨7, 0⟩ ⟨8, 0⟩)) 2 ⟨6, 0⟩ ⟨8, 0⟩)) 3 ⟨5, 0⟩ ⟨8, 0⟩)) 4 ⟨4, 0⟩ ⟨8, 0⟩)) 5 ⟨3, 0⟩ ⟨8, 0⟩)) 6 ⟨2, 0⟩ ⟨8, 0⟩), (SNode.mk (4, 0) (some (SNode.mk (3, 0) (some (SNode.mk (2, 0) (some (SNode.mk (1, 0) (some (SNode.mk (0, 0) none 0 ⟨8, 0⟩ ⟨8, 0⟩)) 1 ⟨7, 0⟩ ⟨8, 0⟩)) 2 ⟨6, 0⟩ ⟨8, 0⟩)) 3 ⟨5, 0⟩ ⟨8, 0⟩)) 4 ⟨4, 0⟩ ⟨8, 0⟩), (SNode.mk (4, 1) (some (SNode.mk (3, 1) (some (SNode.mk (3, 0) (some (SNode.mk (2, 0) (some (SNode.mk (1, 0) (some (SNode.mk (0, 0) none 0 ⟨8, 0⟩ ⟨8, 0⟩)) 1 ⟨7, 0⟩ ⟨8, 0⟩)) 2 ⟨6, 0⟩ ⟨8, 0⟩)) 3 ⟨5, 0⟩ ⟨8, 0⟩)) 4 ⟨4, 0⟩ ⟨8, 0⟩)) 5 ⟨3, 0⟩ ⟨8, 0⟩), (SNode.mk (0, 3) (some (SNode.mk (1, 3) (some (SNode.mk (1, 2) (some (SNode.mk (1, 1) (some (SNode.mk (1, 0) (some (SNode.mk (0, 0) none 0 ⟨8, 0⟩ ⟨8, 0⟩)) 1 ⟨7, 0⟩ ⟨8, 0⟩)) 2 ⟨6, 0⟩ ⟨8, 0⟩)) 3 ⟨5, 0⟩ ⟨8, 0⟩)) 4 ⟨4, 0⟩ ⟨8, 0⟩)) 5 ⟨5, 0⟩ ⟨10, 0⟩), (SNode.mk (2, 4) (some (SNode.mk (2, 3) (some (SNode.mk (2, 2) (some (SNode.mk (2, 1) (some (SNode.mk (2, 0) (some (SNode.mk (1, 0) (some (SNode.mk (0, 0) none 0 ⟨8, 0⟩ ⟨8, 0⟩)) 1 ⟨7, 0⟩ ⟨8, 0⟩)) 2 ⟨6, 0⟩ ⟨8, 0⟩)) 3 ⟨5, 0⟩ ⟨8, 0⟩)) 4 ⟨4, 0⟩ ⟨8, 0⟩)) 5 ⟨3, 0⟩ ⟨8, 0⟩)) 6 ⟨2, 0⟩ ⟨8, 0⟩), (SNode.mk (0, 4) (some (SNode.mk (1, 4) (some (SNode.mk (1, 3) (some (SNode.mk (1, 2) (some (SNode.mk (1, 1) (some (SNode.mk (1, 0) (some (SNode.mk (0, 0) none 0 ⟨8, 0⟩ ⟨8, 0⟩)) 1 ⟨7, 0⟩ ⟨8, 0⟩)) 2 ⟨6, 0⟩ ⟨8, 0⟩)) 3 ⟨5, 0⟩ ⟨8, 0⟩)) 4 ⟨4, 0⟩ ⟨8, 0⟩)) 5 ⟨3, 0⟩ ⟨8, 0⟩)) 6 ⟨4, 0⟩ ⟨10, 0⟩)] [(1, 4), (2, 3), (3, 2), (1, 3), (2, 2), (3, 1), (1, 2), (2, 1), (3, 0), (1, 1), (2, 0), (0, 1), (1, 0), (0, 0)] [((0, 4), 6), ((2, 4), 6), ((3, 3), 6), ((4, 2), 6), ((1, 4), 5), ((0, 3), 5), ((2, 3), 5), ((3, 2), 5), ((4, 1), 5), ((1, 3), 4), ((2, 2), 4), ((3, 1), 4), ((4, 0), 4), ((1, 2), 3), ((2, 1), 3), ((3, 0), 3), ((0, 2), 2), ((1, 1), 2), ((2, 0), 2), ((0, 1), 1), ((1, 0), 1), ((0, 0), 0)] 14)
    (SState.mk [(SNode.mk (3, 3) (some (SNode.mk (3, 2) (some (SNode.mk (3, 1) (some (SNode.mk (3, 0) (some (SNode.mk (2, 0) (some (SNode.mk (1, 0) (some (SNode.mk (0, 0) none 0 ⟨8, 0⟩ ⟨8, 0⟩)) 1 ⟨7, 0⟩ ⟨8, 0⟩)) 2 ⟨6, 0⟩ ⟨8, 0⟩)) 3 ⟨5, 0⟩ ⟨8, 0⟩)) 4 ⟨4, 0⟩ ⟨8, 0⟩)) 5 ⟨3, 0⟩ ⟨8, 0⟩)) 6 ⟨2, 0⟩ ⟨8, 0⟩), (SNode.mk (0, 2) (some (SNode.mk (0, 1) (some (SNode.mk (0, 0) none 0 ⟨8, 0⟩ ⟨8, 0⟩)) 1 ⟨7, 0⟩ ⟨8, 0⟩)) 2 ⟨6, 0⟩ ⟨8, 0⟩), (SNode.mk (2, 4) (some (SNode.mk (2, 3) (some (SNode.mk (2, 2) (some (SNode.mk (2, 1) (some (SNode.mk (2, 0) (some (SNode.mk (1, 0) (some (SNode.mk (0, 0) none 0 ⟨8, 0⟩ ⟨8, 0⟩)) 1 ⟨7, 0⟩ ⟨8, 0⟩)) 2 ⟨6, 0⟩ ⟨8, 0⟩)) 3 ⟨5, 0⟩ ⟨8, 0⟩)) 4 ⟨4, 0⟩ ⟨8, 0⟩)) 5 ⟨3, 0⟩ ⟨8, 0⟩)) 6 ⟨2, 0⟩ ⟨8, 0⟩), (SNode.mk (4, 0) (some (SNode.mk (3, 0) (some (SNode.mk (2, 0) (some (SNode.mk (1, 0) (some (SNode.mk (0, 0) none 0 ⟨8, 0⟩ ⟨8, 0⟩)) 1 ⟨7, 0⟩ ⟨8, 0⟩)) 2 ⟨6, 0⟩ ⟨8, 0⟩)) 3 ⟨5, 0⟩ ⟨8, 0⟩)) 4 ⟨4, 0⟩ ⟨8, 0⟩), (SNode.mk (4, 1) (some (SNode.mk (3, 1) (some (SNode.mk (3, 0) (some (SNode.mk (2, 0) (some (SNode.mk (1, 0) (some (SNode.mk (0, 0) none 0 ⟨8, 0⟩ ⟨8, 0⟩)) 1 ⟨7, 0⟩ ⟨8, 0⟩)) 2 ⟨6, 0⟩ ⟨8, 0⟩)) 3 ⟨5, 0⟩ ⟨8, 0⟩)) 4 ⟨4, 0⟩ ⟨8, 0⟩)) 5 ⟨3, 0⟩ ⟨8, 0⟩), (SNode.mk (0, 3) (some (SNode.mk (1, 3) (some (SNode.mk (1, 2) (some (SNode.mk (1, 1) (some (SNode.mk (1, 0) (some (SNode.mk (0, 0) none 0 ⟨8, 0⟩ ⟨8, 0⟩)) 1 ⟨7, 0⟩ ⟨8, 0⟩)) 2 ⟨6, 0⟩ ⟨8, 0⟩)) 3 ⟨5, 0⟩ ⟨8, 0⟩)) 4 ⟨4, 0⟩ ⟨8, 0⟩)) 5 ⟨5, 0⟩ ⟨10, 0⟩), (SNode.mk (0, 4) (some (SNode.mk (1, 4) (some (SNode.mk (1, 3) (some (SNode.mk (1, 2) (some (SNode.mk (1, 1) (some (SNode.mk (1, 0) (some (SNode.mk (0, 0) none 0 ⟨8, 0⟩ ⟨8, 0⟩)) 1 ⟨7, 0⟩ ⟨8, 0⟩)) 2 ⟨6, 0⟩ ⟨8, 0⟩)) 3 ⟨5, 0⟩ ⟨8, 0⟩)) 4 ⟨4, 0⟩ ⟨8, 0⟩)) 5 ⟨3, 0⟩ ⟨8, 0⟩)) 6 ⟨4, 0⟩ ⟨10, 0⟩), (SNode.mk (4, 3) (some (SNode.mk (4, 2) (some (SNode.mk (3, 2) (some (SNode.mk (3, 1) (some (SNode.mk (3, 0) (some (SNode.mk (2, 0) (some (SNode.mk (1, 0) (some (SNode.mk (0, 0) none 0 ⟨8, 0⟩ ⟨8, 0⟩)) 1 ⟨7, 0⟩ ⟨8, 0⟩)) 2 ⟨6, 0⟩ ⟨8, 0⟩)) 3 ⟨5, 0⟩ ⟨8, 0⟩)) 4 ⟨4, 0⟩ ⟨8, 0⟩)) 5 ⟨3, 0⟩ ⟨8, 0⟩)) 6 ⟨2, 0⟩ ⟨8, 0⟩)) 7 ⟨1, 0⟩ ⟨8, 0⟩)] [(4, 2), (1, 4), (2, 3), (3, 2), (1, 3), (2, 2), (3, 1), (1, 2), (2, 1), (3, 0), (1, 1), (2, 0), (0, 1), (1, 0), (0, 0)] [((4, 3), 7), ((0, 4), 6), ((2, 4), 6), ((3, 3), 6), ((4, 2), 6), ((1, 4), 5), ((0, 3), 5), ((2, 3), 5), ((3, 2), 5), ((4, 1), 5), ((1, 3), 4), ((2, 2), 4), ((3, 1), 4), ((4, 0), 4), ((1, 2), 3), ((2, 1), 3), ((3, 0), 3), ((0, 2), 2), ((1, 1), 2), ((2, 0), 2), ((0, 1), 1), ((1, 0), 1), ((0, 0), 0)] 15) rfl 714]
  rw [searchLoop_cont specGrid55 (4, 4) heuristic_manhattan
    (SState.mk [(SNode.mk (3, 3) (some (SNode.mk (3, 2) (some (SNode.mk (3, 1) (some (SNode.mk (3, 0) (some (SNode.mk (2, 0) (some (SNode.mk (1, 0) (some (SNode.mk (0, 0) none 0 ⟨8, 0⟩ ⟨8, 0⟩)) 1 ⟨7, 0⟩ ⟨8, 0⟩)) 2 ⟨6, 0⟩ ⟨8, 0⟩)) 3 ⟨5, 0⟩ ⟨8, 0⟩)) 4 ⟨4, 0⟩ ⟨8, 0⟩)) 5 ⟨3, 0⟩ ⟨8, 0⟩)) 6 ⟨2, 0⟩ ⟨8, 0⟩), (SNode.mk (0, 2) (some (SNode.mk (0, 1) (some (SNode.mk (0, 0) none 0 ⟨8, 0⟩ ⟨8, 0⟩)) 1 ⟨7, 0⟩ ⟨8, 0⟩)) 2 ⟨6, 0⟩ ⟨8, 0⟩), (SNode.mk (2, 4) (some (SNode.mk (2, 3) (some (SNode.mk (2, 2) (some (SNode.mk (2, 1) (some (SNode.mk (2, 0) (some (SNode.mk (1, 0) (some (SNode.mk (0, 0) none 0 ⟨8, 0⟩ ⟨8, 0⟩)) 1 ⟨7, 0⟩ ⟨8, 0⟩)) 2 ⟨6, 0⟩ ⟨8, 0⟩)) 3 ⟨5, 0⟩ ⟨8, 0⟩)) 4 ⟨4, 0⟩ ⟨8, 0⟩)) 5 ⟨3, 0⟩ ⟨8, 0⟩)) 6 ⟨2, 0⟩ ⟨8, 0⟩), (SNode.mk (4, 0) (some (SNode.mk (3, 0) (some (SNode.mk (2, 0) (some (SNode.mk (1, 0) (some (SNode.mk (0, 0) none 0 ⟨8, 0⟩ ⟨8, 0⟩)) 1 ⟨7, 0⟩ ⟨8, 0⟩)) 2 ⟨6, 0⟩ ⟨8, 0⟩)) 3 ⟨5, 0⟩ ⟨8, 0⟩)) 4 ⟨4, 0⟩ ⟨8, 0⟩), (SNode.mk (4, 1) (some (SNode.mk (3, 1) (some (SNode.mk (3, 0) (some (SNode.mk (2, 0) (some (SNode.mk (1, 0) (some (SNode.mk (0, 0) none 0 ⟨8, 0⟩ ⟨8, 0⟩)) 1 ⟨7, 0⟩ ⟨8, 0⟩)) 2 ⟨6, 0⟩ ⟨8, 0⟩)) 3 ⟨5, 0⟩ ⟨8, 0⟩)) 4 ⟨4, 0⟩ ⟨8, 0⟩)) 5 ⟨3, 0⟩ ⟨8, 0⟩), (SNode.mk (0, 3) (some (SNode.mk (1, 3) (some (SNode.mk (1, 2) (some (SNode.mk (1, 1) (some (SNode.mk (1, 0) (some (SNode.mk (0, 0) none 0 ⟨8, 0⟩ ⟨8, 0⟩)) 1 ⟨7, 0⟩ ⟨8, 0⟩)) 2 ⟨6, 0⟩ ⟨8, 0⟩)) 3 ⟨5, 0⟩ ⟨8, 0⟩)) 4 ⟨4, 0⟩ ⟨8, 0⟩)) 5 ⟨5, 0⟩ ⟨10, 0⟩), (SNode.mk (0, 4) (some (SNode.mk (1, 4) (some (SNode.mk (1, 3) (some (SNode.mk (1, 2) (some (SNode.mk (1, 1) (some (SNode.mk (1, 0) (some (SNode.mk (0, 0) none 0 ⟨8, 0⟩ ⟨8, 0⟩)) 1 ⟨7, 0⟩ ⟨8, 0⟩)) 2 ⟨6, 0⟩ ⟨8, 0⟩)) 3 ⟨5, 0⟩ ⟨8, 0⟩)) 4 ⟨4, 0⟩ ⟨8, 0⟩)) 5 ⟨3, 0⟩ ⟨8, 0⟩)) 6 ⟨4, 0⟩ ⟨10, 0⟩), (SNode.mk (4, 3) (some (SNode.mk (4, 2) (some (SNode.mk (3, 2) (some (SNode.mk (3, 1) (some (SNode.mk (3, 0) (some (SNode.mk (2, 0) (some (SNode.mk (1, 0) (some (SNode.mk (0, 0) none 0 ⟨8, 0⟩ ⟨8, 0⟩)) 1 ⟨7, 0⟩ ⟨8, 0⟩)) 2 ⟨6, 0⟩ ⟨8, 0⟩)) 3 ⟨5, 0⟩ ⟨8, 0⟩)) 4 ⟨4, 0⟩ ⟨8, 0⟩)) 5 ⟨3, 0⟩ ⟨8, 0⟩)) 6 ⟨2, 0⟩ ⟨8, 0⟩)) 7 ⟨1, 0⟩ ⟨8, 0⟩)] [(4, 2), (1, 4), (2, 3), (3, 2), (1, 3), (2, 2), (3, 1), (1, 2), (2, 1), (3, 0), (1, 1), (2, 0), (0, 1), (1, 0), (0, 0)] [((4, 3), 7), ((0, 4), 6), ((2, 4), 6), ((3, 3), 6), ((4, 2), 6), ((1, 4), 5), ((0, 3), 5), ((2, 3), 5), ((3, 2), 5), ((4, 1), 5), ((1, 3), 4), ((2, 2), 4), ((3, 1), 4), ((4, 0), 4), ((1, 2), 3), ((2, 1), 3), ((3, 0), 3), ((0, 2), 2), ((1, 1), 2), ((2, 0), 2), ((0, 1), 1), ((1, 0), 1), ((0, 0), 0)] 15)
    (SState.mk [(SNode.mk (2, 4) (some (SNode.mk (2, 3) (some (SNode.mk (2, 2) (some (SNode.mk (2, 1) (some (SNode.mk (2, 0) (some (SNode.mk (1, 0) (some (SNode.mk (0, 0) none 0 ⟨8, 0⟩ ⟨8, 0⟩)) 1 ⟨7, 0⟩ ⟨8, 0⟩)) 2 ⟨6, 0⟩ ⟨8, 0⟩)) 3 ⟨5, 0⟩ ⟨8, 0⟩)) 4 ⟨4, 0⟩ ⟨8, 0⟩)) 5 ⟨3, 0⟩ ⟨8, 0⟩)) 6 ⟨2, 0⟩ ⟨8, 0⟩), (SNode.mk (0, 2) (some (SNode.mk (0, 1) (some (SNode.mk (0, 0) none 0 ⟨8, 0⟩ ⟨8, 0⟩)) 1 ⟨7, 0⟩ ⟨8, 0⟩)) 2 ⟨6, 0⟩ ⟨8, 0⟩), (SNode.mk (4, 3) (some (SNode.mk (4, 2) (some (SNode.mk (3, 2) (some (SNode.mk (3, 1) (some (SNode.mk (3, 0) (some (SNode.mk (2, 0) (some (SNode.mk (1, 0) (some (SNode.mk (0, 0) none 0 ⟨8, 0⟩ ⟨8, 0⟩)) 1 ⟨7, 0⟩ ⟨8, 0⟩)) 2 ⟨6, 0⟩ ⟨8, 0⟩)) 3 ⟨5, 0⟩ ⟨8, 0⟩)) 4 ⟨4, 0⟩ ⟨8, 0⟩)) 5 ⟨3, 0⟩ ⟨8, 0⟩)) 6 ⟨2, 0⟩ ⟨8, 0⟩)) 7 ⟨1, 0⟩ ⟨8, 0⟩), (SNode.mk (4, 0) (some (SNode.mk (3, 0) (some (SNode.mk (2, 0) (some (SNode.mk (1, 0) (some (SNode.mk (0, 0) none 0 ⟨8, 0⟩ ⟨8, 0⟩)) 1 ⟨7, 0⟩ ⟨8, 0⟩)) 2 ⟨6, 0⟩ ⟨8, 0⟩)) 3 ⟨5, 0⟩ ⟨8, 0⟩)) 4 ⟨4, 0⟩ ⟨8, 0⟩), (SNode.mk (4, 1) (some (SNode.mk (3, 1) (some (SNode.mk (3, 0) (some (SNode.mk (2, 0) (some (SNode.mk (1, 0) (some (SNode.mk (0, 0) none 0 ⟨8, 0⟩ ⟨8, 0⟩)) 1 ⟨7, 0⟩ ⟨8, 0⟩)) 2 ⟨6, 0⟩ ⟨8, 0⟩)) 3 ⟨5, 0⟩ ⟨8, 0⟩)) 4 ⟨4, 0⟩ ⟨8, 0⟩)) 5 ⟨3, 0⟩ ⟨8, 0⟩), (SNode.mk (0, 3) (some (SNode.mk (1, 3) (some (SNode.mk (1, 2) (some (SNode.mk (1, 1) (some (SNode.mk (1, 0) (some (SNode.mk (0, 0) none 0 ⟨8, 0⟩ ⟨8, 0⟩)) 1 ⟨7, 0⟩ ⟨8, 0⟩)) 2 ⟨6, 0⟩ ⟨8, 0⟩)) 3 ⟨5, 0⟩ ⟨8, 0⟩)) 4 ⟨4, 0⟩ ⟨8, 0⟩)) 5 ⟨5, 0⟩ ⟨10, 0⟩), (SNode.mk (0, 4) (some (SNode.mk (1, 4) (some (SNode.mk (1, 3) (some (SNode.mk (1, 2) (some (SNode.mk (1, 1) (some (SNode.mk (1, 0) (some (SNode.mk (0, 0) none 0 ⟨8, 0⟩ ⟨8, 0⟩)) 1 ⟨7, 0⟩ ⟨8, 0⟩)) 2 ⟨6, 0⟩ ⟨8, 0⟩)) 3 ⟨5, 0⟩ ⟨8, 0⟩)) 4 ⟨4, 0⟩ ⟨8, 0⟩)) 5 ⟨3, 0⟩ ⟨8, 0⟩)) 6 ⟨4, 0⟩ ⟨10, 0⟩), (SNode.mk (3, 4) (some (SNode.mk (3, 3) (some (SNode.mk (3, 2) (some (SNode.mk (3, 1) (some (SNode.mk (3, 0) (some (SNode.mk (2, 0) (some (SNode.mk (1, 0) (some (SNode.mk (0, 0) none 0 ⟨8, 0⟩ ⟨8, 0⟩)) 1 ⟨7, 0⟩ ⟨8, 0⟩)) 2 ⟨6, 0⟩ ⟨8, 0⟩)) 3 ⟨5, 0⟩ ⟨8, 0⟩)) 4 ⟨4, 0⟩ ⟨8, 0⟩)) 5 ⟨3, 0⟩ ⟨8, 0⟩)) 6 ⟨2, 0⟩ ⟨8, 0⟩)) 7 ⟨1, 0⟩ ⟨8, 0⟩)] [(3, 3), (4, 2), (1, 4), (2, 3), (3, 2), (1, 3), (2, 2), (3, 1), (1, 2), (2, 1), (3, 0), (1, 1), (2, 0), (0, 1), (1, 0), (0, 0)] [((3, 4), 7), ((4, 3), 7), ((0, 4), 6), ((2, 4), 6), ((3, 3), 6), ((4, 2), 6), ((1, 4), 5), ((0, 3), 5), ((2, 3), 5), ((3, 2), 5), ((4, 1), 5), ((1, 3), 4), ((2, 2), 4), ((3, 1), 4), ((4, 0), 4), ((1, 2), 3), ((2, 1), 3), ((3, 0), 3), ((0, 2), 2), ((1, 1), 2), ((2, 0), 2), ((0, 1), 1), ((1, 0), 1), ((0, 0), 0)] 16) rfl 713]
  rw [searchLoop_cont specGrid55 (4, 4) heuristic_manhattan
    (SState.mk [(SNode.mk (2, 4) (some (SNode.mk (2, 3) (some (SNode.mk (2, 2) (some (SNode.mk (2, 1) (some (SNode.mk (2, 0) (some (SNode.mk (1, 0) (some (SNode.mk (0, 0) none 0 ⟨8, 0⟩ ⟨8, 0⟩)) 1 ⟨7, 0⟩ ⟨8, 0⟩)) 2 ⟨6, 0⟩ ⟨8, 0⟩)) 3 ⟨5, 0⟩ ⟨8, 0⟩)) 4 ⟨4, 0⟩ ⟨8, 0⟩)) 5 ⟨3, 0⟩ ⟨8, 0⟩)) 6 ⟨2, 0⟩ ⟨8, 0⟩), (SNode.mk (0, 2) (some (SNode.mk (0, 1) (some (SNode.mk (0, 0) none 0 ⟨8, 0⟩ ⟨8, 0⟩)) 1 ⟨7, 0⟩ ⟨8, 0⟩)) 2 ⟨6, 0⟩ ⟨8, 0⟩), (SNode.mk (4, 3) (some (SNode.mk (4, 2) (some (SNode.mk (3, 2) (some (SNode.mk (3, 1) (some (SNode.mk (3, 0) (some (SNode.mk (2, 0) (some (SNode.mk (1, 0) (some (SNode.mk (0, 0) none 0 ⟨8, 0⟩ ⟨8, 0⟩)) 1 ⟨7, 0⟩ ⟨8, 0⟩)) 2 ⟨6, 0⟩ ⟨8, 0⟩)) 3 ⟨5, 0⟩ ⟨8, 0⟩)) 4 ⟨4, 0⟩ ⟨8, 0⟩)) 5 ⟨3, 0⟩ ⟨8, 0⟩)) 6 ⟨2, 0⟩ ⟨8, 0⟩)) 7 ⟨1, 0⟩ ⟨8, 0⟩), (SNode.mk (4, 0) (some (SNode.mk (3, 0) (some (SNode.mk (2, 0) (some (SNode.mk (1, 0) (some (SNode.mk (0, 0) none 0 ⟨8, 0⟩ ⟨8, 0⟩)) 1 ⟨7, 0⟩ ⟨8, 0⟩)) 2 ⟨6, 0⟩ ⟨8, 0⟩)) 3 ⟨5, 0⟩ ⟨8, 0⟩)) 4 ⟨4, 0⟩ ⟨8, 0⟩), (SNode.mk (4, 1) (some (SNode.mk (3, 1) (some (SNode.mk (3, 0) (some (SNode.mk (2, 0) (some (SNode.mk (1, 0) (some (SNode.mk (0, 0) none 0 ⟨8, 0⟩ ⟨8, 0⟩)) 1 ⟨7, 0⟩ ⟨8, 0⟩)) 2 ⟨6, 0⟩ ⟨8, 0⟩)) 3 ⟨5, 0⟩ ⟨8, 0⟩)) 4 ⟨4, 0⟩ ⟨8, 0⟩)) 5 ⟨3, 0⟩ ⟨8, 0⟩), (SNode.mk (0, 3) (some (SNode.mk (1, 3) (some (SNode.mk (1, 2) (some (SNode.mk (1, 1) (some (SNode.mk (1, 0) (some (SNode.mk (0, 0) none 0 ⟨8, 0⟩ ⟨8, 0⟩)) 1 ⟨7, 0⟩ ⟨8, 0⟩)) 2 ⟨6, 0⟩ ⟨8, 0⟩)) 3 ⟨5, 0⟩ ⟨8, 0⟩)) 4 ⟨4, 0⟩ ⟨8, 0⟩)) 5 ⟨5, 0⟩ ⟨10, 0⟩), (SNode.mk (0, 4) (some (SNode.mk (1, 4) (some (SNode.mk (1, 3) (some (SNode.mk (1, 2) (some (SNode.mk (1, 1) (some (SNode.mk (1, 0) (some (SNode.mk (0, 0) none 0 ⟨8, 0⟩ ⟨8, 0⟩)) 1 ⟨7, 0⟩ ⟨8, 0⟩)) 2 ⟨6, 0⟩ ⟨8, 0⟩)) 3 ⟨5, 0⟩ ⟨8, 0⟩)) 4 ⟨4, 0⟩ ⟨8, 0⟩)) 5 ⟨3, 0⟩ ⟨8, 0⟩)) 6 ⟨4, 0⟩ ⟨10, 0⟩), (SNode.mk (3, 4) (some (SNode.mk (3, 3) (some (SNode.mk (3, 2) (some (SNode.mk (3, 1) (some (SNode.mk (3, 0) (some (SNode.mk (2, 0) (some (SNode.mk (1, 0) (some (SNode.mk (0, 0) none 0 ⟨8, 0⟩ ⟨8, 0⟩)) 1 ⟨7, 0⟩ ⟨8, 0⟩)) 2 ⟨6, 0⟩ ⟨8, 0⟩)) 3 ⟨5, 0⟩ ⟨8, 0⟩)) 4 ⟨4, 0⟩ ⟨8, 0⟩)) 5 ⟨3, 0⟩ ⟨8, 0⟩)) 6 ⟨2, 0⟩ ⟨8, 0⟩)) 7 ⟨1, 0⟩ ⟨8, 0⟩)] [(3, 3), (4, 2), (1, 4), (2, 3), (3, 2), (1, 3), (2, 2), (3, 1), (1, 2), (2, 1), (3, 0), (1, 1), (2, 0), (0, 1), (1, 0), (0, 0)] [((3, 4), 7), ((4, 3), 7), ((0, 4), 6), ((2, 4), 6), ((3, 3), 6), ((4, 2), 6), ((1, 4), 5), ((0, 3), 5), ((2, 3), 5), ((3, 2), 5), ((4, 1), 5), ((1, 3), 4), ((2, 2), 4), ((3, 1), 4), ((4, 0), 4), ((1, 2), 3), ((2, 1), 3), ((3, 0), 3), ((0, 2), 2), ((1, 1), 2), ((2, 0), 2), ((0, 1), 1), ((1, 0), 1), ((0, 0), 0)] 16)
    (SState.mk [(SNode.mk (4, 3) (some (SNode.mk (4, 2) (some (SNode.mk (3, 2) (some (SNode.mk (3, 1) (some (SNode.mk (3, 0) (some (SNode.mk (2, 0) (some (SNode.mk (1, 0) (some (SNode.mk (0, 0) none 0 ⟨8, 0⟩ ⟨8, 0⟩)) 1 ⟨7, 0⟩ ⟨8, 0⟩)) 2 ⟨6, 0⟩ ⟨8, 0⟩)) 3 ⟨5, 0⟩ ⟨8, 0⟩)) 4 ⟨4, 0⟩ ⟨8, 0⟩)) 5 ⟨3, 0⟩ ⟨8, 0⟩)) 6 ⟨2, 0⟩ ⟨8, 0⟩)) 7 ⟨1, 0⟩ ⟨8, 0⟩), (SNode.mk (0, 2) (some (SNode.mk (0, 1) (some (SNode.mk (0, 0) none 0 ⟨8, 0⟩ ⟨8, 0⟩)) 1 ⟨7, 0⟩ ⟨8, 0⟩)) 2 ⟨6, 0⟩ ⟨8, 0⟩), (SNode.mk (3, 4) (some (SNode.mk (3, 3) (some (SNode.mk (3, 2) (some (SNode.mk (3, 1) (some (SNode.mk (3, 0) (some (SNode.mk (2, 0) (some (SNode.mk (1, 0) (some (SNode.mk (0, 0) none 0 ⟨8, 0⟩ ⟨8, 0⟩)) 1 ⟨7, 0⟩ ⟨8, 0⟩)) 2 ⟨6, 0⟩ ⟨8, 0⟩)) 3 ⟨5, 0⟩ ⟨8, 0⟩)) 4 ⟨4, 0⟩ ⟨8, 0⟩)) 5 ⟨3, 0⟩ ⟨8, 0⟩)) 6 ⟨2, 0⟩ ⟨8, 0⟩)) 7 ⟨1, 0⟩ ⟨8, 0⟩), (SNode.mk (4, 0) (some (SNode.mk (3, 0) (some (SNode.mk (2, 0) (some (SNode.mk (1, 0) (some (SNode.mk (0, 0) none 0 ⟨8, 0⟩ ⟨8, 0⟩)) 1 ⟨7, 0⟩ ⟨8, 0⟩)) 2 ⟨6, 0⟩ ⟨8, 0⟩)) 3 ⟨5, 0⟩ ⟨8, 0⟩)) 4 ⟨4, 0⟩ ⟨8, 0⟩), (SNode.mk (4, 1) (some (SNode.mk (3, 1) (some (SNode.mk (3, 0) (some (SNode.mk (2, 0) (some (SNode.mk (1, 0) (some (SNode.mk (0, 0) none 0 ⟨8, 0⟩ ⟨8, 0⟩)) 1 ⟨7, 0⟩ ⟨8, 0⟩)) 2 ⟨6, 0⟩ ⟨8, 0⟩)) 3 ⟨5, 0⟩ ⟨8, 0⟩)) 4 ⟨4, 0⟩ ⟨8, 0⟩)) 5 ⟨3, 0⟩ ⟨8, 0⟩), (SNode.mk (0, 3) (some (SNode.mk (1, 3) (some (SNode.mk (1, 2) (some (SNode.mk (1, 1) (some (SNode.mk (1, 0) (some (SNode.mk (0, 0) none 0 ⟨8, 0⟩ ⟨8, 0⟩)) 1 ⟨7, 0⟩ ⟨8, 0⟩)) 2 ⟨6, 0⟩ ⟨8, 0⟩)) 3 ⟨5, 0⟩ ⟨8, 0⟩)) 4 ⟨4, 0⟩ ⟨8, 0⟩)) 5 ⟨5, 0⟩ ⟨10, 0⟩), (SNode.mk (0, 4) (some (SNode.mk (1, 4) (some (SNode.mk (1, 3) (some (SNode.mk (1, 2) (some (SNode.mk (1, 1) (some (SNode.mk (1, 0) (some (SNode.mk (0, 0) none 0 ⟨8, 0⟩ ⟨8, 0⟩)) 1 ⟨7, 0⟩ ⟨8, 0⟩)) 2 ⟨6, 0⟩ ⟨8, 0⟩)) 3 ⟨5, 0⟩ ⟨8, 0⟩)) 4 ⟨4, 0⟩ ⟨8, 0⟩)) 5 ⟨3, 0⟩ ⟨8, 0⟩)) 6 ⟨4, 0⟩ ⟨10, 0⟩)] [(2, 4), (3, 3), (4, 2), (1, 4), (2, 3), (3, 2), (1, 3), (2, 2), (3, 1), (1, 2), (2, 1), (3, 0), (1, 1), (2, 0), (0, 1), (1, 0), (0, 0)] [((3, 4), 7), ((4, 3), 7), ((0, 4), 6), ((2, 4), 6), ((3, 3), 6), ((4, 2), 6), ((1, 4), 5), ((0, 3), 5), ((2, 3), 5), ((3, 2), 5), ((4, 1), 5), ((1, 3), 4), ((2, 2), 4), ((3, 1), 4), ((4, 0), 4), ((1, 2), 3), ((2, 1), 3), ((3, 0), 3), ((0, 2), 2), ((1, 1), 2), ((2, 0), 2), ((0, 1), 1), ((1, 0), 1), ((0, 0), 0)] 17) rfl 712]
  rw [searchLoop_cont specGrid55 (4, 4) heuristic_manhattan
    (SState.mk [(SNode.mk (4, 3) (some (SNode.mk (4, 2) (some (SNode.mk (3, 2) (some (SNode.mk (3, 1) (some (SNode.mk (3, 0) (some (SNode.mk (2, 0) (some (SNode.mk (1, 0) (some (SNode.mk (0, 0) none 0 ⟨8, 0⟩ ⟨8, 0⟩)) 1 ⟨7, 0⟩ ⟨8, 0⟩)) 2 ⟨6, 0⟩ ⟨8, 0⟩)) 3 ⟨5, 0⟩ ⟨8, 0⟩)) 4 ⟨4, 0⟩ ⟨8, 0⟩)) 5 ⟨3, 0⟩ ⟨8, 0⟩)) 6 ⟨2, 0⟩ ⟨8, 0⟩)) 7 ⟨1, 0⟩ ⟨8, 0⟩), (SNode.mk (0, 2) (some (SNode.mk (0, 1) (some (SNode.mk (0, 0) none 0 ⟨8, 0⟩ ⟨8, 0⟩)) 1 ⟨7, 0⟩ ⟨8, 0⟩)) 2 ⟨6, 0⟩ ⟨8, 0⟩), (SNode.mk (3, 4) (some (SNode.mk (3, 3) (some (SNode.mk (3, 2) (some (SNode.mk (3, 1) (some (SNode.mk (3, 0) (some (SNode.mk (2, 0) (some (SNode.mk (1, 0) (some (SNode.mk (0, 0) none 0 ⟨8, 0⟩ ⟨8, 0⟩)) 1 ⟨7, 0⟩ ⟨8, 0⟩)) 2 ⟨6, 0⟩ ⟨8, 0⟩)) 3 ⟨5, 0⟩ ⟨8, 0⟩)) 4 ⟨4, 0⟩ ⟨8, 0⟩)) 5 ⟨3, 0⟩ ⟨8, 0⟩)) 6 ⟨2, 0⟩ ⟨8, 0⟩)) 7 ⟨1, 0⟩ ⟨8, 0⟩), (SNode.mk (4, 0) (some (SNode.mk (3, 0) (some (SNode.mk (2, 0) (some (SNode.mk (1, 0) (some (SNode.mk (0, 0) none 0 ⟨8, 0⟩ ⟨8, 0⟩)) 1 ⟨7, 0⟩ ⟨8, 0⟩)) 2 ⟨6, 0⟩ ⟨8, 0⟩)) 3 ⟨5, 0⟩ ⟨8, 0⟩)) 4 ⟨4, 0⟩ ⟨8, 0⟩), (SNode.mk (4, 1) (some (SNode.mk (3, 1) (some (SNode.mk (3, 0) (some (SNode.mk (2, 0) (some (SNode.mk (1, 0) (some (SNode.mk (0, 0) none 0 ⟨8, 0⟩ ⟨8, 0⟩)) 1 ⟨7, 0⟩ ⟨8, 0⟩)) 2 ⟨6, 0⟩ ⟨8, 0⟩)) 3 ⟨5, 0⟩ ⟨8, 0⟩)) 4 ⟨4, 0⟩ ⟨8, 0⟩)) 5 ⟨3, 0⟩ ⟨8, 0⟩), (SNode.mk (0, 3) (some (SNode.mk (1, 3) (some (SNode.mk (1, 2) (some (SNode.mk (1, 1) (some (SNode.mk (1, 0) (some (SNode.mk (0, 0) none 0 ⟨8, 0⟩ ⟨8, 0⟩)) 1 ⟨7, 0⟩ ⟨8, 0⟩)) 2 ⟨6, 0⟩ ⟨8, 0⟩)) 3 ⟨5, 0⟩ ⟨8, 0⟩)) 4 ⟨4, 0⟩ ⟨8, 0⟩)) 5 ⟨5, 0⟩ ⟨10, 0⟩), (SNode.mk (0, 4) (some (SNode.mk (1, 4) (some (SNode.mk (1, 3) (some (SNode.mk (1, 2) (some (SNode.mk (1, 1) (some (SNode.mk (1, 0) (some (SNode.mk (0, 0) none 0 ⟨8, 0⟩ ⟨8, 0⟩)) 1 ⟨7, 0⟩ ⟨8, 0⟩)) 2 ⟨6, 0⟩ ⟨8, 0⟩)) 3 ⟨5, 0⟩ ⟨8, 0⟩)) 4 ⟨4, 0⟩ ⟨8, 0⟩)) 5 ⟨3, 0⟩ ⟨8, 0⟩)) 6 ⟨4, 0⟩ ⟨10, 0⟩)] [(2, 4), (3, 3), (4, 2), (1, 4), (2, 3), (3, 2), (1, 3), (2, 2), (3, 1), (1, 2), (2, 1), (3, 0), (1, 1), (2, 0), (0, 1), (1, 0), (0, 0)] [((3, 4), 7), ((4, 3), 7), ((0, 4), 6), ((2, 4), 6), ((3, 3), 6), ((4, 2), 6), ((1, 4), 5), ((0, 3), 5), ((2, 3), 5), ((3, 2), 5), ((4, 1), 5), ((1, 3), 4), ((2, 2), 4), ((3, 1), 4), ((4, 0), 4), ((1, 2), 3), ((2, 1), 3), ((3, 0), 3), ((0, 2), 2), ((1, 1), 2), ((2, 0), 2), ((0, 1), 1), ((1, 0), 1), ((0, 0), 0)] 17)
    (SState.mk [(SNode.mk (3, 4) (some (SNode.mk (3, 3) (some (SNode.mk (3, 2) (some (SNode.mk (3, 1) (some (SNode.mk (3, 0) (some (SNode.mk (2, 0) (some (SNode.mk (1, 0) (some (SNode.mk (0, 0) none 0 ⟨8, 0⟩ ⟨8, 0⟩)) 1 ⟨7, 0⟩ ⟨8, 0⟩)) 2 ⟨6, 0⟩ ⟨8, 0⟩)) 3 ⟨5, 0⟩ ⟨8, 0⟩)) 4 ⟨4, 0⟩ ⟨8, 0⟩)) 5 ⟨3, 0⟩ ⟨8, 0⟩)) 6 ⟨2, 0⟩ ⟨8, 0⟩)) 7 ⟨1, 0⟩ ⟨8, 0⟩), (SNode.mk (0, 2) (some (SNode.mk (0, 1) (some (SNode.mk (0, 0) none 0 ⟨8, 0⟩ ⟨8, 0⟩)) 1 ⟨7, 0⟩ ⟨8, 0⟩)) 2 ⟨6, 0⟩ ⟨8, 0⟩), (SNode.mk (4, 4) (some (SNode.mk (4, 3) (some (SNode.mk (4, 2) (some (SNode.mk (3, 2) (some (SNode.mk (3, 1) (some (SNode.mk (3, 0) (some (SNode.mk (2, 0) (some (SNode.mk (1, 0) (some (SNode.mk (0, 0) none 0 ⟨8, 0⟩ ⟨8, 0⟩)) 1 ⟨7, 0⟩ ⟨8, 0⟩)) 2 ⟨6, 0⟩ ⟨8, 0⟩)) 3 ⟨5, 0⟩ ⟨8, 0⟩)) 4 ⟨4, 0⟩ ⟨8, 0⟩)) 5 ⟨3, 0⟩ ⟨8, 0⟩)) 6 ⟨2, 0⟩ ⟨8, 0⟩)) 7 ⟨1, 0⟩ ⟨8, 0⟩)) 8 ⟨0, 0⟩ ⟨8, 0⟩), (SNode.mk (4, 0) (some (SNode.mk (3, 0) (some (SNode.mk (2, 0) (some (SNode.mk (1, 0) (some (SNode.mk (0, 0) none 0 ⟨8, 0⟩ ⟨8, 0⟩)) 1 ⟨7, 0⟩ ⟨8, 0⟩)) 2 ⟨6, 0⟩ ⟨8, 0⟩)) 3 ⟨5, 0⟩ ⟨8, 0⟩)) 4 ⟨4, 0⟩ ⟨8, 0⟩), (SNode.mk (4, 1) (some (SNode.mk (3, 1) (some (SNode.mk (3, 0) (some (SNode.mk (2, 0) (some (SNode.mk (1, 0) (some (SNode.mk (0, 0) none 0 ⟨8, 0⟩ ⟨8, 0⟩)) 1 ⟨7, 0⟩ ⟨8, 0⟩)) 2 ⟨6, 0⟩ ⟨8, 0⟩)) 3 ⟨5, 0⟩ ⟨8, 0⟩)) 4 ⟨4, 0⟩ ⟨8, 0⟩)) 5 ⟨3, 0⟩ ⟨8, 0⟩), (SNode.mk (0, 4) (some (SNode.mk (1, 4) (some (SNode.mk (1, 3) (some (SNode.mk (1, 2) (some (SNode.mk (1, 1) (some (SNode.mk (1, 0) (some (SNode.mk (0, 0) none 0 ⟨8, 0⟩ ⟨8, 0⟩)) 1 ⟨7, 0⟩ ⟨8, 0⟩)) 2 ⟨6, 0⟩ ⟨8, 0⟩)) 3 ⟨5, 0⟩ ⟨8, 0⟩)) 4 ⟨4, 0⟩ ⟨8, 0⟩)) 5 ⟨3, 0⟩ ⟨8, 0⟩)) 6 ⟨4, 0⟩ ⟨10, 0⟩), (SNode.mk (0, 3) (some (SNode.mk (1, 3) (some (SNode.mk (1, 2) (some (SNode.mk (1, 1) (some (SNode.mk (1, 0) (some (SNode.mk (0, 0) none 0 ⟨8, 0⟩ ⟨8, 0⟩)) 1 ⟨7, 0⟩ ⟨8, 0⟩)) 2 ⟨6, 0⟩ ⟨8, 0⟩)) 3 ⟨5, 0⟩ ⟨8, 0⟩)) 4 ⟨4, 0⟩ ⟨8, 0⟩)) 5 ⟨5, 0⟩ ⟨10, 0⟩)] [(4, 3), (2, 4), (3, 3), (4, 2), (1, 4), (2, 3), (3, 2), (1, 3), (2, 2), (3, 1), (1, 2), (2, 1), (3, 0), (1, 1), (2, 0), (0, 1), (1, 0), (0, 0)] [((4, 4), 8), ((3, 4), 7), ((4, 3), 7), ((0, 4), 6), ((2, 4), 6), ((3, 3), 6), ((4, 2), 6), ((1, 4), 5), ((0, 3), 5), ((2, 3), 5), ((3, 2), 5), ((4, 1), 5), ((1, 3), 4), ((2, 2), 4), ((3, 1), 4), ((4, 0), 4), ((1, 2), 3), ((2, 1), 3), ((3, 0), 3), ((0, 2), 2), ((1, 1), 2), ((2, 0), 2), ((0, 1), 1), ((1, 0), 1), ((0, 0), 0)] 18) rfl 711]
  rw [searchLoop_cont specGrid55 (4, 4) heuristic_manhattan
    (SState.mk [(SNode.mk (3, 4) (some (SNode.mk (3, 3) (some (SNode.mk (3, 2) (some (SNode.mk (3, 1) (some (SNode.mk (3, 0) (some (SNode.mk (2, 0) (some (SNode.mk (1, 0) (some (SNode.mk (0, 0) none 0 ⟨8, 0⟩ ⟨8, 0⟩)) 1 ⟨7, 0⟩ ⟨8, 0⟩)) 2 ⟨6, 0⟩ ⟨8, 0⟩)) 3 ⟨5, 0⟩ ⟨8, 0⟩)) 4 ⟨4, 0⟩ ⟨8, 0⟩)) 5 ⟨3, 0⟩ ⟨8, 0⟩)) 6 ⟨2, 0⟩ ⟨8, 0⟩)) 7 ⟨1, 0⟩ ⟨8, 0⟩), (SNode.mk (0, 2) (some (SNode.mk (0, 1) (some (SNode.mk (0, 0) none 0 ⟨8, 0⟩ ⟨8, 0⟩)) 1 ⟨7, 0⟩ ⟨8, 0⟩)) 2 ⟨6, 0⟩ ⟨8, 0⟩), (SNode.mk (4, 4) (some (SNode.mk (4, 3) (some (SNode.mk (4, 2) (some (SNode.mk (3, 2) (some (SNode.mk (3, 1) (some (SNode.mk (3, 0) (some (SNode.mk (2, 0) (some (SNode.mk (1, 0) (some (SNode.mk (0, 0) none 0 ⟨8, 0⟩ ⟨8, 0⟩)) 1 ⟨7, 0⟩ ⟨8, 0⟩)) 2 ⟨6, 0⟩ ⟨8, 0⟩)) 3 ⟨5, 0⟩ ⟨8, 0⟩)) 4 ⟨4, 0⟩ ⟨8, 0⟩)) 5 ⟨3, 0⟩ ⟨8, 0⟩)) 6 ⟨2, 0⟩ ⟨8, 0⟩)) 7 ⟨1, 0⟩ ⟨8, 0⟩)) 8 ⟨0, 0⟩ ⟨8, 0⟩), (SNode.mk (4, 0) (some (SNode.mk (3, 0) (some (SNode.mk (2, 0) (some (SNode.mk (1, 0) (some (SNode.mk (0, 0) none 0 ⟨8, 0⟩ ⟨8, 0⟩)) 1 ⟨7, 0⟩ ⟨8, 0⟩)) 2 ⟨6, 0⟩ ⟨8, 0⟩)) 3 ⟨5, 0⟩ ⟨8, 0⟩)) 4 ⟨4, 0⟩ ⟨8, 0⟩), (SNode.mk (4, 1) (some (SNode.mk (3, 1) (some (SNode.mk (3, 0) (some (SNode.mk (2, 0) (some (SNode.mk (1, 0) (some (SNode.mk (0, 0) none 0 ⟨8, 0⟩ ⟨8, 0⟩)) 1 ⟨7, 0⟩ ⟨8, 0⟩)) 2 ⟨6, 0⟩ ⟨8, 0⟩)) 3 ⟨5, 0⟩ ⟨8, 0⟩)) 4 ⟨4, 0⟩ ⟨8, 0⟩)) 5 ⟨3, 0⟩ ⟨8, 0⟩), (SNode.mk (0, 4) (some (SNode.mk (1, 4) (some (SNode.mk (1, 3) (some (SNode.mk (1, 2) (some (SNode.mk (1, 1) (some (SNode.mk (1, 0) (some (SNode.mk (0, 0) none 0 ⟨8, 0⟩ ⟨8, 0⟩)) 1 ⟨7, 0⟩ ⟨8, 0⟩)) 2 ⟨6, 0⟩ ⟨8, 0⟩)) 3 ⟨5, 0⟩ ⟨8, 0⟩)) 4 ⟨4, 0⟩ ⟨8, 0⟩)) 5 ⟨3, 0⟩ ⟨8, 0⟩)) 6 ⟨4, 0⟩ ⟨10, 0⟩), (SNode.mk (0, 3) (some (SNode.mk (1, 3) (some (SNode.mk (1, 2) (some (SNode.mk (1, 1) (some (SNode.mk (1, 0) (some (SNode.mk (0, 0) none 0 ⟨8, 0⟩ ⟨8, 0⟩)) 1 ⟨7, 0⟩ ⟨8, 0⟩)) 2 ⟨6, 0⟩ ⟨8, 0⟩)) 3 ⟨5, 0⟩ ⟨8, 0⟩)) 4 ⟨4, 0⟩ ⟨8, 0⟩)) 5 ⟨5, 0⟩ ⟨10, 0⟩)] [(4, 3), (2, 4), (3, 3), (4, 2), (1, 4), (2, 3), (3, 2), (1, 3), (2, 2), (3, 1), (1, 2), (2, 1), (3, 0), (1, 1), (2, 0), (0, 1), (1, 0), (0, 0)] [((4, 4), 8), ((3, 4), 7), ((4, 3), 7), ((0, 4), 6), ((2, 4), 6), ((3, 3), 6), ((4, 2), 6), ((1, 4), 5), ((0, 3), 5), ((2, 3), 5), ((3, 2), 5), ((4, 1), 5), ((1, 3), 4), ((2, 2), 4), ((3, 1), 4), ((4, 0), 4), ((1, 2), 3), ((2, 1), 3), ((3, 0), 3), ((0, 2), 2), ((1, 1), 2), ((2, 0), 2), ((0, 1), 1), ((1, 0), 1), ((0, 0), 0)] 18)
    (SState.mk [(SNode.mk (4, 4) (some (SNode.mk (4, 3) (some (SNode.mk (4, 2) (some (SNode.mk (3, 2) (some (SNode.mk (3, 1) (some (SNode.mk (3, 0) (some (SNode.mk (2, 0) (some (SNode.mk (1, 0) (some (SNode.mk (0, 0) none 0 ⟨8, 0⟩ ⟨8, 0⟩)) 1 ⟨7, 0⟩ ⟨8, 0⟩)) 2 ⟨6, 0⟩ ⟨8, 0⟩)) 3 ⟨5, 0⟩ ⟨8, 0⟩)) 4 ⟨4, 0⟩ ⟨8, 0⟩)) 5 ⟨3, 0⟩ ⟨8, 0⟩)) 6 ⟨2, 0⟩ ⟨8, 0⟩)) 7 ⟨1, 0⟩ ⟨8, 0⟩)) 8 ⟨0, 0⟩ ⟨8, 0⟩), (SNode.mk (0, 2) (some (SNode.mk (0, 1) (some (SNode.mk (0, 0) none 0 ⟨8, 0⟩ ⟨8, 0⟩)) 1 ⟨7, 0⟩ ⟨8, 0⟩)) 2 ⟨6, 0⟩ ⟨8, 0⟩), (SNode.mk (0, 4) (some (SNode.mk (1, 4) (some (SNode.mk (1, 3) (some (SNode.mk (1, 2) (some (SNode.mk (1, 1) (some (SNode.mk (1, 0) (some (SNode.mk (0, 0) none 0 ⟨8, 0⟩ ⟨8, 0⟩)) 1 ⟨7, 0⟩ ⟨8, 0⟩)) 2 ⟨6, 0⟩ ⟨8, 0⟩)) 3 ⟨5, 0⟩ ⟨8, 0⟩)) 4 ⟨4, 0⟩ ⟨8, 0⟩)) 5 ⟨3, 0⟩ ⟨8, 0⟩)) 6 ⟨4, 0⟩ ⟨10, 0⟩), (SNode.mk (4, 0) (some (SNode.mk (3, 0) (some (SNode.mk (2, 0) (some (SNode.mk (1, 0) (some (SNode.mk (0, 0) none 0 ⟨8, 0⟩ ⟨8, 0⟩)) 1 ⟨7, 0⟩ ⟨8, 0⟩)) 2 ⟨6, 0⟩ ⟨8, 0⟩)) 3 ⟨5, 0⟩ ⟨8, 0⟩)) 4 ⟨4, 0⟩ ⟨8, 0⟩), (SNode.mk (4, 1) (some (SNode.mk (3, 1) (some (SNode.mk (3, 0) (some (SNode.mk (2, 0) (some (SNode.mk (1, 0) (some (SNode.mk (0, 0) none 0 ⟨8, 0⟩ ⟨8, 0⟩)) 1 ⟨7, 0⟩ ⟨8, 0⟩)) 2 ⟨6, 0⟩ ⟨8, 0⟩)) 3 ⟨5, 0⟩ ⟨8, 0⟩)) 4 ⟨4, 0⟩ ⟨8, 0⟩)) 5 ⟨3, 0⟩ ⟨8, 0⟩), (SNode.mk (0, 3) (some (SNode.mk (1, 3) (some (SNode.mk (1, 2) (some (SNode.mk (1, 1) (some (SNode.mk (1, 0) (some (SNode.mk (0, 0) none 0 ⟨8, 0⟩ ⟨8, 0⟩)) 1 ⟨7, 0⟩ ⟨8, 0⟩)) 2 ⟨6, 0⟩ ⟨8, 0⟩)) 3 ⟨5, 0⟩ ⟨8, 0⟩)) 4 ⟨4, 0⟩ ⟨8, 0⟩)) 5 ⟨5, 0⟩ ⟨10, 0⟩)] [(3, 4), (4, 3), (2, 4), (3, 3), (4, 2), (1, 4), (2, 3), (3, 2), (1, 3), (2, 2), (3, 1), (1, 2), (2, 1), (3, 0), (1, 1), (2, 0), (0, 1), (1, 0), (0, 0)] [((4, 4), 8), ((3, 4), 7), ((4, 3), 7), ((0, 4), 6), ((2, 4), 6), ((3, 3), 6), ((4, 2), 6), ((1, 4), 5), ((0, 3), 5), ((2, 3), 5), ((3, 2), 5), ((4, 1), 5), ((1, 3), 4), ((2, 2), 4), ((3, 1), 4), ((4, 0), 4), ((1, 2), 3), ((2, 1), 3), ((3, 0), 3), ((0, 2), 2), ((1, 1), 2), ((2, 0), 2), ((0, 1), 1), ((1, 0), 1), ((0, 0), 0)] 19) rfl 710]
  exact searchLoop_done specGrid55 (4, 4) heuristic_manhattan
    (SState.mk [(SNode.mk (4, 4) (some (SNode.mk (4, 3) (some (SNode.mk (4, 2) (some (SNode.mk (3, 2) (some (SNode.mk (3, 1) (some (SNode.mk (3, 0) (some (SNode.mk (2, 0) (some (SNode.mk (1, 0) (some (SNode.mk (0, 0) none 0 ⟨8, 0⟩ ⟨8, 0⟩)) 1 ⟨7, 0⟩ ⟨8, 0⟩)) 2 ⟨6, 0⟩ ⟨8, 0⟩)) 3 ⟨5, 0⟩ ⟨8, 0⟩)) 4 ⟨4, 0⟩ ⟨8, 0⟩)) 5 ⟨3, 0⟩ ⟨8, 0⟩)) 6 ⟨2, 0⟩ ⟨8, 0⟩)) 7 ⟨1, 0⟩ ⟨8, 0⟩)) 8 ⟨0, 0⟩ ⟨8, 0⟩), (SNode.mk (0, 2) (some (SNode.mk (0, 1) (some (SNode.mk (0, 0) none 0 ⟨8, 0⟩ ⟨8, 0⟩)) 1 ⟨7, 0⟩ ⟨8, 0⟩)) 2 ⟨6, 0⟩ ⟨8, 0⟩), (SNode.mk (0, 4) (some (SNode.mk (1, 4) (some (SNode.mk (1, 3) (some (SNode.mk (1, 2) (some (SNode.mk (1, 1) (some (SNode.mk (1, 0) (some (SNode.mk (0, 0) none 0 ⟨8, 0⟩ ⟨8, 0⟩)) 1 ⟨7, 0⟩ ⟨8, 0⟩)) 2 ⟨6, 0⟩ ⟨8, 0⟩)) 3 ⟨5, 0⟩ ⟨8, 0⟩)) 4 ⟨4, 0⟩ ⟨8, 0⟩)) 5 ⟨3, 0⟩ ⟨8, 0⟩)) 6 ⟨4, 0⟩ ⟨10, 0⟩), (SNode.mk (4, 0) (some (SNode.mk (3, 0) (some (SNode.mk (2, 0) (some (SNode.mk (1, 0) (some (SNode.mk (0, 0) none 0 ⟨8, 0⟩ ⟨8, 0⟩)) 1 ⟨7, 0⟩ ⟨8, 0⟩)) 2 ⟨6, 0⟩ ⟨8, 0⟩)) 3 ⟨5, 0⟩ ⟨8, 0⟩)) 4 ⟨4, 0⟩ ⟨8, 0⟩), (SNode.mk (4, 1) (some (SNode.mk (3, 1) (some (SNode.mk (3, 0) (some (SNode.mk (2, 0) (some (SNode.mk (1, 0) (some (SNode.mk (0, 0) none 0 ⟨8, 0⟩ ⟨8, 0⟩)) 1 ⟨7, 0⟩ ⟨8, 0⟩)) 2 ⟨6, 0⟩ ⟨8, 0⟩)) 3 ⟨5, 0⟩ ⟨8, 0⟩)) 4 ⟨4, 0⟩ ⟨8, 0⟩)) 5 ⟨3, 0⟩ ⟨8, 0⟩), (SNode.mk (0, 3) (some (SNode.mk (1, 3) (some (SNode.mk (1, 2) (some (SNode.mk (1, 1) (some (SNode.mk (1, 0) (some (SNode.mk (0, 0) none 0 ⟨8, 0⟩ ⟨8, 0⟩)) 1 ⟨7, 0⟩ ⟨8, 0⟩)) 2 ⟨6, 0⟩ ⟨8, 0⟩)) 3 ⟨5, 0⟩ ⟨8, 0⟩)) 4 ⟨4, 0⟩ ⟨8, 0⟩)) 5 ⟨5, 0⟩ ⟨10, 0⟩)] [(3, 4), (4, 3), (2, 4), (3, 3), (4, 2), (1, 4), (2, 3), (3, 2), (1, 3), (2, 2), (3, 1), (1, 2), (2, 1), (3, 0), (1, 1), (2, 0), (0, 1), (1, 0), (0, 0)] [((4, 4), 8), ((3, 4), 7), ((4, 3), 7), ((0, 4), 6), ((2, 4), 6), ((3, 3), 6), ((4, 2), 6), ((1, 4), 5), ((0, 3), 5), ((2, 3), 5), ((3, 2), 5), ((4, 1), 5), ((1, 3), 4), ((2, 2), 4), ((3, 1), 4), ((4, 0), 4), ((1, 2), 3), ((2, 1), 3), ((3, 0), 3), ((0, 2), 2), ((1, 1), 2), ((2, 0), 2), ((0, 1), 1), ((1, 0), 1), ((0, 0), 0)] 19)
    (some [(0, 0), (1, 0), (2, 0), (3, 0), (3, 1), (3, 2), (4, 2), (4, 3), (4, 4)], 20) rfl 709

/-- Concrete run: on the 5 by 5 wall-free grid from (0,0) to (4,4), the Euclidean search returns a 9-cell path with 22 expansions. -/
theorem spec_run_55_euc :
    a_star_search specGrid55 (0, 0) (4, 4) heuristic_euclidean =
      some (some [(0, 0), (1, 0), (1, 1), (2, 1), (2, 2), (3, 2), (3, 3), (4, 3), (4, 4)], 22) := by
  show searchLoop specGrid55 (4, 4) heuristic_euclidean (searchFuel specGrid55)
    (initState (0, 0) (4, 4) heuristic_euclidean) = _
  rw [show searchFuel specGrid55 = 729 from rfl]
  rw [show initState (0, 0) (4, 4) heuristic_euclidean =
    (SState.mk [(SNode.mk (0, 0) none 0 ⟨0, 32⟩ ⟨0, 32⟩)] [] [((0, 0), 0)] 0) from rfl]
  rw [searchLoop_cont specGrid55 (4, 4) heuristic_euclidean
    (SState.mk [(SNode.mk (0, 0) none 0 ⟨0, 32⟩ ⟨0, 32⟩)] [] [((0, 0), 0)] 0)
    (SState.mk [(SNode.mk (1, 0) (some (SNode.mk (0, 0) none 0 ⟨0, 32⟩ ⟨0, 32⟩)) 1 ⟨0, 25⟩ ⟨1, 25⟩), (SNode.mk (0, 1) (some (SNode.mk (0, 0) none 0 ⟨0, 32⟩ ⟨0, 32⟩)) 1 ⟨0, 25⟩ ⟨1, 25⟩)] [(0, 0)] [((0, 1), 1), ((1, 0), 1), ((0, 0), 0)] 1) rfl 728]
  rw [searchLoop_cont specGrid55 (4, 4) heuristic_euclidean
    (SState.mk [(SNode.mk (1, 0) (some (SNode.mk (0, 0) none 0 ⟨0, 32⟩ ⟨0, 32⟩)) 1 ⟨0, 25⟩ ⟨1, 25⟩), (SNode.mk (0, 1) (some (SNode.mk (0, 0) none 0 ⟨0, 32⟩ ⟨0, 32⟩)) 1 ⟨0, 25⟩ ⟨1, 25⟩)] [(0, 0)] [((0, 1), 1), ((1, 0), 1), ((0, 0), 0)] 1)
    (SState.mk [(SNode.mk (0, 1) (some (SNode.mk (0, 0) none 0 ⟨0, 32⟩ ⟨0, 32⟩)) 1 ⟨0, 25⟩ ⟨1, 25⟩), (SNode.mk (2, 0) (some (SNode.mk (1, 0) (some (SNode.mk (0, 0) none 0 ⟨0, 32⟩ ⟨0, 32⟩)) 1 ⟨0, 25⟩ ⟨1, 25⟩)) 2 ⟨0, 20⟩ ⟨2, 20⟩), (SNode.mk (1, 1) (some (SNode.mk (1, 0) (some (SNode.mk (0, 0) none 0 ⟨0, 32⟩ ⟨0, 32⟩)) 1 ⟨0, 25⟩ ⟨1, 25⟩)) 2 ⟨0, 18⟩ ⟨2, 18⟩)] [(1, 0), (0, 0)] [((1, 1), 2), ((2, 0), 2), ((0, 1), 1), ((1, 0), 1), ((0, 0), 0)] 2) rfl 727]
  rw [searchLoop_cont specGrid55 (4, 4) heuristic_euclidean
    (SState.mk [(SNode.mk (0, 1) (some (SNode.mk (0, 0) none 0 ⟨0, 32⟩ ⟨0, 32⟩)) 1 ⟨0, 25⟩ ⟨1, 25⟩), (SNode.mk (2, 0) (some (SNode.mk (1, 0) (some (SNode.mk (0, 0) none 0 ⟨0, 32⟩ ⟨0, 32⟩)) 1 ⟨0, 25⟩ ⟨1, 25⟩)) 2 ⟨0, 20⟩ ⟨2, 20⟩), (SNode.mk (1, 1) (some (SNode.mk (1, 0) (some (SNode.mk (0, 0) none 0 ⟨0, 32⟩ ⟨0, 32⟩)) 1 ⟨0, 25⟩ ⟨1, 25⟩)) 2 ⟨0, 18⟩ ⟨2, 18⟩)] [(1, 0), (0, 0)] [((1, 1), 2), ((2, 0), 2), ((0, 1), 1), ((1, 0), 1), ((0, 0), 0)] 2)
    (SState.mk [(SNode.mk (1, 1) (some (SNode.mk (1, 0) (some (SNode.mk (0, 0) none 0 ⟨0, 32⟩ ⟨0, 32⟩)) 1 ⟨0, 25⟩ ⟨1, 25⟩)) 2 ⟨0, 18⟩ ⟨2, 18⟩), (SNode.mk (2, 0) (some (SNode.mk (1, 0) (some (SNode.mk (0, 0) none 0 ⟨0, 32⟩ ⟨0, 32⟩)) 1 ⟨0, 25⟩ ⟨1, 25⟩)) 2 ⟨0, 20⟩ ⟨2, 20⟩), (SNode.mk (0, 2) (some (SNode.mk (0, 1) (some (SNode.mk (0, 0) none 0 ⟨0, 32⟩ ⟨0, 32⟩)) 1 ⟨0, 25⟩ ⟨1, 25⟩)) 2 ⟨0, 20⟩ ⟨2, 20⟩)] [(0, 1), (1, 0), (0, 0)] [((0, 2), 2), ((1, 1), 2), ((2, 0), 2), ((0, 1), 1), ((1, 0), 1), ((0, 0), 0)] 3) rfl 726]
  rw [searchLoop_cont specGrid55 (4, 4) heuristic_euclidean
    (SState.mk [(SNode.mk (1, 1) (some (SNode.mk (1, 0) (some (SNode.mk (0, 0) none 0 ⟨0, 32⟩ ⟨0, 32⟩)) 1 ⟨0, 25⟩ ⟨1, 25⟩)) 2 ⟨0, 18⟩ ⟨2, 18⟩), (SNode.mk (2, 0) (some (SNode.mk (1, 0) (some (SNode.mk (0, 0) none 0 ⟨0, 32⟩ ⟨0, 32⟩)) 1 ⟨0, 25⟩ ⟨1, 25⟩)) 2 ⟨0, 20⟩ ⟨2, 20⟩), (SNode.mk (0, 2) (some (SNode.mk (0, 1) (some (SNode.mk (0, 0) none 0 ⟨0, 32⟩ ⟨0, 32⟩)) 1 ⟨0, 25⟩ ⟨1, 25⟩)) 2 ⟨0, 20⟩ ⟨2, 20⟩)] [(0, 1), (1, 0), (0, 0)] [((0, 2), 2), ((1, 1), 2), ((2, 0), 2), ((0, 1), 1), ((1, 0), 1), ((0, 0), 0)] 3)
    (SState.mk [(SNode.mk (2, 0) (some (SNode.mk (1, 0) (some (SNode.mk (0, 0) none 0 ⟨0, 32⟩ ⟨0, 32⟩)) 1 ⟨0, 25⟩ ⟨1, 25⟩)) 2 ⟨0, 20⟩ ⟨2, 20⟩), (SNode.mk (0, 2) (some (SNode.mk (0, 1) (some (SNode.mk (0, 0) none 0 ⟨0, 32⟩ ⟨0, 32⟩)) 1 ⟨0, 25⟩ ⟨1, 25⟩)) 2 ⟨0, 20⟩ ⟨2, 20⟩), (SNode.mk (2, 1) (some (SNode.mk (1, 1) (some (SNode.mk (1, 0) (some (SNode.mk (0, 0) none 0 ⟨0, 32⟩ ⟨0, 32⟩)) 1 ⟨0, 25⟩ ⟨1, 25⟩)) 2 ⟨0, 18⟩ ⟨2, 18⟩)) 3 ⟨0, 13⟩ ⟨3, 13⟩), (SNode.mk (1, 2) (some (SNode.mk (1, 1) (some (SNode.mk (1, 0) (some (SNode.mk (0, 0) none 0 ⟨0, 32⟩ ⟨0, 32⟩)) 1 ⟨0, 25⟩ ⟨1, 25⟩)) 2 ⟨0, 18⟩ ⟨2, 18⟩)) 3 ⟨0, 13⟩ ⟨3, 13⟩)] [(1, 1), (0, 1), (1, 0), (0, 0)] [((1, 2), 3), ((2, 1), 3), ((0, 2), 2), ((1, 1), 2), ((2, 0), 2), ((0, 1), 1), ((1, 0), 1), ((0, 0), 0)] 4) rfl 725]
  rw [searchLoop_cont specGrid55 (4, 4) heuristic_euclidean
    (SState.mk [(SNode.mk (2, 0) (some (SNode.mk (1, 0) (some (SNode.mk (0, 0) none 0 ⟨0, 32⟩ ⟨0, 32⟩)) 1 ⟨0, 25⟩ ⟨1, 25⟩)) 2 ⟨0, 20⟩ ⟨2, 20⟩), (SNode.mk (0, 2) (some (SNode.mk (0, 1) (some (SNode.mk (0, 0) none 0 ⟨0, 32⟩ ⟨0, 32⟩)) 1 ⟨0, 25⟩ ⟨1, 25⟩)) 2 ⟨0, 20⟩ ⟨2, 20⟩), (SNode.mk (2, 1) (some (SNode.mk (1, 1) (some (SNode.mk (1, 0) (some (SNode.mk (0, 0) none 0 ⟨0, 32⟩ ⟨0, 32⟩)) 1 ⟨0, 25⟩ ⟨1, 25⟩)) 2 ⟨0, 18⟩ ⟨2, 18⟩)) 3 ⟨0, 13⟩ ⟨3, 13⟩), (SNode.mk (1, 2) (some (SNode.mk (1, 1) (some (SNode.mk (1, 0) (some (SNode.mk (0, 0) none 0 ⟨0, 32⟩ ⟨0, 32⟩)) 1 ⟨0, 25⟩ ⟨1, 25⟩)) 2 ⟨0, 18⟩ ⟨2, 18⟩)) 3 ⟨0, 13⟩ ⟨3, 13⟩)] [(1, 1), (0, 1), (1, 0), (0, 0)] [((1, 2), 3), ((2, 1), 3), ((0, 2), 2), ((1, 1), 2), ((2, 0), 2), ((0, 1), 1), ((1, 0), 1), ((0, 0), 0)] 4)
    (SState.mk [(SNode.mk (0, 2) (some (SNode.mk (0, 1) (some (SNode.mk (0, 0) none 0 ⟨0, 32⟩ ⟨0, 32⟩)) 1 ⟨0, 25⟩ ⟨1, 25⟩)) 2 ⟨0, 20⟩ ⟨2, 20⟩), (SNode.mk (1, 2) (some (SNode.mk (1, 1) (some (SNode.mk (1, 0) (some (SNode.mk (0, 0) none 0 ⟨0, 32⟩ ⟨0, 32⟩)) 1 ⟨0, 25⟩ ⟨1, 25⟩)) 2 ⟨0, 18⟩ ⟨2, 18⟩)) 3 ⟨0, 13⟩ ⟨3, 13⟩), (SNode.mk (2, 1) (some (SNode.mk (1, 1) (some (SNode.mk (1, 0) (some (SNode.mk (0, 0) none 0 ⟨0, 32⟩ ⟨0, 32⟩)) 1 ⟨0, 25⟩ ⟨1, 25⟩)) 2 ⟨0, 18⟩ ⟨2, 18⟩)) 3 ⟨0, 13⟩ ⟨3, 13⟩), (SNode.mk (3, 0) (some (SNode.mk (2, 0) (some (SNode.mk (1, 0) (some (SNode.mk (0, 0) none 0 ⟨0, 32⟩ ⟨0, 32⟩)) 1 ⟨0, 25⟩ ⟨1, 25⟩)) 2 ⟨0, 20⟩ ⟨2, 20⟩)) 3 ⟨0, 17⟩ ⟨3, 17⟩)] [(2, 0), (1, 1), (0, 1), (1, 0), (0, 0)] [((3, 0), 3), ((1, 2), 3), ((2, 1), 3), ((0, 2), 2), ((1, 1), 2), ((2, 0), 2), ((0, 1), 1), ((1, 0), 1), ((0, 0), 0)] 5) rfl 724]
  rw [searchLoop_cont specGrid55 (4, 4) heuristic_euclidean
    (SState.mk [(SNode.mk (0, 2) (some (SNode.mk (0, 1) (some (SNode.mk (0, 0) none 0 ⟨0, 32⟩ ⟨0, 32⟩)) 1 ⟨0, 25⟩ ⟨1, 25⟩)) 2 ⟨0, 20⟩ ⟨2, 20⟩), (SNode.mk (1, 2) (some (SNode.mk (1, 1) (some (SNode.mk (1, 0) (some (SNode.mk (0, 0) none 0 ⟨0, 32⟩ ⟨0, 32⟩)) 1 ⟨0, 25⟩ ⟨1, 25⟩)) 2 ⟨0, 18⟩ ⟨2, 18⟩)) 3 ⟨0, 13⟩ ⟨3, 13⟩), (SNode.mk (2, 1) (some (SNode.mk (1, 1) (some (SNode.mk (1, 0) (some (SNode.mk (0, 0) none 0 ⟨0, 32⟩ ⟨0, 32⟩)) 1 ⟨0, 25⟩ ⟨1, 25⟩)) 2 ⟨0, 18⟩ ⟨2, 18⟩)) 3 ⟨0, 13⟩ ⟨3, 13⟩), (SNode.mk (3, 0) (some (SNode.mk (2, 0) (some (SNode.mk (1, 0) (some (SNode.mk (0, 0) none 0 ⟨0, 32⟩ ⟨0, 32⟩)) 1 ⟨0, 25⟩ ⟨1, 25⟩)) 2 ⟨0, 20⟩ ⟨2, 20⟩)) 3 ⟨0, 17⟩ ⟨3, 17⟩)] [(2, 0), (1, 1), (0, 1), (1, 0), (0, 0)] [((3, 0), 3), ((1, 2), 3), ((2, 1), 3), ((0, 2), 2), ((1, 1), 2), ((2, 0), 2), ((0, 1), 1), ((1, 0), 1), ((0, 0), 0)] 5)
    (SState.mk [(SNode.mk (2, 1) (some (SNode.mk (1, 1) (some (SNode.mk (1, 0) (some (SNode.mk (0, 0) none 0 ⟨0, 32⟩ ⟨0, 32⟩)) 1 ⟨0, 25⟩ ⟨1, 25⟩)) 2 ⟨0, 18⟩ ⟨2, 18⟩)) 3 ⟨0, 13⟩ ⟨3, 13⟩), (SNode.mk (1, 2) (some (SNode.mk (1, 1) (some (SNode.mk (1, 0) (some (SNode.mk (0, 0) none 0 ⟨0, 32⟩ ⟨0, 32⟩)) 1 ⟨0, 25⟩ ⟨1, 25⟩)) 2 ⟨0, 18⟩ ⟨2, 18⟩)) 3 ⟨0, 13⟩ ⟨3, 13⟩), (SNode.mk (3, 0) (some (SNode.mk (2, 0) (some (SNode.mk (1, 0) (some (SNode.mk (0, 0) none 0 ⟨0, 32⟩ ⟨0, 32⟩)) 1 ⟨0, 25⟩ ⟨1, 25⟩)) 2 ⟨0, 20⟩ ⟨2, 20⟩)) 3 ⟨0, 17⟩ ⟨3, 17⟩), (SNode.mk (0, 3) (some (SNode.mk (0, 2) (some (SNode.mk (0, 1) (some (SNode.mk (0, 0) none 0 ⟨0, 32⟩ ⟨0, 32⟩)) 1 ⟨0, 25⟩ ⟨1, 25⟩)) 2 ⟨0, 20⟩ ⟨2, 20⟩)) 3 ⟨0, 17⟩ ⟨3, 17⟩)] [(0, 2), (2, 0), (1, 1), (0, 1), (1, 0), (0, 0)] [((0, 3), 3), ((3, 0), 3), ((1, 2), 3), ((2, 1), 3), ((0, 2), 2), ((1, 1), 2), ((2, 0), 2), ((0, 1), 1), ((1, 0), 1), ((0, 0), 0)] 6) rfl 723]
  rw [searchLoop_cont specGrid55 (4, 4) heuristic_euclidean
    (SState.mk [(SNode.mk (2, 1) (some (SNode.mk (1, 1) (some (SNode.mk (1, 0) (some (SNode.mk (0, 0) none 0 ⟨0, 32⟩ ⟨0, 32⟩)) 1 ⟨0, 25⟩ ⟨1, 25⟩)) 2 ⟨0, 18⟩ ⟨2, 18⟩)) 3 ⟨0, 13⟩ ⟨3, 13⟩), (SNode.mk (1, 2) (some (SNode.mk (1, 1) (some (SNode.mk (1, 0) (some (SNode.mk (0, 0) none 0 ⟨0, 32⟩ ⟨0, 32⟩)) 1 ⟨0, 25⟩ ⟨1, 25⟩)) 2 ⟨0, 18⟩ ⟨2, 18⟩)) 3 ⟨0, 13⟩ ⟨3, 13⟩), (SNode.mk (3, 0) (some (SNode.mk (2, 0) (some (SNode.mk (1, 0) (some (SNode.mk (0, 0) none 0 ⟨0, 32⟩ ⟨0, 32⟩)) 1 ⟨0, 25⟩ ⟨1, 25⟩)) 2 ⟨0, 20⟩ ⟨2, 20⟩)) 3 ⟨0, 17⟩ ⟨3, 17⟩), (SNode.mk (0, 3) (some (SNode.mk (0, 2) (some (SNode.mk (0, 1) (some (SNode.mk (0, 0) none 0 ⟨0, 32⟩ ⟨0, 32⟩)) 1 ⟨0, 25⟩ ⟨1, 25⟩)) 2 ⟨0, 20⟩ ⟨2, 20⟩)) 3 ⟨0, 17⟩ ⟨3, 17⟩)] [(0, 2), (2, 0), (1, 1), (0, 1), (1, 0), (0, 0)] [((0, 3), 3), ((3, 0), 3), ((1, 2), 3), ((2, 1), 3), ((0, 2), 2), ((1, 1), 2), ((2, 0), 2), ((0, 1), 1), ((1, 0), 1), ((0, 0), 0)] 6)
    (SState.mk [(SNode.mk (1, 2) (some (SNode.mk (1, 1) (some (SNode.mk (1, 0) (some (SNode.mk (0, 0) none 0 ⟨0, 32⟩ ⟨0, 32⟩)) 1 ⟨0, 25⟩ ⟨1, 25⟩)) 2 ⟨0, 18⟩ ⟨2, 18⟩)) 3 ⟨0, 13⟩ ⟨3, 13⟩), (SNode.mk (2, 2) (some (SNode.mk (2, 1) (some (SNode.mk (1, 1) (some (SNode.mk (1, 0) (some (SNode.mk (0, 0) none 0 ⟨0, 32⟩ ⟨0, 32⟩)) 1 ⟨0, 25⟩ ⟨1, 25⟩)) 2 ⟨0, 18⟩ ⟨2, 18⟩)) 3 ⟨0, 13⟩ ⟨3, 13⟩)) 4 ⟨0, 8⟩ ⟨4, 8⟩), (SNode.mk (3, 0) (some (SNode.mk (2, 0) (some (SNode.mk (1, 0) (some (SNode.mk (0, 0) none 0 ⟨0, 32⟩ ⟨0, 32⟩)) 1 ⟨0, 25⟩ ⟨1, 25⟩)) 2 ⟨0, 20⟩ ⟨2, 20⟩)) 3 ⟨0, 17⟩ ⟨3, 17⟩), (SNode.mk (3, 1) (some (SNode.mk (2, 1) (some (SNode.mk (1, 1) (some (SNode.mk (1, 0) (some (SNode.mk (0, 0) none 0 ⟨0, 32⟩ ⟨0, 32⟩)) 1 ⟨0, 25⟩ ⟨1, 25⟩)) 2 ⟨0, 18⟩ ⟨2, 18⟩)) 3 ⟨0, 13⟩ ⟨3, 13⟩)) 4 ⟨0, 10⟩ ⟨4, 10⟩), (SNode.mk (0, 3) (some (SNode.mk (0, 2) (some (SNode.mk (0, 1) (some (SNode.mk (0, 0) none 0 ⟨0, 32⟩ ⟨0, 32⟩)) 1 ⟨0, 25⟩ ⟨1, 25⟩)) 2 ⟨0, 20⟩ ⟨2, 20⟩)) 3 ⟨0, 17⟩ ⟨3, 17⟩)] [(2, 1), (0, 2), (2, 0), (1, 1), (0, 1), (1, 0), (0, 0)] [((2, 2), 4), ((3, 1), 4), ((0, 3), 3), ((3, 0), 3), ((1, 2), 3), ((2, 1), 3), ((0, 2), 2), ((1, 1), 2), ((2, 0), 2), ((0, 1), 1), ((1, 0), 1), ((0, 0), 0)] 7) rfl 722]
  rw [searchLoop_cont specGrid55 (4, 4) heuristic_euclidean
    (SState.mk [(SNode.mk (1, 2) (some (SNode.mk (1, 1) (some (SNode.mk (1, 0) (some (SNode.mk (0, 0) none 0 ⟨0, 32⟩ ⟨0, 32⟩)) 1 ⟨0, 25⟩ ⟨1, 25⟩)) 2 ⟨0, 18⟩ ⟨2, 18⟩)) 3 ⟨0, 13⟩ ⟨3, 13⟩), (SNode.mk (2, 2) (some (SNode.mk (2, 1) (some (SNode.mk (1, 1) (some (SNode.mk (1, 0) (some (SNode.mk (0, 0) none 0 ⟨0, 32⟩ ⟨0, 32⟩)) 1 ⟨0, 25⟩ ⟨1, 25⟩)) 2 ⟨0, 18⟩ ⟨2, 18⟩)) 3 ⟨0, 13⟩ ⟨3, 13⟩)) 4 ⟨0, 8⟩ ⟨4, 8⟩), (SNode.mk (3, 0) (some (SNode.mk (2, 0) (some (SNode.mk (1, 0) (some (SNode.mk (0, 0) none 0 ⟨0, 32⟩ ⟨0, 32⟩)) 1 ⟨0, 25⟩ ⟨1, 25⟩)) 2 ⟨0, 20⟩ ⟨2, 20⟩)) 3 ⟨0, 17⟩ ⟨3, 17⟩), (SNode.mk (3, 1) (some (SNode.mk (2, 1) (some (SNode.mk (1, 1) (some (SNode.mk (1, 0) (some (SNode.mk (0, 0) none 0 ⟨0, 32⟩ ⟨0, 32⟩)) 1 ⟨0, 25⟩ ⟨1, 25⟩)) 2 ⟨0, 18⟩ ⟨2, 18⟩)) 3 ⟨0, 13⟩ ⟨3, 13⟩)) 4 ⟨0, 10⟩ ⟨4, 10⟩), (SNode.mk (0, 3) (some (SNode.mk (0, 2) (some (SNode.mk (0, 1) (some (SNode.mk (0, 0) none 0 ⟨0, 32⟩ ⟨0, 32⟩)) 1 ⟨0, 25⟩ ⟨1, 25⟩)) 2 ⟨0, 20⟩ ⟨2, 20⟩)) 3 ⟨0, 17⟩ ⟨3, 17⟩)] [(2, 1), (0, 2), (2, 0), (1, 1), (0, 1), (1, 0), (0, 0)] [((2, 2), 4), ((3, 1), 4), ((0, 3), 3), ((3, 0), 3), ((1, 2), 3), ((2, 1), 3), ((0, 2), 2), ((1, 1), 2), ((2, 0), 2), ((0, 1), 1), ((1, 0), 1), ((0, 0), 0)] 7)
    (SState.mk [(SNode.mk (2, 2) (some (SNode.mk (2, 1) (some (SNode.mk (1, 1) (some (SNode.mk (1, 0) (some (SNode.mk (0, 0) none 0 ⟨0, 32⟩ ⟨0, 32⟩)) 1 ⟨0, 25⟩ ⟨1, 25⟩)) 2 ⟨0, 18⟩ ⟨2, 18⟩)) 3 ⟨0, 13⟩ ⟨3, 13⟩)) 4 ⟨0, 8⟩ ⟨4, 8⟩), (SNode.mk (0, 3) (some (SNode.mk (0, 2) (some (SNode.mk (0, 1) (some (SNode.mk (0, 0) none 0 ⟨0, 32⟩ ⟨0, 32⟩)) 1 ⟨0, 25⟩ ⟨1, 25⟩)) 2 ⟨0, 20⟩ ⟨2, 20⟩)) 3 ⟨0, 17⟩ ⟨3, 17⟩), (SNode.mk (3, 0) (some (SNode.mk (2, 0) (some (SNode.mk (1, 0) (some (SNode.mk (0, 0) none 0 ⟨0, 32⟩ ⟨0, 32⟩)) 1 ⟨0, 25⟩ ⟨1, 25⟩)) 2 ⟨0, 20⟩ ⟨2, 20⟩)) 3 ⟨0, 17⟩ ⟨3, 17⟩), (SNode.mk (3, 1) (some (SNode.mk (2, 1) (some (SNode.mk (1, 1) (some (SNode.mk (1, 0) (some (SNode.mk (0, 0) none 0 ⟨0, 32⟩ ⟨0, 32⟩)) 1 ⟨0, 25⟩ ⟨1, 25⟩)) 2 ⟨0, 18⟩ ⟨2, 18⟩)) 3 ⟨0, 13⟩ ⟨3, 13⟩)) 4 ⟨0, 10⟩ ⟨4, 10⟩), (SNode.mk (1, 3) (some (SNode.mk (1, 2) (some (SNode.mk (1, 1) (some (SNode.mk (1, 0) (some (SNode.mk (0, 0) none 0 ⟨0, 32⟩ ⟨0, 32⟩)) 1 ⟨0, 25⟩ ⟨1, 25⟩)) 2 ⟨0, 18⟩ ⟨2, 18⟩)) 3 ⟨0, 13⟩ ⟨3, 13⟩)) 4 ⟨0, 10⟩ ⟨4, 10⟩)] [(1, 2), (2, 1), (0, 2), (2, 0), (1, 1), (0, 1), (1, 0), (0, 0)] [((1, 3), 4), ((2, 2), 4), ((3, 1), 4), ((0, 3), 3), ((3, 0), 3), ((1, 2), 3), ((2, 1), 3), ((0, 2), 2), ((1, 1), 2), ((2, 0), 2), ((0, 1), 1), ((1, 0), 1), ((0, 0), 0)] 8) rfl 721]
  rw [searchLoop_cont specGrid55 (4, 4) heuristic_euclidean
    (SState.mk [(SNode.mk (2, 2) (some (SNode.mk (2, 1) (some (SNode.mk (1, 1) (some (SNode.mk (1, 0) (some (SNode.mk (0, 0) none 0 ⟨0, 32⟩ ⟨0, 32⟩)) 1 ⟨0, 25⟩ ⟨1, 25⟩)) 2 ⟨0, 18⟩ ⟨2, 18⟩)) 3 ⟨0, 13⟩ ⟨3, 13⟩)) 4 ⟨0, 8⟩ ⟨4, 8⟩), (SNode.mk (0, 3) (some (SNode.mk (0, 2) (some (SNode.mk (0, 1) (some (SNode.mk (0, 0) none 0 ⟨0, 32⟩ ⟨0, 32⟩)) 1 ⟨0, 25⟩ ⟨1, 25⟩)) 2 ⟨0, 20⟩ ⟨2, 20⟩)) 3 ⟨0, 17⟩ ⟨3, 17⟩), (SNode.mk (3, 0) (some (SNode.mk (2, 0) (some (SNode.mk (1, 0) (some (SNode.mk (0, 0) none 0 ⟨0, 32⟩ ⟨0, 32⟩)) 1 ⟨0, 25⟩ ⟨1, 25⟩)) 2 ⟨0, 20⟩ ⟨2, 20⟩)) 3 ⟨0, 17⟩ ⟨3, 17⟩), (SNode.mk (3, 1) (some (SNode.mk (2, 1) (some (SNode.mk (1, 1) (some (SNode.mk (1, 0) (some (SNode.mk (0, 0) none 0 ⟨0, 32⟩ ⟨0, 32⟩)) 1 ⟨0, 25⟩ ⟨1, 25⟩)) 2 ⟨0, 18⟩ ⟨2, 18⟩)) 3 ⟨0, 13⟩ ⟨3, 13⟩)) 4 ⟨0, 10⟩ ⟨4, 10⟩), (SNode.mk (1, 3) (some (SNode.mk (1, 2) (some (SNode.mk (1, 1) (some (SNode.mk (1, 0) (some (SNode.mk (0, 0) none 0 ⟨0, 32⟩ ⟨0, 32⟩)) 1 ⟨0, 25⟩ ⟨1, 25⟩)) 2 ⟨0, 18⟩ ⟨2, 18⟩)) 3 ⟨0, 13⟩ ⟨3, 13⟩)) 4 ⟨0, 10⟩ ⟨4, 10⟩)] [(1, 2), (2, 1), (0, 2), (2, 0), (1, 1), (0, 1), (1, 0), (0, 0)] [((1, 3), 4), ((2, 2), 4), ((3, 1), 4), ((0, 3), 3), ((3, 0), 3), ((1, 2), 3), ((2, 1), 3), ((0, 2), 2), ((1, 1), 2), ((2, 0), 2), ((0, 1), 1), ((1, 0), 1), ((0, 0), 0)] 8)
    (SState.mk [(SNode.mk (3, 0) (some (SNode.mk (2, 0) (some (SNode.mk (1, 0) (some (SNode.mk (0, 0) none 0 ⟨0, 32⟩ ⟨0, 32⟩)) 1 ⟨0, 25⟩ ⟨1, 25⟩)) 2 ⟨0, 20⟩ ⟨2, 20⟩)) 3 ⟨0, 17⟩ ⟨3, 17⟩), (SNode.mk (0, 3) (some (SNode.mk (0, 2) (some (SNode.mk (0, 1) (some (SNode.mk (0, 0) none 0 ⟨0, 32⟩ ⟨0, 32⟩)) 1 ⟨0, 25⟩ ⟨1, 25⟩)) 2 ⟨0, 20⟩ ⟨2, 20⟩)) 3 ⟨0, 17⟩ ⟨3, 17⟩), (SNode.mk (1, 3) (some (SNode.mk (1, 2) (some (SNode.mk (1, 1) (some (SNode.mk (1, 0) (some (SNode.mk (0, 0) none 0 ⟨0, 32⟩ ⟨0, 32⟩)) 1 ⟨0, 25⟩ ⟨1, 25⟩)) 2 ⟨0, 18⟩ ⟨2, 18⟩)) 3 ⟨0, 13⟩ ⟨3, 13⟩)) 4 ⟨0, 10⟩ ⟨4, 10⟩), (SNode.mk (3, 1) (some (SNode.mk (2, 1) (some (SNode.mk (1, 1) (some (SNode.mk (1, 0) (some (SNode.mk (0, 0) none 0 ⟨0, 32⟩ ⟨0, 32⟩)) 1 ⟨0, 25⟩ ⟨1, 25⟩)) 2 ⟨0, 18⟩ ⟨2, 18⟩)) 3 ⟨0, 13⟩ ⟨3, 13⟩)) 4 ⟨0, 10⟩ ⟨4, 10⟩), (SNode.mk (3, 2) (some (SNode.mk (2, 2) (some (SNode.mk (2, 1) (some (SNode.mk (1, 1) (some (SNode.mk (1, 0) (some (SNode.mk (0, 0) none 0 ⟨0, 32⟩ ⟨0, 32⟩)) 1 ⟨0, 25⟩ ⟨1, 25⟩)) 2 ⟨0, 18⟩ ⟨2, 18⟩)) 3 ⟨0, 13⟩ ⟨3, 13⟩)) 4 ⟨0, 8⟩ ⟨4, 8⟩)) 5 ⟨0, 5⟩ ⟨5, 5⟩), (SNode.mk (2, 3) (some (SNode.mk (2, 2) (some (SNode.mk (2, 1) (some (SNode.mk (1, 1) (some (SNode.mk (1, 0) (some (SNode.mk (0, 0) none 0 ⟨0, 32⟩ ⟨0, 32⟩)) 1 ⟨0, 25⟩ ⟨1, 25⟩)) 2 ⟨0, 18⟩ ⟨2, 18⟩)) 3 ⟨0, 13⟩ ⟨3, 13⟩)) 4 ⟨0, 8⟩ ⟨4, 8⟩)) 5 ⟨0, 5⟩ ⟨5, 5⟩)] [(2, 2), (1, 2), (2, 1), (0, 2), (2, 0), (1, 1), (0, 1), (1, 0), (0, 0)] [((2, 3), 5), ((3, 2), 5), ((1, 3), 4), ((2, 2), 4), ((3, 1), 4), ((0, 3), 3), ((3, 0), 3), ((1, 2), 3), ((2, 1), 3), ((0, 2), 2), ((1, 1), 2), ((2, 0), 2), ((0, 1), 1), ((1, 0), 1), ((0, 0), 0)] 9) rfl 720]
  rw [searchLoop_cont specGrid55 (4, 4) heuristic_euclidean
    (SState.mk [(SNode.mk (3, 0) (some (SNode.mk (2, 0) (some (SNode.mk (1, 0) (some (SNode.mk (0, 0) none 0 ⟨0, 32⟩ ⟨0, 32⟩)) 1 ⟨0, 25⟩ ⟨1, 25⟩)) 2 ⟨0, 20⟩ ⟨2, 20⟩)) 3 ⟨0, 17⟩ ⟨3, 17⟩), (SNode.mk (0, 3) (some (SNode.mk (0, 2) (some (SNode.mk (0, 1) (some (SNode.mk (0, 0) none 0 ⟨0, 32⟩ ⟨0, 32⟩)) 1 ⟨0, 25⟩ ⟨1, 25⟩)) 2 ⟨0, 20⟩ ⟨2, 20⟩)) 3 ⟨0, 17⟩ ⟨3, 17⟩), (SNode.mk (1, 3) (some (SNode.mk (1, 2) (some (SNode.mk (1, 1) (some (SNode.mk (1, 0) (some (SNode.mk (0, 0) none 0 ⟨0, 32⟩ ⟨0, 32⟩)) 1 ⟨0, 25⟩ ⟨1, 25⟩)) 2 ⟨0, 18⟩ ⟨2, 18⟩)) 3 ⟨0, 13⟩ ⟨3, 13⟩)) 4 ⟨0, 10⟩ ⟨4, 10⟩), (SNode.mk (3, 1) (some (SNode.mk (2, 1) (some (SNode.mk (1, 1) (some (SNode.mk (1, 0) (some (SNode.mk (0, 0) none 0 ⟨0, 32⟩ ⟨0, 32⟩)) 1 ⟨0, 25⟩ ⟨1, 25⟩)) 2 ⟨0, 18⟩ ⟨2, 18⟩)) 3 ⟨0, 13⟩ ⟨3, 13⟩)) 4 ⟨0, 10⟩ ⟨4, 10⟩), (SNode.mk (3, 2) (some (SNode.mk (2, 2) (some (SNode.mk (2, 1) (some (SNode.mk (1, 1) (some (SNode.mk (1, 0) (some (SNode.mk (0, 0) none 0 ⟨0, 32⟩ ⟨0, 32⟩)) 1 ⟨0, 25⟩ ⟨1, 25⟩)) 2 ⟨0, 18⟩ ⟨2, 18⟩)) 3 ⟨0, 13⟩ ⟨3, 13⟩)) 4 ⟨0, 8⟩ ⟨4, 8⟩)) 5 ⟨0, 5⟩ ⟨5, 5⟩), (SNode.mk (2, 3) (some (SNode.mk (2, 2) (some (SNode.mk (2, 1) (some (SNode.mk (1, 1) (some (SNode.mk (1, 0) (some (SNode.mk (0, 0) none 0 ⟨0, 32⟩ ⟨0, 32⟩)) 1 ⟨0, 25⟩ ⟨1, 25⟩)) 2 ⟨0, 18⟩ ⟨2, 18⟩)) 3 ⟨0, 13⟩ ⟨3, 13⟩)) 4 ⟨0, 8⟩ ⟨4, 8⟩)) 5 ⟨0, 5⟩ ⟨5, 5⟩)] [(2, 2), (1, 2), (2, 1), (0, 2), (2, 0), (1, 1), (0, 1), (1, 0), (0, 0)] [((2, 3), 5), ((3, 2), 5), ((1, 3), 4), ((2, 2), 4), ((3, 1), 4), ((0, 3), 3), ((3, 0), 3), ((1, 2), 3), ((2, 1), 3), ((0, 2), 2), ((1, 1), 2), ((2, 0), 2), ((0, 1), 1), ((1, 0), 1), ((0, 0), 0)] 9)
    (SState.mk [(SNode.mk (0, 3) (some (SNode.mk (0, 2) (some (SNode.mk (0, 1) (some (SNode.mk (0, 0) none 0 ⟨0, 32⟩ ⟨0, 32⟩)) 1 ⟨0, 25⟩ ⟨1, 25⟩)) 2 ⟨0, 20⟩ ⟨2, 20⟩)) 3 ⟨0, 17⟩ ⟨3, 17⟩), (SNode.mk (3, 1) (some (SNode.mk (2, 1) (some (SNode.mk (1, 1) (some (SNode.mk (1, 0) (some (SNode.mk (0, 0) none 0 ⟨0, 32⟩ ⟨0, 32⟩)) 1 ⟨0, 25⟩ ⟨1, 25⟩)) 2 ⟨0, 18⟩ ⟨2, 18⟩)) 3 ⟨0, 13⟩ ⟨3, 13⟩)) 4 ⟨0, 10⟩ ⟨4, 10⟩), (SNode.mk (1, 3) (some (SNode.mk (1, 2) (some (SNode.mk (1, 1) (some (SNode.mk (1, 0) (some (SNode.mk (0, 0) none 0 ⟨0, 32⟩ ⟨0, 32⟩)) 1 ⟨0, 25⟩ ⟨1, 25⟩)) 2 ⟨0, 18⟩ ⟨2, 18⟩)) 3 ⟨0, 13⟩ ⟨3, 13⟩)) 4 ⟨0, 10⟩ ⟨4, 10⟩), (SNode.mk (2, 3) (some (SNode.mk (2, 2) (some (SNode.mk (2, 1) (some (SNode.mk (1, 1) (some (SNode.mk (1, 0) (some (SNode.mk (0, 0) none 0 ⟨0, 32⟩ ⟨0, 32⟩)) 1 ⟨0, 25⟩ ⟨1, 25⟩)) 2 ⟨0, 18⟩ ⟨2, 18⟩)) 3 ⟨0, 13⟩ ⟨3, 13⟩)) 4 ⟨0, 8⟩ ⟨4, 8⟩)) 5 ⟨0, 5⟩ ⟨5, 5⟩), (SNode.mk (3, 2) (some (SNode.mk (2, 2) (some (SNode.mk (2, 1) (some (SNode.mk (1, 1) (some (SNode.mk (1, 0) (some (SNode.mk (0, 0) none 0 ⟨0, 32⟩ ⟨0, 32⟩)) 1 ⟨0, 25⟩ ⟨1, 25⟩)) 2 ⟨0, 18⟩ ⟨2, 18⟩)) 3 ⟨0, 13⟩ ⟨3, 13⟩)) 4 ⟨0, 8⟩ ⟨4, 8⟩)) 5 ⟨0, 5⟩ ⟨5, 5⟩), (SNode.mk (4, 0) (some (SNode.mk (3, 0) (some (SNode.mk (2, 0) (some (SNode.mk (1, 0) (some (SNode.mk (0, 0) none 0 ⟨0, 32⟩ ⟨0, 32⟩)) 1 ⟨0, 25⟩ ⟨1, 25⟩)) 2 ⟨0, 20⟩ ⟨2, 20⟩)) 3 ⟨0, 17⟩ ⟨3, 17⟩)) 4 ⟨0, 16⟩ ⟨4, 16⟩)] [(3, 0), (2, 2), (1, 2), (2, 1), (0, 2), (2, 0), (1, 1), (0, 1), (1, 0), (0, 0)] [((4, 0), 4), ((2, 3), 5), ((3, 2), 5), ((1, 3), 4), ((2, 2), 4), ((3, 1), 4), ((0, 3), 3), ((3, 0), 3), ((1, 2), 3), ((2, 1), 3), ((0, 2), 2), ((1, 1), 2), ((2, 0), 2), ((0, 1), 1), ((1, 0), 1), ((0, 0), 0)] 10) rfl 719]
  rw [searchLoop_cont specGrid55 (4, 4) heuristic_euclidean
    (SState.mk [(SNode.mk (0, 3) (some (SNode.mk (0, 2) (some (SNode.mk (0, 1) (some (SNode.mk (0, 0) none 0 ⟨0, 32⟩ ⟨0, 32⟩)) 1 ⟨0, 25⟩ ⟨1, 25⟩)) 2 ⟨0, 20⟩ ⟨2, 20⟩)) 3 ⟨0, 17⟩ ⟨3, 17⟩), (SNode.mk (3, 1) (some (SNode.mk (2, 1) (some (SNode.mk (1, 1) (some (SNode.mk (1, 0) (some (SNode.mk (0, 0) none 0 ⟨0, 32⟩ ⟨0, 32⟩)) 1 ⟨0, 25⟩ ⟨1, 25⟩)) 2 ⟨0, 18⟩ ⟨2, 18⟩)) 3 ⟨0, 13⟩ ⟨3, 13⟩)) 4 ⟨0, 10⟩ ⟨4, 10⟩), (SNode.mk (1, 3) (some (SNode.mk (1, 2) (some (SNode.mk (1, 1) (some (SNode.mk (1, 0) (some (SNode.mk (0, 0) none 0 ⟨0, 32⟩ ⟨0, 32⟩)) 1 ⟨0, 25⟩ ⟨1, 25⟩)) 2 ⟨0, 18⟩ ⟨2, 18⟩)) 3 ⟨0, 13⟩ ⟨3, 13⟩)) 4 ⟨0, 10⟩ ⟨4, 10⟩), (SNode.mk (2, 3) (some (SNode.mk (2, 2) (some (SNode.mk (2, 1) (some (SNode.mk (1, 1) (some (SNode.mk (1, 0) (some (SNode.mk (0, 0) none 0 ⟨0, 32⟩ ⟨0, 32⟩)) 1 ⟨0, 25⟩ ⟨1, 25⟩)) 2 ⟨0, 18⟩ ⟨2, 18⟩)) 3 ⟨0, 13⟩ ⟨3, 13⟩)) 4 ⟨0, 8⟩ ⟨4, 8⟩)) 5 ⟨0, 5⟩ ⟨5, 5⟩), (SNode.mk (3, 2) (some (SNode.mk (2, 2) (some (SNode.mk (2, 1) (some (SNode.mk (1, 1) (some (SNode.mk (1, 0) (some (SNode.mk (0, 0) none 0 ⟨0, 32⟩ ⟨0, 32⟩)) 1 ⟨0, 25⟩ ⟨1, 25⟩)) 2 ⟨0, 18⟩ ⟨2, 18⟩)) 3 ⟨0, 13⟩ ⟨3, 13⟩)) 4 ⟨0, 8⟩ ⟨4, 8⟩)) 5 ⟨0, 5⟩ ⟨5, 5⟩), (SNode.mk (4, 0) (some (SNode.mk (3, 0) (some (SNode.mk (2, 0) (some (SNode.mk (1, 0) (some (SNode.mk (0, 0) none 0 ⟨0, 32⟩ ⟨0, 32⟩)) 1 ⟨0, 25⟩ ⟨1, 25⟩)) 2 ⟨0, 20⟩ ⟨2, 20⟩)) 3 ⟨0, 17⟩ ⟨3, 17⟩)) 4 ⟨0, 16⟩ ⟨4, 16⟩)] [(3, 0), (2, 2), (1, 2), (2, 1), (0, 2), (2, 0), (1, 1), (0, 1), (1, 0), (0, 0)] [((4, 0), 4), ((2, 3), 5), ((3, 2), 5), ((1, 3), 4), ((2, 2), 4), ((3, 1), 4), ((0, 3), 3), ((3, 0), 3), ((1, 2), 3), ((2, 1), 3), ((0, 2), 2), ((1, 1), 2), ((2, 0), 2), ((0, 1), 1), ((1, 0), 1), ((0, 0), 0)] 10)
    (SState.mk [(SNode.mk (1, 3) (some (SNode.mk (1, 2) (some (SNode.mk (1, 1) (some (SNode.mk (1, 0) (some (SNode.mk (0, 0) none 0 ⟨0, 32⟩ ⟨0, 32⟩)) 1 ⟨0, 25⟩ ⟨1, 25⟩)) 2 ⟨0, 18⟩ ⟨2, 18⟩)) 3 ⟨0, 13⟩ ⟨3, 13⟩)) 4 ⟨0, 10⟩ ⟨4, 10⟩), (SNode.mk (3, 1) (some (SNode.mk (2, 1) (some (SNode.mk (1, 1) (some (SNode.mk (1, 0) (some (SNode.mk (0, 0) none 0 ⟨0, 32⟩ ⟨0, 32⟩)) 1 ⟨0, 25⟩ ⟨1, 25⟩)) 2 ⟨0, 18⟩ ⟨2, 18⟩)) 3 ⟨0, 13⟩ ⟨3, 13⟩)) 4 ⟨0, 10⟩ ⟨4, 10⟩), (SNode.mk (4, 0) (some (SNode.mk (3, 0) (some (SNode.mk (2, 0) (some (SNode.mk (1, 0) (some (SNode.mk (0, 0) none 0 ⟨0, 32⟩ ⟨0, 32⟩)) 1 ⟨0, 25⟩ ⟨1, 25⟩)) 2 ⟨0, 20⟩ ⟨2, 20⟩)) 3 ⟨0, 17⟩ ⟨3, 17⟩)) 4 ⟨0, 16⟩ ⟨4, 16⟩), (SNode.mk (2, 3) (some (SNode.mk (2, 2) (some (SNode.mk (2, 1) (some (SNode.mk (1, 1) (some (SNode.mk (1, 0) (some (SNode.mk (0, 0) none 0 ⟨0, 32⟩ ⟨0, 32⟩)) 1 ⟨0, 25⟩ ⟨1, 25⟩)) 2 ⟨0, 18⟩ ⟨2, 18⟩)) 3 ⟨0, 13⟩ ⟨3, 13⟩)) 4 ⟨0, 8⟩ ⟨4, 8⟩)) 5 ⟨0, 5⟩ ⟨5, 5⟩), (SNode.mk (3, 2) (some (SNode.mk (2, 2) (some (SNode.mk (2, 1) (some (SNode.mk (1, 1) (some (SNode.mk (1, 0) (some (SNode.mk (0, 0) none 0 ⟨0, 32⟩ ⟨0, 32⟩)) 1 ⟨0, 25⟩ ⟨1, 25⟩)) 2 ⟨0, 18⟩ ⟨2, 18⟩)) 3 ⟨0, 13⟩ ⟨3, 13⟩)) 4 ⟨0, 8⟩ ⟨4, 8⟩)) 5 ⟨0, 5⟩ ⟨5, 5⟩), (SNode.mk (0, 4) (some (SNode.mk (0, 3) (some (SNode.mk (0, 2) (some (SNode.mk (0, 1) (some (SNode.mk (0, 0) none 0 ⟨0, 32⟩ ⟨0, 32⟩)) 1 ⟨0, 25⟩ ⟨1, 25⟩)) 2 ⟨0, 20⟩ ⟨2, 20⟩)) 3 ⟨0, 17⟩ ⟨3, 17⟩)) 4 ⟨0, 16⟩ ⟨4, 16⟩)] [(0, 3), (3, 0), (2, 2), (1, 2), (2, 1), (0, 2), (2, 0), (1, 1), (0, 1), (1, 0), (0, 0)] [((0, 4), 4), ((4, 0), 4), ((2, 3), 5), ((3, 2), 5), ((1, 3), 4), ((2, 2), 4), ((3, 1), 4), ((0, 3), 3), ((3, 0), 3), ((1, 2), 3), ((2, 1), 3), ((0, 2), 2), ((1, 1), 2), ((2, 0), 2), ((0, 1), 1), ((1, 0), 1), ((0, 0), 0)] 11) rfl 718]
  rw [searchLoop_cont specGrid55 (4, 4) heuristic_euclidean
    (SState.mk [(SNode.mk (1, 3) (some (SNode.mk (1, 2) (some (SNode.mk (1, 1) (some (SNode.mk (1, 0) (some (SNode.mk (0, 0) none 0 ⟨0, 32⟩ ⟨0, 32⟩)) 1 ⟨0, 25⟩ ⟨1, 25⟩)) 2 ⟨0, 18⟩ ⟨2, 18⟩)) 3 ⟨0, 13⟩ ⟨3, 13⟩)) 4 ⟨0, 10⟩ ⟨4, 10⟩), (SNode.mk (3, 1) (some (SNode.mk (2, 1) (some (SNode.mk (1, 1) (some (SNode.mk (1, 0) (some (SNode.mk (0, 0) none 0 ⟨0, 32⟩ ⟨0, 32⟩)) 1 ⟨0, 25⟩ ⟨1, 25⟩)) 2 ⟨0, 18⟩ ⟨2, 18⟩)) 3 ⟨0, 13⟩ ⟨3, 13⟩)) 4 ⟨0, 10⟩ ⟨4, 10⟩), (SNode.mk (4, 0) (some (SNode.mk (3, 0) (some (SNode.mk (2, 0) (some (SNode.mk (1, 0) (some (SNode.mk (0, 0) none 0 ⟨0, 32⟩ ⟨0, 32⟩)) 1 ⟨0, 25⟩ ⟨1, 25⟩)) 2 ⟨0, 20⟩ ⟨2, 20⟩)) 3 ⟨0, 17⟩ ⟨3, 17⟩)) 4 ⟨0, 16⟩ ⟨4, 16⟩), (SNode.mk (2, 3) (some (SNode.mk (2, 2) (some (SNode.mk (2, 1) (some (SNode.mk (1, 1) (some (SNode.mk (1, 0) (some (SNode.mk (0, 0) none 0 ⟨0, 32⟩ ⟨0, 32⟩)) 1 ⟨0, 25⟩ ⟨1, 25⟩)) 2 ⟨0, 18⟩ ⟨2, 18⟩)) 3 ⟨0, 13⟩ ⟨3, 13⟩)) 4 ⟨0, 8⟩ ⟨4, 8⟩)) 5 ⟨0, 5⟩ ⟨5, 5⟩), (SNode.mk (3, 2) (some (SNode.mk (2, 2) (some (SNode.mk (2, 1) (some (SNode.mk (1, 1) (some (SNode.mk (1, 0) (some (SNode.mk (0, 0) none 0 ⟨0, 32⟩ ⟨0, 32⟩)) 1 ⟨0, 25⟩ ⟨1, 25⟩)) 2 ⟨0, 18⟩ ⟨2, 18⟩)) 3 ⟨0, 13⟩ ⟨3, 13⟩)) 4 ⟨0, 8⟩ ⟨4, 8⟩)) 5 ⟨0, 5⟩ ⟨5, 5⟩), (SNode.mk (0, 4) (some (SNode.mk (0, 3) (some (SNode.mk (0, 2) (some (SNode.mk (0, 1) (some (SNode.mk (0, 0) none 0 ⟨0, 32⟩ ⟨0, 32⟩)) 1 ⟨0, 25⟩ ⟨1, 25⟩)) 2 ⟨0, 20⟩ ⟨2, 20⟩)) 3 ⟨0, 17⟩ ⟨3, 17⟩)) 4 ⟨0, 16⟩ ⟨4, 16⟩)] [(0, 3), (3, 0), (2, 2), (1, 2), (2, 1), (0, 2), (2, 0), (1, 1), (0, 1), (1, 0), (0, 0)] [((0, 4), 4), ((4, 0), 4), ((2, 3), 5), ((3, 2), 5), ((1, 3), 4), ((2, 2), 4), ((3, 1), 4), ((0, 3), 3), ((3, 0), 3), ((1, 2), 3), ((2, 1), 3), ((0, 2), 2), ((1, 1), 2), ((2, 0), 2), ((0, 1), 1), ((1, 0), 1), ((0, 0), 0)] 11)
    (SState.mk [(SNode.mk (3, 1) (some (SNode.mk (2, 1) (some (SNode.mk (1, 1) (some (SNode.mk (1, 0) (some (SNode.mk (0, 0) none 0 ⟨0, 32⟩ ⟨0, 32⟩)) 1 ⟨0, 25⟩ ⟨1, 25⟩)) 2 ⟨0, 18⟩ ⟨2, 18⟩)) 3 ⟨0, 13⟩ ⟨3, 13⟩)) 4 ⟨0, 10⟩ ⟨4, 10⟩), (SNode.mk (3, 2) (some (SNode.mk (2, 2) (some (SNode.mk (2, 1) (some (SNode.mk (1, 1) (some (SNode.mk (1, 0) (some (SNode.mk (0, 0) none 0 ⟨0, 32⟩ ⟨0, 32⟩)) 1 ⟨0, 25⟩ ⟨1, 25⟩)) 2 ⟨0, 18⟩ ⟨2, 18⟩)) 3 ⟨0, 13⟩ ⟨3, 13⟩)) 4 ⟨0, 8⟩ ⟨4, 8⟩)) 5 ⟨0, 5⟩ ⟨5, 5⟩), (SNode.mk (4, 0) (some (SNode.mk (3, 0) (some (SNode.mk (2, 0) (some (SNode.mk (1, 0) (some (SNode.mk (0, 0) none 0 ⟨0, 32⟩ ⟨0, 32⟩)) 1 ⟨0, 25⟩ ⟨1, 25⟩)) 2 ⟨0, 20⟩ ⟨2, 20⟩)) 3 ⟨0, 17⟩ ⟨3, 17⟩)) 4 ⟨0, 16⟩ ⟨4, 16⟩), (SNode.mk (2, 3) (some (SNode.mk (2, 2) (some (SNode.mk (2, 1) (some (SNode.mk (1, 1) (some (SNode.mk (1, 0) (some (SNode.mk (0, 0) none 0 ⟨0, 32⟩ ⟨0, 32⟩)) 1 ⟨0, 25⟩ ⟨1, 25⟩)) 2 ⟨0, 18⟩ ⟨2, 18⟩)) 3 ⟨0, 13⟩ ⟨3, 13⟩)) 4 ⟨0, 8⟩ ⟨4, 8⟩)) 5 ⟨0, 5⟩ ⟨5, 5⟩), (SNode.mk (0, 4) (some (SNode.mk (0, 3) (some (SNode.mk (0, 2) (some (SNode.mk (0, 1) (some (SNode.mk (0, 0) none 0 ⟨0, 32⟩ ⟨0, 32⟩)) 1 ⟨0, 25⟩ ⟨1, 25⟩)) 2 ⟨0, 20⟩ ⟨2, 20⟩)) 3 ⟨0, 17⟩ ⟨3, 17⟩)) 4 ⟨0, 16⟩ ⟨4, 16⟩), (SNode.mk (1, 4) (some (SNode.mk (1, 3) (some (SNode.mk (1, 2) (some (SNode.mk (1, 1) (some (SNode.mk (1, 0) (some (SNode.mk (0, 0) none 0 ⟨0, 32⟩ ⟨0, 32⟩)) 1 ⟨0, 25⟩ ⟨1, 25⟩)) 2 ⟨0, 18⟩ ⟨2, 18⟩)) 3 ⟨0, 13⟩ ⟨3, 13⟩)) 4 ⟨0, 10⟩ ⟨4, 10⟩)) 5 ⟨0, 9⟩ ⟨5, 9⟩)] [(1, 3), (0, 3), (3, 0), (2, 2), (1, 2), (2, 1), (0, 2), (2, 0), (1, 1), (0, 1), (1, 0), (0, 0)] [((1, 4), 5), ((0, 4), 4), ((4, 0), 4), ((2, 3), 5), ((3, 2), 5), ((1, 3), 4), ((2, 2), 4), ((3, 1), 4), ((0, 3), 3), ((3, 0), 3), ((1, 2), 3), ((2, 1), 3), ((0, 2), 2), ((1, 1), 2), ((2, 0), 2), ((0, 1), 1), ((1, 0), 1), ((0, 0), 0)] 12) rfl 717]
  rw [searchLoop_cont specGrid55 (4, 4) heuristic_euclidean
    (SState.mk [(SNode.mk (3, 1) (some (SNode.mk (2, 1) (some (SNode.mk (1, 1) (some (SNode.mk (1, 0) (some (SNode.mk (0, 0) none 0 ⟨0, 32⟩ ⟨0, 32⟩)) 1 ⟨0, 25⟩ ⟨1, 25⟩)) 2 ⟨0, 18⟩ ⟨2, 18⟩)) 3 ⟨0, 13⟩ ⟨3, 13⟩)) 4 ⟨0, 10⟩ ⟨4, 10⟩), (SNode.mk (3, 2) (some (SNode.mk (2, 2) (some (SNode.mk (2, 1) (some (SNode.mk (1, 1) (some (SNode.mk (1, 0) (some (SNode.mk (0, 0) none 0 ⟨0, 32⟩ ⟨0, 32⟩)) 1 ⟨0, 25⟩ ⟨1, 25⟩)) 2 ⟨0, 18⟩ ⟨2, 18⟩)) 3 ⟨0, 13⟩ ⟨3, 13⟩)) 4 ⟨0, 8⟩ ⟨4, 8⟩)) 5 ⟨0, 5⟩ ⟨5, 5⟩), (SNode.mk (4, 0) (some (SNode.mk (3, 0) (some (SNode.mk (2, 0) (some (SNode.mk (1, 0) (some (SNode.mk (0, 0) none 0 ⟨0, 32⟩ ⟨0, 32⟩)) 1 ⟨0, 25⟩ ⟨1, 25⟩)) 2 ⟨0, 20⟩ ⟨2, 20⟩)) 3 ⟨0, 17⟩ ⟨3, 17⟩)) 4 ⟨0, 16⟩ ⟨4, 16⟩), (SNode.mk (2, 3) (some (SNode.mk (2, 2) (some (SNode.mk (2, 1) (some (SNode.mk (1, 1) (some (SNode.mk (1, 0) (some (SNode.mk (0, 0) none 0 ⟨0, 32⟩ ⟨0, 32⟩)) 1 ⟨0, 25⟩ ⟨1, 25⟩)) 2 ⟨0, 18⟩ ⟨2, 18⟩)) 3 ⟨0, 13⟩ ⟨3, 13⟩)) 4 ⟨0, 8⟩ ⟨4, 8⟩)) 5 ⟨0, 5⟩ ⟨5, 5⟩), (SNode.mk (0, 4) (some (SNode.mk (0, 3) (some (SNode.mk (0, 2) (some (SNode.mk (0, 1) (some (SNode.mk (0, 0) none 0 ⟨0, 32⟩ ⟨0, 32⟩)) 1 ⟨0, 25⟩ ⟨1, 25⟩)) 2 ⟨0, 20⟩ ⟨2, 20⟩)) 3 ⟨0, 17⟩ ⟨3, 17⟩)) 4 ⟨0, 16⟩ ⟨4, 16⟩), (SNode.mk (1, 4) (some (SNode.mk (1, 3) (some (SNode.mk (1, 2) (some (SNode.mk (1, 1) (some (SNode.mk (1, 0) (some (SNode.mk (0, 0) none 0 ⟨0, 32⟩ ⟨0, 32⟩)) 1 ⟨0, 25⟩ ⟨1, 25⟩)) 2 ⟨0, 18⟩ ⟨2, 18⟩)) 3 ⟨0, 13⟩ ⟨3, 13⟩)) 4 ⟨0, 10⟩ ⟨4, 10⟩)) 5 ⟨0, 9⟩ ⟨5, 9⟩)] [(1, 3), (0, 3), (3, 0), (2, 2), (1, 2), (2, 1), (0, 2), (2, 0), (1, 1), (0, 1), (1, 0), (0, 0)] [((1, 4), 5), ((0, 4), 4), ((4, 0), 4), ((2, 3), 5), ((3, 2), 5), ((1, 3), 4), ((2, 2), 4), ((3, 1), 4), ((0, 3), 3), ((3, 0), 3), ((1, 2), 3), ((2, 1), 3), ((0, 2), 2), ((1, 1), 2), ((2, 0), 2), ((0, 1), 1), ((1, 0), 1), ((0, 0), 0)] 12)
    (SState.mk [(SNode.mk (3, 2) (some (SNode.mk (2, 2) (some (SNode.mk (2, 1) (some (SNode.mk (1, 1) (some (SNode.mk (1, 0) (some (SNode.mk (0, 0) none 0 ⟨0, 32⟩ ⟨0, 32⟩)) 1 ⟨0, 25⟩ ⟨1, 25⟩)) 2 ⟨0, 18⟩ ⟨2, 18⟩)) 3 ⟨0, 13⟩ ⟨3, 13⟩)) 4 ⟨0, 8⟩ ⟨4, 8⟩)) 5 ⟨0, 5⟩ ⟨5, 5⟩), (SNode.mk (2, 3) (some (SNode.mk (2, 2) (some (SNode.mk (2, 1) (some (SNode.mk (1, 1) (some (SNode.mk (1, 0) (some (SNode.mk (0, 0) none 0 ⟨0, 32⟩ ⟨0, 32⟩)) 1 ⟨0, 25⟩ ⟨1, 25⟩)) 2 ⟨0, 18⟩ ⟨2, 18⟩)) 3 ⟨0, 13⟩ ⟨3, 13⟩)) 4 ⟨0, 8⟩ ⟨4, 8⟩)) 5 ⟨0, 5⟩ ⟨5, 5⟩), (SNode.mk (4, 0) (some (SNode.mk (3, 0) (some (SNode.mk (2, 0) (some (SNode.mk (1, 0) (some (SNode.mk (0, 0) none 0 ⟨0, 32⟩ ⟨0, 32⟩)) 1 ⟨0, 25⟩ ⟨1, 25⟩)) 2 ⟨0, 20⟩ ⟨2, 20⟩)) 3 ⟨0, 17⟩ ⟨3, 17⟩)) 4 ⟨0, 16⟩ ⟨4, 16⟩), (SNode.mk (1, 4) (some (SNode.mk (1, 3) (some (SNode.mk (1, 2) (some (SNode.mk (1, 1) (some (SNode.mk (1, 0) (some (SNode.mk (0, 0) none 0 ⟨0, 32⟩ ⟨0, 32⟩)) 1 ⟨0, 25⟩ ⟨1, 25⟩)) 2 ⟨0, 18⟩ ⟨2, 18⟩)) 3 ⟨0, 13⟩ ⟨3, 13⟩)) 4 ⟨0, 10⟩ ⟨4, 10⟩)) 5 ⟨0, 9⟩ ⟨5, 9⟩), (SNode.mk (0, 4) (some (SNode.mk (0, 3) (some (SNode.mk (0, 2) (some (SNode.mk (0, 1) (some (SNode.mk (0, 0) none 0 ⟨0, 32⟩ ⟨0, 32⟩)) 1 ⟨0, 25⟩ ⟨1, 25⟩)) 2 ⟨0, 20⟩ ⟨2, 20⟩)) 3 ⟨0, 17⟩ ⟨3, 17⟩)) 4 ⟨0, 16⟩ ⟨4, 16⟩), (SNode.mk (4, 1) (some (SNode.mk (3, 1) (some (SNode.mk (2, 1) (some (SNode.mk (1, 1) (some (SNode.mk (1, 0) (some (SNode.mk (0, 0) none 0 ⟨0, 32⟩ ⟨0, 32⟩)) 1 ⟨0, 25⟩ ⟨1, 25⟩)) 2 ⟨0, 18⟩ ⟨2, 18⟩)) 3 ⟨0, 13⟩ ⟨3, 13⟩)) 4 ⟨0, 10⟩ ⟨4, 10⟩)) 5 ⟨0, 9⟩ ⟨5, 9⟩)] [(3, 1), (1, 3), (0, 3), (3, 0), (2, 2), (1, 2), (2, 1), (0, 2), (2, 0), (1, 1), (0, 1), (1, 0), (0, 0)] [((4, 1), 5), ((1, 4), 5), ((0, 4), 4), ((4, 0), 4), ((2, 3), 5), ((3, 2), 5), ((1, 3), 4), ((2, 2), 4), ((3, 1), 4), ((0, 3), 3), ((3, 0), 3), ((1, 2), 3), ((2, 1), 3), ((0, 2), 2), ((1, 1), 2), ((2, 0), 2), ((0, 1), 1), ((1, 0), 1), ((0, 0), 0)] 13) rfl 716]
  rw [searchLoop_cont specGrid55 (4, 4) heuristic_euclidean
    (SState.mk [(SNode.mk (3, 2) (some (SNode.mk (2, 2) (some (SNode.mk (2, 1) (some (SNode.mk (1, 1) (some (SNode.mk (1, 0) (some (SNode.mk (0, 0) none 0 ⟨0, 32⟩ ⟨0, 32⟩)) 1 ⟨0, 25⟩ ⟨1, 25⟩)) 2 ⟨0, 18⟩ ⟨2, 18⟩)) 3 ⟨0, 13⟩ ⟨3, 13⟩)) 4 ⟨0, 8⟩ ⟨4, 8⟩)) 5 ⟨0, 5⟩ ⟨5, 5⟩), (SNode.mk (2, 3) (some (SNode.mk (2, 2) (some (SNode.mk (2, 1) (some (SNode.mk (1, 1) (some (SNode.mk (1, 0) (some (SNode.mk (0, 0) none 0 ⟨0, 32⟩ ⟨0, 32⟩)) 1 ⟨0, 25⟩ ⟨1, 25⟩)) 2 ⟨0, 18⟩ ⟨2, 18⟩)) 3 ⟨0, 13⟩ ⟨3, 13⟩)) 4 ⟨0, 8⟩ ⟨4, 8⟩)) 5 ⟨0, 5⟩ ⟨5, 5⟩), (SNode.mk (4, 0) (some (SNode.mk (3, 0) (some (SNode.mk (2, 0) (some (SNode.mk (1, 0) (some (SNode.mk (0, 0) none 0 ⟨0, 32⟩ ⟨0, 32⟩)) 1 ⟨0, 25⟩ ⟨1, 25⟩)) 2 ⟨0, 20⟩ ⟨2, 20⟩)) 3 ⟨0, 17⟩ ⟨3, 17⟩)) 4 ⟨0, 16⟩ ⟨4, 16⟩), (SNode.mk (1, 4) (some (SNode.mk (1, 3) (some (SNode.mk (1, 2) (some (SNode.mk (1, 1) (some (SNode.mk (1, 0) (some (SNode.mk (0, 0) none 0 ⟨0, 32⟩ ⟨0, 32⟩)) 1 ⟨0, 25⟩ ⟨1, 25⟩)) 2 ⟨0, 18⟩ ⟨2, 18⟩)) 3 ⟨0, 13⟩ ⟨3, 13⟩)) 4 ⟨0, 10⟩ ⟨4, 10⟩)) 5 ⟨0, 9⟩ ⟨5, 9⟩), (SNode.mk (0, 4) (some (SNode.mk (0, 3) (some (SNode.mk (0, 2) (some (SNode.mk (0, 1) (some (SNode.mk (0, 0) none 0 ⟨0, 32⟩ ⟨0, 32⟩)) 1 ⟨0, 25⟩ ⟨1, 25⟩)) 2 ⟨0, 20⟩ ⟨2, 20⟩)) 3 ⟨0, 17⟩ ⟨3, 17⟩)) 4 ⟨0, 16⟩ ⟨4, 16⟩), (SNode.mk (4, 1) (some (SNode.mk (3, 1) (some (SNode.mk (2, 1) (some (SNode.mk (1, 1) (some (SNode.mk (1, 0) (some (SNode.mk (0, 0) none 0 ⟨0, 32⟩ ⟨0, 32⟩)) 1 ⟨0, 25⟩ ⟨1, 25⟩)) 2 ⟨0, 18⟩ ⟨2, 18⟩)) 3 ⟨0, 13⟩ ⟨3, 13⟩)) 4 ⟨0, 10⟩ ⟨4, 10⟩)) 5 ⟨0, 9⟩ ⟨5, 9⟩)] [(3, 1), (1, 3), (0, 3), (3, 0), (2, 2), (1, 2), (2, 1), (0, 2), (2, 0), (1, 1), (0, 1), (1, 0), (0, 0)] [((4, 1), 5), ((1, 4), 5), ((0, 4), 4), ((4, 0), 4), ((2, 3), 5), ((3, 2), 5), ((1, 3), 4), ((2, 2), 4), ((3, 1), 4), ((0, 3), 3), ((3, 0), 3), ((1, 2), 3), ((2, 1), 3), ((0, 2), 2), ((1, 1), 2), ((2, 0), 2), ((0, 1), 1), ((1, 0), 1), ((0, 0), 0)] 13)
    (SState.mk [(SNode.mk (2, 3) (some (SNode.mk (2, 2) (some (SNode.mk (2, 1) (some (SNode.mk (1, 1) (some (SNode.mk (1, 0) (some (SNode.mk (0, 0) none 0 ⟨0, 32⟩ ⟨0, 32⟩)) 1 ⟨0, 25⟩ ⟨1, 25⟩)) 2 ⟨0, 18⟩ ⟨2, 18⟩)) 3 ⟨0, 13⟩ ⟨3, 13⟩)) 4 ⟨0, 8⟩ ⟨4, 8⟩)) 5 ⟨0, 5⟩ ⟨5, 5⟩), (SNode.mk (0, 4) (some (SNode.mk (0, 3) (some (SNode.mk (0, 2) (some (SNode.mk (0, 1) (some (SNode.mk (0, 0) none 0 ⟨0, 32⟩ ⟨0, 32⟩)) 1 ⟨0, 25⟩ ⟨1, 25⟩)) 2 ⟨0, 20⟩ ⟨2, 20⟩)) 3 ⟨0, 17⟩ ⟨3, 17⟩)) 4 ⟨0, 16⟩ ⟨4, 16⟩), (SNode.mk (3, 3) (some (SNode.mk (3, 2) (some (SNode.mk (2, 2) (some (SNode.mk (2, 1) (some (SNode.mk (1, 1) (some (SNode.mk (1, 0) (some (SNode.mk (0, 0) none 0 ⟨0, 32⟩ ⟨0, 32⟩)) 1 ⟨0, 25⟩ ⟨1, 25⟩)) 2 ⟨0, 18⟩ ⟨2, 18⟩)) 3 ⟨0, 13⟩ ⟨3, 13⟩)) 4 ⟨0, 8⟩ ⟨4, 8⟩)) 5 ⟨0, 5⟩ ⟨5, 5⟩)) 6 ⟨0, 2⟩ ⟨6, 2⟩), (SNode.mk (1, 4) (some (SNode.mk (1, 3) (some (SNode.mk (1, 2) (some (SNode.mk (1, 1) (some (SNode.mk (1, 0) (some (SNode.mk (0, 0) none 0 ⟨0, 32⟩ ⟨0, 32⟩)) 1 ⟨0, 25⟩ ⟨1, 25⟩)) 2 ⟨0, 18⟩ ⟨2, 18⟩)) 3 ⟨0, 13⟩ ⟨3, 13⟩)) 4 ⟨0, 10⟩ ⟨4, 10⟩)) 5 ⟨0, 9⟩ ⟨5, 9⟩), (SNode.mk (4, 1) (some (SNode.mk (3, 1) (some (SNode.mk (2, 1) (some (SNode.mk (1, 1) (some (SNode.mk (1, 0) (some (SNode.mk (0, 0) none 0 ⟨0, 32⟩ ⟨0, 32⟩)) 1 ⟨0, 25⟩ ⟨1, 25⟩)) 2 ⟨0, 18⟩ ⟨2, 18⟩)) 3 ⟨0, 13⟩ ⟨3, 13⟩)) 4 ⟨0, 10⟩ ⟨4, 10⟩)) 5 ⟨0, 9⟩ ⟨5, 9⟩), (SNode.mk (4, 2) (some (SNode.mk (3, 2) (some (SNode.mk (2, 2) (some (SNode.mk (2, 1) (some (SNode.mk (1, 1) (some (SNode.mk (1, 0) (some (SNode.mk (0, 0) none 0 ⟨0, 32⟩ ⟨0, 32⟩)) 1 ⟨0, 25⟩ ⟨1, 25⟩)) 2 ⟨0, 18⟩ ⟨2, 18⟩)) 3 ⟨0, 13⟩ ⟨3, 13⟩)) 4 ⟨0, 8⟩ ⟨4, 8⟩)) 5 ⟨0, 5⟩ ⟨5, 5⟩)) 6 ⟨0, 4⟩ ⟨6, 4⟩), (SNode.mk (4, 0) (some (SNode.mk (3, 0) (some (SNode.mk (2, 0) (some (SNode.mk (1, 0) (some (SNode.mk (0, 0) none 0 ⟨0, 32⟩ ⟨0, 32⟩)) 1 ⟨0, 25⟩ ⟨1, 25⟩)) 2 ⟨0, 20⟩ ⟨2, 20⟩)) 3 ⟨0, 17⟩ ⟨3, 17⟩)) 4 ⟨0, 16⟩ ⟨4, 16⟩)] [(3, 2), (3, 1), (1, 3), (0, 3), (3, 0), (2, 2), (1, 2), (2, 1), (0, 2), (2, 0), (1, 1), (0, 1), (1, 0), (0, 0)] [((3, 3), 6), ((4, 2), 6), ((4, 1), 5), ((1, 4), 5), ((0, 4), 4), ((4, 0), 4), ((2, 3), 5), ((3, 2), 5), ((1, 3), 4), ((2, 2), 4), ((3, 1), 4), ((0, 3), 3), ((3, 0), 3), ((1, 2), 3), ((2, 1), 3), ((0, 2), 2), ((1, 1), 2), ((2, 0), 2), ((0, 1), 1), ((1, 0), 1), ((0, 0), 0)] 14) rfl 715]
  rw [searchLoop_cont specGrid55 (4, 4) heuristic_euclidean
    (SState.mk [(SNode.mk (2, 3) (some (SNode.mk (2, 2) (some (SNode.mk (2, 1) (some (SNode.mk (1, 1) (some (SNode.mk (1, 0) (some (SNode.mk (0, 0) none 0 ⟨0, 32⟩ ⟨0, 32⟩)) 1 ⟨0, 25⟩ ⟨1, 25⟩)) 2 ⟨0, 18⟩ ⟨2, 18⟩)) 3 ⟨0, 13⟩ ⟨3, 13⟩)) 4 ⟨0, 8⟩ ⟨4, 8⟩)) 5 ⟨0, 5⟩ ⟨5, 5⟩), (SNode.mk (0, 4) (some (SNode.mk (0, 3) (some (SNode.mk (0, 2) (some (SNode.mk (0, 1) (some (SNode.mk (0, 0) none 0 ⟨0, 32⟩ ⟨0, 32⟩)) 1 ⟨0, 25⟩ ⟨1, 25⟩)) 2 ⟨0, 20⟩ ⟨2, 20⟩)) 3 ⟨0, 17⟩ ⟨3, 17⟩)) 4 ⟨0, 16⟩ ⟨4, 16⟩), (SNode.mk (3, 3) (some (SNode.mk (3, 2) (some (SNode.mk (2, 2) (some (SNode.mk (2, 1) (some (SNode.mk (1, 1) (some (SNode.mk (1, 0) (some (SNode.mk (0, 0) none 0 ⟨0, 32⟩ ⟨0, 32⟩)) 1 ⟨0, 25⟩ ⟨1, 25⟩)) 2 ⟨0, 18⟩ ⟨2, 18⟩)) 3 ⟨0, 13⟩ ⟨3, 13⟩)) 4 ⟨0, 8⟩ ⟨4, 8⟩)) 5 ⟨0, 5⟩ ⟨5, 5⟩)) 6 ⟨0, 2⟩ ⟨6, 2⟩), (SNode.mk (1, 4) (some (SNode.mk (1, 3) (some (SNode.mk (1, 2) (some (SNode.mk (1, 1) (some (SNode.mk (1, 0) (some (SNode.mk (0, 0) none 0 ⟨0, 32⟩ ⟨0, 32⟩)) 1 ⟨0, 25⟩ ⟨1, 25⟩)) 2 ⟨0, 18⟩ ⟨2, 18⟩)) 3 ⟨0, 13⟩ ⟨3, 13⟩)) 4 ⟨0, 10⟩ ⟨4, 10⟩)) 5 ⟨0, 9⟩ ⟨5, 9⟩), (SNode.mk (4, 1) (some (SNode.mk (3, 1) (some (SNode.mk (2, 1) (some (SNode.mk (1, 1) (some (SNode.mk (1, 0) (some (SNode.mk (0, 0) none 0 ⟨0, 32⟩ ⟨0, 32⟩)) 1 ⟨0, 25⟩ ⟨1, 25⟩)) 2 ⟨0, 18⟩ ⟨2, 18⟩)) 3 ⟨0, 13⟩ ⟨3, 13⟩)) 4 ⟨0, 10⟩ ⟨4, 10⟩)) 5 ⟨0, 9⟩ ⟨5, 9⟩), (SNode.mk (4, 2) (some (SNode.mk (3, 2) (some (SNode.mk (2, 2) (some (SNode.mk (2, 1) (some (SNode.mk (1, 1) (some (SNode.mk (1, 0) (some (SNode.mk (0, 0) none 0 ⟨0, 32⟩ ⟨0, 32⟩)) 1 ⟨0, 25⟩ ⟨1, 25⟩)) 2 ⟨0, 18⟩ ⟨2, 18⟩)) 3 ⟨0, 13⟩ ⟨3, 13⟩)) 4 ⟨0, 8⟩ ⟨4, 8⟩)) 5 ⟨0, 5⟩ ⟨5, 5⟩)) 6 ⟨0, 4⟩ ⟨6, 4⟩), (SNode.mk (4, 0) (some (SNode.mk (3, 0) (some (SNode.mk (2, 0) (some (SNode.mk (1, 0) (some (SNode.mk (0, 0) none 0 ⟨0, 32⟩ ⟨0, 32⟩)) 1 ⟨0, 25⟩ ⟨1, 25⟩)) 2 ⟨0, 20⟩ ⟨2, 20⟩)) 3 ⟨0, 17⟩ ⟨3, 17⟩)) 4 ⟨0, 16⟩ ⟨4, 16⟩)] [(3, 2), (3, 1), (1, 3), (0, 3), (3, 0), (2, 2), (1, 2), (2, 1), (0, 2), (2, 0), (1, 1), (0, 1), (1, 0), (0, 0)] [((3, 3), 6), ((4, 2), 6), ((4, 1), 5), ((1, 4), 5), ((0, 4), 4), ((4, 0), 4), ((2, 3), 5), ((3, 2), 5), ((1, 3), 4), ((2, 2), 4), ((3, 1), 4), ((0, 3), 3), ((3, 0), 3), ((1, 2), 3), ((2, 1), 3), ((0, 2), 2), ((1, 1), 2), ((2, 0), 2), ((0, 1), 1), ((1, 0), 1), ((0, 0), 0)] 14)
    (SState.mk [(SNode.mk (3, 3) (some (SNode.mk (3, 2) (some (SNode.mk (2, 2) (some (SNode.mk (2, 1) (some (SNode.mk (1, 1) (some (SNode.mk (1, 0) (some (SNode.mk (0, 0) none 0 ⟨0, 32⟩ ⟨0, 32⟩)) 1 ⟨0, 25⟩ ⟨1, 25⟩)) 2 ⟨0, 18⟩ ⟨2, 18⟩)) 3 ⟨0, 13⟩ ⟨3, 13⟩)) 4 ⟨0, 8⟩ ⟨4, 8⟩)) 5 ⟨0, 5⟩ ⟨5, 5⟩)) 6 ⟨0, 2⟩ ⟨6, 2⟩), (SNode.mk (0, 4) (some (SNode.mk (0, 3) (some (SNode.mk (0, 2) (some (SNode.mk (0, 1) (some (SNode.mk (0, 0) none 0 ⟨0, 32⟩ ⟨0, 32⟩)) 1 ⟨0, 25⟩ ⟨1, 25⟩)) 2 ⟨0, 20⟩ ⟨2, 20⟩)) 3 ⟨0, 17⟩ ⟨3, 17⟩)) 4 ⟨0, 16⟩ ⟨4, 16⟩), (SNode.mk (4, 2) (some (SNode.mk (3, 2) (some (SNode.mk (2, 2) (some (SNode.mk (2, 1) (some (SNode.mk (1, 1) (some (SNode.mk (1, 0) (some (SNode.mk (0, 0) none 0 ⟨0, 32⟩ ⟨0, 32⟩)) 1 ⟨0, 25⟩ ⟨1, 25⟩)) 2 ⟨0, 18⟩ ⟨2, 18⟩)) 3 ⟨0, 13⟩ ⟨3, 13⟩)) 4 ⟨0, 8⟩ ⟨4, 8⟩)) 5 ⟨0, 5⟩ ⟨5, 5⟩)) 6 ⟨0, 4⟩ ⟨6, 4⟩), (SNode.mk (1, 4) (some (SNode.mk (1, 3) (some (SNode.mk (1, 2) (some (SNode.mk (1, 1) (some (SNode.mk (1, 0) (some (SNode.mk (0, 0) none 0 ⟨0, 32⟩ ⟨0, 32⟩)) 1 ⟨0, 25⟩ ⟨1, 25⟩)) 2 ⟨0, 18⟩ ⟨2, 18⟩)) 3 ⟨0, 13⟩ ⟨3, 13⟩)) 4 ⟨0, 10⟩ ⟨4, 10⟩)) 5 ⟨0, 9⟩ ⟨5, 9⟩), (SNode.mk (4, 1) (some (SNode.mk (3, 1) (some (SNode.mk (2, 1) (some (SNode.mk (1, 1) (some (SNode.mk (1, 0) (some (SNode.mk (0, 0) none 0 ⟨0, 32⟩ ⟨0, 32⟩)) 1 ⟨0, 25⟩ ⟨1, 25⟩)) 2 ⟨0, 18⟩ ⟨2, 18⟩)) 3 ⟨0, 13⟩ ⟨3, 13⟩)) 4 ⟨0, 10⟩ ⟨4, 10⟩)) 5 ⟨0, 9⟩ ⟨5, 9⟩), (SNode.mk (4, 0) (some (SNode.mk (3, 0) (some (SNode.mk (2, 0) (some (SNode.mk (1, 0) (some (SNode.mk (0, 0) none 0 ⟨0, 32⟩ ⟨0, 32⟩)) 1 ⟨0, 25⟩ ⟨1, 25⟩)) 2 ⟨0, 20⟩ ⟨2, 20⟩)) 3 ⟨0, 17⟩ ⟨3, 17⟩)) 4 ⟨0, 16⟩ ⟨4, 16⟩), (SNode.mk (2, 4) (some (SNode.mk (2, 3) (some (SNode.mk (2, 2) (some (SNode.mk (2, 1) (some (SNode.mk (1, 1) (some (SNode.mk (1, 0) (some (SNode.mk (0, 0) none 0 ⟨0, 32⟩ ⟨0, 32⟩)) 1 ⟨0, 25⟩ ⟨1, 25⟩)) 2 ⟨0, 18⟩ ⟨2, 18⟩)) 3 ⟨0, 13⟩ ⟨3, 13⟩)) 4 ⟨0, 8⟩ ⟨4, 8⟩)) 5 ⟨0, 5⟩ ⟨5, 5⟩)) 6 ⟨0, 4⟩ ⟨6, 4⟩)] [(2, 3), (3, 2), (3, 1), (1, 3), (0, 3), (3, 0), (2, 2), (1, 2), (2, 1), (0, 2), (2, 0), (1, 1), (0, 1), (1, 0), (0, 0)] [((2, 4), 6), ((3, 3), 6), ((4, 2), 6), ((4, 1), 5), ((1, 4), 5), ((0, 4), 4), ((4, 0), 4), ((2, 3), 5), ((3, 2), 5), ((1, 3), 4), ((2, 2), 4), ((3, 1), 4), ((0, 3), 3), ((3, 0), 3), ((1, 2), 3), ((2, 1), 3), ((0, 2), 2), ((1, 1), 2), ((2, 0), 2), ((0, 1), 1), ((1, 0), 1), ((0, 0), 0)] 15) rfl 714]
  rw [searchLoop_cont specGrid55 (4, 4) heuristic_euclidean
    (SState.mk [(SNode.mk (3, 3) (some (SNode.mk (3, 2) (some (SNode.mk (2, 2) (some (SNode.mk (2, 1) (some (SNode.mk (1, 1) (some (SNode.mk (1, 0) (some (SNode.mk (0, 0) none 0 ⟨0, 32⟩ ⟨0, 32⟩)) 1 ⟨0, 25⟩ ⟨1, 25⟩)) 2 ⟨0, 18⟩ ⟨2, 18⟩)) 3 ⟨0, 13⟩ ⟨3, 13⟩)) 4 ⟨0, 8⟩ ⟨4, 8⟩)) 5 ⟨0, 5⟩ ⟨5, 5⟩)) 6 ⟨0, 2⟩ ⟨6, 2⟩), (SNode.mk (0, 4) (some (SNode.mk (0, 3) (some (SNode.mk (0, 2) (some (SNode.mk (0, 1) (some (SNode.mk (0, 0) none 0 ⟨0, 32⟩ ⟨0, 32⟩)) 1 ⟨0, 25⟩ ⟨1, 25⟩)) 2 ⟨0, 20⟩ ⟨2, 20⟩)) 3 ⟨0, 17⟩ ⟨3, 17⟩)) 4 ⟨0, 16⟩ ⟨4, 16⟩), (SNode.mk (4, 2) (some (SNode.mk (3, 2) (some (SNode.mk (2, 2) (some (SNode.mk (2, 1) (some (SNode.mk (1, 1) (some (SNode.mk (1, 0) (some (SNode.mk (0, 0) none 0 ⟨0, 32⟩ ⟨0, 32⟩)) 1 ⟨0, 25⟩ ⟨1, 25⟩)) 2 ⟨0, 18⟩ ⟨2, 18⟩)) 3 ⟨0, 13⟩ ⟨3, 13⟩)) 4 ⟨0, 8⟩ ⟨4, 8⟩)) 5 ⟨0, 5⟩ ⟨5, 5⟩)) 6 ⟨0, 4⟩ ⟨6, 4⟩), (SNode.mk (1, 4) (some (SNode.mk (1, 3) (some (SNode.mk (1, 2) (some (SNode.mk (1, 1) (some (SNode.mk (1, 0) (some (SNode.mk (0, 0) none 0 ⟨0, 32⟩ ⟨0, 32⟩)) 1 ⟨0, 25⟩ ⟨1, 25⟩)) 2 ⟨0, 18⟩ ⟨2, 18⟩)) 3 ⟨0, 13⟩ ⟨3, 13⟩)) 4 ⟨0, 10⟩ ⟨4, 10⟩)) 5 ⟨0, 9⟩ ⟨5, 9⟩), (SNode.mk (4, 1) (some (SNode.mk (3, 1) (some (SNode.mk (2, 1) (some (SNode.mk (1, 1) (some (SNode.mk (1, 0) (some (SNode.mk (0, 0) none 0 ⟨0, 32⟩ ⟨0, 32⟩)) 1 ⟨0, 25⟩ ⟨1, 25⟩)) 2 ⟨0, 18⟩ ⟨2, 18⟩)) 3 ⟨0, 13⟩ ⟨3, 13⟩)) 4 ⟨0, 10⟩ ⟨4, 10⟩)) 5 ⟨0, 9⟩ ⟨5, 9⟩), (SNode.mk (4, 0) (some (SNode.mk (3, 0) (some (SNode.mk (2, 0) (some (SNode.mk (1, 0) (some (SNode.mk (0, 0) none 0 ⟨0, 32⟩ ⟨0, 32⟩)) 1 ⟨0, 25⟩ ⟨1, 25⟩)) 2 ⟨0, 20⟩ ⟨2, 20⟩)) 3 ⟨0, 17⟩ ⟨3, 17⟩)) 4 ⟨0, 16⟩ ⟨4, 16⟩), (SNode.mk (2, 4) (some (SNode.mk (2, 3) (some (SNode.mk (2, 2) (some (SNode.mk (2, 1) (some (SNode.mk (1, 1) (some (SNode.mk (1, 0) (some (SNode.mk (0, 0) none 0 ⟨0, 32⟩ ⟨0, 32⟩)) 1 ⟨0, 25⟩ ⟨1, 25⟩)) 2 ⟨0, 18⟩ ⟨2, 18⟩)) 3 ⟨0, 13⟩ ⟨3, 13⟩)) 4 ⟨0, 8⟩ ⟨4, 8⟩)) 5 ⟨0, 5⟩ ⟨5, 5⟩)) 6 ⟨0, 4⟩ ⟨6, 4⟩)] [(2, 3), (3, 2), (3, 1), (1, 3), (0, 3), (3, 0), (2, 2), (1, 2), (2, 1), (0, 2), (2, 0), (1, 1), (0, 1), (1, 0), (0, 0)] [((2, 4), 6), ((3, 3), 6), ((4, 2), 6), ((4, 1), 5), ((1, 4), 5), ((0, 4), 4), ((4, 0), 4), ((2, 3), 5), ((3, 2), 5), ((1, 3), 4), ((2, 2), 4), ((3, 1), 4), ((0, 3), 3), ((3, 0), 3), ((1, 2), 3), ((2, 1), 3), ((0, 2), 2), ((1, 1), 2), ((2, 0), 2), ((0, 1), 1), ((1, 0), 1), ((0, 0), 0)] 15)
    (SState.mk [(SNode.mk (4, 2) (some (SNode.mk (3, 2) (some (SNode.mk (2, 2) (some (SNode.mk (2, 1) (some (SNode.mk (1, 1) (some (SNode.mk (1, 0) (some (SNode.mk (0, 0) none 0 ⟨0, 32⟩ ⟨0, 32⟩)) 1 ⟨0, 25⟩ ⟨1, 25⟩)) 2 ⟨0, 18⟩ ⟨2, 18⟩)) 3 ⟨0, 13⟩ ⟨3, 13⟩)) 4 ⟨0, 8⟩ ⟨4, 8⟩)) 5 ⟨0, 5⟩ ⟨5, 5⟩)) 6 ⟨0, 4⟩ ⟨6, 4⟩), (SNode.mk (0, 4) (some (SNode.mk (0, 3) (some (SNode.mk (0, 2) (some (SNode.mk (0, 1) (some (SNode.mk (0, 0) none 0 ⟨0, 32⟩ ⟨0, 32⟩)) 1 ⟨0, 25⟩ ⟨1, 25⟩)) 2 ⟨0, 20⟩ ⟨2, 20⟩)) 3 ⟨0, 17⟩ ⟨3, 17⟩)) 4 ⟨0, 16⟩ ⟨4, 16⟩), (SNode.mk (4, 0) (some (SNode.mk (3, 0) (some (SNode.mk (2, 0) (some (SNode.mk (1, 0) (some (SNode.mk (0, 0) none 0 ⟨0, 32⟩ ⟨0, 32⟩)) 1 ⟨0, 25⟩ ⟨1, 25⟩)) 2 ⟨0, 20⟩ ⟨2, 20⟩)) 3 ⟨0, 17⟩ ⟨3, 17⟩)) 4 ⟨0, 16⟩ ⟨4, 16⟩), (SNode.mk (1, 4) (some (SNode.mk (1, 3) (some (SNode.mk (1, 2) (some (SNode.mk (1, 1) (some (SNode.mk (1, 0) (some (SNode.mk (0, 0) none 0 ⟨0, 32⟩ ⟨0, 32⟩)) 1 ⟨0, 25⟩ ⟨1, 25⟩)) 2 ⟨0, 18⟩ ⟨2, 18⟩)) 3 ⟨0, 13⟩ ⟨3, 13⟩)) 4 ⟨0, 10⟩ ⟨4, 10⟩)) 5 ⟨0, 9⟩ ⟨5, 9⟩), (SNode.mk (4, 1) (some (SNode.mk (3, 1) (some (SNode.mk (2, 1) (some (SNode.mk (1, 1) (some (SNode.mk (1, 0) (some (SNode.mk (0, 0) none 0 ⟨0, 32⟩ ⟨0, 32⟩)) 1 ⟨0, 25⟩ ⟨1, 25⟩)) 2 ⟨0, 18⟩ ⟨2, 18⟩)) 3 ⟨0, 13⟩ ⟨3, 13⟩)) 4 ⟨0, 10⟩ ⟨4, 10⟩)) 5 ⟨0, 9⟩ ⟨5, 9⟩), (SNode.mk (2, 4) (some (SNode.mk (2, 3) (some (SNode.mk (2, 2) (some (SNode.mk (2, 1) (some (SNode.mk (1, 1) (some (SNode.mk (1, 0) (some (SNode.mk (0, 0) none 0 ⟨0, 32⟩ ⟨0, 32⟩)) 1 ⟨0, 25⟩ ⟨1, 25⟩)) 2 ⟨0, 18⟩ ⟨2, 18⟩)) 3 ⟨0, 13⟩ ⟨3, 13⟩)) 4 ⟨0, 8⟩ ⟨4, 8⟩)) 5 ⟨0, 5⟩ ⟨5, 5⟩)) 6 ⟨0, 4⟩ ⟨6, 4⟩), (SNode.mk (4, 3) (some (SNode.mk (3, 3) (some (SNode.mk (3, 2) (some (SNode.mk (2, 2) (some (SNode.mk (2, 1) (some (SNode.mk (1, 1) (some (SNode.mk (1, 0) (some (SNode.mk (0, 0) none 0 ⟨0, 32⟩ ⟨0, 32⟩)) 1 ⟨0, 25⟩ ⟨1, 25⟩)) 2 ⟨0, 18⟩ ⟨2, 18⟩)) 3 ⟨0, 13⟩ ⟨3, 13⟩)) 4 ⟨0, 8⟩ ⟨4, 8⟩)) 5 ⟨0, 5⟩ ⟨5, 5⟩)) 6 ⟨0, 2⟩ ⟨6, 2⟩)) 7 ⟨0, 1⟩ ⟨7, 1⟩), (SNode.mk (3, 4) (some (SNode.mk (3, 3) (some (SNode.mk (3, 2) (some (SNode.mk (2, 2) (some (SNode.mk (2, 1) (some (SNode.mk (1, 1) (some (SNode.mk (1, 0) (some (SNode.mk (0, 0) none 0 ⟨0, 32⟩ ⟨0, 32⟩)) 1 ⟨0, 25⟩ ⟨1, 25⟩)) 2 ⟨0, 18⟩ ⟨2, 18⟩)) 3 ⟨0, 13⟩ ⟨3, 13⟩)) 4 ⟨0, 8⟩ ⟨4, 8⟩)) 5 ⟨0, 5⟩ ⟨5, 5⟩)) 6 ⟨0, 2⟩ ⟨6, 2⟩)) 7 ⟨0, 1⟩ ⟨7, 1⟩)] [(3, 3), (2, 3), (3, 2), (3, 1), (1, 3), (0, 3), (3, 0), (2, 2), (1, 2), (2, 1), (0, 2), (2, 0), (1, 1), (0, 1), (1, 0), (0, 0)] [((3, 4), 7), ((4, 3), 7), ((2, 4), 6), ((3, 3), 6), ((4, 2), 6), ((4, 1), 5), ((1, 4), 5), ((0, 4), 4), ((4, 0), 4), ((2, 3), 5), ((3, 2), 5), ((1, 3), 4), ((2, 2), 4), ((3, 1), 4), ((0, 3), 3), ((3, 0), 3), ((1, 2), 3), ((2, 1), 3), ((0, 2), 2), ((1, 1), 2), ((2, 0), 2), ((0, 1), 1), ((1, 0), 1), ((0, 0), 0)] 16) rfl 713]
  rw [searchLoop_cont specGrid55 (4, 4) heuristic_euclidean
    (SState.mk [(SNode.mk (4, 2) (some (SNode.mk (3, 2) (some (SNode.mk (2, 2) (some (SNode.mk (2, 1) (some (SNode.mk (1, 1) (some (SNode.mk (1, 0) (some (SNode.mk (0, 0) none 0 ⟨0, 32⟩ ⟨0, 32⟩)) 1 ⟨0, 25⟩ ⟨1, 25⟩)) 2 ⟨0, 18⟩ ⟨2, 18⟩)) 3 ⟨0, 13⟩ ⟨3, 13⟩)) 4 ⟨0, 8⟩ ⟨4, 8⟩)) 5 ⟨0, 5⟩ ⟨5, 5⟩)) 6 ⟨0, 4⟩ ⟨6, 4⟩), (SNode.mk (0, 4) (some (SNode.mk (0, 3) (some (SNode.mk (0, 2) (some (SNode.mk (0, 1) (some (SNode.mk (0, 0) none 0 ⟨0, 32⟩ ⟨0, 32⟩)) 1 ⟨0, 25⟩ ⟨1, 25⟩)) 2 ⟨0, 20⟩ ⟨2, 20⟩)) 3 ⟨0, 17⟩ ⟨3, 17⟩)) 4 ⟨0, 16⟩ ⟨4, 16⟩), (SNode.mk (4, 0) (some (SNode.mk (3, 0) (some (SNode.mk (2, 0) (some (SNode.mk (1, 0) (some (SNode.mk (0, 0) none 0 ⟨0, 32⟩ ⟨0, 32⟩)) 1 ⟨0, 25⟩ ⟨1, 25⟩)) 2 ⟨0, 20⟩ ⟨2, 20⟩)) 3 ⟨0, 17⟩ ⟨3, 17⟩)) 4 ⟨0, 16⟩ ⟨4, 16⟩), (SNode.mk (1, 4) (some (SNode.mk (1, 3) (some (SNode.mk (1, 2) (some (SNode.mk (1, 1) (some (SNode.mk (1, 0) (some (SNode.mk (0, 0) none 0 ⟨0, 32⟩ ⟨0, 32⟩)) 1 ⟨0, 25⟩ ⟨1, 25⟩)) 2 ⟨0, 18⟩ ⟨2, 18⟩)) 3 ⟨0, 13⟩ ⟨3, 13⟩)) 4 ⟨0, 10⟩ ⟨4, 10⟩)) 5 ⟨0, 9⟩ ⟨5, 9⟩), (SNode.mk (4, 1) (some (SNode.mk (3, 1) (some (SNode.mk (2, 1) (some (SNode.mk (1, 1) (some (SNode.mk (1, 0) (some (SNode.mk (0, 0) none 0 ⟨0, 32⟩ ⟨0, 32⟩)) 1 ⟨0, 25⟩ ⟨1, 25⟩)) 2 ⟨0, 18⟩ ⟨2, 18⟩)) 3 ⟨0, 13⟩ ⟨3, 13⟩)) 4 ⟨0, 10⟩ ⟨4, 10⟩)) 5 ⟨0, 9⟩ ⟨5, 9⟩), (SNode.mk (2, 4) (some (SNode.mk (2, 3) (some (SNode.mk (2, 2) (some (SNode.mk (2, 1) (some (SNode.mk (1, 1) (some (SNode.mk (1, 0) (some (SNode.mk (0, 0) none 0 ⟨0, 32⟩ ⟨0, 32⟩)) 1 ⟨0, 25⟩ ⟨1, 25⟩)) 2 ⟨0, 18⟩ ⟨2, 18⟩)) 3 ⟨0, 13⟩ ⟨3, 13⟩)) 4 ⟨0, 8⟩ ⟨4, 8⟩)) 5 ⟨0, 5⟩ ⟨5, 5⟩)) 6 ⟨0, 4⟩ ⟨6, 4⟩), (SNode.mk (4, 3) (some (SNode.mk (3, 3) (some (SNode.mk (3, 2) (some (SNode.mk (2, 2) (some (SNode.mk (2, 1) (some (SNode.mk (1, 1) (some (SNode.mk (1, 0) (some (SNode.mk (0, 0) none 0 ⟨0, 32⟩ ⟨0, 32⟩)) 1 ⟨0, 25⟩ ⟨1, 25⟩)) 2 ⟨0, 18⟩ ⟨2, 18⟩)) 3 ⟨0, 13⟩ ⟨3, 13⟩)) 4 ⟨0, 8⟩ ⟨4, 8⟩)) 5 ⟨0, 5⟩ ⟨5, 5⟩)) 6 ⟨0, 2⟩ ⟨6, 2⟩)) 7 ⟨0, 1⟩ ⟨7, 1⟩), (SNode.mk (3, 4) (some (SNode.mk (3, 3) (some (SNode.mk (3, 2) (some (SNode.mk (2, 2) (some (SNode.mk (2, 1) (some (SNode.mk (1, 1) (some (SNode.mk (1, 0) (some (SNode.mk (0, 0) none 0 ⟨0, 32⟩ ⟨0, 32⟩)) 1 ⟨0, 25⟩ ⟨1, 25⟩)) 2 ⟨0, 18⟩ ⟨2, 18⟩)) 3 ⟨0, 13⟩ ⟨3, 13⟩)) 4 ⟨0, 8⟩ ⟨4, 8⟩)) 5 ⟨0, 5⟩ ⟨5, 5⟩)) 6 ⟨0, 2⟩ ⟨6, 2⟩)) 7 ⟨0, 1⟩ ⟨7, 1⟩)] [(3, 3), (2, 3), (3, 2), (3, 1), (1, 3), (0, 3), (3, 0), (2, 2), (1, 2), (2, 1), (0, 2), (2, 0), (1, 1), (0, 1), (1, 0), (0, 0)] [((3, 4), 7), ((4, 3), 7), ((2, 4), 6), ((3, 3), 6), ((4, 2), 6), ((4, 1), 5), ((1, 4), 5), ((0, 4), 4), ((4, 0), 4), ((2, 3), 5), ((3, 2), 5), ((1, 3), 4), ((2, 2), 4), ((3, 1), 4), ((0, 3), 3), ((3, 0), 3), ((1, 2), 3), ((2, 1), 3), ((0, 2), 2), ((1, 1), 2), ((2, 0), 2), ((0, 1), 1), ((1, 0), 1), ((0, 0), 0)] 16)
    (SState.mk [(SNode.mk (4, 0) (some (SNode.mk (3, 0) (some (SNode.mk (2, 0) (some (SNode.mk (1, 0) (some (SNode.mk (0, 0) none 0 ⟨0, 32⟩ ⟨0, 32⟩)) 1 ⟨0, 25⟩ ⟨1, 25⟩)) 2 ⟨0, 20⟩ ⟨2, 20⟩)) 3 ⟨0, 17⟩ ⟨3, 17⟩)) 4 ⟨0, 16⟩ ⟨4, 16⟩), (SNode.mk (0, 4) (some (SNode.mk (0, 3) (some (SNode.mk (0, 2) (some (SNode.mk (0, 1) (some (SNode.mk (0, 0) none 0 ⟨0, 32⟩ ⟨0, 32⟩)) 1 ⟨0, 25⟩ ⟨1, 25⟩)) 2 ⟨0, 20⟩ ⟨2, 20⟩)) 3 ⟨0, 17⟩ ⟨3, 17⟩)) 4 ⟨0, 16⟩ ⟨4, 16⟩), (SNode.mk (4, 3) (some (SNode.mk (3, 3) (some (SNode.mk (3, 2) (some (SNode.mk (2, 2) (some (SNode.mk (2, 1) (some (SNode.mk (1, 1) (some (SNode.mk (1, 0) (some (SNode.mk (0, 0) none 0 ⟨0, 32⟩ ⟨0, 32⟩)) 1 ⟨0, 25⟩ ⟨1, 25⟩)) 2 ⟨0, 18⟩ ⟨2, 18⟩)) 3 ⟨0, 13⟩ ⟨3, 13⟩)) 4 ⟨0, 8⟩ ⟨4, 8⟩)) 5 ⟨0, 5⟩ ⟨5, 5⟩)) 6 ⟨0, 2⟩ ⟨6, 2⟩)) 7 ⟨0, 1⟩ ⟨7, 1⟩), (SNode.mk (1, 4) (some (SNode.mk (1, 3) (some (SNode.mk (1, 2) (some (SNode.mk (1, 1) (some (SNode.mk (1, 0) (some (SNode.mk (0, 0) none 0 ⟨0, 32⟩ ⟨0, 32⟩)) 1 ⟨0, 25⟩ ⟨1, 25⟩)) 2 ⟨0, 18⟩ ⟨2, 18⟩)) 3 ⟨0, 13⟩ ⟨3, 13⟩)) 4 ⟨0, 10⟩ ⟨4, 10⟩)) 5 ⟨0, 9⟩ ⟨5, 9⟩), (SNode.mk (4, 1) (some (SNode.mk (3, 1) (some (SNode.mk (2, 1) (some (SNode.mk (1, 1) (some (SNode.mk (1, 0) (some (SNode.mk (0, 0) none 0 ⟨0, 32⟩ ⟨0, 32⟩)) 1 ⟨0, 25⟩ ⟨1, 25⟩)) 2 ⟨0, 18⟩ ⟨2, 18⟩)) 3 ⟨0, 13⟩ ⟨3, 13⟩)) 4 ⟨0, 10⟩ ⟨4, 10⟩)) 5 ⟨0, 9⟩ ⟨5, 9⟩), (SNode.mk (2, 4) (some (SNode.mk (2, 3) (some (SNode.mk (2, 2) (some (SNode.mk (2, 1) (some (SNode.mk (1, 1) (some (SNode.mk (1, 0) (some (SNode.mk (0, 0) none 0 ⟨0, 32⟩ ⟨0, 32⟩)) 1 ⟨0, 25⟩ ⟨1, 25⟩)) 2 ⟨0, 18⟩ ⟨2, 18⟩)) 3 ⟨0, 13⟩ ⟨3, 13⟩)) 4 ⟨0, 8⟩ ⟨4, 8⟩)) 5 ⟨0, 5⟩ ⟨5, 5⟩)) 6 ⟨0, 4⟩ ⟨6, 4⟩), (SNode.mk (3, 4) (some (SNode.mk (3, 3) (some (SNode.mk (3, 2) (some (SNode.mk (2, 2) (some (SNode.mk (2, 1) (some (SNode.mk (1, 1) (some (SNode.mk (1, 0) (some (SNode.mk (0, 0) none 0 ⟨0, 32⟩ ⟨0, 32⟩)) 1 ⟨0, 25⟩ ⟨1, 25⟩)) 2 ⟨0, 18⟩ ⟨2, 18⟩)) 3 ⟨0, 13⟩ ⟨3, 13⟩)) 4 ⟨0, 8⟩ ⟨4, 8⟩)) 5 ⟨0, 5⟩ ⟨5, 5⟩)) 6 ⟨0, 2⟩ ⟨6, 2⟩)) 7 ⟨0, 1⟩ ⟨7, 1⟩)] [(4, 2), (3, 3), (2, 3), (3, 2), (3, 1), (1, 3), (0, 3), (3, 0), (2, 2), (1, 2), (2, 1), (0, 2), (2, 0), (1, 1), (0, 1), (1, 0), (0, 0)] [((3, 4), 7), ((4, 3), 7), ((2, 4), 6), ((3, 3), 6), ((4, 2), 6), ((4, 1), 5), ((1, 4), 5), ((0, 4), 4), ((4, 0), 4), ((2, 3), 5), ((3, 2), 5), ((1, 3), 4), ((2, 2), 4), ((3, 1), 4), ((0, 3), 3), ((3, 0), 3), ((1, 2), 3), ((2, 1), 3), ((0, 2), 2), ((1, 1), 2), ((2, 0), 2), ((0, 1), 1), ((1, 0), 1), ((0, 0), 0)] 17) rfl 712]
  rw [searchLoop_cont specGrid55 (4, 4) heuristic_euclidean
    (SState.mk [(SNode.mk (4, 0) (some (SNode.mk (3, 0) (some (SNode.mk (2, 0) (some (SNode.mk (1, 0) (some (SNode.mk (0, 0) none 0 ⟨0, 32⟩ ⟨0, 32⟩)) 1 ⟨0, 25⟩ ⟨1, 25⟩)) 2 ⟨0, 20⟩ ⟨2, 20⟩)) 3 ⟨0, 17⟩ ⟨3, 17⟩)) 4 ⟨0, 16⟩ ⟨4, 16⟩), (SNode.mk (0, 4) (some (SNode.mk (0, 3) (some (SNode.mk (0, 2) (some (SNode.mk (0, 1) (some (SNode.mk (0, 0) none 0 ⟨0, 32⟩ ⟨0, 32⟩)) 1 ⟨0, 25⟩ ⟨1, 25⟩)) 2 ⟨0, 20⟩ ⟨2, 20⟩)) 3 ⟨0, 17⟩ ⟨3, 17⟩)) 4 ⟨0, 16⟩ ⟨4, 16⟩), (SNode.mk (4, 3) (some (SNode.mk (3, 3) (some (SNode.mk (3, 2) (some (SNode.mk (2, 2) (some (SNode.mk (2, 1) (some (SNode.mk (1, 1) (some (SNode.mk (1, 0) (some (SNode.mk (0, 0) none 0 ⟨0, 32⟩ ⟨0, 32⟩)) 1 ⟨0, 25⟩ ⟨1, 25⟩)) 2 ⟨0, 18⟩ ⟨2, 18⟩)) 3 ⟨0, 13⟩ ⟨3, 13⟩)) 4 ⟨0, 8⟩ ⟨4, 8⟩)) 5 ⟨0, 5⟩ ⟨5, 5⟩)) 6 ⟨0, 2⟩ ⟨6, 2⟩)) 7 ⟨0, 1⟩ ⟨7, 1⟩), (SNode.mk (1, 4) (some (SNode.mk (1, 3) (some (SNode.mk (1, 2) (some (SNode.mk (1, 1) (some (SNode.mk (1, 0) (some (SNode.mk (0, 0) none 0 ⟨0, 32⟩ ⟨0, 32⟩)) 1 ⟨0, 25⟩ ⟨1, 25⟩)) 2 ⟨0, 18⟩ ⟨2, 18⟩)) 3 ⟨0, 13⟩ ⟨3, 13⟩)) 4 ⟨0, 10⟩ ⟨4, 10⟩)) 5 ⟨0, 9⟩ ⟨5, 9⟩), (SNode.mk (4, 1) (some (SNode.mk (3, 1) (some (SNode.mk (2, 1) (some (SNode.mk (1, 1) (some (SNode.mk (1, 0) (some (SNode.mk (0, 0) none 0 ⟨0, 32⟩ ⟨0, 32⟩)) 1 ⟨0, 25⟩ ⟨1, 25⟩)) 2 ⟨0, 18⟩ ⟨2, 18⟩)) 3 ⟨0, 13⟩ ⟨3, 13⟩)) 4 ⟨0, 10⟩ ⟨4, 10⟩)) 5 ⟨0, 9⟩ ⟨5, 9⟩), (SNode.mk (2, 4) (some (SNode.mk (2, 3) (some (SNode.mk (2, 2) (some (SNode.mk (2, 1) (some (SNode.mk (1, 1) (some (SNode.mk (1, 0) (some (SNode.mk (0, 0) none 0 ⟨0, 32⟩ ⟨0, 32⟩)) 1 ⟨0, 25⟩ ⟨1, 25⟩)) 2 ⟨0, 18⟩ ⟨2, 18⟩)) 3 ⟨0, 13⟩ ⟨3, 13⟩)) 4 ⟨0, 8⟩ ⟨4, 8⟩)) 5 ⟨0, 5⟩ ⟨5, 5⟩)) 6 ⟨0, 4⟩ ⟨6, 4⟩), (SNode.mk (3, 4) (some (SNode.mk (3, 3) (some (SNode.mk (3, 2) (some (SNode.mk (2, 2) (some (SNode.mk (2, 1) (some (SNode.mk (1, 1) (some (SNode.mk (1, 0) (some (SNode.mk (0, 0) none 0 ⟨0, 32⟩ ⟨0, 32⟩)) 1 ⟨0, 25⟩ ⟨1, 25⟩)) 2 ⟨0, 18⟩ ⟨2, 18⟩)) 3 ⟨0, 13⟩ ⟨3, 13⟩)) 4 ⟨0, 8⟩ ⟨4, 8⟩)) 5 ⟨0, 5⟩ ⟨5, 5⟩)) 6 ⟨0, 2⟩ ⟨6, 2⟩)) 7 ⟨0, 1⟩ ⟨7, 1⟩)] [(4, 2), (3, 3), (2, 3), (3, 2), (3, 1), (1, 3), (0, 3), (3, 0), (2, 2), (1, 2), (2, 1), (0, 2), (2, 0), (1, 1), (0, 1), (1, 0), (0, 0)] [((3, 4), 7), ((4, 3), 7), ((2, 4), 6), ((3, 3), 6), ((4, 2), 6), ((4, 1), 5), ((1, 4), 5), ((0, 4), 4), ((4, 0), 4), ((2, 3), 5), ((3, 2), 5), ((1, 3), 4), ((2, 2), 4), ((3, 1), 4), ((0, 3), 3), ((3, 0), 3), ((1, 2), 3), ((2, 1), 3), ((0, 2), 2), ((1, 1), 2), ((2, 0), 2), ((0, 1), 1), ((1, 0), 1), ((0, 0), 0)] 17)
    (SState.mk [(SNode.mk (4, 3) (some (SNode.mk (3, 3) (some (SNode.mk (3, 2) (some (SNode.mk (2, 2) (some (SNode.mk (2, 1) (some (SNode.mk (1, 1) (some (SNode.mk (1, 0) (some (SNode.mk (0, 0) none 0 ⟨0, 32⟩ ⟨0, 32⟩)) 1 ⟨0, 25⟩ ⟨1, 25⟩)) 2 ⟨0, 18⟩ ⟨2, 18⟩)) 3 ⟨0, 13⟩ ⟨3, 13⟩)) 4 ⟨0, 8⟩ ⟨4, 8⟩)) 5 ⟨0, 5⟩ ⟨5, 5⟩)) 6 ⟨0, 2⟩ ⟨6, 2⟩)) 7 ⟨0, 1⟩ ⟨7, 1⟩), (SNode.mk (0, 4) (some (SNode.mk (0, 3) (some (SNode.mk (0, 2) (some (SNode.mk (0, 1) (some (SNode.mk (0, 0) none 0 ⟨0, 32⟩ ⟨0, 32⟩)) 1 ⟨0, 25⟩ ⟨1, 25⟩)) 2 ⟨0, 20⟩ ⟨2, 20⟩)) 3 ⟨0, 17⟩ ⟨3, 17⟩)) 4 ⟨0, 16⟩ ⟨4, 16⟩), (SNode.mk (2, 4) (some (SNode.mk (2, 3) (some (SNode.mk (2, 2) (some (SNode.mk (2, 1) (some (SNode.mk (1, 1) (some (SNode.mk (1, 0) (some (SNode.mk (0, 0) none 0 ⟨0, 32⟩ ⟨0, 32⟩)) 1 ⟨0, 25⟩ ⟨1, 25⟩)) 2 ⟨0, 18⟩ ⟨2, 18⟩)) 3 ⟨0, 13⟩ ⟨3, 13⟩)) 4 ⟨0, 8⟩ ⟨4, 8⟩)) 5 ⟨0, 5⟩ ⟨5, 5⟩)) 6 ⟨0, 4⟩ ⟨6, 4⟩), (SNode.mk (1, 4) (some (SNode.mk (1, 3) (some (SNode.mk (1, 2) (some (SNode.mk (1, 1) (some (SNode.mk (1, 0) (some (SNode.mk (0, 0) none 0 ⟨0, 32⟩ ⟨0, 32⟩)) 1 ⟨0, 25⟩ ⟨1, 25⟩)) 2 ⟨0, 18⟩ ⟨2, 18⟩)) 3 ⟨0, 13⟩ ⟨3, 13⟩)) 4 ⟨0, 10⟩ ⟨4, 10⟩)) 5 ⟨0, 9⟩ ⟨5, 9⟩), (SNode.mk (4, 1) (some (SNode.mk (3, 1) (some (SNode.mk (2, 1) (some (SNode.mk (1, 1) (some (SNode.mk (1, 0) (some (SNode.mk (0, 0) none 0 ⟨0, 32⟩ ⟨0, 32⟩)) 1 ⟨0, 25⟩ ⟨1, 25⟩)) 2 ⟨0, 18⟩ ⟨2, 18⟩)) 3 ⟨0, 13⟩ ⟨3, 13⟩)) 4 ⟨0, 10⟩ ⟨4, 10⟩)) 5 ⟨0, 9⟩ ⟨5, 9⟩), (SNode.mk (3, 4) (some (SNode.mk (3, 3) (some (SNode.mk (3, 2) (some (SNode.mk (2, 2) (some (SNode.mk (2, 1) (some (SNode.mk (1, 1) (some (SNode.mk (1, 0) (some (SNode.mk (0, 0) none 0 ⟨0, 32⟩ ⟨0, 32⟩)) 1 ⟨0, 25⟩ ⟨1, 25⟩)) 2 ⟨0, 18⟩ ⟨2, 18⟩)) 3 ⟨0, 13⟩ ⟨3, 13⟩)) 4 ⟨0, 8⟩ ⟨4, 8⟩)) 5 ⟨0, 5⟩ ⟨5, 5⟩)) 6 ⟨0, 2⟩ ⟨6, 2⟩)) 7 ⟨0, 1⟩ ⟨7, 1⟩)] [(4, 0), (4, 2), (3, 3), (2, 3), (3, 2), (3, 1), (1, 3), (0, 3), (3, 0), (2, 2), (1, 2), (2, 1), (0, 2), (2, 0), (1, 1), (0, 1), (1, 0), (0, 0)] [((3, 4), 7), ((4, 3), 7), ((2, 4), 6), ((3, 3), 6), ((4, 2), 6), ((4, 1), 5), ((1, 4), 5), ((0, 4), 4), ((4, 0), 4), ((2, 3), 5), ((3, 2), 5), ((1, 3), 4), ((2, 2), 4), ((3, 1), 4), ((0, 3), 3), ((3, 0), 3), ((1, 2), 3), ((2, 1), 3), ((0, 2), 2), ((1, 1), 2), ((2, 0), 2), ((0, 1), 1), ((1, 0), 1), ((0, 0), 0)] 18) rfl 711]
  rw [searchLoop_cont specGrid55 (4, 4) heuristic_euclidean
    (SState.mk [(SNode.mk (4, 3) (some (SNode.mk (3, 3) (some (SNode.mk (3, 2) (some (SNode.mk (2, 2) (some (SNode.mk (2, 1) (some (SNode.mk (1, 1) (some (SNode.mk (1, 0) (some (SNode.mk (0, 0) none 0 ⟨0, 32⟩ ⟨0, 32⟩)) 1 ⟨0, 25⟩ ⟨1, 25⟩)) 2 ⟨0, 18⟩ ⟨2, 18⟩)) 3 ⟨0, 13⟩ ⟨3, 13⟩)) 4 ⟨0, 8⟩ ⟨4, 8⟩)) 5 ⟨0, 5⟩ ⟨5, 5⟩)) 6 ⟨0, 2⟩ ⟨6, 2⟩)) 7 ⟨0, 1⟩ ⟨7, 1⟩), (SNode.mk (0, 4) (some (SNode.mk (0, 3) (some (SNode.mk (0, 2) (some (SNode.mk (0, 1) (some (SNode.mk (0, 0) none 0 ⟨0, 32⟩ ⟨0, 32⟩)) 1 ⟨0, 25⟩ ⟨1, 25⟩)) 2 ⟨0, 20⟩ ⟨2, 20⟩)) 3 ⟨0, 17⟩ ⟨3, 17⟩)) 4 ⟨0, 16⟩ ⟨4, 16⟩), (SNode.mk (2, 4) (some (SNode.mk (2, 3) (some (SNode.mk (2, 2) (some (SNode.mk (2, 1) (some (SNode.mk (1, 1) (some (SNode.mk (1, 0) (some (SNode.mk (0, 0) none 0 ⟨0, 32⟩ ⟨0, 32⟩)) 1 ⟨0, 25⟩ ⟨1, 25⟩)) 2 ⟨0, 18⟩ ⟨2, 18⟩)) 3 ⟨0, 13⟩ ⟨3, 13⟩)) 4 ⟨0, 8⟩ ⟨4, 8⟩)) 5 ⟨0, 5⟩ ⟨5, 5⟩)) 6 ⟨0, 4⟩ ⟨6, 4⟩), (SNode.mk (1, 4) (some (SNode.mk (1, 3) (some (SNode.mk (1, 2) (some (SNode.mk (1, 1) (some (SNode.mk (1, 0) (some (SNode.mk (0, 0) none 0 ⟨0, 32⟩ ⟨0, 32⟩)) 1 ⟨0, 25⟩ ⟨1, 25⟩)) 2 ⟨0, 18⟩ ⟨2, 18⟩)) 3 ⟨0, 13⟩ ⟨3, 13⟩)) 4 ⟨0, 10⟩ ⟨4, 10⟩)) 5 ⟨0, 9⟩ ⟨5, 9⟩), (SNode.mk (4, 1) (some (SNode.mk (3, 1) (some (SNode.mk (2, 1) (some (SNode.mk (1, 1) (some (SNode.mk (1, 0) (some (SNode.mk (0, 0) none 0 ⟨0, 32⟩ ⟨0, 32⟩)) 1 ⟨0, 25⟩ ⟨1, 25⟩)) 2 ⟨0, 18⟩ ⟨2, 18⟩)) 3 ⟨0, 13⟩ ⟨3, 13⟩)) 4 ⟨0, 10⟩ ⟨4, 10⟩)) 5 ⟨0, 9⟩ ⟨5, 9⟩), (SNode.mk (3, 4) (some (SNode.mk (3, 3) (some (SNode.mk (3, 2) (some (SNode.mk (2, 2) (some (SNode.mk (2, 1) (some (SNode.mk (1, 1) (some (SNode.mk (1, 0) (some (SNode.mk (0, 0) none 0 ⟨0, 32⟩ ⟨0, 32⟩)) 1 ⟨0, 25⟩ ⟨1, 25⟩)) 2 ⟨0, 18⟩ ⟨2, 18⟩)) 3 ⟨0, 13⟩ ⟨3, 13⟩)) 4 ⟨0, 8⟩ ⟨4, 8⟩)) 5 ⟨0, 5⟩ ⟨5, 5⟩)) 6 ⟨0, 2⟩ ⟨6, 2⟩)) 7 ⟨0, 1⟩ ⟨7, 1⟩)] [(4, 0), (4, 2), (3, 3), (2, 3), (3, 2), (3, 1), (1, 3), (0, 3), (3, 0), (2, 2), (1, 2), (2, 1), (0, 2), (2, 0), (1, 1), (0, 1), (1, 0), (0, 0)] [((3, 4), 7), ((4, 3), 7), ((2, 4), 6), ((3, 3), 6), ((4, 2), 6), ((4, 1), 5), ((1, 4), 5), ((0, 4), 4), ((4, 0), 4), ((2, 3), 5), ((3, 2), 5), ((1, 3), 4), ((2, 2), 4), ((3, 1), 4), ((0, 3), 3), ((3, 0), 3), ((1, 2), 3), ((2, 1), 3), ((0, 2), 2), ((1, 1), 2), ((2, 0), 2), ((0, 1), 1), ((1, 0), 1), ((0, 0), 0)] 18)
    (SState.mk [(SNode.mk (2, 4) (some (SNode.mk (2, 3) (some (SNode.mk (2, 2) (some (SNode.mk (2, 1) (some (SNode.mk (1, 1) (some (SNode.mk (1, 0) (some (SNode.mk (0, 0) none 0 ⟨0, 32⟩ ⟨0, 32⟩)) 1 ⟨0, 25⟩ ⟨1, 25⟩)) 2 ⟨0, 18⟩ ⟨2, 18⟩)) 3 ⟨0, 13⟩ ⟨3, 13⟩)) 4 ⟨0, 8⟩ ⟨4, 8⟩)) 5 ⟨0, 5⟩ ⟨5, 5⟩)) 6 ⟨0, 4⟩ ⟨6, 4⟩), (SNode.mk (0, 4) (some (SNode.mk (0, 3) (some (SNode.mk (0, 2) (some (SNode.mk (0, 1) (some (SNode.mk (0, 0) none 0 ⟨0, 32⟩ ⟨0, 32⟩)) 1 ⟨0, 25⟩ ⟨1, 25⟩)) 2 ⟨0, 20⟩ ⟨2, 20⟩)) 3 ⟨0, 17⟩ ⟨3, 17⟩)) 4 ⟨0, 16⟩ ⟨4, 16⟩), (SNode.mk (3, 4) (some (SNode.mk (3, 3) (some (SNode.mk (3, 2) (some (SNode.mk (2, 2) (some (SNode.mk (2, 1) (some (SNode.mk (1, 1) (some (SNode.mk (1, 0) (some (SNode.mk (0, 0) none 0 ⟨0, 32⟩ ⟨0, 32⟩)) 1 ⟨0, 25⟩ ⟨1, 25⟩)) 2 ⟨0, 18⟩ ⟨2, 18⟩)) 3 ⟨0, 13⟩ ⟨3, 13⟩)) 4 ⟨0, 8⟩ ⟨4, 8⟩)) 5 ⟨0, 5⟩ ⟨5, 5⟩)) 6 ⟨0, 2⟩ ⟨6, 2⟩)) 7 ⟨0, 1⟩ ⟨7, 1⟩), (SNode.mk (1, 4) (some (SNode.mk (1, 3) (some (SNode.mk (1, 2) (some (SNode.mk (1, 1) (some (SNode.mk (1, 0) (some (SNode.mk (0, 0) none 0 ⟨0, 32⟩ ⟨0, 32⟩)) 1 ⟨0, 25⟩ ⟨1, 25⟩)) 2 ⟨0, 18⟩ ⟨2, 18⟩)) 3 ⟨0, 13⟩ ⟨3, 13⟩)) 4 ⟨0, 10⟩ ⟨4, 10⟩)) 5 ⟨0, 9⟩ ⟨5, 9⟩), (SNode.mk (4, 1) (some (SNode.mk (3, 1) (some (SNode.mk (2, 1) (some (SNode.mk (1, 1) (some (SNode.mk (1, 0) (some (SNode.mk (0, 0) none 0 ⟨0, 32⟩ ⟨0, 32⟩)) 1 ⟨0, 25⟩ ⟨1, 25⟩)) 2 ⟨0, 18⟩ ⟨2, 18⟩)) 3 ⟨0, 13⟩ ⟨3, 13⟩)) 4 ⟨0, 10⟩ ⟨4, 10⟩)) 5 ⟨0, 9⟩ ⟨5, 9⟩), (SNode.mk (4, 4) (some (SNode.mk (4, 3) (some (SNode.mk (3, 3) (some (SNode.mk (3, 2) (some (SNode.mk (2, 2) (some (SNode.mk (2, 1) (some (SNode.mk (1, 1) (some (SNode.mk (1, 0) (some (SNode.mk (0, 0) none 0 ⟨0, 32⟩ ⟨0, 32⟩)) 1 ⟨0, 25⟩ ⟨1, 25⟩)) 2 ⟨0, 18⟩ ⟨2, 18⟩)) 3 ⟨0, 13⟩ ⟨3, 13⟩)) 4 ⟨0, 8⟩ ⟨4, 8⟩)) 5 ⟨0, 5⟩ ⟨5, 5⟩)) 6 ⟨0, 2⟩ ⟨6, 2⟩)) 7 ⟨0, 1⟩ ⟨7, 1⟩)) 8 ⟨0, 0⟩ ⟨8, 0⟩)] [(4, 3), (4, 0), (4, 2), (3, 3), (2, 3), (3, 2), (3, 1), (1, 3), (0, 3), (3, 0), (2, 2), (1, 2), (2, 1), (0, 2), (2, 0), (1, 1), (0, 1), (1, 0), (0, 0)] [((4, 4), 8), ((3, 4), 7), ((4, 3), 7), ((2, 4), 6), ((3, 3), 6), ((4, 2), 6), ((4, 1), 5), ((1, 4), 5), ((0, 4), 4), ((4, 0), 4), ((2, 3), 5), ((3, 2), 5), ((1, 3), 4), ((2, 2), 4), ((3, 1), 4), ((0, 3), 3), ((3, 0), 3), ((1, 2), 3), ((2, 1), 3), ((0, 2), 2), ((1, 1), 2), ((2, 0), 2), ((0, 1), 1), ((1, 0), 1), ((0, 0), 0)] 19) rfl 710]
  rw [searchLoop_cont specGrid55 (4, 4) heuristic_euclidean
    (SState.mk [(SNode.mk (2, 4) (some (SNode.mk (2, 3) (some (SNode.mk (2, 2) (some (SNode.mk (2, 1) (some (SNode.mk (1, 1) (some (SNode.mk (1, 0) (some (SNode.mk (0, 0) none 0 ⟨0, 32⟩ ⟨0, 32⟩)) 1 ⟨0, 25⟩ ⟨1, 25⟩)) 2 ⟨0, 18⟩ ⟨2, 18⟩)) 3 ⟨0, 13⟩ ⟨3, 13⟩)) 4 ⟨0, 8⟩ ⟨4, 8⟩)) 5 ⟨0, 5⟩ ⟨5, 5⟩)) 6 ⟨0, 4⟩ ⟨6, 4⟩), (SNode.mk (0, 4) (some (SNode.mk (0, 3) (some (SNode.mk (0, 2) (some (SNode.mk (0, 1) (some (SNode.mk (0, 0) none 0 ⟨0, 32⟩ ⟨0, 32⟩)) 1 ⟨0, 25⟩ ⟨1, 25⟩)) 2 ⟨0, 20⟩ ⟨2, 20⟩)) 3 ⟨0, 17⟩ ⟨3, 17⟩)) 4 ⟨0, 16⟩ ⟨4, 16⟩), (SNode.mk (3, 4) (some (SNode.mk (3, 3) (some (SNode.mk (3, 2) (some (SNode.mk (2, 2) (some (SNode.mk (2, 1) (some (SNode.mk (1, 1) (some (SNode.mk (1, 0) (some (SNode.mk (0, 0) none 0 ⟨0, 32⟩ ⟨0, 32⟩)) 1 ⟨0, 25⟩ ⟨1, 25⟩)) 2 ⟨0, 18⟩ ⟨2, 18⟩)) 3 ⟨0, 13⟩ ⟨3, 13⟩)) 4 ⟨0, 8⟩ ⟨4, 8⟩)) 5 ⟨0, 5⟩ ⟨5, 5⟩)) 6 ⟨0, 2⟩ ⟨6, 2⟩)) 7 ⟨0, 1⟩ ⟨7, 1⟩), (SNode.mk (1, 4) (some (SNode.mk (1, 3) (some (SNode.mk (1, 2) (some (SNode.mk (1, 1) (some (SNode.mk (1, 0) (some (SNode.mk (0, 0) none 0 ⟨0, 32⟩ ⟨0, 32⟩)) 1 ⟨0, 25⟩ ⟨1, 25⟩)) 2 ⟨0, 18⟩ ⟨2, 18⟩)) 3 ⟨0, 13⟩ ⟨3, 13⟩)) 4 ⟨0, 10⟩ ⟨4, 10⟩)) 5 ⟨0, 9⟩ ⟨5, 9⟩), (SNode.mk (4, 1) (some (SNode.mk (3, 1) (some (SNode.mk (2, 1) (some (SNode.mk (1, 1) (some (SNode.mk (1, 0) (some (SNode.mk (0, 0) none 0 ⟨0, 32⟩ ⟨0, 32⟩)) 1 ⟨0, 25⟩ ⟨1, 25⟩)) 2 ⟨0, 18⟩ ⟨2, 18⟩)) 3 ⟨0, 13⟩ ⟨3, 13⟩)) 4 ⟨0, 10⟩ ⟨4, 10⟩)) 5 ⟨0, 9⟩ ⟨5, 9⟩), (SNode.mk (4, 4) (some (SNode.mk (4, 3) (some (SNode.mk (3, 3) (some (SNode.mk (3, 2) (some (SNode.mk (2, 2) (some (SNode.mk (2, 1) (some (SNode.mk (1, 1) (some (SNode.mk (1, 0) (some (SNode.mk (0, 0) none 0 ⟨0, 32⟩ ⟨0, 32⟩)) 1 ⟨0, 25⟩ ⟨1, 25⟩)) 2 ⟨0, 18⟩ ⟨2, 18⟩)) 3 ⟨0, 13⟩ ⟨3, 13⟩)) 4 ⟨0, 8⟩ ⟨4, 8⟩)) 5 ⟨0, 5⟩ ⟨5, 5⟩)) 6 ⟨0, 2⟩ ⟨6, 2⟩)) 7 ⟨0, 1⟩ ⟨7, 1⟩)) 8 ⟨0, 0⟩ ⟨8, 0⟩)] [(4, 3), (4, 0), (4, 2), (3, 3), (2, 3), (3, 2), (3, 1), (1, 3), (0, 3), (3, 0), (2, 2), (1, 2), (2, 1), (0, 2), (2, 0), (1, 1), (0, 1), (1, 0), (0, 0)] [((4, 4), 8), ((3, 4), 7), ((4, 3), 7), ((2, 4), 6), ((3, 3), 6), ((4, 2), 6), ((4, 1), 5), ((1, 4), 5), ((0, 4), 4), ((4, 0), 4), ((2, 3), 5), ((3, 2), 5), ((1, 3), 4), ((2, 2), 4), ((3, 1), 4), ((0, 3), 3), ((3, 0), 3), ((1, 2), 3), ((2, 1), 3), ((0, 2), 2), ((1, 1), 2), ((2, 0), 2), ((0, 1), 1), ((1, 0), 1), ((0, 0), 0)] 19)
    (SState.mk [(SNode.mk (3, 4) (some (SNode.mk (3, 3) (some (SNode.mk (3, 2) (some (SNode.mk (2, 2) (some (SNode.mk (2, 1) (some (SNode.mk (1, 1) (some (SNode.mk (1, 0) (some (SNode.mk (0, 0) none 0 ⟨0, 32⟩ ⟨0, 32⟩)) 1 ⟨0, 25⟩ ⟨1, 25⟩)) 2 ⟨0, 18⟩ ⟨2, 18⟩)) 3 ⟨0, 13⟩ ⟨3, 13⟩)) 4 ⟨0, 8⟩ ⟨4, 8⟩)) 5 ⟨0, 5⟩ ⟨5, 5⟩)) 6 ⟨0, 2⟩ ⟨6, 2⟩)) 7 ⟨0, 1⟩ ⟨7, 1⟩), (SNode.mk (0, 4) (some (SNode.mk (0, 3) (some (SNode.mk (0, 2) (some (SNode.mk (0, 1) (some (SNode.mk (0, 0) none 0 ⟨0, 32⟩ ⟨0, 32⟩)) 1 ⟨0, 25⟩ ⟨1, 25⟩)) 2 ⟨0, 20⟩ ⟨2, 20⟩)) 3 ⟨0, 17⟩ ⟨3, 17⟩)) 4 ⟨0, 16⟩ ⟨4, 16⟩), (SNode.mk (4, 4) (some (SNode.mk (4, 3) (some (SNode.mk (3, 3) (some (SNode.mk (3, 2) (some (SNode.mk (2, 2) (some (SNode.mk (2, 1) (some (SNode.mk (1, 1) (some (SNode.mk (1, 0) (some (SNode.mk (0, 0) none 0 ⟨0, 32⟩ ⟨0, 32⟩)) 1 ⟨0, 25⟩ ⟨1, 25⟩)) 2 ⟨0, 18⟩ ⟨2, 18⟩)) 3 ⟨0, 13⟩ ⟨3, 13⟩)) 4 ⟨0, 8⟩ ⟨4, 8⟩)) 5 ⟨0, 5⟩ ⟨5, 5⟩)) 6 ⟨0, 2⟩ ⟨6, 2⟩)) 7 ⟨0, 1⟩ ⟨7, 1⟩)) 8 ⟨0, 0⟩ ⟨8, 0⟩), (SNode.mk (1, 4) (some (SNode.mk (1, 3) (some (SNode.mk (1, 2) (some (SNode.mk (1, 1) (some (SNode.mk (1, 0) (some (SNode.mk (0, 0) none 0 ⟨0, 32⟩ ⟨0, 32⟩)) 1 ⟨0, 25⟩ ⟨1, 25⟩)) 2 ⟨0, 18⟩ ⟨2, 18⟩)) 3 ⟨0, 13⟩ ⟨3, 13⟩)) 4 ⟨0, 10⟩ ⟨4, 10⟩)) 5 ⟨0, 9⟩ ⟨5, 9⟩), (SNode.mk (4, 1) (some (SNode.mk (3, 1) (some (SNode.mk (2, 1) (some (SNode.mk (1, 1) (some (SNode.mk (1, 0) (some (SNode.mk (0, 0) none 0 ⟨0, 32⟩ ⟨0, 32⟩)) 1 ⟨0, 25⟩ ⟨1, 25⟩)) 2 ⟨0, 18⟩ ⟨2, 18⟩)) 3 ⟨0, 13⟩ ⟨3, 13⟩)) 4 ⟨0, 10⟩ ⟨4, 10⟩)) 5 ⟨0, 9⟩ ⟨5, 9⟩)] [(2, 4), (4, 3), (4, 0), (4, 2), (3, 3), (2, 3), (3, 2), (3, 1), (1, 3), (0, 3), (3, 0), (2, 2), (1, 2), (2, 1), (0, 2), (2, 0), (1, 1), (0, 1), (1, 0), (0, 0)] [((4, 4), 8), ((3, 4), 7), ((4, 3), 7), ((2, 4), 6), ((3, 3), 6), ((4, 2), 6), ((4, 1), 5), ((1, 4), 5), ((0, 4), 4), ((4, 0), 4), ((2, 3), 5), ((3, 2), 5), ((1, 3), 4), ((2, 2), 4), ((3, 1), 4), ((0, 3), 3), ((3, 0), 3), ((1, 2), 3), ((2, 1), 3), ((0, 2), 2), ((1, 1), 2), ((2, 0), 2), ((0, 1), 1), ((1, 0), 1), ((0, 0), 0)] 20) rfl 709]
  rw [searchLoop_cont specGrid55 (4, 4) heuristic_euclidean
    (SState.mk [(SNode.mk (3, 4) (some (SNode.mk (3, 3) (some (SNode.mk (3, 2) (some (SNode.mk (2, 2) (some (SNode.mk (2, 1) (some (SNode.mk (1, 1) (some (SNode.mk (1, 0) (some (SNode.mk (0, 0) none 0 ⟨0, 32⟩ ⟨0, 32⟩)) 1 ⟨0, 25⟩ ⟨1, 25⟩)) 2 ⟨0, 18⟩ ⟨2, 18⟩)) 3 ⟨0, 13⟩ ⟨3, 13⟩)) 4 ⟨0, 8⟩ ⟨4, 8⟩)) 5 ⟨0, 5⟩ ⟨5, 5⟩)) 6 ⟨0, 2⟩ ⟨6, 2⟩)) 7 ⟨0, 1⟩ ⟨7, 1⟩), (SNode.mk (0, 4) (some (SNode.mk (0, 3) (some (SNode.mk (0, 2) (some (SNode.mk (0, 1) (some (SNode.mk (0, 0) none 0 ⟨0, 32⟩ ⟨0, 32⟩)) 1 ⟨0, 25⟩ ⟨1, 25⟩)) 2 ⟨0, 20⟩ ⟨2, 20⟩)) 3 ⟨0, 17⟩ ⟨3, 17⟩)) 4 ⟨0, 16⟩ ⟨4, 16⟩), (SNode.mk (4, 4) (some (SNode.mk (4, 3) (some (SNode.mk (3, 3) (some (SNode.mk (3, 2) (some (SNode.mk (2, 2) (some (SNode.mk (2, 1) (some (SNode.mk (1, 1) (some (SNode.mk (1, 0) (some (SNode.mk (0, 0) none 0 ⟨0, 32⟩ ⟨0, 32⟩)) 1 ⟨0, 25⟩ ⟨1, 25⟩)) 2 ⟨0, 18⟩ ⟨2, 18⟩)) 3 ⟨0, 13⟩ ⟨3, 13⟩)) 4 ⟨0, 8⟩ ⟨4, 8⟩)) 5 ⟨0, 5⟩ ⟨5, 5⟩)) 6 ⟨0, 2⟩ ⟨6, 2⟩)) 7 ⟨0, 1⟩ ⟨7, 1⟩)) 8 ⟨0, 0⟩ ⟨8, 0⟩), (SNode.mk (1, 4) (some (SNode.mk (1, 3) (some (SNode.mk (1, 2) (some (SNode.mk (1, 1) (some (SNode.mk (1, 0) (some (SNode.mk (0, 0) none 0 ⟨0, 32⟩ ⟨0, 32⟩)) 1 ⟨0, 25⟩ ⟨1, 25⟩)) 2 ⟨0, 18⟩ ⟨2, 18⟩)) 3 ⟨0, 13⟩ ⟨3, 13⟩)) 4 ⟨0, 10⟩ ⟨4, 10⟩)) 5 ⟨0, 9⟩ ⟨5, 9⟩), (SNode.mk (4, 1) (some (SNode.mk (3, 1) (some (SNode.mk (2, 1) (some (SNode.mk (1, 1) (some (SNode.mk (1, 0) (some (SNode.mk (0, 0) none 0 ⟨0, 32⟩ ⟨0, 32⟩)) 1 ⟨0, 25⟩ ⟨1, 25⟩)) 2 ⟨0, 18⟩ ⟨2, 18⟩)) 3 ⟨0, 13⟩ ⟨3, 13⟩)) 4 ⟨0, 10⟩ ⟨4, 10⟩)) 5 ⟨0, 9⟩ ⟨5, 9⟩)] [(2, 4), (4, 3), (4, 0), (4, 2), (3, 3), (2, 3), (3, 2), (3, 1), (1, 3), (0, 3), (3, 0), (2, 2), (1, 2), (2, 1), (0, 2), (2, 0), (1, 1), (0, 1), (1, 0), (0, 0)] [((4, 4), 8), ((3, 4), 7), ((4, 3), 7), ((2, 4), 6), ((3, 3), 6), ((4, 2), 6), ((4, 1), 5), ((1, 4), 5), ((0, 4), 4), ((4, 0), 4), ((2, 3), 5), ((3, 2), 5), ((1, 3), 4), ((2, 2), 4), ((3, 1), 4), ((0, 3), 3), ((3, 0), 3), ((1, 2), 3), ((2, 1), 3), ((0, 2), 2), ((1, 1), 2), ((2, 0), 2), ((0, 1), 1), ((1, 0), 1), ((0, 0), 0)] 20)
    (SState.mk [(SNode.mk (4, 4) (some (SNode.mk (4, 3) (some (SNode.mk (3, 3) (some (SNode.mk (3, 2) (some (SNode.mk (2, 2) (some (SNode.mk (2, 1) (some (SNode.mk (1, 1) (some (SNode.mk (1, 0) (some (SNode.mk (0, 0) none 0 ⟨0, 32⟩ ⟨0, 32⟩)) 1 ⟨0, 25⟩ ⟨1, 25⟩)) 2 ⟨0, 18⟩ ⟨2, 18⟩)) 3 ⟨0, 13⟩ ⟨3, 13⟩)) 4 ⟨0, 8⟩ ⟨4, 8⟩)) 5 ⟨0, 5⟩ ⟨5, 5⟩)) 6 ⟨0, 2⟩ ⟨6, 2⟩)) 7 ⟨0, 1⟩ ⟨7, 1⟩)) 8 ⟨0, 0⟩ ⟨8, 0⟩), (SNode.mk (0, 4) (some (SNode.mk (0, 3) (some (SNode.mk (0, 2) (some (SNode.mk (0, 1) (some (SNode.mk (0, 0) none 0 ⟨0, 32⟩ ⟨0, 32⟩)) 1 ⟨0, 25⟩ ⟨1, 25⟩)) 2 ⟨0, 20⟩ ⟨2, 20⟩)) 3 ⟨0, 17⟩ ⟨3, 17⟩)) 4 ⟨0, 16⟩ ⟨4, 16⟩), (SNode.mk (4, 1) (some (SNode.mk (3, 1) (some (SNode.mk (2, 1) (some (SNode.mk (1, 1) (some (SNode.mk (1, 0) (some (SNode.mk (0, 0) none 0 ⟨0, 32⟩ ⟨0, 32⟩)) 1 ⟨0, 25⟩ ⟨1, 25⟩)) 2 ⟨0, 18⟩ ⟨2, 18⟩)) 3 ⟨0, 13⟩ ⟨3, 13⟩)) 4 ⟨0, 10⟩ ⟨4, 10⟩)) 5 ⟨0, 9⟩ ⟨5, 9⟩), (SNode.mk (1, 4) (some (SNode.mk (1, 3) (some (SNode.mk (1, 2) (some (SNode.mk (1, 1) (some (SNode.mk (1, 0) (some (SNode.mk (0, 0) none 0 ⟨0, 32⟩ ⟨0, 32⟩)) 1 ⟨0, 25⟩ ⟨1, 25⟩)) 2 ⟨0, 18⟩ ⟨2, 18⟩)) 3 ⟨0, 13⟩ ⟨3, 13⟩)) 4 ⟨0, 10⟩ ⟨4, 10⟩)) 5 ⟨0, 9⟩ ⟨5, 9⟩)] [(3, 4), (2, 4), (4, 3), (4, 0), (4, 2), (3, 3), (2, 3), (3, 2), (3, 1), (1, 3), (0, 3), (3, 0), (2, 2), (1, 2), (2, 1), (0, 2), (2, 0), (1, 1), (0, 1), (1, 0), (0, 0)] [((4, 4), 8), ((3, 4), 7), ((4, 3), 7), ((2, 4), 6), ((3, 3), 6), ((4, 2), 6), ((4, 1), 5), ((1, 4), 5), ((0, 4), 4), ((4, 0), 4), ((2, 3), 5), ((3, 2), 5), ((1, 3), 4), ((2, 2), 4), ((3, 1), 4), ((0, 3), 3), ((3, 0), 3), ((1, 2), 3), ((2, 1), 3), ((0, 2), 2), ((1, 1), 2), ((2, 0), 2), ((0, 1), 1), ((1, 0), 1), ((0, 0), 0)] 21) rfl 708]
  exact searchLoop_done specGrid55 (4, 4) heuristic_euclidean
    (SState.mk [(SNode.mk (4, 4) (some (SNode.mk (4, 3) (some (SNode.mk (3, 3) (some (SNode.mk (3, 2) (some (SNode.mk (2, 2) (some (SNode.mk (2, 1) (some (SNode.mk (1, 1) (some (SNode.mk (1, 0) (some (SNode.mk (0, 0) none 0 ⟨0, 32⟩ ⟨0, 32⟩)) 1 ⟨0, 25⟩ ⟨1, 25⟩)) 2 ⟨0, 18⟩ ⟨2, 18⟩)) 3 ⟨0, 13⟩ ⟨3, 13⟩)) 4 ⟨0, 8⟩ ⟨4, 8⟩)) 5 ⟨0, 5⟩ ⟨5, 5⟩)) 6 ⟨0, 2⟩ ⟨6, 2⟩)) 7 ⟨0, 1⟩ ⟨7, 1⟩)) 8 ⟨0, 0⟩ ⟨8, 0⟩), (SNode.mk (0, 4) (some (SNode.mk (0, 3) (some (SNode.mk (0, 2) (some (SNode.mk (0, 1) (some (SNode.mk (0, 0) none 0 ⟨0, 32⟩ ⟨0, 32⟩)) 1 ⟨0, 25⟩ ⟨1, 25⟩)) 2 ⟨0, 20⟩ ⟨2, 20⟩)) 3 ⟨0, 17⟩ ⟨3, 17⟩)) 4 ⟨0, 16⟩ ⟨4, 16⟩), (SNode.mk (4, 1) (some (SNode.mk (3, 1) (some (SNode.mk (2, 1) (some (SNode.mk (1, 1) (some (SNode.mk (1, 0) (some (SNode.mk (0, 0) none 0 ⟨0, 32⟩ ⟨0, 32⟩)) 1 ⟨0, 25⟩ ⟨1, 25⟩)) 2 ⟨0, 18⟩ ⟨2, 18⟩)) 3 ⟨0, 13⟩ ⟨3, 13⟩)) 4 ⟨0, 10⟩ ⟨4, 10⟩)) 5 ⟨0, 9⟩ ⟨5, 9⟩), (SNode.mk (1, 4) (some (SNode.mk (1, 3) (some (SNode.mk (1, 2) (some (SNode.mk (1, 1) (some (SNode.mk (1, 0) (some (SNode.mk (0, 0) none 0 ⟨0, 32⟩ ⟨0, 32⟩)) 1 ⟨0, 25⟩ ⟨1, 25⟩)) 2 ⟨0, 18⟩ ⟨2, 18⟩)) 3 ⟨0, 13⟩ ⟨3, 13⟩)) 4 ⟨0, 10⟩ ⟨4, 10⟩)) 5 ⟨0, 9⟩ ⟨5, 9⟩)] [(3, 4), (2, 4), (4, 3), (4, 0), (4, 2), (3, 3), (2, 3), (3, 2), (3, 1), (1, 3), (0, 3), (3, 0), (2, 2), (1, 2), (2, 1), (0, 2), (2, 0), (1, 1), (0, 1), (1, 0), (0, 0)] [((4, 4), 8), ((3, 4), 7), ((4, 3), 7), ((2, 4), 6), ((3, 3), 6), ((4, 2), 6), ((4, 1), 5), ((1, 4), 5), ((0, 4), 4), ((4, 0), 4), ((2, 3), 5), ((3, 2), 5), ((1, 3), 4), ((2, 2), 4), ((3, 1), 4), ((0, 3), 3), ((3, 0), 3), ((1, 2), 3), ((2, 1), 3), ((0, 2), 2), ((1, 1), 2), ((2, 0), 2), ((0, 1), 1), ((1, 0), 1), ((0, 0), 0)] 21)
    (some [(0, 0), (1, 0), (1, 1), (2, 1), (2, 2), (3, 2), (3, 3), (4, 3), (4, 4)], 22) rfl 707

theorem chainB_chain' (g : GridGraph) :
    ∀ p : List Cell, chainB g p = true → List.Chain' (Step g) p
  | [], _ => List.chain'_nil
  | [a], _ => List.chain'_singleton a
  | a :: b :: rest, h => by
    rw [show chainB g (a :: b :: rest) = (stepB g a b && chainB g (b :: rest)) from
      rfl, Bool.and_eq_true] at h
    rw [List.chain'_cons]
    exact ⟨of_decide_eq_true h.1, chainB_chain' g (b :: rest) h.2⟩

theorem reach_of_codeValid {g : GridGraph} (p : List Cell) {s c : Cell}
    (hh : p.head? = some s) (hl : p.getLast? = some c)
    (hc : chainB g p = true) : Reach g s c :=
  reachN_reach (codeValid_reachN g p s c hh hl (chainB_chain' g p hc))

theorem reachC5_iff (c : Cell) :
    Reach cexGridC5 (0, 4) c ↔ c ∈ reachListC5 := by
  have hcl : ∀ u ∈ reachListC5, ∀ w ∈ cexGridC5.get_neighbors u,
      w ∈ reachListC5 := by decide
  have hs : ((0 : ℤ), (4 : ℤ)) ∈ reachListC5 := by decide
  constructor
  · exact reach_mem_of_closed hs (fun u hu w hstep => hcl u hu w hstep)
  · intro hc
    fin_cases hc
    · exact reach_of_codeValid [(0, 4)] rfl rfl rfl
    · exact reach_of_codeValid [(0, 4), (1, 4)] rfl rfl rfl
    · exact reach_of_codeValid [(0, 4), (0, 3)] rfl rfl rfl
    · exact reach_of_codeValid [(0, 4), (1, 4), (2, 4)] rfl rfl rfl
    · exact reach_of_codeValid [(0, 4), (0, 3), (0, 2)] rfl rfl rfl
    · exact reach_of_codeValid [(0, 4), (1, 4), (2, 4), (2, 3)] rfl rfl rfl
    · exact reach_of_codeValid [(0, 4), (0, 3), (0, 2), (1, 2)] rfl rfl rfl
    · exact reach_of_codeValid [(0, 4), (1, 4), (2, 4), (2, 3), (2, 2)] rfl rfl rfl
    · exact reach_of_codeValid [(0, 4), (0, 3), (0, 2), (1, 2), (1, 1)] rfl rfl rfl
    · exact reach_of_codeValid [(0, 4), (1, 4), (2, 4), (2, 3), (2, 2), (2, 1)] rfl rfl rfl
    · exact reach_of_codeValid [(0, 4), (1, 4), (2, 4), (2, 3), (2, 2), (2, 1), (2, 0)] rfl rfl rfl

theorem ncardC5 : Set.ncard {c | Reach cexGridC5 (0, 4) c} = 11 := by
  have hset : {c | Reach cexGridC5 (0, 4) c} = ↑reachListC5.toFinset := by
    ext c
    rw [Set.mem_setOf_eq]
    show Reach cexGridC5 (0, 4) c ↔ c ∈ reachListC5.toFinset
    rw [List.mem_toFinset]
    exact reachC5_iff c
  rw [hset, Set.ncard_coe_Finset]
  decide

/-! The ten claims. -/

/-- C1 counterexample: with the passable but out-of-bounds start (-1,0) on the
1 by 1 wall-free grid, the search returns the path [(-1,0), (0,0)] whose first
pair is not a pair of in-bounds cells, so the returned path is not an ordered
sequence of in-bounds passable orthogonal neighbours as C1 claims. -/
theorem claim_C1_cex :
    cexGridC1.passable (-1, 0) = true ∧ cexGridC1.passable (0, 0) = true ∧
    a_star_search cexGridC1 (-1, 0) (0, 0) heuristic_manhattan =
      some (some [((-1 : ℤ), 0), (0, 0)], 2) ∧
    ¬ SpecValidPath cexGridC1 [((-1 : ℤ), 0), (0, 0)] (-1, 0) (0, 0) := by
  refine ⟨rfl, rfl, cex_run_C1, ?_⟩
  rintro ⟨-, -, hchain⟩
  rw [List.chain'_cons] at hchain
  exact absurd hchain.1.1 (by decide)

/-- C1 (amended: the start must also be in bounds): for every grid, a
Manhattan or Euclidean heuristic, an in-bounds passable start and a passable
end, whenever `a_star_search` returns a path, that path begins at the start,
ends at the end, its consecutive pairs are in-bounds passable orthogonal
neighbours, and its cost (length minus one) is minimal among all such
paths. -/
theorem claim_C1 (g : GridGraph) (s e : Cell) (hf : Cell → Cell → HVal)
    (hhf : hf = heuristic_manhattan ∨ hf = heuristic_euclidean)
    (hs_in : g.in_bounds s = true) (hs_pa : g.passable s = true)
    (he_pa : g.passable e = true) {p : List Cell} {n : ℕ}
    (hres : a_star_search g s e hf = some (some p, n)) :
    SpecValidPath g p s e ∧ ∀ q, SpecValidPath g q s e → p.length ≤ q.length := by
  have hcons : Consistent g e hf := by
    rcases hhf with rfl | rfl
    · exact consistent_manhattan g e
    · exact consistent_euclidean g e
  obtain ⟨hvalid, hopt⟩ := astar_some_opt hcons hres
  refine ⟨codeValid_specValid hs_in hs_pa hvalid, ?_⟩
  intro q hq
  have hq' := specValid_codeValid hq
  have hreach := codeValid_reachN g q s e hq'.1 hq'.2.1 hq'.2.2
  have hle := hopt.2 _ hreach
  have hqpos : 1 ≤ q.length := by
    rcases q with - | ⟨x, xs⟩
    · exact absurd hq'.1 (fun hcon => Option.noConfusion hcon)
    · simp
  have hppos : 1 ≤ p.length := by
    rcases p with - | ⟨x, xs⟩
    · exact absurd hvalid.1 (fun hcon => Option.noConfusion hcon)
    · simp
  omega

/-- Witness for C1 (amended) on the 5 by 5 wall-free grid with the Manhattan
heuristic. -/
theorem claim_C1_witness :
    SpecValidPath specGrid55
      [(0, 0), (1, 0), (2, 0), (3, 0), (3, 1), (3, 2), (4, 2), (4, 3), (4, 4)]
      (0, 0) (4, 4) ∧
    ∀ q, SpecValidPath specGrid55 q (0, 0) (4, 4) →
      ([(0, 0), (1, 0), (2, 0), (3, 0), (3, 1), (3, 2), (4, 2), (4, 3),
        (4, 4)] : List Cell).length ≤ q.length :=
  claim_C1 specGrid55 (0, 0) (4, 4) heuristic_manhattan (Or.inl rfl) rfl rfl rfl
    spec_run_55_man

/-- C2: for every grid and passable start and end, the search reports no path
(result `none`) exactly when the end is unreachable from the start; this is an
ordinary return value, and it differs from the one-cell path that a search
with start = end returns. -/
theorem claim_C2 (g : GridGraph) (s e : Cell) (hf : Cell → Cell → HVal)
    (hs_pa : g.passable s = true) (he_pa : g.passable e = true) :
    ((∃ n, a_star_search g s e hf = some (none, n)) ↔ ¬ Reach g s e) ∧
    a_star_search g s s hf = some (some [s], 1) ∧
    ∀ n m : ℕ, (some ((none : Option (List Cell)), n) :
      Option (Option (List Cell) × ℕ)) ≠ some (some [s], m) := by
  refine ⟨astar_none_iff g s e hf, astar_self g s hf, ?_⟩
  intro n m hcon
  simp at hcon

/-- Witness for C2 on the 5 by 5 wall-free grid. -/
theorem claim_C2_witness :
    ((∃ n, a_star_search specGrid55 (0, 0) (4, 4) heuristic_manhattan =
        some (none, n)) ↔ ¬ Reach specGrid55 (0, 0) (4, 4)) ∧
    a_star_search specGrid55 (0, 0) (0, 0) heuristic_manhattan =
      some (some [(0, 0)], 1) ∧
    ∀ n m : ℕ, (some ((none : Option (List Cell)), n) :
      Option (Option (List Cell) × ℕ)) ≠ some (some [((0 : ℤ), (0 : ℤ))], m) :=
  claim_C2 specGrid55 (0, 0) (4, 4) heuristic_manhattan rfl rfl

/-- C3: for every grid, passable cell `c` and heuristic, searching from `c`
to `c` returns exactly the one-element path [c] with an expansion count of at
least 1 (in fact exactly 1). -/
theorem claim_C3 (g : GridGraph) (c : Cell) (hpa : g.passable c = true)
    (hf : Cell → Cell → HVal) :
    ∃ n, a_star_search g c c hf = some (some [c], n) ∧ 1 ≤ n :=
  ⟨1, astar_self g c hf, le_refl 1⟩

/-- Witness for C3 at the cell (2,2) of the 5 by 5 wall-free grid. -/
theorem claim_C3_witness :
    ∃ n, a_star_search specGrid55 (2, 2) (2, 2) heuristic_manhattan =
      some (some [((2 : ℤ), (2 : ℤ))], n) ∧ 1 ≤ n :=
  claim_C3 specGrid55 (2, 2) rfl heuristic_manhattan

/-- C4: on a wall-free grid, for in-bounds start and end and either shipped
heuristic, the search returns a path whose length is the Manhattan distance
plus one; in particular on the 5 by 5 wall-free grid from (0,0) to (4,4) the
returned path has 9 cells for both heuristics. -/
theorem claim_C4 (g : GridGraph) (s e : Cell) (hf : Cell → Cell → HVal)
    (hw : g.walls = ∅) (hs : g.in_bounds s = true) (he : g.in_bounds e = true)
    (hhf : hf = heuristic_manhattan ∨ hf = heuristic_euclidean) :
    (∃ p n, a_star_search g s e hf = some (some p, n) ∧
      p.length = (s.1 - e.1).natAbs + (s.2 - e.2).natAbs + 1) ∧
    ∃ p n, a_star_search specGrid55 (0, 0) (4, 4) hf = some (some p, n) ∧
      p.length = 9 := by
  have hcons : Consistent g e hf := by
    rcases hhf with rfl | rfl
    · exact consistent_manhattan g e
    · exact consistent_euclidean g e
  have hcons2 : Consistent specGrid55 (4, 4) hf := by
    rcases hhf with rfl | rfl
    · exact consistent_manhattan specGrid55 (4, 4)
    · exact consistent_euclidean specGrid55 (4, 4)
  refine ⟨astar_wallfree hw hs he hcons, ?_⟩
  obtain ⟨p, n, hres, hlen⟩ := @astar_wallfree specGrid55 (0, 0) (4, 4) hf
    rfl rfl rfl hcons2
  refine ⟨p, n, hres, ?_⟩
  rw [hlen]
  decide

/-- Witness for C4 on the 5 by 5 wall-free grid with the Manhattan
heuristic. -/
theorem claim_C4_witness :
    (∃ p n, a_star_search specGrid55 (0, 0) (4, 4) heuristic_manhattan =
      some (some p, n) ∧
      p.length = (((0 : ℤ) - 4).natAbs + ((0 : ℤ) - 4).natAbs) + 1) ∧
    ∃ p n, a_star_search specGrid55 (0, 0) (4, 4) heuristic_manhattan =
      some (some p, n) ∧ p.length = 9 :=
  claim_C4 specGrid55 (0, 0) (4, 4) heuristic_manhattan rfl rfl rfl (Or.inl rfl)

/-- C5 counterexample: on the 3 by 5 grid with walls at (0,1), (1,0) and
(1,3), the end (0,0) is unreachable from the passable start (0,4); the search
does return no path, but it expands 12 nodes while the start's connected
component has only 11 distinct cells (the cell (1,1) is popped twice), so the
claimed equality fails. -/
theorem claim_C5_cex :
    cexGridC5.passable (0, 4) = true ∧ cexGridC5.passable (0, 0) = true ∧
    ¬ Reach cexGridC5 (0, 4) (0, 0) ∧
    a_star_search cexGridC5 (0, 4) (0, 0) heuristic_manhattan =
      some (none, 12) ∧
    Set.ncard {c | Reach cexGridC5 (0, 4) c} = 11 ∧ (12 : ℕ) ≠ 11 := by
  refine ⟨by decide, by decide, ?_, cex_run_C5_man, ncardC5, by decide⟩
  intro hcon
  exact absurd ((reachC5_iff (0, 0)).1 hcon) (by decide)

/-- C5 (amended: the expansion count is an upper bound for the component
size, not equal to it): for every grid, passable start and end with the end
unreachable, the search returns no path, and the number of distinct
coordinates reachable from the start is at most the expansion count. -/
theorem claim_C5 (g : GridGraph) (s e : Cell) (hf : Cell → Cell → HVal)
    (hs_pa : g.passable s = true) (he_pa : g.passable e = true)
    (hur : ¬ Reach g s e) :
    ∃ n, a_star_search g s e hf = some (none, n) ∧
      Set.ncard {c | Reach g s c} ≤ n :=
  astar_unreachable_count hur

/-- Witness for C5 (amended) on the 3 by 5 walled grid. -/
theorem claim_C5_witness :
    ∃ n, a_star_search cexGridC5 (0, 4) (0, 0) heuristic_manhattan =
      some (none, n) ∧ Set.ncard {c | Reach cexGridC5 (0, 4) c} ≤ n :=
  claim_C5 cexGridC5 (0, 4) (0, 0) heuristic_manhattan (by decide) (by decide)
    (fun hcon => absurd ((reachC5_iff (0, 0)).1 hcon) (by decide))

/-- C6 counterexample: on the 2 by 6 wall-free grid from (0,0) to (1,4), the
Manhattan search expands 10 nodes while the Euclidean search expands 9, so
Manhattan does not always expand at most as many nodes as Euclidean. -/
theorem claim_C6_cex :
    cexGridC6.passable (0, 0) = true ∧ cexGridC6.passable (1, 4) = true ∧
    (∃ p, a_star_search cexGridC6 (0, 0) (1, 4) heuristic_manhattan =
      some (some p, 10)) ∧
    (∃ p, a_star_search cexGridC6 (0, 0) (1, 4) heuristic_euclidean =
      some (some p, 9)) ∧
    ¬ (10 : ℕ) ≤ 9 :=
  ⟨rfl, rfl, ⟨_, cex_run_C6_man⟩, ⟨_, cex_run_C6_euc⟩, by decide⟩

/-- C6 (amended: the comparison holds in the specification's concrete 5 by 5
scenario, not universally): on the 5 by 5 wall-free grid from (0,0) to (4,4),
the Manhattan search expands 20 nodes, the Euclidean search 22, and
20 ≤ 22. -/
theorem claim_C6 :
    ∃ pm pe, a_star_search specGrid55 (0, 0) (4, 4) heuristic_manhattan =
        some (some pm, 20) ∧
      a_star_search specGrid55 (0, 0) (4, 4) heuristic_euclidean =
        some (some pe, 22) ∧ (20 : ℕ) ≤ 22 :=
  ⟨_, _, spec_run_55_man, spec_run_55_euc, by omega⟩

/-- C7: for every grid and cell, `get_neighbors` yields at most 4 cells:
exactly the four orthogonal moves that are in-bounds and passable, in the
source order (x+1,y), (x-1,y), (x,y+1), (x,y-1). -/
theorem claim_C7 (g : GridGraph) (c : Cell) :
    (g.get_neighbors c).length ≤ 4 ∧
    g.get_neighbors c =
      [(c.1 + 1, c.2), (c.1 - 1, c.2), (c.1, c.2 + 1), (c.1, c.2 - 1)].filter
        (fun d => g.in_bounds d && g.passable d) ∧
    List.Sublist (g.get_neighbors c)
      [(c.1 + 1, c.2), (c.1 - 1, c.2), (c.1, c.2 + 1), (c.1, c.2 - 1)] ∧
    ∀ d, d ∈ g.get_neighbors c ↔
      ((d = (c.1 + 1, c.2) ∨ d = (c.1 - 1, c.2) ∨ d = (c.1, c.2 + 1) ∨
        d = (c.1, c.2 - 1)) ∧ g.in_bounds d = true ∧ g.passable d = true) := by
  refine ⟨?_, ?_, ?_, fun d => mem_get_neighbors_iff g c d⟩
  · have h1 := List.length_filter_le g.passable
      ([(c.1 + 1, c.2), (c.1 - 1, c.2), (c.1, c.2 + 1), (c.1, c.2 - 1)].filter
        g.in_bounds)
    have h2 := List.length_filter_le g.in_bounds
      [(c.1 + 1, c.2), (c.1 - 1, c.2), (c.1, c.2 + 1), (c.1, c.2 - 1)]
    have h3 : ([(c.1 + 1, c.2), (c.1 - 1, c.2), (c.1, c.2 + 1),
      (c.1, c.2 - 1)] : List Cell).length = 4 := rfl
    show (([(c.1 + 1, c.2), (c.1 - 1, c.2), (c.1, c.2 + 1), (c.1, c.2 - 1)].filter
      g.in_bounds).filter g.passable).length ≤ 4
    omega
  · show ([(c.1 + 1, c.2), (c.1 - 1, c.2), (c.1, c.2 + 1), (c.1, c.2 - 1)].filter
      g.in_bounds).filter g.passable = _
    rw [List.filter_filter]
    apply List.filter_congr
    intro x hx
    rw [Bool.and_comm]
  · exact List.Sublist.trans (List.filter_sublist _) (List.filter_sublist _)

/-- C8: the search leaves the grid unchanged.  In the variant
`a_star_searchG`, which threads the grid through the loop state and returns
it, the returned grid is the input grid — width, height and walls included —
and the search result is that of `a_star_search`. -/
theorem claim_C8 (g : GridGraph) (s e : Cell) (hf : Cell → Cell → HVal) :
    (a_star_searchG g s e hf).1 = g ∧
    (a_star_searchG g s e hf).1.width = g.width ∧
    (a_star_searchG g s e hf).1.height = g.height ∧
    (a_star_searchG g s e hf).1.walls = g.walls ∧
    (a_star_searchG g s e hf).2 = a_star_search g s e hf := by
  unfold a_star_searchG a_star_search
  rw [searchLoopG_spec e hf (searchFuel g) g (initState s e hf)]
  exact ⟨rfl, rfl, rfl, rfl, rfl⟩

/-- C9: along any one run of the search (any states reachable by continuing
loop iterations from the initial state), a recorded best cost never
increases, and whenever it changes it strictly decreases. -/
theorem claim_C9 (g : GridGraph) (s e : Cell) (hf : Cell → Cell → HVal)
    {st st' : SState} (h0 : RunReaches g e hf (initState s e hf) st)
    (h1 : RunReaches g e hf st st') {c : Cell} {v v' : ℕ}
    (hv : dictFind st.cost_so_far c = some v)
    (hv' : dictFind st'.cost_so_far c = some v') :
    v' ≤ v ∧ (v' ≠ v → v' < v) := by
  obtain ⟨v2, hv2, hle⟩ := runReaches_table_mono h1 hv
  have hveq : v2 = v' := by
    rw [hv'] at hv2
    exact (Option.some.inj hv2).symm
  omega

/-- Witness for C9: one continuing iteration on the 1 by 1 grid run keeps the
start's recorded cost 0. -/
theorem claim_C9_witness : (0 : ℕ) ≤ 0 ∧ ((0 : ℕ) ≠ 0 → 0 < 0) :=
  @claim_C9 cexGridC1 (-1, 0) (0, 0) heuristic_manhattan
    (initState (-1, 0) (0, 0) heuristic_manhattan)
    (SState.mk [(SNode.mk (0, 0) (some (SNode.mk ((-1 : ℤ), 0) none 0 ⟨1, 0⟩
      ⟨1, 0⟩)) 1 ⟨0, 0⟩ ⟨1, 0⟩)] [((-1 : ℤ), 0)]
      [((0, 0), 1), (((-1 : ℤ), 0), 0)] 1)
    Relation.ReflTransGen.refl
    (Relation.ReflTransGen.single (show RunStep cexGridC1 (0, 0)
      heuristic_manhattan
      (initState (-1, 0) (0, 0) heuristic_manhattan)
      (SState.mk [(SNode.mk (0, 0) (some (SNode.mk ((-1 : ℤ), 0) none 0 ⟨1, 0⟩
        ⟨1, 0⟩)) 1 ⟨0, 0⟩ ⟨1, 0⟩)] [((-1 : ℤ), 0)]
        [((0, 0), 1), (((-1 : ℤ), 0), 0)] 1) from rfl))
    ((-1 : ℤ), 0) 0 0 (by rfl) (by rfl)

/-- C10: for every grid (positive dimensions included), start, end and
heuristic the search terminates with a result: the fuelled loop never runs
out inside `a_star_search`. -/
theorem claim_C10 (g : GridGraph) (s e : Cell) (hf : Cell → Cell → HVal)
    (hw : 0 < g.width) (hh : 0 < g.height) :
    ∃ r, a_star_search g s e hf = some r :=
  a_star_search_total g s e hf

/-- Witness for C10 on the 5 by 5 wall-free grid. -/
theorem claim_C10_witness :
    ∃ r, a_star_search specGrid55 (0, 0) (4, 4) heuristic_manhattan = some r :=
  claim_C10 specGrid55 (0, 0) (4, 4) heuristic_manhattan (by decide) (by decide)

end AStar
